import Mathlib

/-!
# STM32MP13 low-layer ADC driver: register-level model

Shallow embedding of `stm32mp13xx_ll_adc.c` (functions `LL_ADC_CommonDeInit`,
`LL_ADC_CommonInit`, `LL_ADC_DeInit`, `LL_ADC_Init`, `LL_ADC_REG_Init`,
`LL_ADC_REG_StructInit`, `LL_ADC_INJ_Init`) under `MP13`, and of the state and flag
helpers of `stm32mp2xx_hal_adc.h` under `MP2`.

* Registers are 32-bit words held as `Nat`; every write truncates to 32 bits.
* The bit masks and enumerators of the device header and of the LL header are
  not part of the sources: they are the fields of `Header`, a parameter of every
  function. What a theorem needs to know about them is an explicit hypothesis.
* Every bus access is recorded in a log, and the peripheral may change its
  registers on its own before each access (`hw`), which is how the
  acknowledge bits polled by `LL_ADC_DeInit` move.
-/

namespace MP13

/-! ## Types of the device header -/

/-- Return status of the driver functions (`ErrorStatus` of the device header). -/
inductive ErrorStatus where
  | SUCCESS
  | ERROR
deriving DecidableEq, Repr

/-- The registers of one ADC instance that the driver accesses. -/
inductive Reg where
  | ISR | IER | CR | CFGR | CFGR2 | SMPR1 | SMPR2 | TR1 | TR2 | TR3
  | SQR1 | SQR2 | SQR3 | SQR4 | JSQR | OFR1 | OFR2 | OFR3 | OFR4
  | AWD2CR | AWD3CR | DIFSEL | CALFACT
deriving DecidableEq, Repr

/-- Register file of one ADC instance: the value of each register. -/
abbrev ADC_TypeDef := Reg → Nat

/-- Bit masks of the device header (CMSIS register definitions), taken as parameters. -/
structure DeviceHeader where
  ADC_CR_ADEN : Nat
  ADC_CR_ADDIS : Nat
  ADC_CR_ADSTART : Nat
  ADC_CR_JADSTART : Nat
  ADC_CR_ADSTP : Nat
  ADC_CR_JADSTP : Nat
  ADC_CR_ADVREGEN : Nat
  ADC_CR_DEEPPWD : Nat
  ADC_CR_ADCALDIF : Nat
  ADC_CR_ADCAL : Nat
  ADC_CFGR_DMAEN : Nat
  ADC_CFGR_DMACFG : Nat
  ADC_CFGR_DFSDMCFG : Nat
  ADC_CFGR_RES : Nat
  ADC_CFGR_EXTSEL : Nat
  ADC_CFGR_EXTEN : Nat
  ADC_CFGR_OVRMOD : Nat
  ADC_CFGR_CONT : Nat
  ADC_CFGR_AUTDLY : Nat
  ADC_CFGR_DISCEN : Nat
  ADC_CFGR_DISCNUM : Nat
  ADC_CFGR_JDISCEN : Nat
  ADC_CFGR_JQM : Nat
  ADC_CFGR_AWD1SGL : Nat
  ADC_CFGR_AWD1EN : Nat
  ADC_CFGR_JAWD1EN : Nat
  ADC_CFGR_JAUTO : Nat
  ADC_CFGR_AWD1CH : Nat
  ADC_CFGR_JQDIS : Nat
  ADC_CFGR2_ROVSE : Nat
  ADC_CFGR2_JOVSE : Nat
  ADC_CFGR2_OVSR : Nat
  ADC_CFGR2_OVSS : Nat
  ADC_CFGR2_TROVS : Nat
  ADC_CFGR2_ROVSM : Nat
  ADC_CFGR2_SWTRIG : Nat
  ADC_CFGR2_BULB : Nat
  ADC_CFGR2_SMPTRIG : Nat
  ADC_SMPR1_SMP1 : Nat
  ADC_SMPR1_SMP2 : Nat
  ADC_SMPR1_SMP3 : Nat
  ADC_SMPR1_SMP4 : Nat
  ADC_SMPR1_SMP5 : Nat
  ADC_SMPR1_SMP6 : Nat
  ADC_SMPR1_SMP7 : Nat
  ADC_SMPR1_SMP8 : Nat
  ADC_SMPR1_SMP9 : Nat
  ADC_SMPR1_SMPPLUS : Nat
  ADC_SMPR2_SMP10 : Nat
  ADC_SMPR2_SMP11 : Nat
  ADC_SMPR2_SMP12 : Nat
  ADC_SMPR2_SMP13 : Nat
  ADC_SMPR2_SMP14 : Nat
  ADC_SMPR2_SMP15 : Nat
  ADC_SMPR2_SMP16 : Nat
  ADC_SMPR2_SMP17 : Nat
  ADC_SMPR2_SMP18 : Nat
  ADC_TR1_LT1 : Nat
  ADC_TR1_AWDFILT : Nat
  ADC_TR1_HT1 : Nat
  ADC_TR2_LT2 : Nat
  ADC_TR2_HT2 : Nat
  ADC_TR3_LT3 : Nat
  ADC_TR3_HT3 : Nat
  ADC_SQR1_L : Nat
  ADC_SQR1_SQ1 : Nat
  ADC_SQR1_SQ2 : Nat
  ADC_SQR1_SQ3 : Nat
  ADC_SQR1_SQ4 : Nat
  ADC_SQR2_SQ5 : Nat
  ADC_SQR2_SQ6 : Nat
  ADC_SQR2_SQ7 : Nat
  ADC_SQR2_SQ8 : Nat
  ADC_SQR2_SQ9 : Nat
  ADC_SQR3_SQ10 : Nat
  ADC_SQR3_SQ11 : Nat
  ADC_SQR3_SQ12 : Nat
  ADC_SQR3_SQ13 : Nat
  ADC_SQR3_SQ14 : Nat
  ADC_SQR4_SQ15 : Nat
  ADC_SQR4_SQ16 : Nat
  ADC_JSQR_JL : Nat
  ADC_JSQR_JEXTSEL : Nat
  ADC_JSQR_JEXTEN : Nat
  ADC_JSQR_JSQ1 : Nat
  ADC_JSQR_JSQ2 : Nat
  ADC_JSQR_JSQ3 : Nat
  ADC_JSQR_JSQ4 : Nat
  ADC_OFR1_OFFSET1 : Nat
  ADC_OFR1_OFFSETPOS : Nat
  ADC_OFR1_SATEN : Nat
  ADC_OFR1_OFFSET1_CH : Nat
  ADC_OFR1_OFFSET1_EN : Nat
  ADC_OFR2_OFFSET2 : Nat
  ADC_OFR2_OFFSETPOS : Nat
  ADC_OFR2_SATEN : Nat
  ADC_OFR2_OFFSET2_CH : Nat
  ADC_OFR2_OFFSET2_EN : Nat
  ADC_OFR3_OFFSET3 : Nat
  ADC_OFR3_OFFSETPOS : Nat
  ADC_OFR3_SATEN : Nat
  ADC_OFR3_OFFSET3_CH : Nat
  ADC_OFR3_OFFSET3_EN : Nat
  ADC_OFR4_OFFSET4 : Nat
  ADC_OFR4_OFFSETPOS : Nat
  ADC_OFR4_SATEN : Nat
  ADC_OFR4_OFFSET4_CH : Nat
  ADC_OFR4_OFFSET4_EN : Nat
  ADC_AWD2CR_AWD2CH : Nat
  ADC_AWD3CR_AWD3CH : Nat
  ADC_DIFSEL_DIFSEL : Nat
  ADC_CALFACT_CALFACT_S : Nat
  ADC_CALFACT_CALFACT_D : Nat
  ADC_CCR_CKMODE : Nat
  ADC_CCR_PRESC : Nat

/-- Enumerators of the LL ADC header (`stm32mp13xx_ll_adc.h`), taken as parameters. -/
structure LLHeader where
  LL_ADC_IT_ADRDY : Nat
  LL_ADC_IT_EOC : Nat
  LL_ADC_IT_EOS : Nat
  LL_ADC_IT_OVR : Nat
  LL_ADC_IT_EOSMP : Nat
  LL_ADC_IT_JEOC : Nat
  LL_ADC_IT_JEOS : Nat
  LL_ADC_IT_JQOVF : Nat
  LL_ADC_IT_AWD1 : Nat
  LL_ADC_IT_AWD2 : Nat
  LL_ADC_IT_AWD3 : Nat
  LL_ADC_FLAG_ADRDY : Nat
  LL_ADC_FLAG_EOC : Nat
  LL_ADC_FLAG_EOS : Nat
  LL_ADC_FLAG_OVR : Nat
  LL_ADC_FLAG_EOSMP : Nat
  LL_ADC_FLAG_JEOC : Nat
  LL_ADC_FLAG_JEOS : Nat
  LL_ADC_FLAG_JQOVF : Nat
  LL_ADC_FLAG_AWD1 : Nat
  LL_ADC_FLAG_AWD2 : Nat
  LL_ADC_FLAG_AWD3 : Nat
  LL_ADC_CLOCK_SYNC_PCLK_DIV1 : Nat
  LL_ADC_CLOCK_SYNC_PCLK_DIV2 : Nat
  LL_ADC_CLOCK_SYNC_PCLK_DIV4 : Nat
  LL_ADC_CLOCK_ASYNC_DIV1 : Nat
  LL_ADC_CLOCK_ASYNC_DIV2 : Nat
  LL_ADC_CLOCK_ASYNC_DIV4 : Nat
  LL_ADC_CLOCK_ASYNC_DIV6 : Nat
  LL_ADC_CLOCK_ASYNC_DIV8 : Nat
  LL_ADC_CLOCK_ASYNC_DIV10 : Nat
  LL_ADC_CLOCK_ASYNC_DIV12 : Nat
  LL_ADC_CLOCK_ASYNC_DIV16 : Nat
  LL_ADC_CLOCK_ASYNC_DIV32 : Nat
  LL_ADC_CLOCK_ASYNC_DIV64 : Nat
  LL_ADC_CLOCK_ASYNC_DIV128 : Nat
  LL_ADC_CLOCK_ASYNC_DIV256 : Nat
  LL_ADC_RESOLUTION_12B : Nat
  LL_ADC_RESOLUTION_10B : Nat
  LL_ADC_RESOLUTION_8B : Nat
  LL_ADC_RESOLUTION_6B : Nat
  LL_ADC_LP_MODE_NONE : Nat
  LL_ADC_LP_AUTOWAIT : Nat
  LL_ADC_REG_TRIG_SOFTWARE : Nat
  LL_ADC_REG_TRIG_EXT_TIM1_CH1 : Nat
  LL_ADC_REG_TRIG_EXT_TIM1_CH2 : Nat
  LL_ADC_REG_TRIG_EXT_TIM1_CH3 : Nat
  LL_ADC_REG_TRIG_EXT_TIM2_CH2 : Nat
  LL_ADC_REG_TRIG_EXT_TIM3_TRGO : Nat
  LL_ADC_REG_TRIG_EXT_TIM4_CH4 : Nat
  LL_ADC_REG_TRIG_EXT_EXTI_LINE11 : Nat
  LL_ADC_REG_TRIG_EXT_TIM8_TRGO : Nat
  LL_ADC_REG_TRIG_EXT_TIM8_TRGO2 : Nat
  LL_ADC_REG_TRIG_EXT_TIM1_TRGO : Nat
  LL_ADC_REG_TRIG_EXT_TIM1_TRGO2 : Nat
  LL_ADC_REG_TRIG_EXT_TIM2_TRGO : Nat
  LL_ADC_REG_TRIG_EXT_TIM4_TRGO : Nat
  LL_ADC_REG_TRIG_EXT_TIM6_TRGO : Nat
  LL_ADC_REG_TRIG_EXT_TIM15_TRGO : Nat
  LL_ADC_REG_TRIG_EXT_TIM3_CH4 : Nat
  LL_ADC_REG_TRIG_EXT_LPTIM1_OUT : Nat
  LL_ADC_REG_TRIG_EXT_LPTIM2_OUT : Nat
  LL_ADC_REG_TRIG_EXT_LPTIM3_OUT : Nat
  LL_ADC_REG_CONV_SINGLE : Nat
  LL_ADC_REG_CONV_CONTINUOUS : Nat
  LL_ADC_REG_DMA_TRANSFER_NONE : Nat
  LL_ADC_REG_DMA_TRANSFER_LIMITED : Nat
  LL_ADC_REG_DMA_TRANSFER_UNLIMITED : Nat
  LL_ADC_REG_OVR_DATA_PRESERVED : Nat
  LL_ADC_REG_OVR_DATA_OVERWRITTEN : Nat
  LL_ADC_REG_SEQ_SCAN_DISABLE : Nat
  LL_ADC_REG_SEQ_SCAN_ENABLE_2RANKS : Nat
  LL_ADC_REG_SEQ_SCAN_ENABLE_3RANKS : Nat
  LL_ADC_REG_SEQ_SCAN_ENABLE_4RANKS : Nat
  LL_ADC_REG_SEQ_SCAN_ENABLE_5RANKS : Nat
  LL_ADC_REG_SEQ_SCAN_ENABLE_6RANKS : Nat
  LL_ADC_REG_SEQ_SCAN_ENABLE_7RANKS : Nat
  LL_ADC_REG_SEQ_SCAN_ENABLE_8RANKS : Nat
  LL_ADC_REG_SEQ_SCAN_ENABLE_9RANKS : Nat
  LL_ADC_REG_SEQ_SCAN_ENABLE_10RANKS : Nat
  LL_ADC_REG_SEQ_SCAN_ENABLE_11RANKS : Nat
  LL_ADC_REG_SEQ_SCAN_ENABLE_12RANKS : Nat
  LL_ADC_REG_SEQ_SCAN_ENABLE_13RANKS : Nat
  LL_ADC_REG_SEQ_SCAN_ENABLE_14RANKS : Nat
  LL_ADC_REG_SEQ_SCAN_ENABLE_15RANKS : Nat
  LL_ADC_REG_SEQ_SCAN_ENABLE_16RANKS : Nat
  LL_ADC_REG_SEQ_DISCONT_DISABLE : Nat
  LL_ADC_REG_SEQ_DISCONT_1RANK : Nat
  LL_ADC_REG_SEQ_DISCONT_2RANKS : Nat
  LL_ADC_REG_SEQ_DISCONT_3RANKS : Nat
  LL_ADC_REG_SEQ_DISCONT_4RANKS : Nat
  LL_ADC_REG_SEQ_DISCONT_5RANKS : Nat
  LL_ADC_REG_SEQ_DISCONT_6RANKS : Nat
  LL_ADC_REG_SEQ_DISCONT_7RANKS : Nat
  LL_ADC_REG_SEQ_DISCONT_8RANKS : Nat
  LL_ADC_INJ_TRIG_SOFTWARE : Nat
  LL_ADC_INJ_TRIG_EXT_TIM1_TRGO : Nat
  LL_ADC_INJ_TRIG_EXT_TIM1_CH4 : Nat
  LL_ADC_INJ_TRIG_EXT_TIM2_TRGO : Nat
  LL_ADC_INJ_TRIG_EXT_TIM2_CH1 : Nat
  LL_ADC_INJ_TRIG_EXT_TIM3_CH4 : Nat
  LL_ADC_INJ_TRIG_EXT_TIM4_TRGO : Nat
  LL_ADC_INJ_TRIG_EXT_EXTI_LINE15 : Nat
  LL_ADC_INJ_TRIG_EXT_TIM8_CH4 : Nat
  LL_ADC_INJ_TRIG_EXT_TIM1_TRGO2 : Nat
  LL_ADC_INJ_TRIG_EXT_TIM8_TRGO : Nat
  LL_ADC_INJ_TRIG_EXT_TIM8_TRGO2 : Nat
  LL_ADC_INJ_TRIG_EXT_TIM3_CH3 : Nat
  LL_ADC_INJ_TRIG_EXT_TIM3_TRGO : Nat
  LL_ADC_INJ_TRIG_EXT_TIM3_CH1 : Nat
  LL_ADC_INJ_TRIG_EXT_TIM6_TRGO : Nat
  LL_ADC_INJ_TRIG_EXT_TIM15_TRGO : Nat
  LL_ADC_INJ_TRIG_EXT_LPTIM1_OUT : Nat
  LL_ADC_INJ_TRIG_EXT_LPTIM2_OUT : Nat
  LL_ADC_INJ_TRIG_EXT_LPTIM3_OUT : Nat
  LL_ADC_INJ_TRIG_EXT_RISING : Nat
  LL_ADC_INJ_TRIG_EXT_FALLING : Nat
  LL_ADC_INJ_TRIG_EXT_RISINGFALLING : Nat
  LL_ADC_INJ_TRIG_INDEPENDENT : Nat
  LL_ADC_INJ_TRIG_FROM_GRP_REGULAR : Nat
  LL_ADC_INJ_SEQ_SCAN_DISABLE : Nat
  LL_ADC_INJ_SEQ_SCAN_ENABLE_2RANKS : Nat
  LL_ADC_INJ_SEQ_SCAN_ENABLE_3RANKS : Nat
  LL_ADC_INJ_SEQ_SCAN_ENABLE_4RANKS : Nat
  LL_ADC_INJ_SEQ_DISCONT_DISABLE : Nat
  LL_ADC_INJ_SEQ_DISCONT_1RANK : Nat
  LL_ADC_INJ_QUEUE_2CONTEXTS_END_EMPTY : Nat

/-- All constants the driver takes from headers that are not part of the sources. -/
structure Header extends DeviceHeader, LLHeader

/-! ## Structures of the LL header (the fields the driver reads) -/

/-- Parameters of `LL_ADC_CommonInit`. -/
structure LL_ADC_CommonInitTypeDef where
  CommonClock : Nat
deriving DecidableEq, Repr

/-- Parameters of `LL_ADC_Init`. -/
structure LL_ADC_InitTypeDef where
  Resolution : Nat
  LowPowerMode : Nat
deriving DecidableEq, Repr

/-- Parameters of `LL_ADC_REG_Init`. -/
structure LL_ADC_REG_InitTypeDef where
  TriggerSource : Nat
  SequencerLength : Nat
  SequencerDiscont : Nat
  ContinuousMode : Nat
  DataTransferMode : Nat
  Overrun : Nat
deriving DecidableEq, Repr

/-- Parameters of `LL_ADC_INJ_Init`. -/
structure LL_ADC_INJ_InitTypeDef where
  TriggerSource : Nat
  SequencerLength : Nat
  SequencerDiscont : Nat
  TrigAuto : Nat
deriving DecidableEq, Repr

/-! ## The bus: register accesses, their log, and the peripheral -/

/-- One bus access: a read returning a value, or a write of a value. -/
inductive Access where
  | rd (r : Reg) (v : Nat)
  | wr (r : Reg) (v : Nat)
deriving DecidableEq, Repr

/-- An ADC instance as seen by the driver: its registers and the accesses made so far. -/
structure Machine where
  regs : ADC_TypeDef
  log : List Access

/-- Behaviour of the peripheral: before the n-th bus access it may update its registers
(acknowledge a stop or disable request, raise a flag). -/
abbrev Hardware := Nat → ADC_TypeDef → ADC_TypeDef

/-- A peripheral that never changes a register by itself. -/
def quiet : Hardware := fun _ regs => regs

/-- Bitwise complement of a 32-bit word (the `~` of C on `uint32_t`). -/
def NOT32 (x : Nat) : Nat := 4294967295 ^^^ (x % 4294967296)

/-- Modelled from the spec: `ADC_CR_BITS_PROPERTY_RS` of the LL header (not under src/), the
bits of CR in access mode read-set listed in the comment of `LL_ADC_DeInit`. -/
def ADC_CR_BITS_PROPERTY_RS (K : Header) : Nat :=
  K.ADC_CR_ADCAL ||| K.ADC_CR_JADSTP ||| K.ADC_CR_ADSTP ||| K.ADC_CR_JADSTART
    ||| K.ADC_CR_ADSTART ||| K.ADC_CR_ADDIS ||| K.ADC_CR_ADEN

/-- Modelled from the spec: effect of a write on the Register Surface (hardware, not under src/).
The read-set bits of CR cannot be cleared by a write (comment of `LL_ADC_DeInit`), the flags of
ISR are cleared by writing 1 and unaffected by writing 0 (spec 4.5), every other register takes
the written word. -/
def store (K : Header) (r : Reg) (old v : Nat) : Nat :=
  match r with
  | Reg.CR => (v ||| (old &&& ADC_CR_BITS_PROPERTY_RS K)) % 4294967296
  | Reg.ISR => (old &&& NOT32 v) % 4294967296
  | _ => v % 4294967296

/-- Modelled from the spec: `READ_REG` of the device header (not under src/), a read access of the
Register Surface. -/
def READ_REG (hw : Hardware) (r : Reg) (m : Machine) : Nat × Machine :=
  let regs := hw m.log.length m.regs
  (regs r, { regs := regs, log := m.log ++ [Access.rd r (regs r)] })

/-- Modelled from the spec: `WRITE_REG` of the device header (not under src/), a write access of
the Register Surface. -/
def WRITE_REG (K : Header) (hw : Hardware) (r : Reg) (v : Nat) (m : Machine) : Machine :=
  let regs := hw m.log.length m.regs
  { regs := Function.update regs r (store K r (regs r) v),
    log := m.log ++ [Access.wr r (v % 4294967296)] }

/-- Modelled from the spec: `READ_BIT(REG, BIT)` of the device header, `(REG) & (BIT)`. -/
def READ_BIT (hw : Hardware) (r : Reg) (bit : Nat) (m : Machine) : Nat × Machine :=
  let x := READ_REG hw r m
  (x.1 &&& bit, x.2)

/-- Modelled from the spec: `SET_BIT(REG, BIT)` of the device header, `(REG) |= (BIT)`. -/
def SET_BIT (K : Header) (hw : Hardware) (r : Reg) (bit : Nat) (m : Machine) : Machine :=
  let x := READ_REG hw r m
  WRITE_REG K hw r (x.1 ||| bit) x.2

/-- Modelled from the spec: `CLEAR_BIT(REG, BIT)` of the device header, `(REG) &= ~(BIT)`. -/
def CLEAR_BIT (K : Header) (hw : Hardware) (r : Reg) (bit : Nat) (m : Machine) : Machine :=
  let x := READ_REG hw r m
  WRITE_REG K hw r (x.1 &&& NOT32 bit) x.2

/-- Modelled from the spec: `MODIFY_REG(REG, CLEARMASK, SETMASK)` of the device header,
`WRITE_REG(REG, (READ_REG(REG) & ~CLEARMASK) | SETMASK)`. -/
def MODIFY_REG (K : Header) (hw : Hardware) (r : Reg) (clearmask setmask : Nat) (m : Machine) :
    Machine :=
  let x := READ_REG hw r m
  WRITE_REG K hw r ((x.1 &&& NOT32 clearmask) ||| setmask) x.2

/-! ## Inline helpers of the LL header used by the driver -/

/-- Modelled from the spec: `LL_ADC_IsEnabled` of the LL header (not under src/): 1 when the
enable bit ADEN of CR is set, else 0. -/
def LL_ADC_IsEnabled (K : Header) (hw : Hardware) (m : Machine) : Nat × Machine :=
  let x := READ_BIT hw Reg.CR K.ADC_CR_ADEN m
  (if x.1 = K.ADC_CR_ADEN then 1 else 0, x.2)

/-- Modelled from the spec: `LL_ADC_IsDisableOngoing` of the LL header (not under src/): 1 when the
disable-request bit ADDIS of CR is set, else 0. -/
def LL_ADC_IsDisableOngoing (K : Header) (hw : Hardware) (m : Machine) : Nat × Machine :=
  let x := READ_BIT hw Reg.CR K.ADC_CR_ADDIS m
  (if x.1 = K.ADC_CR_ADDIS then 1 else 0, x.2)

/-- Modelled from the spec: `LL_ADC_REG_IsConversionOngoing` of the LL header (not under src/): 1
when the regular-start bit ADSTART of CR is set, else 0. -/
def LL_ADC_REG_IsConversionOngoing (K : Header) (hw : Hardware) (m : Machine) : Nat × Machine :=
  let x := READ_BIT hw Reg.CR K.ADC_CR_ADSTART m
  (if x.1 = K.ADC_CR_ADSTART then 1 else 0, x.2)

/-- Modelled from the spec: `LL_ADC_REG_IsStopConversionOngoing` of the LL header (not under
src/): 1 when the regular-stop bit ADSTP of CR is set, else 0. -/
def LL_ADC_REG_IsStopConversionOngoing (K : Header) (hw : Hardware) (m : Machine) :
    Nat × Machine :=
  let x := READ_BIT hw Reg.CR K.ADC_CR_ADSTP m
  (if x.1 = K.ADC_CR_ADSTP then 1 else 0, x.2)

/-- Modelled from the spec: `LL_ADC_INJ_IsConversionOngoing` of the LL header (not under src/): 1
when the injected-start bit JADSTART of CR is set, else 0. -/
def LL_ADC_INJ_IsConversionOngoing (K : Header) (hw : Hardware) (m : Machine) : Nat × Machine :=
  let x := READ_BIT hw Reg.CR K.ADC_CR_JADSTART m
  (if x.1 = K.ADC_CR_JADSTART then 1 else 0, x.2)

/-- Modelled from the spec: `LL_ADC_INJ_IsStopConversionOngoing` of the LL header (not under
src/): 1 when the injected-stop bit JADSTP of CR is set, else 0. -/
def LL_ADC_INJ_IsStopConversionOngoing (K : Header) (hw : Hardware) (m : Machine) :
    Nat × Machine :=
  let x := READ_BIT hw Reg.CR K.ADC_CR_JADSTP m
  (if x.1 = K.ADC_CR_JADSTP then 1 else 0, x.2)

/-- Modelled from the spec: `LL_ADC_REG_StopConversion` of the LL header (not under src/): requests
the stop of the regular conversion by setting ADSTP, writing 0 to the other read-set bits. -/
def LL_ADC_REG_StopConversion (K : Header) (hw : Hardware) (m : Machine) : Machine :=
  MODIFY_REG K hw Reg.CR (ADC_CR_BITS_PROPERTY_RS K) K.ADC_CR_ADSTP m

/-- Modelled from the spec: `LL_ADC_INJ_StopConversion` of the LL header (not under src/): requests
the stop of the injected conversion by setting JADSTP, writing 0 to the other read-set bits. -/
def LL_ADC_INJ_StopConversion (K : Header) (hw : Hardware) (m : Machine) : Machine :=
  MODIFY_REG K hw Reg.CR (ADC_CR_BITS_PROPERTY_RS K) K.ADC_CR_JADSTP m

/-- Modelled from the spec: `LL_ADC_Disable` of the LL header (not under src/): requests the
disable by setting ADDIS, writing 0 to the other read-set bits. -/
def LL_ADC_Disable (K : Header) (hw : Hardware) (m : Machine) : Machine :=
  MODIFY_REG K hw Reg.CR (ADC_CR_BITS_PROPERTY_RS K) K.ADC_CR_ADDIS m

/-- Modelled from the spec: `LL_ADC_REG_SetTriggerSource` of the LL header (not under src/): writes
the trigger source and edge fields EXTEN and EXTSEL of CFGR. -/
def LL_ADC_REG_SetTriggerSource (K : Header) (hw : Hardware) (TriggerSource : Nat)
    (m : Machine) : Machine :=
  MODIFY_REG K hw Reg.CFGR (K.ADC_CFGR_EXTEN ||| K.ADC_CFGR_EXTSEL) TriggerSource m

/-- Modelled from the spec: `LL_ADC_INJ_SetTriggerSource` of the LL header (not under src/): writes
the trigger source and edge fields JEXTSEL and JEXTEN of JSQR. -/
def LL_ADC_INJ_SetTriggerSource (K : Header) (hw : Hardware) (TriggerSource : Nat)
    (m : Machine) : Machine :=
  MODIFY_REG K hw Reg.JSQR (K.ADC_JSQR_JEXTSEL ||| K.ADC_JSQR_JEXTEN) TriggerSource m

/-- Modelled from the spec: `LL_ADC_INJ_SetQueueMode` of the LL header (not under src/): writes
the queue mode fields JQM and JQDIS of CFGR. -/
def LL_ADC_INJ_SetQueueMode (K : Header) (hw : Hardware) (QueueMode : Nat) (m : Machine) :
    Machine :=
  MODIFY_REG K hw Reg.CFGR (K.ADC_CFGR_JQM ||| K.ADC_CFGR_JQDIS) QueueMode m

/-- Modelled from the spec: `LL_ADC_REG_SetSequencerLength` of the LL header (not under src/):
writes the sequencer length field L of SQR1. -/
def LL_ADC_REG_SetSequencerLength (K : Header) (hw : Hardware) (SequencerNbRanks : Nat)
    (m : Machine) : Machine :=
  MODIFY_REG K hw Reg.SQR1 K.ADC_SQR1_L SequencerNbRanks m

/-! ## Parameter checks of `stm32mp13xx_ll_adc.c` (lines 118-250) -/

/-- The check `IS_LL_ADC_RESOLUTION` (line 118). -/
abbrev IS_LL_ADC_RESOLUTION (K : Header) (x : Nat) : Prop :=
  x ∈ [K.LL_ADC_RESOLUTION_12B, K.LL_ADC_RESOLUTION_10B, K.LL_ADC_RESOLUTION_8B,
    K.LL_ADC_RESOLUTION_6B]

/-- The check `IS_LL_ADC_LOW_POWER` (line 126). -/
abbrev IS_LL_ADC_LOW_POWER (K : Header) (x : Nat) : Prop :=
  x ∈ [K.LL_ADC_LP_MODE_NONE, K.LL_ADC_LP_AUTOWAIT]

/-- The check `IS_LL_ADC_REG_TRIG_SOURCE` (line 133). -/
abbrev IS_LL_ADC_REG_TRIG_SOURCE (K : Header) (x : Nat) : Prop :=
  x ∈ [K.LL_ADC_REG_TRIG_SOFTWARE, K.LL_ADC_REG_TRIG_EXT_TIM1_CH1,
    K.LL_ADC_REG_TRIG_EXT_TIM1_CH2, K.LL_ADC_REG_TRIG_EXT_TIM1_CH3,
    K.LL_ADC_REG_TRIG_EXT_TIM2_CH2, K.LL_ADC_REG_TRIG_EXT_TIM3_TRGO,
    K.LL_ADC_REG_TRIG_EXT_TIM4_CH4, K.LL_ADC_REG_TRIG_EXT_EXTI_LINE11,
    K.LL_ADC_REG_TRIG_EXT_TIM8_TRGO, K.LL_ADC_REG_TRIG_EXT_TIM8_TRGO2,
    K.LL_ADC_REG_TRIG_EXT_TIM1_TRGO, K.LL_ADC_REG_TRIG_EXT_TIM1_TRGO2,
    K.LL_ADC_REG_TRIG_EXT_TIM2_TRGO, K.LL_ADC_REG_TRIG_EXT_TIM4_TRGO,
    K.LL_ADC_REG_TRIG_EXT_TIM6_TRGO, K.LL_ADC_REG_TRIG_EXT_TIM15_TRGO,
    K.LL_ADC_REG_TRIG_EXT_TIM3_CH4, K.LL_ADC_REG_TRIG_EXT_LPTIM1_OUT,
    K.LL_ADC_REG_TRIG_EXT_LPTIM2_OUT, K.LL_ADC_REG_TRIG_EXT_LPTIM3_OUT]

/-- The check `IS_LL_ADC_REG_CONTINUOUS_MODE` (line 156). -/
abbrev IS_LL_ADC_REG_CONTINUOUS_MODE (K : Header) (x : Nat) : Prop :=
  x ∈ [K.LL_ADC_REG_CONV_SINGLE, K.LL_ADC_REG_CONV_CONTINUOUS]

/-- The check `IS_LL_ADC_REG_DMA_TRANSFER` (line 162). -/
abbrev IS_LL_ADC_REG_DMA_TRANSFER (K : Header) (x : Nat) : Prop :=
  x ∈ [K.LL_ADC_REG_DMA_TRANSFER_NONE, K.LL_ADC_REG_DMA_TRANSFER_LIMITED,
    K.LL_ADC_REG_DMA_TRANSFER_UNLIMITED]

/-- The check `IS_LL_ADC_REG_OVR_DATA_BEHAVIOR` (line 168). -/
abbrev IS_LL_ADC_REG_OVR_DATA_BEHAVIOR (K : Header) (x : Nat) : Prop :=
  x ∈ [K.LL_ADC_REG_OVR_DATA_PRESERVED, K.LL_ADC_REG_OVR_DATA_OVERWRITTEN]

/-- The check `IS_LL_ADC_REG_SEQ_SCAN_LENGTH` (line 173). -/
abbrev IS_LL_ADC_REG_SEQ_SCAN_LENGTH (K : Header) (x : Nat) : Prop :=
  x ∈ [K.LL_ADC_REG_SEQ_SCAN_DISABLE, K.LL_ADC_REG_SEQ_SCAN_ENABLE_2RANKS,
    K.LL_ADC_REG_SEQ_SCAN_ENABLE_3RANKS, K.LL_ADC_REG_SEQ_SCAN_ENABLE_4RANKS,
    K.LL_ADC_REG_SEQ_SCAN_ENABLE_5RANKS, K.LL_ADC_REG_SEQ_SCAN_ENABLE_6RANKS,
    K.LL_ADC_REG_SEQ_SCAN_ENABLE_7RANKS, K.LL_ADC_REG_SEQ_SCAN_ENABLE_8RANKS,
    K.LL_ADC_REG_SEQ_SCAN_ENABLE_9RANKS, K.LL_ADC_REG_SEQ_SCAN_ENABLE_10RANKS,
    K.LL_ADC_REG_SEQ_SCAN_ENABLE_11RANKS, K.LL_ADC_REG_SEQ_SCAN_ENABLE_12RANKS,
    K.LL_ADC_REG_SEQ_SCAN_ENABLE_13RANKS, K.LL_ADC_REG_SEQ_SCAN_ENABLE_14RANKS,
    K.LL_ADC_REG_SEQ_SCAN_ENABLE_15RANKS, K.LL_ADC_REG_SEQ_SCAN_ENABLE_16RANKS]

/-- The check `IS_LL_ADC_REG_SEQ_SCAN_DISCONT_MODE` (line 192). -/
abbrev IS_LL_ADC_REG_SEQ_SCAN_DISCONT_MODE (K : Header) (x : Nat) : Prop :=
  x ∈ [K.LL_ADC_REG_SEQ_DISCONT_DISABLE, K.LL_ADC_REG_SEQ_DISCONT_1RANK,
    K.LL_ADC_REG_SEQ_DISCONT_2RANKS, K.LL_ADC_REG_SEQ_DISCONT_3RANKS,
    K.LL_ADC_REG_SEQ_DISCONT_4RANKS, K.LL_ADC_REG_SEQ_DISCONT_5RANKS,
    K.LL_ADC_REG_SEQ_DISCONT_6RANKS, K.LL_ADC_REG_SEQ_DISCONT_7RANKS,
    K.LL_ADC_REG_SEQ_DISCONT_8RANKS]

/-- The check `IS_LL_ADC_INJ_TRIG_SOURCE` (line 206). -/
abbrev IS_LL_ADC_INJ_TRIG_SOURCE (K : Header) (x : Nat) : Prop :=
  x ∈ [K.LL_ADC_INJ_TRIG_SOFTWARE, K.LL_ADC_INJ_TRIG_EXT_TIM1_TRGO,
    K.LL_ADC_INJ_TRIG_EXT_TIM1_CH4, K.LL_ADC_INJ_TRIG_EXT_TIM2_TRGO,
    K.LL_ADC_INJ_TRIG_EXT_TIM2_CH1, K.LL_ADC_INJ_TRIG_EXT_TIM3_CH4,
    K.LL_ADC_INJ_TRIG_EXT_TIM4_TRGO, K.LL_ADC_INJ_TRIG_EXT_EXTI_LINE15,
    K.LL_ADC_INJ_TRIG_EXT_TIM8_CH4, K.LL_ADC_INJ_TRIG_EXT_TIM1_TRGO2,
    K.LL_ADC_INJ_TRIG_EXT_TIM8_TRGO, K.LL_ADC_INJ_TRIG_EXT_TIM8_TRGO2,
    K.LL_ADC_INJ_TRIG_EXT_TIM3_CH3, K.LL_ADC_INJ_TRIG_EXT_TIM3_TRGO,
    K.LL_ADC_INJ_TRIG_EXT_TIM3_CH1, K.LL_ADC_INJ_TRIG_EXT_TIM6_TRGO,
    K.LL_ADC_INJ_TRIG_EXT_TIM15_TRGO, K.LL_ADC_INJ_TRIG_EXT_LPTIM1_OUT,
    K.LL_ADC_INJ_TRIG_EXT_LPTIM2_OUT, K.LL_ADC_INJ_TRIG_EXT_LPTIM3_OUT]

/-- The check `IS_LL_ADC_INJ_TRIG_EXT_EDGE` (line 229). -/
abbrev IS_LL_ADC_INJ_TRIG_EXT_EDGE (K : Header) (x : Nat) : Prop :=
  x ∈ [K.LL_ADC_INJ_TRIG_EXT_RISING, K.LL_ADC_INJ_TRIG_EXT_FALLING,
    K.LL_ADC_INJ_TRIG_EXT_RISINGFALLING]

/-- The check `IS_LL_ADC_INJ_TRIG_AUTO` (line 235). -/
abbrev IS_LL_ADC_INJ_TRIG_AUTO (K : Header) (x : Nat) : Prop :=
  x ∈ [K.LL_ADC_INJ_TRIG_INDEPENDENT, K.LL_ADC_INJ_TRIG_FROM_GRP_REGULAR]

/-- The check `IS_LL_ADC_INJ_SEQ_SCAN_LENGTH` (line 240). -/
abbrev IS_LL_ADC_INJ_SEQ_SCAN_LENGTH (K : Header) (x : Nat) : Prop :=
  x ∈ [K.LL_ADC_INJ_SEQ_SCAN_DISABLE, K.LL_ADC_INJ_SEQ_SCAN_ENABLE_2RANKS,
    K.LL_ADC_INJ_SEQ_SCAN_ENABLE_3RANKS, K.LL_ADC_INJ_SEQ_SCAN_ENABLE_4RANKS]

/-- The check `IS_LL_ADC_INJ_SEQ_SCAN_DISCONT_MODE` (line 247). -/
abbrev IS_LL_ADC_INJ_SEQ_SCAN_DISCONT_MODE (K : Header) (x : Nat) : Prop :=
  x ∈ [K.LL_ADC_INJ_SEQ_DISCONT_DISABLE, K.LL_ADC_INJ_SEQ_DISCONT_1RANK]

/-- The parameter checks made by `LL_ADC_Init` (lines 681-682). -/
def LL_ADC_Init_params (K : Header) (s : LL_ADC_InitTypeDef) : Prop :=
  IS_LL_ADC_RESOLUTION K s.Resolution ∧ IS_LL_ADC_LOW_POWER K s.LowPowerMode

/-- The parameter checks made by `LL_ADC_REG_Init` (lines 763-770). The data transfer mode is not
among them. -/
def LL_ADC_REG_Init_params (K : Header) (s : LL_ADC_REG_InitTypeDef) : Prop :=
  IS_LL_ADC_REG_TRIG_SOURCE K s.TriggerSource
    ∧ IS_LL_ADC_REG_SEQ_SCAN_LENGTH K s.SequencerLength
    ∧ (s.SequencerLength ≠ K.LL_ADC_REG_SEQ_SCAN_DISABLE →
        IS_LL_ADC_REG_SEQ_SCAN_DISCONT_MODE K s.SequencerDiscont)
    ∧ IS_LL_ADC_REG_CONTINUOUS_MODE K s.ContinuousMode
    ∧ IS_LL_ADC_REG_OVR_DATA_BEHAVIOR K s.Overrun

/-- The parameter checks made by `LL_ADC_INJ_Init` (lines 890-896). -/
def LL_ADC_INJ_Init_params (K : Header) (s : LL_ADC_INJ_InitTypeDef) : Prop :=
  IS_LL_ADC_INJ_TRIG_SOURCE K s.TriggerSource
    ∧ IS_LL_ADC_INJ_SEQ_SCAN_LENGTH K s.SequencerLength
    ∧ (s.SequencerLength ≠ K.LL_ADC_INJ_SEQ_SCAN_DISABLE →
        IS_LL_ADC_INJ_SEQ_SCAN_DISCONT_MODE K s.SequencerDiscont)
    ∧ IS_LL_ADC_INJ_TRIG_AUTO K s.TrigAuto

/-! ## Initialisation functions (lines 674-947) -/

/-- The function `LL_ADC_Init` (lines 674-708). -/
def LL_ADC_Init (K : Header) (hw : Hardware) (pADCx : Machine)
    (pADC_InitStruct : LL_ADC_InitTypeDef) : ErrorStatus × Machine :=
  let e := LL_ADC_IsEnabled K hw pADCx
  if e.1 = 0 then
    (ErrorStatus.SUCCESS,
      MODIFY_REG K hw Reg.CFGR (K.ADC_CFGR_RES ||| K.ADC_CFGR_AUTDLY)
        (pADC_InitStruct.Resolution ||| pADC_InitStruct.LowPowerMode) e.2)
  else
    (ErrorStatus.ERROR, e.2)

/-- The function `LL_ADC_REG_Init` (lines 757-831). -/
def LL_ADC_REG_Init (K : Header) (hw : Hardware) (pADCx : Machine)
    (pADC_REG_InitStruct : LL_ADC_REG_InitTypeDef) : ErrorStatus × Machine :=
  let e := LL_ADC_IsEnabled K hw pADCx
  if e.1 = 0 then
    let m1 :=
      if pADC_REG_InitStruct.SequencerLength ≠ K.LL_ADC_REG_SEQ_SCAN_DISABLE then
        MODIFY_REG K hw Reg.CFGR
          (K.ADC_CFGR_EXTSEL ||| K.ADC_CFGR_EXTEN ||| K.ADC_CFGR_DISCEN ||| K.ADC_CFGR_DISCNUM
            ||| K.ADC_CFGR_CONT ||| K.ADC_CFGR_OVRMOD)
          (pADC_REG_InitStruct.TriggerSource ||| pADC_REG_InitStruct.SequencerDiscont
            ||| pADC_REG_InitStruct.ContinuousMode ||| pADC_REG_InitStruct.DataTransferMode
            ||| pADC_REG_InitStruct.Overrun) e.2
      else
        MODIFY_REG K hw Reg.CFGR
          (K.ADC_CFGR_EXTSEL ||| K.ADC_CFGR_EXTEN ||| K.ADC_CFGR_DISCEN ||| K.ADC_CFGR_DISCNUM
            ||| K.ADC_CFGR_CONT ||| K.ADC_CFGR_OVRMOD)
          (pADC_REG_InitStruct.TriggerSource ||| K.LL_ADC_REG_SEQ_DISCONT_DISABLE
            ||| pADC_REG_InitStruct.ContinuousMode ||| pADC_REG_InitStruct.DataTransferMode
            ||| pADC_REG_InitStruct.Overrun) e.2
    (ErrorStatus.SUCCESS,
      LL_ADC_REG_SetSequencerLength K hw pADC_REG_InitStruct.SequencerLength m1)
  else
    (ErrorStatus.ERROR, e.2)

/-- The function `LL_ADC_INJ_Init` (lines 884-947). As in the source, the sequencer length is
compared with `LL_ADC_REG_SEQ_SCAN_DISABLE` and the scan-disabled branch writes
`LL_ADC_REG_SEQ_DISCONT_DISABLE`. -/
def LL_ADC_INJ_Init (K : Header) (hw : Hardware) (pADCx : Machine)
    (pADC_INJ_InitStruct : LL_ADC_INJ_InitTypeDef) : ErrorStatus × Machine :=
  let e := LL_ADC_IsEnabled K hw pADCx
  if e.1 = 0 then
    let m1 :=
      if pADC_INJ_InitStruct.SequencerLength ≠ K.LL_ADC_REG_SEQ_SCAN_DISABLE then
        MODIFY_REG K hw Reg.CFGR (K.ADC_CFGR_JDISCEN ||| K.ADC_CFGR_JAUTO)
          (pADC_INJ_InitStruct.SequencerDiscont ||| pADC_INJ_InitStruct.TrigAuto) e.2
      else
        MODIFY_REG K hw Reg.CFGR (K.ADC_CFGR_JDISCEN ||| K.ADC_CFGR_JAUTO)
          (K.LL_ADC_REG_SEQ_DISCONT_DISABLE ||| pADC_INJ_InitStruct.TrigAuto) e.2
    (ErrorStatus.SUCCESS,
      MODIFY_REG K hw Reg.JSQR
        (K.ADC_JSQR_JEXTSEL ||| K.ADC_JSQR_JEXTEN ||| K.ADC_JSQR_JL)
        (pADC_INJ_InitStruct.TriggerSource ||| pADC_INJ_InitStruct.SequencerLength) m1)
  else
    (ErrorStatus.ERROR, e.2)

/-! ## De-initialisation of one instance (lines 385-639) -/

/-- The constant `ADC_CLOCK_RATIO_VS_CPU_HIGHEST` (line 65). -/
def ADC_CLOCK_RATIO_VS_CPU_HIGHEST : Nat := 512 * 16 * 4

/-- The constant `ADC_TIMEOUT_DISABLE_CPU_CYCLES` (line 66). -/
def ADC_TIMEOUT_DISABLE_CPU_CYCLES : Nat := ADC_CLOCK_RATIO_VS_CPU_HIGHEST * 1

/-- The constant `ADC_TIMEOUT_STOP_CONVERSION_CPU_CYCLES` (line 67). -/
def ADC_TIMEOUT_STOP_CONVERSION_CPU_CYCLES : Nat := ADC_CLOCK_RATIO_VS_CPU_HIGHEST * 1

/-- The two wait loops of `LL_ADC_DeInit` (lines 427-437 and 449-458):
`while (cond == 1UL) { timeout_cpu_cycles--; if (timeout_cpu_cycles == 0UL) { status = ERROR; break; } }`.
One unit of fuel is spent per evaluation of the condition; the result is the final value of
`timeout_cpu_cycles`, the status and the machine, or `none` when the fuel runs out. -/
def waitWhile (cond : Machine → Nat × Machine) :
    Nat → Nat → ErrorStatus → Machine → Option (Nat × ErrorStatus × Machine)
  | 0, _, _, _ => none
  | fuel + 1, timeout_cpu_cycles, status, m =>
    let c := cond m
    if c.1 = 1 then
      let t := (timeout_cpu_cycles + 4294967295) % 4294967296
      if t = 0 then some (t, ErrorStatus.ERROR, c.2)
      else waitWhile cond fuel t status c.2
    else some (timeout_cpu_cycles, status, c.2)

/-- Condition of the first wait loop (lines 427-428):
`LL_ADC_REG_IsStopConversionOngoing(pADCx) | LL_ADC_INJ_IsStopConversionOngoing(pADCx)`. -/
def LL_ADC_DeInit_stopOngoing (K : Header) (hw : Hardware) (m : Machine) : Nat × Machine :=
  let a := LL_ADC_REG_IsStopConversionOngoing K hw m
  let b := LL_ADC_INJ_IsStopConversionOngoing K hw a.2
  (a.1 ||| b.1, b.2)

/-- Lines 397-423 of `LL_ADC_DeInit`: both trigger sources forced to software start, and a stop
requested for each group with a conversion on going and no stop in progress. -/
def LL_ADC_DeInit_stopConversions (K : Header) (hw : Hardware) (m : Machine) : Machine :=
  let m1 := LL_ADC_REG_SetTriggerSource K hw K.LL_ADC_REG_TRIG_SOFTWARE m
  let a := LL_ADC_REG_IsConversionOngoing K hw m1
  let m2 :=
    if a.1 ≠ 0 then
      let b := LL_ADC_REG_IsStopConversionOngoing K hw a.2
      if b.1 = 0 then LL_ADC_REG_StopConversion K hw b.2 else b.2
    else a.2
  let m3 := LL_ADC_INJ_SetTriggerSource K hw K.LL_ADC_INJ_TRIG_SOFTWARE m2
  let c := LL_ADC_INJ_IsConversionOngoing K hw m3
  if c.1 ≠ 0 then
    let d := LL_ADC_INJ_IsStopConversionOngoing K hw c.2
    if d.1 = 0 then LL_ADC_INJ_StopConversion K hw d.2 else d.2
  else c.2

/-- Lines 425-437 of `LL_ADC_DeInit`: the wait for the conversions to be stopped. -/
def LL_ADC_DeInit_waitStop (K : Header) (hw : Hardware) (fuel : Nat) (status : ErrorStatus)
    (m : Machine) : Option (Nat × ErrorStatus × Machine) :=
  waitWhile (LL_ADC_DeInit_stopOngoing K hw) fuel ADC_TIMEOUT_STOP_CONVERSION_CPU_CYCLES status m

/-- Lines 439-445 of `LL_ADC_DeInit`: the injected contexts queue is flushed, then the disable is
requested. -/
def LL_ADC_DeInit_requestDisable (K : Header) (hw : Hardware) (m : Machine) : Machine :=
  LL_ADC_Disable K hw (LL_ADC_INJ_SetQueueMode K hw K.LL_ADC_INJ_QUEUE_2CONTEXTS_END_EMPTY m)

/-- Lines 447-458 of `LL_ADC_DeInit`: the wait for the instance to be disabled. -/
def LL_ADC_DeInit_waitDisable (K : Header) (hw : Hardware) (fuel : Nat) (status : ErrorStatus)
    (m : Machine) : Option (Nat × ErrorStatus × Machine) :=
  waitWhile (LL_ADC_IsDisableOngoing K hw) fuel ADC_TIMEOUT_DISABLE_CPU_CYCLES status m

/-- Lines 387-459 of `LL_ADC_DeInit`: the status and the machine at the point where the state of
CR is checked. -/
def LL_ADC_DeInit_disable (K : Header) (hw : Hardware) (fuel : Nat) (pADCx : Machine) :
    Option (ErrorStatus × Machine) :=
  let e := LL_ADC_IsEnabled K hw pADCx
  if e.1 = 1 then
    match LL_ADC_DeInit_waitStop K hw fuel ErrorStatus.SUCCESS
        (LL_ADC_DeInit_stopConversions K hw e.2) with
    | none => none
    | some (_, status1, m2) =>
      match LL_ADC_DeInit_waitDisable K hw fuel status1 (LL_ADC_DeInit_requestDisable K hw m2) with
      | none => none
      | some (_, status2, m4) => some (status2, m4)
  else some (ErrorStatus.SUCCESS, e.2)

/-- The bits of CR tested at line 462 of `LL_ADC_DeInit`. -/
def LL_ADC_DeInit_checkBits (K : Header) : Nat :=
  K.ADC_CR_JADSTP ||| K.ADC_CR_ADSTP ||| K.ADC_CR_JADSTART ||| K.ADC_CR_ADSTART
    ||| K.ADC_CR_ADDIS ||| K.ADC_CR_ADEN

/-- Lines 468-621 of `LL_ADC_DeInit`: the register-reset block. -/
def LL_ADC_DeInit_reset (K : Header) (hw : Hardware) (m : Machine) : Machine :=
  let m := CLEAR_BIT K hw Reg.IER
    (K.LL_ADC_IT_ADRDY ||| K.LL_ADC_IT_EOC ||| K.LL_ADC_IT_EOS ||| K.LL_ADC_IT_OVR
      ||| K.LL_ADC_IT_EOSMP ||| K.LL_ADC_IT_JEOC ||| K.LL_ADC_IT_JEOS ||| K.LL_ADC_IT_JQOVF
      ||| K.LL_ADC_IT_AWD1 ||| K.LL_ADC_IT_AWD2 ||| K.LL_ADC_IT_AWD3) m
  let m := SET_BIT K hw Reg.ISR
    (K.LL_ADC_FLAG_ADRDY ||| K.LL_ADC_FLAG_EOC ||| K.LL_ADC_FLAG_EOS ||| K.LL_ADC_FLAG_OVR
      ||| K.LL_ADC_FLAG_EOSMP ||| K.LL_ADC_FLAG_JEOC ||| K.LL_ADC_FLAG_JEOS
      ||| K.LL_ADC_FLAG_JQOVF ||| K.LL_ADC_FLAG_AWD1 ||| K.LL_ADC_FLAG_AWD2
      ||| K.LL_ADC_FLAG_AWD3) m
  let m := CLEAR_BIT K hw Reg.CR (K.ADC_CR_ADVREGEN ||| K.ADC_CR_ADCALDIF) m
  let m := SET_BIT K hw Reg.CR K.ADC_CR_DEEPPWD m
  let m := CLEAR_BIT K hw Reg.CFGR
    (K.ADC_CFGR_AWD1CH ||| K.ADC_CFGR_JAUTO ||| K.ADC_CFGR_JAWD1EN
      ||| K.ADC_CFGR_AWD1EN ||| K.ADC_CFGR_AWD1SGL ||| K.ADC_CFGR_JQM
      ||| K.ADC_CFGR_JDISCEN ||| K.ADC_CFGR_DISCNUM ||| K.ADC_CFGR_DISCEN
      ||| K.ADC_CFGR_AUTDLY ||| K.ADC_CFGR_CONT ||| K.ADC_CFGR_OVRMOD
      ||| K.ADC_CFGR_EXTEN ||| K.ADC_CFGR_EXTSEL ||| K.ADC_CFGR_RES
      ||| K.ADC_CFGR_DFSDMCFG ||| K.ADC_CFGR_DMACFG ||| K.ADC_CFGR_DMAEN) m
  let m := SET_BIT K hw Reg.CFGR K.ADC_CFGR_JQDIS m
  let m := CLEAR_BIT K hw Reg.CFGR2
    (K.ADC_CFGR2_SMPTRIG ||| K.ADC_CFGR2_BULB ||| K.ADC_CFGR2_SWTRIG
      ||| K.ADC_CFGR2_OVSR ||| K.ADC_CFGR2_ROVSM ||| K.ADC_CFGR2_TROVS
      ||| K.ADC_CFGR2_OVSS ||| K.ADC_CFGR2_JOVSE ||| K.ADC_CFGR2_ROVSE) m
  let m := CLEAR_BIT K hw Reg.SMPR1
    (K.ADC_SMPR1_SMPPLUS ||| K.ADC_SMPR1_SMP9 ||| K.ADC_SMPR1_SMP8 ||| K.ADC_SMPR1_SMP7
      ||| K.ADC_SMPR1_SMP6 ||| K.ADC_SMPR1_SMP5 ||| K.ADC_SMPR1_SMP4
      ||| K.ADC_SMPR1_SMP3 ||| K.ADC_SMPR1_SMP2 ||| K.ADC_SMPR1_SMP1) m
  let m := CLEAR_BIT K hw Reg.SMPR2
    (K.ADC_SMPR2_SMP18 ||| K.ADC_SMPR2_SMP17
      ||| K.ADC_SMPR2_SMP16 ||| K.ADC_SMPR2_SMP15 ||| K.ADC_SMPR2_SMP14
      ||| K.ADC_SMPR2_SMP13 ||| K.ADC_SMPR2_SMP12 ||| K.ADC_SMPR2_SMP11
      ||| K.ADC_SMPR2_SMP10) m
  let m := MODIFY_REG K hw Reg.TR1 (K.ADC_TR1_AWDFILT ||| K.ADC_TR1_HT1 ||| K.ADC_TR1_LT1)
    K.ADC_TR1_HT1 m
  let m := MODIFY_REG K hw Reg.TR2 (K.ADC_TR2_HT2 ||| K.ADC_TR2_LT2) K.ADC_TR2_HT2 m
  let m := MODIFY_REG K hw Reg.TR3 (K.ADC_TR3_HT3 ||| K.ADC_TR3_LT3) K.ADC_TR3_HT3 m
  let m := CLEAR_BIT K hw Reg.SQR1
    (K.ADC_SQR1_SQ4 ||| K.ADC_SQR1_SQ3 ||| K.ADC_SQR1_SQ2 ||| K.ADC_SQR1_SQ1 ||| K.ADC_SQR1_L) m
  let m := CLEAR_BIT K hw Reg.SQR2
    (K.ADC_SQR2_SQ9 ||| K.ADC_SQR2_SQ8 ||| K.ADC_SQR2_SQ7 ||| K.ADC_SQR2_SQ6
      ||| K.ADC_SQR2_SQ5) m
  let m := CLEAR_BIT K hw Reg.SQR3
    (K.ADC_SQR3_SQ14 ||| K.ADC_SQR3_SQ13 ||| K.ADC_SQR3_SQ12 ||| K.ADC_SQR3_SQ11
      ||| K.ADC_SQR3_SQ10) m
  let m := CLEAR_BIT K hw Reg.SQR4 (K.ADC_SQR4_SQ16 ||| K.ADC_SQR4_SQ15) m
  let m := CLEAR_BIT K hw Reg.JSQR
    (K.ADC_JSQR_JL ||| K.ADC_JSQR_JEXTSEL ||| K.ADC_JSQR_JEXTEN
      ||| K.ADC_JSQR_JSQ4 ||| K.ADC_JSQR_JSQ3 ||| K.ADC_JSQR_JSQ2 ||| K.ADC_JSQR_JSQ1) m
  let m := CLEAR_BIT K hw Reg.OFR1
    (K.ADC_OFR1_OFFSET1 ||| K.ADC_OFR1_OFFSET1_CH ||| K.ADC_OFR1_SATEN
      ||| K.ADC_OFR1_OFFSETPOS ||| K.ADC_OFR1_OFFSET1_EN) m
  let m := CLEAR_BIT K hw Reg.OFR1
    (K.ADC_OFR1_OFFSET1_EN ||| K.ADC_OFR1_OFFSET1_CH ||| K.ADC_OFR1_OFFSET1
      ||| K.ADC_OFR1_SATEN ||| K.ADC_OFR1_OFFSETPOS) m
  let m := CLEAR_BIT K hw Reg.OFR2
    (K.ADC_OFR2_OFFSET2_EN ||| K.ADC_OFR2_OFFSET2_CH ||| K.ADC_OFR2_OFFSET2
      ||| K.ADC_OFR2_SATEN ||| K.ADC_OFR2_OFFSETPOS) m
  let m := CLEAR_BIT K hw Reg.OFR3
    (K.ADC_OFR3_OFFSET3_EN ||| K.ADC_OFR3_OFFSET3_CH ||| K.ADC_OFR3_OFFSET3
      ||| K.ADC_OFR3_SATEN ||| K.ADC_OFR3_OFFSETPOS) m
  let m := CLEAR_BIT K hw Reg.OFR4
    (K.ADC_OFR4_OFFSET4_EN ||| K.ADC_OFR4_OFFSET4_CH ||| K.ADC_OFR4_OFFSET4
      ||| K.ADC_OFR4_SATEN ||| K.ADC_OFR4_OFFSETPOS) m
  let m := CLEAR_BIT K hw Reg.AWD2CR K.ADC_AWD2CR_AWD2CH m
  let m := CLEAR_BIT K hw Reg.AWD3CR K.ADC_AWD3CR_AWD3CH m
  let m := CLEAR_BIT K hw Reg.DIFSEL K.ADC_DIFSEL_DIFSEL m
  CLEAR_BIT K hw Reg.CALFACT (K.ADC_CALFACT_CALFACT_D ||| K.ADC_CALFACT_CALFACT_S) m

/-- The function `LL_ADC_DeInit` (lines 385-639). `fuel` bounds the number of iterations of each
wait loop; the result is `none` only if a loop runs out of fuel. -/
def LL_ADC_DeInit (K : Header) (hw : Hardware) (fuel : Nat) (pADCx : Machine) :
    Option (ErrorStatus × Machine) :=
  match LL_ADC_DeInit_disable K hw fuel pADCx with
  | none => none
  | some (status, m) =>
    let c := READ_BIT hw Reg.CR (LL_ADC_DeInit_checkBits K) m
    if c.1 = 0 then some (status, LL_ADC_DeInit_reset K hw c.2)
    else some (ErrorStatus.ERROR, c.2)

/-! ## A concrete header -/

/-- One admissible value of the header parameters, with the field positions of the ADC register
map of the device (CR: ADEN bit 0, ADDIS bit 1, ADSTART bit 2, JADSTART bit 3, ADSTP bit 4,
JADSTP bit 5; CFGR: DMAEN bit 0, DMACFG bit 1, RES bits 3-4, EXTSEL bits 5-9, EXTEN bits 10-11,
...). It provides the concrete inputs of the theorems below. -/
def stm32mp13 : Header where
  ADC_CR_ADEN := 0x00000001
  ADC_CR_ADDIS := 0x00000002
  ADC_CR_ADSTART := 0x00000004
  ADC_CR_JADSTART := 0x00000008
  ADC_CR_ADSTP := 0x00000010
  ADC_CR_JADSTP := 0x00000020
  ADC_CR_ADVREGEN := 0x10000000
  ADC_CR_DEEPPWD := 0x20000000
  ADC_CR_ADCALDIF := 0x40000000
  ADC_CR_ADCAL := 0x80000000
  ADC_CFGR_DMAEN := 0x00000001
  ADC_CFGR_DMACFG := 0x00000002
  ADC_CFGR_DFSDMCFG := 0x00000004
  ADC_CFGR_RES := 0x00000018
  ADC_CFGR_EXTSEL := 0x000003E0
  ADC_CFGR_EXTEN := 0x00000C00
  ADC_CFGR_OVRMOD := 0x00001000
  ADC_CFGR_CONT := 0x00002000
  ADC_CFGR_AUTDLY := 0x00004000
  ADC_CFGR_DISCEN := 0x00010000
  ADC_CFGR_DISCNUM := 0x000E0000
  ADC_CFGR_JDISCEN := 0x00100000
  ADC_CFGR_JQM := 0x00200000
  ADC_CFGR_AWD1SGL := 0x00400000
  ADC_CFGR_AWD1EN := 0x00800000
  ADC_CFGR_JAWD1EN := 0x01000000
  ADC_CFGR_JAUTO := 0x02000000
  ADC_CFGR_AWD1CH := 0x7C000000
  ADC_CFGR_JQDIS := 0x80000000
  ADC_CFGR2_ROVSE := 0x00000001
  ADC_CFGR2_JOVSE := 0x00000002
  ADC_CFGR2_OVSR := 0x0000001C
  ADC_CFGR2_OVSS := 0x000001E0
  ADC_CFGR2_TROVS := 0x00000200
  ADC_CFGR2_ROVSM := 0x00000400
  ADC_CFGR2_SWTRIG := 0x02000000
  ADC_CFGR2_BULB := 0x04000000
  ADC_CFGR2_SMPTRIG := 0x08000000
  ADC_SMPR1_SMP1 := 0x00000038
  ADC_SMPR1_SMP2 := 0x000001C0
  ADC_SMPR1_SMP3 := 0x00000E00
  ADC_SMPR1_SMP4 := 0x00007000
  ADC_SMPR1_SMP5 := 0x00038000
  ADC_SMPR1_SMP6 := 0x001C0000
  ADC_SMPR1_SMP7 := 0x00E00000
  ADC_SMPR1_SMP8 := 0x07000000
  ADC_SMPR1_SMP9 := 0x38000000
  ADC_SMPR1_SMPPLUS := 0x80000000
  ADC_SMPR2_SMP10 := 0x00000007
  ADC_SMPR2_SMP11 := 0x00000038
  ADC_SMPR2_SMP12 := 0x000001C0
  ADC_SMPR2_SMP13 := 0x00000E00
  ADC_SMPR2_SMP14 := 0x00007000
  ADC_SMPR2_SMP15 := 0x00038000
  ADC_SMPR2_SMP16 := 0x001C0000
  ADC_SMPR2_SMP17 := 0x00E00000
  ADC_SMPR2_SMP18 := 0x07000000
  ADC_TR1_LT1 := 0x00000FFF
  ADC_TR1_AWDFILT := 0x00007000
  ADC_TR1_HT1 := 0x0FFF0000
  ADC_TR2_LT2 := 0x000000FF
  ADC_TR2_HT2 := 0x00FF0000
  ADC_TR3_LT3 := 0x000000FF
  ADC_TR3_HT3 := 0x00FF0000
  ADC_SQR1_L := 0x0000000F
  ADC_SQR1_SQ1 := 0x000007C0
  ADC_SQR1_SQ2 := 0x0001F000
  ADC_SQR1_SQ3 := 0x007C0000
  ADC_SQR1_SQ4 := 0x1F000000
  ADC_SQR2_SQ5 := 0x0000001F
  ADC_SQR2_SQ6 := 0x000007C0
  ADC_SQR2_SQ7 := 0x0001F000
  ADC_SQR2_SQ8 := 0x007C0000
  ADC_SQR2_SQ9 := 0x1F000000
  ADC_SQR3_SQ10 := 0x0000001F
  ADC_SQR3_SQ11 := 0x000007C0
  ADC_SQR3_SQ12 := 0x0001F000
  ADC_SQR3_SQ13 := 0x007C0000
  ADC_SQR3_SQ14 := 0x1F000000
  ADC_SQR4_SQ15 := 0x0000001F
  ADC_SQR4_SQ16 := 0x000007C0
  ADC_JSQR_JL := 0x00000003
  ADC_JSQR_JEXTSEL := 0x0000007C
  ADC_JSQR_JEXTEN := 0x00000180
  ADC_JSQR_JSQ1 := 0x00003E00
  ADC_JSQR_JSQ2 := 0x000F8000
  ADC_JSQR_JSQ3 := 0x03E00000
  ADC_JSQR_JSQ4 := 0xF8000000
  ADC_OFR1_OFFSET1 := 0x00000FFF
  ADC_OFR1_OFFSETPOS := 0x01000000
  ADC_OFR1_SATEN := 0x02000000
  ADC_OFR1_OFFSET1_CH := 0x7C000000
  ADC_OFR1_OFFSET1_EN := 0x80000000
  ADC_OFR2_OFFSET2 := 0x00000FFF
  ADC_OFR2_OFFSETPOS := 0x01000000
  ADC_OFR2_SATEN := 0x02000000
  ADC_OFR2_OFFSET2_CH := 0x7C000000
  ADC_OFR2_OFFSET2_EN := 0x80000000
  ADC_OFR3_OFFSET3 := 0x00000FFF
  ADC_OFR3_OFFSETPOS := 0x01000000
  ADC_OFR3_SATEN := 0x02000000
  ADC_OFR3_OFFSET3_CH := 0x7C000000
  ADC_OFR3_OFFSET3_EN := 0x80000000
  ADC_OFR4_OFFSET4 := 0x00000FFF
  ADC_OFR4_OFFSETPOS := 0x01000000
  ADC_OFR4_SATEN := 0x02000000
  ADC_OFR4_OFFSET4_CH := 0x7C000000
  ADC_OFR4_OFFSET4_EN := 0x80000000
  ADC_AWD2CR_AWD2CH := 0x0007FFFF
  ADC_AWD3CR_AWD3CH := 0x0007FFFF
  ADC_DIFSEL_DIFSEL := 0x0007FFFF
  ADC_CALFACT_CALFACT_S := 0x0000007F
  ADC_CALFACT_CALFACT_D := 0x007F0000
  ADC_CCR_CKMODE := 0x00030000
  ADC_CCR_PRESC := 0x003C0000
  LL_ADC_IT_ADRDY := 0x00000001
  LL_ADC_IT_EOC := 0x00000004
  LL_ADC_IT_EOS := 0x00000008
  LL_ADC_IT_OVR := 0x00000010
  LL_ADC_IT_EOSMP := 0x00000002
  LL_ADC_IT_JEOC := 0x00000020
  LL_ADC_IT_JEOS := 0x00000040
  LL_ADC_IT_JQOVF := 0x00000400
  LL_ADC_IT_AWD1 := 0x00000080
  LL_ADC_IT_AWD2 := 0x00000100
  LL_ADC_IT_AWD3 := 0x00000200
  LL_ADC_FLAG_ADRDY := 0x00000001
  LL_ADC_FLAG_EOC := 0x00000004
  LL_ADC_FLAG_EOS := 0x00000008
  LL_ADC_FLAG_OVR := 0x00000010
  LL_ADC_FLAG_EOSMP := 0x00000002
  LL_ADC_FLAG_JEOC := 0x00000020
  LL_ADC_FLAG_JEOS := 0x00000040
  LL_ADC_FLAG_JQOVF := 0x00000400
  LL_ADC_FLAG_AWD1 := 0x00000080
  LL_ADC_FLAG_AWD2 := 0x00000100
  LL_ADC_FLAG_AWD3 := 0x00000200
  LL_ADC_CLOCK_SYNC_PCLK_DIV1 := 0x00010000
  LL_ADC_CLOCK_SYNC_PCLK_DIV2 := 0x00020000
  LL_ADC_CLOCK_SYNC_PCLK_DIV4 := 0x00030000
  LL_ADC_CLOCK_ASYNC_DIV1 := 0x00000000
  LL_ADC_CLOCK_ASYNC_DIV2 := 0x00040000
  LL_ADC_CLOCK_ASYNC_DIV4 := 0x00080000
  LL_ADC_CLOCK_ASYNC_DIV6 := 0x000C0000
  LL_ADC_CLOCK_ASYNC_DIV8 := 0x00100000
  LL_ADC_CLOCK_ASYNC_DIV10 := 0x00140000
  LL_ADC_CLOCK_ASYNC_DIV12 := 0x00180000
  LL_ADC_CLOCK_ASYNC_DIV16 := 0x001C0000
  LL_ADC_CLOCK_ASYNC_DIV32 := 0x00200000
  LL_ADC_CLOCK_ASYNC_DIV64 := 0x00240000
  LL_ADC_CLOCK_ASYNC_DIV128 := 0x00280000
  LL_ADC_CLOCK_ASYNC_DIV256 := 0x002C0000
  LL_ADC_RESOLUTION_12B := 0x00000000
  LL_ADC_RESOLUTION_10B := 0x00000008
  LL_ADC_RESOLUTION_8B := 0x00000010
  LL_ADC_RESOLUTION_6B := 0x00000018
  LL_ADC_LP_MODE_NONE := 0x00000000
  LL_ADC_LP_AUTOWAIT := 0x00004000
  LL_ADC_REG_TRIG_SOFTWARE := 0x00000000
  LL_ADC_REG_TRIG_EXT_TIM1_CH1 := 0x00000400
  LL_ADC_REG_TRIG_EXT_TIM1_CH2 := 0x00000420
  LL_ADC_REG_TRIG_EXT_TIM1_CH3 := 0x00000440
  LL_ADC_REG_TRIG_EXT_TIM2_CH2 := 0x00000460
  LL_ADC_REG_TRIG_EXT_TIM3_TRGO := 0x00000480
  LL_ADC_REG_TRIG_EXT_TIM4_CH4 := 0x000004A0
  LL_ADC_REG_TRIG_EXT_EXTI_LINE11 := 0x000004C0
  LL_ADC_REG_TRIG_EXT_TIM8_TRGO := 0x000004E0
  LL_ADC_REG_TRIG_EXT_TIM8_TRGO2 := 0x00000500
  LL_ADC_REG_TRIG_EXT_TIM1_TRGO := 0x00000520
  LL_ADC_REG_TRIG_EXT_TIM1_TRGO2 := 0x00000540
  LL_ADC_REG_TRIG_EXT_TIM2_TRGO := 0x00000560
  LL_ADC_REG_TRIG_EXT_TIM4_TRGO := 0x00000580
  LL_ADC_REG_TRIG_EXT_TIM6_TRGO := 0x000005A0
  LL_ADC_REG_TRIG_EXT_TIM15_TRGO := 0x000005C0
  LL_ADC_REG_TRIG_EXT_TIM3_CH4 := 0x000005E0
  LL_ADC_REG_TRIG_EXT_LPTIM1_OUT := 0x00000640
  LL_ADC_REG_TRIG_EXT_LPTIM2_OUT := 0x00000660
  LL_ADC_REG_TRIG_EXT_LPTIM3_OUT := 0x00000680
  LL_ADC_REG_CONV_SINGLE := 0x00000000
  LL_ADC_REG_CONV_CONTINUOUS := 0x00002000
  LL_ADC_REG_DMA_TRANSFER_NONE := 0x00000000
  LL_ADC_REG_DMA_TRANSFER_LIMITED := 0x00000001
  LL_ADC_REG_DMA_TRANSFER_UNLIMITED := 0x00000003
  LL_ADC_REG_OVR_DATA_PRESERVED := 0x00000000
  LL_ADC_REG_OVR_DATA_OVERWRITTEN := 0x00001000
  LL_ADC_REG_SEQ_SCAN_DISABLE := 0x00000000
  LL_ADC_REG_SEQ_SCAN_ENABLE_2RANKS := 0x00000001
  LL_ADC_REG_SEQ_SCAN_ENABLE_3RANKS := 0x00000002
  LL_ADC_REG_SEQ_SCAN_ENABLE_4RANKS := 0x00000003
  LL_ADC_REG_SEQ_SCAN_ENABLE_5RANKS := 0x00000004
  LL_ADC_REG_SEQ_SCAN_ENABLE_6RANKS := 0x00000005
  LL_ADC_REG_SEQ_SCAN_ENABLE_7RANKS := 0x00000006
  LL_ADC_REG_SEQ_SCAN_ENABLE_8RANKS := 0x00000007
  LL_ADC_REG_SEQ_SCAN_ENABLE_9RANKS := 0x00000008
  LL_ADC_REG_SEQ_SCAN_ENABLE_10RANKS := 0x00000009
  LL_ADC_REG_SEQ_SCAN_ENABLE_11RANKS := 0x0000000A
  LL_ADC_REG_SEQ_SCAN_ENABLE_12RANKS := 0x0000000B
  LL_ADC_REG_SEQ_SCAN_ENABLE_13RANKS := 0x0000000C
  LL_ADC_REG_SEQ_SCAN_ENABLE_14RANKS := 0x0000000D
  LL_ADC_REG_SEQ_SCAN_ENABLE_15RANKS := 0x0000000E
  LL_ADC_REG_SEQ_SCAN_ENABLE_16RANKS := 0x0000000F
  LL_ADC_REG_SEQ_DISCONT_DISABLE := 0x00000000
  LL_ADC_REG_SEQ_DISCONT_1RANK := 0x00010000
  LL_ADC_REG_SEQ_DISCONT_2RANKS := 0x00030000
  LL_ADC_REG_SEQ_DISCONT_3RANKS := 0x00050000
  LL_ADC_REG_SEQ_DISCONT_4RANKS := 0x00070000
  LL_ADC_REG_SEQ_DISCONT_5RANKS := 0x00090000
  LL_ADC_REG_SEQ_DISCONT_6RANKS := 0x000B0000
  LL_ADC_REG_SEQ_DISCONT_7RANKS := 0x000D0000
  LL_ADC_REG_SEQ_DISCONT_8RANKS := 0x000F0000
  LL_ADC_INJ_TRIG_SOFTWARE := 0x00000000
  LL_ADC_INJ_TRIG_EXT_TIM1_TRGO := 0x00000080
  LL_ADC_INJ_TRIG_EXT_TIM1_CH4 := 0x00000084
  LL_ADC_INJ_TRIG_EXT_TIM2_TRGO := 0x00000088
  LL_ADC_INJ_TRIG_EXT_TIM2_CH1 := 0x0000008C
  LL_ADC_INJ_TRIG_EXT_TIM3_CH4 := 0x00000090
  LL_ADC_INJ_TRIG_EXT_TIM4_TRGO := 0x00000094
  LL_ADC_INJ_TRIG_EXT_EXTI_LINE15 := 0x00000098
  LL_ADC_INJ_TRIG_EXT_TIM8_CH4 := 0x0000009C
  LL_ADC_INJ_TRIG_EXT_TIM1_TRGO2 := 0x000000A0
  LL_ADC_INJ_TRIG_EXT_TIM8_TRGO := 0x000000A4
  LL_ADC_INJ_TRIG_EXT_TIM8_TRGO2 := 0x000000A8
  LL_ADC_INJ_TRIG_EXT_TIM3_CH3 := 0x000000AC
  LL_ADC_INJ_TRIG_EXT_TIM3_TRGO := 0x000000B0
  LL_ADC_INJ_TRIG_EXT_TIM3_CH1 := 0x000000B4
  LL_ADC_INJ_TRIG_EXT_TIM6_TRGO := 0x000000B8
  LL_ADC_INJ_TRIG_EXT_TIM15_TRGO := 0x000000BC
  LL_ADC_INJ_TRIG_EXT_LPTIM1_OUT := 0x000000C8
  LL_ADC_INJ_TRIG_EXT_LPTIM2_OUT := 0x000000CC
  LL_ADC_INJ_TRIG_EXT_LPTIM3_OUT := 0x000000D0
  LL_ADC_INJ_TRIG_EXT_RISING := 0x00000080
  LL_ADC_INJ_TRIG_EXT_FALLING := 0x00000100
  LL_ADC_INJ_TRIG_EXT_RISINGFALLING := 0x00000180
  LL_ADC_INJ_TRIG_INDEPENDENT := 0x00000000
  LL_ADC_INJ_TRIG_FROM_GRP_REGULAR := 0x02000000
  LL_ADC_INJ_SEQ_SCAN_DISABLE := 0x00000000
  LL_ADC_INJ_SEQ_SCAN_ENABLE_2RANKS := 0x00000001
  LL_ADC_INJ_SEQ_SCAN_ENABLE_3RANKS := 0x00000002
  LL_ADC_INJ_SEQ_SCAN_ENABLE_4RANKS := 0x00000003
  LL_ADC_INJ_SEQ_DISCONT_DISABLE := 0x00000000
  LL_ADC_INJ_SEQ_DISCONT_1RANK := 0x00100000
  LL_ADC_INJ_QUEUE_2CONTEXTS_END_EMPTY := 0x00200000

/-! ## Initialisation of the common instance (lines 315-350) -/

/-- The check `IS_LL_ADC_COMMON_CLOCK` (line 98). -/
abbrev IS_LL_ADC_COMMON_CLOCK (K : Header) (x : Nat) : Prop :=
  x ∈ [K.LL_ADC_CLOCK_SYNC_PCLK_DIV1, K.LL_ADC_CLOCK_SYNC_PCLK_DIV2,
    K.LL_ADC_CLOCK_SYNC_PCLK_DIV4, K.LL_ADC_CLOCK_ASYNC_DIV1, K.LL_ADC_CLOCK_ASYNC_DIV2,
    K.LL_ADC_CLOCK_ASYNC_DIV4, K.LL_ADC_CLOCK_ASYNC_DIV6, K.LL_ADC_CLOCK_ASYNC_DIV8,
    K.LL_ADC_CLOCK_ASYNC_DIV10, K.LL_ADC_CLOCK_ASYNC_DIV12, K.LL_ADC_CLOCK_ASYNC_DIV16,
    K.LL_ADC_CLOCK_ASYNC_DIV32, K.LL_ADC_CLOCK_ASYNC_DIV64, K.LL_ADC_CLOCK_ASYNC_DIV128,
    K.LL_ADC_CLOCK_ASYNC_DIV256]

/-- Registers of an ADC common instance that the driver accesses. -/
structure ADC_Common_TypeDef where
  CCR : Nat
deriving DecidableEq, Repr

/-- An ADC common instance together with the register files of the ADC instances that belong
to it. -/
structure CommonInstance where
  common : ADC_Common_TypeDef
  instances : List ADC_TypeDef

/-- Modelled from the spec: helper `__LL_ADC_IS_ENABLED_ALL_COMMON_INSTANCE` of the LL header
(not under src/): 0 when all ADC instances belonging to the same ADC common instance are
disabled, 1 when at least one of them is enabled (note of `LL_ADC_CommonInit`, lines 304-307,
and invariant (a) of the spec). -/
def LL_ADC_IS_ENABLED_ALL_COMMON_INSTANCE (K : Header) (g : CommonInstance) : Nat :=
  if g.instances.any (fun p => decide ((LL_ADC_IsEnabled K quiet { regs := p, log := [] }).1 = 1))
  then 1 else 0

/-- Modelled from the spec: `LL_ADC_SetCommonClock` of the LL header (not under src/): writes the
clock fields CKMODE and PRESC of the common register CCR. -/
def LL_ADC_SetCommonClock (K : Header) (g : CommonInstance) (CommonClock : Nat) :
    CommonInstance :=
  { g with common :=
      { CCR := ((g.common.CCR &&& NOT32 (K.ADC_CCR_CKMODE ||| K.ADC_CCR_PRESC)) ||| CommonClock)
          % 4294967296 } }

/-- The function `LL_ADC_CommonInit` (lines 315-350). -/
def LL_ADC_CommonInit (K : Header) (pADCxy_COMMON : CommonInstance)
    (pADC_CommonInitStruct : LL_ADC_CommonInitTypeDef) : ErrorStatus × CommonInstance :=
  if LL_ADC_IS_ENABLED_ALL_COMMON_INSTANCE K pADCxy_COMMON = 0 then
    (ErrorStatus.SUCCESS,
      LL_ADC_SetCommonClock K pADCxy_COMMON pADC_CommonInitStruct.CommonClock)
  else
    (ErrorStatus.ERROR, pADCxy_COMMON)

/-! ## What the theorems assume of the header -/

/-- Header facts used for `LL_ADC_Init`: each resolution and low-power enumerator lies in its
field of CFGR, and the two fields are disjoint 32-bit masks. -/
structure InstanceLayout (K : Header) : Prop where
  res : ∀ x, IS_LL_ADC_RESOLUTION K x → x &&& K.ADC_CFGR_RES = x
  lowpower : ∀ x, IS_LL_ADC_LOW_POWER K x → x &&& K.ADC_CFGR_AUTDLY = x
  res_autdly : K.ADC_CFGR_RES &&& K.ADC_CFGR_AUTDLY = 0
  word : K.ADC_CFGR_RES ||| K.ADC_CFGR_AUTDLY < 4294967296

/-- Header facts used for `LL_ADC_REG_Init`: each enumerator lies in its field, and the fields
are pairwise disjoint 32-bit masks. -/
structure RegularLayout (K : Header) : Prop where
  trig : ∀ x, IS_LL_ADC_REG_TRIG_SOURCE K x → x &&& (K.ADC_CFGR_EXTSEL ||| K.ADC_CFGR_EXTEN) = x
  discont : ∀ x, IS_LL_ADC_REG_SEQ_SCAN_DISCONT_MODE K x →
    x &&& (K.ADC_CFGR_DISCEN ||| K.ADC_CFGR_DISCNUM) = x
  cont : ∀ x, IS_LL_ADC_REG_CONTINUOUS_MODE K x → x &&& K.ADC_CFGR_CONT = x
  dma : ∀ x, IS_LL_ADC_REG_DMA_TRANSFER K x → x &&& (K.ADC_CFGR_DMAEN ||| K.ADC_CFGR_DMACFG) = x
  ovr : ∀ x, IS_LL_ADC_REG_OVR_DATA_BEHAVIOR K x → x &&& K.ADC_CFGR_OVRMOD = x
  len : ∀ x, IS_LL_ADC_REG_SEQ_SCAN_LENGTH K x → x &&& K.ADC_SQR1_L = x
  fields : List.Pairwise (fun a b => a &&& b = 0)
    [K.ADC_CFGR_EXTSEL ||| K.ADC_CFGR_EXTEN, K.ADC_CFGR_DISCEN ||| K.ADC_CFGR_DISCNUM,
      K.ADC_CFGR_CONT, K.ADC_CFGR_OVRMOD, K.ADC_CFGR_DMAEN ||| K.ADC_CFGR_DMACFG]
  ranks : K.ADC_SQR1_L
    &&& (K.ADC_SQR1_SQ1 ||| K.ADC_SQR1_SQ2 ||| K.ADC_SQR1_SQ3 ||| K.ADC_SQR1_SQ4) = 0
  words : ∀ f ∈ [K.ADC_CFGR_EXTSEL ||| K.ADC_CFGR_EXTEN, K.ADC_CFGR_DISCEN ||| K.ADC_CFGR_DISCNUM,
      K.ADC_CFGR_CONT, K.ADC_CFGR_OVRMOD, K.ADC_CFGR_DMAEN ||| K.ADC_CFGR_DMACFG, K.ADC_SQR1_L,
      K.ADC_SQR1_SQ1 ||| K.ADC_SQR1_SQ2 ||| K.ADC_SQR1_SQ3 ||| K.ADC_SQR1_SQ4],
    f < 4294967296

/-- Header facts used for `LL_ADC_INJ_Init`: each enumerator lies in its field, the fields are
disjoint 32-bit masks, and the two regular-group enumerators that the function uses stand for
the injected-group ones. -/
structure InjectedLayout (K : Header) : Prop where
  trig : ∀ x, IS_LL_ADC_INJ_TRIG_SOURCE K x → x &&& (K.ADC_JSQR_JEXTSEL ||| K.ADC_JSQR_JEXTEN) = x
  len : ∀ x, IS_LL_ADC_INJ_SEQ_SCAN_LENGTH K x → x &&& K.ADC_JSQR_JL = x
  discont : ∀ x, IS_LL_ADC_INJ_SEQ_SCAN_DISCONT_MODE K x → x &&& K.ADC_CFGR_JDISCEN = x
  auto : ∀ x, IS_LL_ADC_INJ_TRIG_AUTO K x → x &&& K.ADC_CFGR_JAUTO = x
  jdiscen_jauto : K.ADC_CFGR_JDISCEN &&& K.ADC_CFGR_JAUTO = 0
  trig_len : (K.ADC_JSQR_JEXTSEL ||| K.ADC_JSQR_JEXTEN) &&& K.ADC_JSQR_JL = 0
  ranks : (K.ADC_JSQR_JEXTSEL ||| K.ADC_JSQR_JEXTEN ||| K.ADC_JSQR_JL)
    &&& (K.ADC_JSQR_JSQ1 ||| K.ADC_JSQR_JSQ2 ||| K.ADC_JSQR_JSQ3 ||| K.ADC_JSQR_JSQ4) = 0
  words : ∀ f ∈ [K.ADC_CFGR_JDISCEN, K.ADC_CFGR_JAUTO, K.ADC_JSQR_JEXTSEL ||| K.ADC_JSQR_JEXTEN,
      K.ADC_JSQR_JL, K.ADC_JSQR_JSQ1 ||| K.ADC_JSQR_JSQ2 ||| K.ADC_JSQR_JSQ3 ||| K.ADC_JSQR_JSQ4],
    f < 4294967296
  scan_disable : K.LL_ADC_INJ_SEQ_SCAN_DISABLE = K.LL_ADC_REG_SEQ_SCAN_DISABLE
  reg_discont_disable :
    K.LL_ADC_REG_SEQ_DISCONT_DISABLE &&& (K.ADC_CFGR_JDISCEN ||| K.ADC_CFGR_JAUTO) = 0

/-- Header facts used for `LL_ADC_CommonInit`: each clock enumerator lies in the clock fields of
CCR, which are 32-bit masks. -/
structure CommonLayout (K : Header) : Prop where
  clock : ∀ x, IS_LL_ADC_COMMON_CLOCK K x → x &&& (K.ADC_CCR_CKMODE ||| K.ADC_CCR_PRESC) = x
  word : K.ADC_CCR_CKMODE ||| K.ADC_CCR_PRESC < 4294967296

/-! ## Auxiliary definitions -/

/-- The discontinuous-mode value that `LL_ADC_REG_Init` writes to CFGR (lines 787-820):
`SequencerDiscont` in the first branch, `LL_ADC_REG_SEQ_DISCONT_DISABLE` in the second. -/
def regDiscontWritten (K : Header) (s : LL_ADC_REG_InitTypeDef) : Nat :=
  if s.SequencerLength ≠ K.LL_ADC_REG_SEQ_SCAN_DISABLE then s.SequencerDiscont
  else K.LL_ADC_REG_SEQ_DISCONT_DISABLE

/-- The discontinuous-mode value that `LL_ADC_INJ_Init` writes to CFGR (lines 911-930):
`SequencerDiscont` in the first branch, `LL_ADC_REG_SEQ_DISCONT_DISABLE` in the second. -/
def injDiscontWritten (K : Header) (s : LL_ADC_INJ_InitTypeDef) : Nat :=
  if s.SequencerLength ≠ K.LL_ADC_REG_SEQ_SCAN_DISABLE then s.SequencerDiscont
  else K.LL_ADC_REG_SEQ_DISCONT_DISABLE

/-- The registers written by a sequence of bus accesses, in order. -/
def writtenRegs : List Access → List Reg
  | [] => []
  | Access.rd _ _ :: l => writtenRegs l
  | Access.wr r _ :: l => r :: writtenRegs l

/-- The registers written by the register-reset block of `LL_ADC_DeInit` (lines 468-621), in
the order of the source. -/
def LL_ADC_DeInit_resetRegs : List Reg :=
  [Reg.IER, Reg.ISR, Reg.CR, Reg.CR, Reg.CFGR, Reg.CFGR, Reg.CFGR2, Reg.SMPR1, Reg.SMPR2,
    Reg.TR1, Reg.TR2, Reg.TR3, Reg.SQR1, Reg.SQR2, Reg.SQR3, Reg.SQR4, Reg.JSQR, Reg.OFR1,
    Reg.OFR1, Reg.OFR2, Reg.OFR3, Reg.OFR4, Reg.AWD2CR, Reg.AWD3CR, Reg.DIFSEL, Reg.CALFACT]

/-! ## A peripheral that is slow to stop -/

/-- The answer of the peripheral of `slowStop`: it ends the conversions and the stop requests
(clears ADSTP, JADSTP, ADSTART, JADSTART) and, when a disable is requested (ADDIS set), it
disables the instance (clears ADDIS and ADEN as well). -/
def acknowledge (K : Header) (regs : ADC_TypeDef) : ADC_TypeDef :=
  Function.update regs Reg.CR
    (if regs Reg.CR &&& K.ADC_CR_ADDIS = K.ADC_CR_ADDIS then
      regs Reg.CR &&& NOT32 (K.ADC_CR_ADSTP ||| K.ADC_CR_JADSTP ||| K.ADC_CR_ADSTART
        ||| K.ADC_CR_JADSTART ||| K.ADC_CR_ADDIS ||| K.ADC_CR_ADEN)
    else
      regs Reg.CR &&& NOT32 (K.ADC_CR_ADSTP ||| K.ADC_CR_JADSTP ||| K.ADC_CR_ADSTART
        ||| K.ADC_CR_JADSTART))

/-- A peripheral that is slow to stop: it leaves its registers alone before bus access `T`
(a requested stop stays pending) and answers every request from access `T` on. -/
def slowStop (K : Header) (T : Nat) : Hardware :=
  fun t regs => if t < T then regs else acknowledge K regs

/-! ## Concrete register files -/

/-- Register file with every register at zero: a disabled instance. -/
def zeroRegs : ADC_TypeDef := fun _ => 0

/-- Register file of an enabled instance with a regular conversion on going: CR holds ADEN and
ADSTART (bits 0 and 2), the other registers are zero. -/
def convertingRegs : ADC_TypeDef := fun r => if r = Reg.CR then 5 else 0

/-- Register file of a disabled instance whose CFGR holds DMAEN and DMACFG (bits 0 and 1): DMA
transfer unlimited. -/
def dmaUnlimitedRegs : ADC_TypeDef := fun r => if r = Reg.CFGR then 3 else 0

/-! ## Views of the access log -/

/-- The writes among a sequence of bus accesses, in order: register and word written. -/
def writes : List Access → List (Reg × Nat)
  | [] => []
  | Access.rd _ _ :: l => writes l
  | Access.wr r v :: l => (r, v) :: writes l

/-- Direction and register of a bus access. -/
inductive Port where
  | rd (r : Reg)
  | wr (r : Reg)
deriving DecidableEq, Repr

/-- The accesses of a sequence without their values. -/
def ports : List Access → List Port
  | [] => []
  | Access.rd r _ :: l => Port.rd r :: ports l
  | Access.wr r _ :: l => Port.wr r :: ports l

/-! ## The register-reset block of `LL_ADC_DeInit`, statement by statement -/

/-- The statements of the register-reset block of `LL_ADC_DeInit` (lines 468-621), in the order
of the source, each as the register, the clear mask and the set mask of a read-modify-write:
`CLEAR_BIT(REG, B)` is listed as `(REG, B, 0)`, `SET_BIT(REG, B)` as `(REG, 0, B)` and
`MODIFY_REG(REG, C, S)` as `(REG, C, S)`. -/
def LL_ADC_DeInit_resetOps (K : Header) : List (Reg × Nat × Nat) :=
  [(Reg.IER,
      K.LL_ADC_IT_ADRDY ||| K.LL_ADC_IT_EOC ||| K.LL_ADC_IT_EOS ||| K.LL_ADC_IT_OVR
        ||| K.LL_ADC_IT_EOSMP ||| K.LL_ADC_IT_JEOC ||| K.LL_ADC_IT_JEOS ||| K.LL_ADC_IT_JQOVF
        ||| K.LL_ADC_IT_AWD1 ||| K.LL_ADC_IT_AWD2 ||| K.LL_ADC_IT_AWD3, 0),
    (Reg.ISR, 0,
      K.LL_ADC_FLAG_ADRDY ||| K.LL_ADC_FLAG_EOC ||| K.LL_ADC_FLAG_EOS ||| K.LL_ADC_FLAG_OVR
        ||| K.LL_ADC_FLAG_EOSMP ||| K.LL_ADC_FLAG_JEOC ||| K.LL_ADC_FLAG_JEOS
        ||| K.LL_ADC_FLAG_JQOVF ||| K.LL_ADC_FLAG_AWD1 ||| K.LL_ADC_FLAG_AWD2
        ||| K.LL_ADC_FLAG_AWD3),
    (Reg.CR, K.ADC_CR_ADVREGEN ||| K.ADC_CR_ADCALDIF, 0),
    (Reg.CR, 0, K.ADC_CR_DEEPPWD),
    (Reg.CFGR,
      K.ADC_CFGR_AWD1CH ||| K.ADC_CFGR_JAUTO ||| K.ADC_CFGR_JAWD1EN
        ||| K.ADC_CFGR_AWD1EN ||| K.ADC_CFGR_AWD1SGL ||| K.ADC_CFGR_JQM
        ||| K.ADC_CFGR_JDISCEN ||| K.ADC_CFGR_DISCNUM ||| K.ADC_CFGR_DISCEN
        ||| K.ADC_CFGR_AUTDLY ||| K.ADC_CFGR_CONT ||| K.ADC_CFGR_OVRMOD
        ||| K.ADC_CFGR_EXTEN ||| K.ADC_CFGR_EXTSEL ||| K.ADC_CFGR_RES
        ||| K.ADC_CFGR_DFSDMCFG ||| K.ADC_CFGR_DMACFG ||| K.ADC_CFGR_DMAEN, 0),
    (Reg.CFGR, 0, K.ADC_CFGR_JQDIS),
    (Reg.CFGR2,
      K.ADC_CFGR2_SMPTRIG ||| K.ADC_CFGR2_BULB ||| K.ADC_CFGR2_SWTRIG
        ||| K.ADC_CFGR2_OVSR ||| K.ADC_CFGR2_ROVSM ||| K.ADC_CFGR2_TROVS
        ||| K.ADC_CFGR2_OVSS ||| K.ADC_CFGR2_JOVSE ||| K.ADC_CFGR2_ROVSE, 0),
    (Reg.SMPR1,
      K.ADC_SMPR1_SMPPLUS ||| K.ADC_SMPR1_SMP9 ||| K.ADC_SMPR1_SMP8 ||| K.ADC_SMPR1_SMP7
        ||| K.ADC_SMPR1_SMP6 ||| K.ADC_SMPR1_SMP5 ||| K.ADC_SMPR1_SMP4
        ||| K.ADC_SMPR1_SMP3 ||| K.ADC_SMPR1_SMP2 ||| K.ADC_SMPR1_SMP1, 0),
    (Reg.SMPR2,
      K.ADC_SMPR2_SMP18 ||| K.ADC_SMPR2_SMP17
        ||| K.ADC_SMPR2_SMP16 ||| K.ADC_SMPR2_SMP15 ||| K.ADC_SMPR2_SMP14
        ||| K.ADC_SMPR2_SMP13 ||| K.ADC_SMPR2_SMP12 ||| K.ADC_SMPR2_SMP11
        ||| K.ADC_SMPR2_SMP10, 0),
    (Reg.TR1, K.ADC_TR1_AWDFILT ||| K.ADC_TR1_HT1 ||| K.ADC_TR1_LT1, K.ADC_TR1_HT1),
    (Reg.TR2, K.ADC_TR2_HT2 ||| K.ADC_TR2_LT2, K.ADC_TR2_HT2),
    (Reg.TR3, K.ADC_TR3_HT3 ||| K.ADC_TR3_LT3, K.ADC_TR3_HT3),
    (Reg.SQR1,
      K.ADC_SQR1_SQ4 ||| K.ADC_SQR1_SQ3 ||| K.ADC_SQR1_SQ2 ||| K.ADC_SQR1_SQ1
        ||| K.ADC_SQR1_L, 0),
    (Reg.SQR2,
      K.ADC_SQR2_SQ9 ||| K.ADC_SQR2_SQ8 ||| K.ADC_SQR2_SQ7 ||| K.ADC_SQR2_SQ6
        ||| K.ADC_SQR2_SQ5, 0),
    (Reg.SQR3,
      K.ADC_SQR3_SQ14 ||| K.ADC_SQR3_SQ13 ||| K.ADC_SQR3_SQ12 ||| K.ADC_SQR3_SQ11
        ||| K.ADC_SQR3_SQ10, 0),
    (Reg.SQR4, K.ADC_SQR4_SQ16 ||| K.ADC_SQR4_SQ15, 0),
    (Reg.JSQR,
      K.ADC_JSQR_JL ||| K.ADC_JSQR_JEXTSEL ||| K.ADC_JSQR_JEXTEN
        ||| K.ADC_JSQR_JSQ4 ||| K.ADC_JSQR_JSQ3 ||| K.ADC_JSQR_JSQ2 ||| K.ADC_JSQR_JSQ1, 0),
    (Reg.OFR1,
      K.ADC_OFR1_OFFSET1 ||| K.ADC_OFR1_OFFSET1_CH ||| K.ADC_OFR1_SATEN
        ||| K.ADC_OFR1_OFFSETPOS ||| K.ADC_OFR1_OFFSET1_EN, 0),
    (Reg.OFR1,
      K.ADC_OFR1_OFFSET1_EN ||| K.ADC_OFR1_OFFSET1_CH ||| K.ADC_OFR1_OFFSET1
        ||| K.ADC_OFR1_SATEN ||| K.ADC_OFR1_OFFSETPOS, 0),
    (Reg.OFR2,
      K.ADC_OFR2_OFFSET2_EN ||| K.ADC_OFR2_OFFSET2_CH ||| K.ADC_OFR2_OFFSET2
        ||| K.ADC_OFR2_SATEN ||| K.ADC_OFR2_OFFSETPOS, 0),
    (Reg.OFR3,
      K.ADC_OFR3_OFFSET3_EN ||| K.ADC_OFR3_OFFSET3_CH ||| K.ADC_OFR3_OFFSET3
        ||| K.ADC_OFR3_SATEN ||| K.ADC_OFR3_OFFSETPOS, 0),
    (Reg.OFR4,
      K.ADC_OFR4_OFFSET4_EN ||| K.ADC_OFR4_OFFSET4_CH ||| K.ADC_OFR4_OFFSET4
        ||| K.ADC_OFR4_SATEN ||| K.ADC_OFR4_OFFSETPOS, 0),
    (Reg.AWD2CR, K.ADC_AWD2CR_AWD2CH, 0),
    (Reg.AWD3CR, K.ADC_AWD3CR_AWD3CH, 0),
    (Reg.DIFSEL, K.ADC_DIFSEL_DIFSEL, 0),
    (Reg.CALFACT, K.ADC_CALFACT_CALFACT_D ||| K.ADC_CALFACT_CALFACT_S, 0)]

/-- The value of register `q` after the read-modify-writes `ops`, started at `x`, when only the
writes change `q`: each statement on `q` stores `(x & ~clear) | set`. -/
def modifyAll (K : Header) (q : Reg) (ops : List (Reg × Nat × Nat)) (x : Nat) : Nat :=
  ops.foldl
    (fun x op => if op.1 = q then store K q x ((x &&& NOT32 op.2.1) ||| op.2.2) else x) x

/-- The bits of register `r` that the register-reset block of `LL_ADC_DeInit` clears: the union
of the clear masks of its statements on `r`. -/
def LL_ADC_DeInit_clearMask (K : Header) (r : Reg) : Nat :=
  ((LL_ADC_DeInit_resetOps K).filter (fun op => decide (op.1 = r))).foldl
    (fun acc op => acc ||| op.2.1) 0

/-- The bits of register `r` that the register-reset block of `LL_ADC_DeInit` sets: the union of
the set masks of its statements on `r`. -/
def LL_ADC_DeInit_setMask (K : Header) (r : Reg) : Nat :=
  ((LL_ADC_DeInit_resetOps K).filter (fun op => decide (op.1 = r))).foldl
    (fun acc op => acc ||| op.2.2) 0

/-! ## The peripheral seen from the configuration fields -/

/-- The part of the register file that the peripheral never moves by itself: every register
except the read-set bits of CR (the handshake bits) and the flags of ISR. -/
def settled (K : Header) (regs : ADC_TypeDef) : ADC_TypeDef :=
  fun r =>
    match r with
    | Reg.CR => regs Reg.CR &&& NOT32 (ADC_CR_BITS_PROPERTY_RS K)
    | Reg.ISR => 0
    | r => regs r

/-- A peripheral that moves only the read-set bits of CR and the flags of ISR: it acknowledges
requests and raises flags, and never changes a configuration field. -/
def HandshakeOnly (K : Header) (hw : Hardware) : Prop :=
  ∀ t regs, settled K (hw t regs) = settled K regs

/-- A peripheral that answers every request at once: `acknowledge` before every bus access. -/
def prompt (K : Header) : Hardware := fun _ regs => acknowledge K regs

/-- Modelled from the spec: `LL_ADC_Enable` of the LL header (not under src/): requests the
enable by setting ADEN, writing 0 to the other read-set bits. -/
def LL_ADC_Enable (K : Header) (hw : Hardware) (m : Machine) : Machine :=
  MODIFY_REG K hw Reg.CR (ADC_CR_BITS_PROPERTY_RS K) K.ADC_CR_ADEN m

/-! ## What the theorems on `LL_ADC_DeInit` assume of the header -/

/-- Header facts used for the disable sequence of `LL_ADC_DeInit`: the software-start
enumerators lie in their trigger fields, the queue mode written is the bit JQM, and the fields
written are 32-bit masks. -/
structure DisableLayout (K : Header) : Prop where
  reg_trig : K.LL_ADC_REG_TRIG_SOFTWARE &&& (K.ADC_CFGR_EXTEN ||| K.ADC_CFGR_EXTSEL)
    = K.LL_ADC_REG_TRIG_SOFTWARE
  inj_trig : K.LL_ADC_INJ_TRIG_SOFTWARE &&& (K.ADC_JSQR_JEXTSEL ||| K.ADC_JSQR_JEXTEN)
    = K.LL_ADC_INJ_TRIG_SOFTWARE
  queue : K.LL_ADC_INJ_QUEUE_2CONTEXTS_END_EMPTY = K.ADC_CFGR_JQM
  words : ∀ f ∈ [K.ADC_CFGR_EXTEN ||| K.ADC_CFGR_EXTSEL, K.ADC_JSQR_JEXTSEL ||| K.ADC_JSQR_JEXTEN,
      K.ADC_CFGR_JQM ||| K.ADC_CFGR_JQDIS, ADC_CR_BITS_PROPERTY_RS K],
    f < 4294967296

/-- Header facts used for the register-reset block of `LL_ADC_DeInit`: the bits of CR that
the block writes are not read-set bits, the bits it sets are 32-bit masks, in CR and CFGR the
bits it sets are not among those it clears, and in TR1, TR2, TR3 the high threshold is disjoint
from the other fields. -/
structure ResetLayout (K : Header) : Prop where
  cr_rs : (K.ADC_CR_ADVREGEN ||| K.ADC_CR_ADCALDIF ||| K.ADC_CR_DEEPPWD)
    &&& ADC_CR_BITS_PROPERTY_RS K = 0
  cr_set : (K.ADC_CR_ADVREGEN ||| K.ADC_CR_ADCALDIF) &&& K.ADC_CR_DEEPPWD = 0
  cfgr_set : LL_ADC_DeInit_clearMask K Reg.CFGR &&& K.ADC_CFGR_JQDIS = 0
  tr1 : (K.ADC_TR1_AWDFILT ||| K.ADC_TR1_LT1) &&& K.ADC_TR1_HT1 = 0
  tr2 : K.ADC_TR2_LT2 &&& K.ADC_TR2_HT2 = 0
  tr3 : K.ADC_TR3_LT3 &&& K.ADC_TR3_HT3 = 0
  words : ∀ f ∈ [K.ADC_CR_ADVREGEN ||| K.ADC_CR_ADCALDIF, K.ADC_CR_DEEPPWD, K.ADC_CFGR_JQDIS,
      K.ADC_TR1_HT1, K.ADC_TR2_HT2, K.ADC_TR3_HT3],
    f < 4294967296

/-- Header facts on the handshake bits of CR: each of the six bits tested by `LL_ADC_DeInit`
is a non-zero 32-bit mask, and the six are pairwise disjoint. -/
structure HandshakeLayout (K : Header) : Prop where
  nonzero : ∀ b ∈ [K.ADC_CR_ADEN, K.ADC_CR_ADDIS, K.ADC_CR_ADSTART, K.ADC_CR_JADSTART,
      K.ADC_CR_ADSTP, K.ADC_CR_JADSTP], b ≠ 0
  disjoint : List.Pairwise (fun a b => a &&& b = 0)
    [K.ADC_CR_ADEN, K.ADC_CR_ADDIS, K.ADC_CR_ADSTART, K.ADC_CR_JADSTART, K.ADC_CR_ADSTP,
      K.ADC_CR_JADSTP]
  word : ADC_CR_BITS_PROPERTY_RS K < 4294967296

/-! ## De-initialisation of the common instance (lines 283-298) -/

/-- Constants of the bus header (not part of the sources) used by `LL_ADC_CommonDeInit`. -/
structure BusHeader where
  LL_AHB2_GRP1_PERIPH_ADC1 : Nat
  LL_AHB2_GRP1_PERIPH_ADC2 : Nat

/-- One call to the reset controller. -/
inductive ResetCall where
  | force (Periphs : Nat)
  | release (Periphs : Nat)
deriving DecidableEq, Repr

/-- The reset controller as seen by the driver: the AHB2 peripherals held in reset (a bit mask)
and the calls made so far. -/
structure ResetControl where
  held : Nat
  calls : List ResetCall
deriving DecidableEq, Repr

/-- Modelled from the spec: `LL_AHB2_GRP1_ForceReset` of the bus header (not under src/), the
`forceReset(domain)` of the reset-control collaborator (spec 6): the peripherals of the mask are
held in reset. -/
def LL_AHB2_GRP1_ForceReset (Periphs : Nat) (rcc : ResetControl) : ResetControl :=
  { held := (rcc.held ||| Periphs) % 4294967296,
    calls := rcc.calls ++ [ResetCall.force Periphs] }

/-- Modelled from the spec: `LL_AHB2_GRP1_ReleaseReset` of the bus header (not under src/), the
`releaseReset(domain)` of the reset-control collaborator (spec 6): the peripherals of the mask
are released from reset. -/
def LL_AHB2_GRP1_ReleaseReset (Periphs : Nat) (rcc : ResetControl) : ResetControl :=
  { held := (rcc.held &&& NOT32 Periphs) % 4294967296,
    calls := rcc.calls ++ [ResetCall.release Periphs] }

/-- The function `LL_ADC_CommonDeInit` (lines 283-298). The argument `pADCxy_COMMON` is only
checked by `assert_param`. -/
def LL_ADC_CommonDeInit (B : BusHeader) (pADCxy_COMMON : CommonInstance)
    (rcc : ResetControl) : ErrorStatus × ResetControl :=
  let rcc := LL_AHB2_GRP1_ForceReset B.LL_AHB2_GRP1_PERIPH_ADC1 rcc
  let rcc := LL_AHB2_GRP1_ForceReset B.LL_AHB2_GRP1_PERIPH_ADC2 rcc
  let rcc := LL_AHB2_GRP1_ReleaseReset B.LL_AHB2_GRP1_PERIPH_ADC1 rcc
  let rcc := LL_AHB2_GRP1_ReleaseReset B.LL_AHB2_GRP1_PERIPH_ADC2 rcc
  (ErrorStatus.SUCCESS, rcc)

/-! ## Default values of the regular-group structure (lines 839-850) -/

/-- The function `LL_ADC_REG_StructInit` (lines 839-850): the five assignments of the source,
in order. The field `DataTransferMode` is not assigned. -/
def LL_ADC_REG_StructInit (K : Header) (pADC_REG_InitStruct : LL_ADC_REG_InitTypeDef) :
    LL_ADC_REG_InitTypeDef :=
  let s := { pADC_REG_InitStruct with TriggerSource := K.LL_ADC_REG_TRIG_SOFTWARE }
  let s := { s with SequencerLength := K.LL_ADC_REG_SEQ_SCAN_DISABLE }
  let s := { s with SequencerDiscont := K.LL_ADC_REG_SEQ_DISCONT_DISABLE }
  let s := { s with ContinuousMode := K.LL_ADC_REG_CONV_SINGLE }
  { s with Overrun := K.LL_ADC_REG_OVR_DATA_OVERWRITTEN }

/-! ## More concrete register files -/

/-- Register file of an enabled instance with no conversion on going: CR holds ADEN (bit 0),
the other registers are zero. -/
def enabledRegs : ADC_TypeDef := fun r => if r = Reg.CR then 1 else 0

/-! ## The stop requests of `LL_ADC_DeInit` as bus accesses -/

/-- The bus accesses of one stop request of `LL_ADC_DeInit` (lines 401-408 for the regular
group, lines 416-423 for the injected group) that follow the read of the conversion-on-going
bit, given the words read from CR: `c1` by the test of the bit `start`, `c2` by the test of the
bit `stop`, `c3` by the read-modify-write that requests the stop. -/
def LL_ADC_DeInit_stopAccesses (K : Header) (start stop c1 c2 c3 : Nat) : List Access :=
  if c1 &&& start = start then
    Access.rd Reg.CR c2 ::
      (if c2 &&& stop = stop then []
      else [Access.rd Reg.CR c3,
        Access.wr Reg.CR
          (((c3 &&& NOT32 (ADC_CR_BITS_PROPERTY_RS K)) ||| stop) % 4294967296)])
  else []

/-! ## Peripherals that acknowledge requests -/

/-- A peripheral that does nothing but acknowledge requests, at a time of its own: before each
bus access it either leaves the registers alone or answers the pending requests
(`acknowledge`). -/
def Acknowledging (K : Header) (hw : Hardware) : Prop :=
  ∀ t regs, hw t regs = regs ∨ hw t regs = acknowledge K regs

/-- A peripheral that answers the pending requests before the bus access number `T`. -/
def AcknowledgesAt (K : Header) (hw : Hardware) (T : Nat) : Prop :=
  ∀ regs, hw T regs = acknowledge K regs

/-! ## What the comparison of the initialisation functions assumes of the header -/

/-- Header facts used to compare `LL_ADC_Init`, `LL_ADC_REG_Init` and `LL_ADC_INJ_Init`: the
fields of CFGR of the instance (RES, AUTDLY) are disjoint from those of the regular group and of
the injected group, the fields of the injected group (JDISCEN, JAUTO) are disjoint from those of
the regular group, and the enumerator `LL_ADC_REG_SEQ_DISCONT_DISABLE`, which
`LL_ADC_INJ_Init` writes, is the word 0. -/
structure CommuteLayout (K : Header) : Prop where
  inst : ∀ f ∈ [K.ADC_CFGR_EXTSEL ||| K.ADC_CFGR_EXTEN, K.ADC_CFGR_DISCEN ||| K.ADC_CFGR_DISCNUM,
      K.ADC_CFGR_CONT, K.ADC_CFGR_OVRMOD, K.ADC_CFGR_DMAEN ||| K.ADC_CFGR_DMACFG,
      K.ADC_CFGR_JDISCEN ||| K.ADC_CFGR_JAUTO],
    (K.ADC_CFGR_RES ||| K.ADC_CFGR_AUTDLY) &&& f = 0
  inj : ∀ f ∈ [K.ADC_CFGR_EXTSEL ||| K.ADC_CFGR_EXTEN, K.ADC_CFGR_DISCEN ||| K.ADC_CFGR_DISCNUM,
      K.ADC_CFGR_CONT, K.ADC_CFGR_OVRMOD, K.ADC_CFGR_DMAEN ||| K.ADC_CFGR_DMACFG],
    (K.ADC_CFGR_JDISCEN ||| K.ADC_CFGR_JAUTO) &&& f = 0
  discont_disable : K.LL_ADC_REG_SEQ_DISCONT_DISABLE = 0

/-! ## More concrete register files -/

/-- Register file of a disabled instance whose CFGR holds every bit of EXTSEL and EXTEN (bits 5
to 11): an external trigger on both edges. -/
def externalTriggerRegs : ADC_TypeDef := fun r => if r = Reg.CFGR then 4064 else 0

end MP13

namespace MP2

/-! # STM32MP2 HAL ADC header: states and handle macros

Shallow embedding of the parts of `stm32mp2xx_hal_adc.h` that the theorems use. Words are
32 bits wide and held as `Nat`. -/

/-! ## ADC states (lines 437-471) -/

/-- `HAL_ADC_STATE_RESET` (line 437). -/
def HAL_ADC_STATE_RESET : Nat := 0x00000000

/-- `HAL_ADC_STATE_READY` (line 438). -/
def HAL_ADC_STATE_READY : Nat := 0x00000001

/-- `HAL_ADC_STATE_BUSY_INTERNAL` (line 439). -/
def HAL_ADC_STATE_BUSY_INTERNAL : Nat := 0x00000002

/-- `HAL_ADC_STATE_TIMEOUT` (line 441). -/
def HAL_ADC_STATE_TIMEOUT : Nat := 0x00000004

/-- `HAL_ADC_STATE_ERROR_INTERNAL` (line 444). -/
def HAL_ADC_STATE_ERROR_INTERNAL : Nat := 0x00000010

/-- `HAL_ADC_STATE_ERROR_CONFIG` (line 445). -/
def HAL_ADC_STATE_ERROR_CONFIG : Nat := 0x00000020

/-- `HAL_ADC_STATE_ERROR_DMA` (line 446). -/
def HAL_ADC_STATE_ERROR_DMA : Nat := 0x00000040

/-- `HAL_ADC_STATE_REG_BUSY` (line 449). -/
def HAL_ADC_STATE_REG_BUSY : Nat := 0x00000100

/-- `HAL_ADC_STATE_REG_EOC` (line 453). -/
def HAL_ADC_STATE_REG_EOC : Nat := 0x00000200

/-- `HAL_ADC_STATE_REG_OVR` (line 454). -/
def HAL_ADC_STATE_REG_OVR : Nat := 0x00000400

/-- `HAL_ADC_STATE_REG_EOSMP` (line 455). -/
def HAL_ADC_STATE_REG_EOSMP : Nat := 0x00000800

/-- `HAL_ADC_STATE_INJ_BUSY` (line 459). -/
def HAL_ADC_STATE_INJ_BUSY : Nat := 0x00001000

/-- `HAL_ADC_STATE_INJ_EOC` (line 463). -/
def HAL_ADC_STATE_INJ_EOC : Nat := 0x00002000

/-- `HAL_ADC_STATE_AWD1` (line 466). -/
def HAL_ADC_STATE_AWD1 : Nat := 0x00010000

/-- `HAL_ADC_STATE_AWD2` (line 467). -/
def HAL_ADC_STATE_AWD2 : Nat := 0x00020000

/-- `HAL_ADC_STATE_AWD3` (line 468). -/
def HAL_ADC_STATE_AWD3 : Nat := 0x00040000

/-- `HAL_ADC_STATE_MULTIMODE_SLAVE` (line 471). -/
def HAL_ADC_STATE_MULTIMODE_SLAVE : Nat := 0x00100000

/-! ## The handle (lines 482-506) -/

/-- Registers of the ADC instance that the handle macros access. -/
structure ADC_TypeDef where
  ISR : Nat
  IER : Nat
  CR : Nat
deriving DecidableEq, Repr

/-- The ADC handle `ADC_HandleTypeDef` (lines 482-506): the registers behind `Instance`, the
state bitmap and the error code. -/
structure ADC_HandleTypeDef where
  Instance : ADC_TypeDef
  State : Nat
  ErrorCode : Nat
deriving DecidableEq, Repr

/-! ## Macros -/

/-- Modelled from the spec: the generic macro `MODIFY_REG(REG, CLEARMASK, SETMASK)` of the
device header (not under src/) on a 32-bit variable:
`WRITE_REG((REG), (((READ_REG(REG)) & (~(CLEARMASK))) | (SETMASK)))`. -/
def MODIFY_REG (REG CLEARMASK SETMASK : Nat) : Nat :=
  ((REG &&& MP13.NOT32 CLEARMASK) ||| SETMASK) % 4294967296

/-- The macro `ADC_STATE_CLR_SET` (line 1110): an alias of `MODIFY_REG`, applied to the handle
State, the bit field to clear and the bit field to set. -/
def ADC_STATE_CLR_SET (State clr set : Nat) : Nat := MODIFY_REG State clr set

/-- Modelled from the spec: effect of a write to the register ISR (hardware, not under src/):
a flag is cleared by writing 1, writing 0 has no effect on any bit (note of
`__HAL_ADC_CLEAR_FLAG`, line 1626; spec 4.5). -/
def ISR_write (old v : Nat) : Nat := (old &&& MP13.NOT32 v) % 4294967296

/-- The macro `__HAL_ADC_CLEAR_FLAG` (lines 1627-1628):
`(((__HANDLE__)->Instance->ISR) = (__FLAG__))`, a write of the flag mask to ISR. -/
def __HAL_ADC_CLEAR_FLAG (__HANDLE__ : ADC_HandleTypeDef) (__FLAG__ : Nat) :
    ADC_HandleTypeDef :=
  { __HANDLE__ with
    Instance := { __HANDLE__.Instance with ISR := ISR_write __HANDLE__.Instance.ISR __FLAG__ } }

/-! ## Error codes (lines 547-554) -/

/-- `HAL_ADC_ERROR_NONE` (line 547). -/
def HAL_ADC_ERROR_NONE : Nat := 0x00

/-- `HAL_ADC_ERROR_INTERNAL` (line 548). -/
def HAL_ADC_ERROR_INTERNAL : Nat := 0x01

/-- `HAL_ADC_ERROR_OVR` (line 550). -/
def HAL_ADC_ERROR_OVR : Nat := 0x02

/-- `HAL_ADC_ERROR_DMA` (line 551). -/
def HAL_ADC_ERROR_DMA : Nat := 0x04

/-- `HAL_ADC_ERROR_INVALID_CALLBACK` (line 553), defined when
`USE_HAL_ADC_REGISTER_CALLBACKS == 1`. -/
def HAL_ADC_ERROR_INVALID_CALLBACK : Nat := 0x10

/-! ## Constants of the device header and of the LL header -/

/-- Bit masks and enumerators that `stm32mp2xx_hal_adc.h` takes from the device header and from
the LL header (not part of the sources). -/
structure Header where
  ADC_CR_ADEN : Nat
  ADC_CR_ADDIS : Nat
  ADC_CR_ADSTART : Nat
  ADC_CR_JADSTART : Nat
  ADC_CR_ADSTP : Nat
  ADC_CR_JADSTP : Nat
  ADC_CR_ADCAL : Nat
  ADC_ISR_ADRDY : Nat
  ADC_ISR_OVR : Nat
  ADC_IER_OVRIE : Nat
  ADC_CFGR1_DMNGT_0 : Nat
  ADC_CFGR1_DMNGT_1 : Nat
  LL_ADC_REG_OVR_DATA_PRESERVED : Nat
  LL_ADC_REG_OVR_DATA_OVERWRITTEN : Nat

/-- `ADC_OVR_DATA_PRESERVED` (line 769). -/
def ADC_OVR_DATA_PRESERVED (K : Header) : Nat := K.LL_ADC_REG_OVR_DATA_PRESERVED

/-- `ADC_OVR_DATA_OVERWRITTEN` (line 770). -/
def ADC_OVR_DATA_OVERWRITTEN (K : Header) : Nat := K.LL_ADC_REG_OVR_DATA_OVERWRITTEN

/-- `ADC_CONVERSIONDATA_DR` (line 850). -/
def ADC_CONVERSIONDATA_DR : Nat := 0x00000000

/-- `ADC_CONVERSIONDATA_MDF` (line 851). -/
def ADC_CONVERSIONDATA_MDF (K : Header) : Nat := K.ADC_CFGR1_DMNGT_1

/-- `ADC_CONVERSIONDATA_DMA_ONESHOT` (line 852). -/
def ADC_CONVERSIONDATA_DMA_ONESHOT (K : Header) : Nat := K.ADC_CFGR1_DMNGT_0

/-- `ADC_CONVERSIONDATA_DMA_CIRCULAR` (line 853). -/
def ADC_CONVERSIONDATA_DMA_CIRCULAR (K : Header) : Nat :=
  K.ADC_CFGR1_DMNGT_0 ||| K.ADC_CFGR1_DMNGT_1

/-- `ADC_IT_OVR` (line 975). -/
def ADC_IT_OVR (K : Header) : Nat := K.ADC_IER_OVRIE

/-- `ADC_FLAG_RDY` (line 991). -/
def ADC_FLAG_RDY (K : Header) : Nat := K.ADC_ISR_ADRDY

/-- `ADC_FLAG_OVR` (line 995). -/
def ADC_FLAG_OVR (K : Header) : Nat := K.ADC_ISR_OVR

/-- Modelled from the spec: the type `FlagStatus` of the device header (not under src/), the
two values `RESET` and `SET` returned by the condition macros. -/
inductive FlagStatus where
  | RESET
  | SET
deriving DecidableEq, Repr

/-- Modelled from the spec: the generic macro `HAL_IS_BIT_CLR(REG, BIT)` of
`stm32mp2xx_hal_def.h` (not under src/): `(((REG) & (BIT)) == 0U)`. -/
def HAL_IS_BIT_CLR (REG BIT : Nat) : Bool := decide (REG &&& BIT = 0)

/-- Modelled from the spec: the generic macro `SET_BIT(REG, BIT)` of the device header (not
under src/) on a 32-bit variable: `((REG) |= (BIT))`. -/
def SET_BIT (REG BIT : Nat) : Nat := (REG ||| BIT) % 4294967296

/-! ## Handle macros (lines 1037-1092) -/

/-- The macro `ADC_CLEAR_ERRORCODE` (line 1042):
`((__HANDLE__)->ErrorCode = HAL_ADC_ERROR_NONE)`. -/
def ADC_CLEAR_ERRORCODE (__HANDLE__ : ADC_HandleTypeDef) : ADC_HandleTypeDef :=
  { __HANDLE__ with ErrorCode := HAL_ADC_ERROR_NONE }

/-- The macro `__HAL_ADC_ENABLE` (line 1049): `((__HANDLE__)->Instance->CR |= ADC_CR_ADEN)`, a
read of CR followed by the write of the word read with ADEN added. -/
def __HAL_ADC_ENABLE (K : Header) (__HANDLE__ : ADC_HandleTypeDef) : ADC_HandleTypeDef :=
  { __HANDLE__ with
    Instance := { __HANDLE__.Instance with
      CR := (__HANDLE__.Instance.CR ||| K.ADC_CR_ADEN) % 4294967296 } }

/-- The macro `ADC_ENABLING_CONDITIONS` (lines 1056-1061). -/
def ADC_ENABLING_CONDITIONS (K : Header) (__HANDLE__ : ADC_HandleTypeDef) : FlagStatus :=
  if HAL_IS_BIT_CLR __HANDLE__.Instance.CR
      (K.ADC_CR_ADCAL ||| K.ADC_CR_JADSTP ||| K.ADC_CR_ADSTP ||| K.ADC_CR_JADSTART
        ||| K.ADC_CR_ADSTART ||| K.ADC_CR_ADDIS ||| K.ADC_CR_ADEN) = true
  then FlagStatus.SET else FlagStatus.RESET

/-- The macro `ADC_DISABLING_CONDITIONS` (lines 1079-1082). -/
def ADC_DISABLING_CONDITIONS (K : Header) (__HANDLE__ : ADC_HandleTypeDef) : FlagStatus :=
  if __HANDLE__.Instance.CR &&& (K.ADC_CR_JADSTART ||| K.ADC_CR_ADSTART ||| K.ADC_CR_ADEN)
      = K.ADC_CR_ADEN
  then FlagStatus.SET else FlagStatus.RESET

/-- The macro `ADC_IS_ENABLE` (lines 1089-1092). -/
def ADC_IS_ENABLE (K : Header) (__HANDLE__ : ADC_HandleTypeDef) : FlagStatus :=
  if __HANDLE__.Instance.CR &&& (K.ADC_CR_ADEN ||| K.ADC_CR_ADDIS) = K.ADC_CR_ADEN
      ∧ __HANDLE__.Instance.ISR &&& ADC_FLAG_RDY K = ADC_FLAG_RDY K
  then FlagStatus.SET else FlagStatus.RESET

/-! ## Interrupt and flag macros (lines 1547-1607) -/

/-- The macro `__HAL_ADC_ENABLE_IT` (lines 1547-1548):
`(((__HANDLE__)->Instance->IER) |= (__INTERRUPT__))`. -/
def __HAL_ADC_ENABLE_IT (__HANDLE__ : ADC_HandleTypeDef) (__INTERRUPT__ : Nat) :
    ADC_HandleTypeDef :=
  { __HANDLE__ with
    Instance := { __HANDLE__.Instance with
      IER := (__HANDLE__.Instance.IER ||| __INTERRUPT__) % 4294967296 } }

/-- The macro `__HAL_ADC_DISABLE_IT` (lines 1567-1568):
`(((__HANDLE__)->Instance->IER) &= ~(__INTERRUPT__))`. -/
def __HAL_ADC_DISABLE_IT (__HANDLE__ : ADC_HandleTypeDef) (__INTERRUPT__ : Nat) :
    ADC_HandleTypeDef :=
  { __HANDLE__ with
    Instance := { __HANDLE__.Instance with
      IER := (__HANDLE__.Instance.IER &&& MP13.NOT32 __INTERRUPT__) % 4294967296 } }

/-- The macro `__HAL_ADC_GET_IT_SOURCE` (lines 1586-1587):
`(((__HANDLE__)->Instance->IER & (__INTERRUPT__)) == (__INTERRUPT__))`. -/
def __HAL_ADC_GET_IT_SOURCE (__HANDLE__ : ADC_HandleTypeDef) (__INTERRUPT__ : Nat) : Bool :=
  decide (__HANDLE__.Instance.IER &&& __INTERRUPT__ = __INTERRUPT__)

/-- The macro `__HAL_ADC_GET_FLAG` (lines 1606-1607):
`((((__HANDLE__)->Instance->ISR) & (__FLAG__)) == (__FLAG__))`. -/
def __HAL_ADC_GET_FLAG (__HANDLE__ : ADC_HandleTypeDef) (__FLAG__ : Nat) : Bool :=
  decide (__HANDLE__.Instance.ISR &&& __FLAG__ = __FLAG__)

/-! ## What the theorems assume of the header -/

/-- Header facts on the handshake bits of CR used by the condition macros: ADEN is a non-zero
mask, disjoint from ADDIS, ADSTART and JADSTART. -/
structure EnableLayout (K : Header) : Prop where
  aden : K.ADC_CR_ADEN ≠ 0
  aden_addis : K.ADC_CR_ADEN &&& K.ADC_CR_ADDIS = 0
  aden_adstart : K.ADC_CR_ADEN &&& K.ADC_CR_ADSTART = 0
  aden_jadstart : K.ADC_CR_ADEN &&& K.ADC_CR_JADSTART = 0

/-- An instance of the header, used to evaluate the macros on concrete words: the handshake
bits of CR at bits 0 to 5 and 31, the ready and overrun flags at bits 0 and 4 of ISR and IER,
the data management field at bits 0 and 1, and the overrun mode at bit 12. -/
def header0 : Header where
  ADC_CR_ADEN := 0x00000001
  ADC_CR_ADDIS := 0x00000002
  ADC_CR_ADSTART := 0x00000004
  ADC_CR_JADSTART := 0x00000008
  ADC_CR_ADSTP := 0x00000010
  ADC_CR_JADSTP := 0x00000020
  ADC_CR_ADCAL := 0x80000000
  ADC_ISR_ADRDY := 0x00000001
  ADC_ISR_OVR := 0x00000010
  ADC_IER_OVRIE := 0x00000010
  ADC_CFGR1_DMNGT_0 := 0x00000001
  ADC_CFGR1_DMNGT_1 := 0x00000002
  LL_ADC_REG_OVR_DATA_PRESERVED := 0x00000000
  LL_ADC_REG_OVR_DATA_OVERWRITTEN := 0x00001000

/-! ## The overrun event in the interrupt dispatcher -/

/-- The fields of `ADC_InitTypeDef` (lines 207-232) that the handling of an overrun reads. -/
structure ADC_InitTypeDef where
  ConversionDataManagement : Nat
  Overrun : Nat
deriving DecidableEq, Repr

/-- Notifications made by the interrupt dispatcher (callbacks declared at lines 2080-2083). -/
inductive Callback where
  | HAL_ADC_ConvCpltCallback
  | HAL_ADC_ConvHalfCpltCallback
  | HAL_ADC_LevelOutOfWindowCallback
  | HAL_ADC_ErrorCallback
deriving DecidableEq, Repr

/-- Modelled from the spec: the handling of the overrun event by `HAL_ADC_IRQHandler` (declared
at line 2079; its body is not under src/). Spec 4.5: for the overrun flag, when set and its
interrupt enabled, the dispatcher updates the State bit `HAL_ADC_STATE_REG_OVR`, invokes the error
notification and clears the hardware flag by writing 1. The error (error code
`HAL_ADC_ERROR_OVR` and error callback) is reported when the conversion data is managed by DMA,
whatever the overrun setting, and otherwise only under the setting data preserved (spec 4.5 and
note of the field `Overrun`, lines 226-232); under data overwritten the overrun is only
reflected in the State bit. `Init` stands for the field `Init` of the handle, which the
dispatcher only reads. The result is the handle and the notifications made, in order. -/
def HAL_ADC_IRQHandler_overrun (K : Header) (Init : ADC_InitTypeDef)
    (hadc : ADC_HandleTypeDef) : ADC_HandleTypeDef × List Callback :=
  let tmp_isr := hadc.Instance.ISR
  let tmp_ier := hadc.Instance.IER
  if tmp_isr &&& ADC_FLAG_OVR K = ADC_FLAG_OVR K ∧ tmp_ier &&& ADC_IT_OVR K = ADC_IT_OVR K then
    let hadc := { hadc with State := SET_BIT hadc.State HAL_ADC_STATE_REG_OVR }
    let r : ADC_HandleTypeDef × List Callback :=
      if Init.ConversionDataManagement = ADC_CONVERSIONDATA_DMA_ONESHOT K
          ∨ Init.ConversionDataManagement = ADC_CONVERSIONDATA_DMA_CIRCULAR K
          ∨ Init.Overrun = ADC_OVR_DATA_PRESERVED K then
        ({ hadc with ErrorCode := SET_BIT hadc.ErrorCode HAL_ADC_ERROR_OVR },
          [Callback.HAL_ADC_ErrorCallback])
      else (hadc, [])
    (__HAL_ADC_CLEAR_FLAG r.1 (ADC_FLAG_OVR K), r.2)
  else (hadc, [])

end MP2

namespace MP13

/-! ## Bit-level lemmas -/

theorem testBit_NOT32 (x i : Nat) :
    (NOT32 x).testBit i = (decide (i < 32) && !x.testBit i) := by
  unfold NOT32
  rw [Nat.testBit_xor]
  have h1 : (4294967295 : Nat) = 2 ^ 32 - 1 := by norm_num
  have h2 : (4294967296 : Nat) = 2 ^ 32 := by norm_num
  rw [h1, h2, Nat.testBit_two_pow_sub_one, Nat.testBit_mod_two_pow]
  by_cases h : i < 32 <;> simp [h]

theorem testBit_mod_word (x i : Nat) :
    (x % 4294967296).testBit i = (decide (i < 32) && x.testBit i) := by
  have h2 : (4294967296 : Nat) = 2 ^ 32 := by norm_num
  rw [h2, Nat.testBit_mod_two_pow]

theorem testBit_of_and_eq_self {a b : Nat} (h : a &&& b = a) (i : Nat) :
    a.testBit i = true → b.testBit i = true := by
  intro ha
  have := congrArg (fun x => Nat.testBit x i) h
  simp only [Nat.testBit_and] at this
  rw [ha] at this
  simpa using this

theorem testBit_of_and_eq_zero {a b : Nat} (h : a &&& b = 0) (i : Nat) :
    a.testBit i = true → b.testBit i = false := by
  intro ha
  have := congrArg (fun x => Nat.testBit x i) h
  simp only [Nat.testBit_and, Nat.zero_testBit] at this
  rw [ha] at this
  simpa using this

theorem testBit_of_lt_word {f : Nat} (h : f < 4294967296) (i : Nat) :
    f.testBit i = true → i < 32 := by
  intro hf
  by_contra hi
  have h32 : 32 ≤ i := Nat.le_of_not_lt hi
  have : f < 2 ^ i :=
    Nat.lt_of_lt_of_le h (by
      have : (4294967296 : Nat) = 2 ^ 32 := by norm_num
      rw [this]; exact Nat.pow_le_pow_right (by norm_num) h32)
  rw [Nat.testBit_lt_two_pow this] at hf
  exact Bool.noConfusion hf

/-- The word written by `MODIFY_REG`, seen on a field inside the clear mask: the field takes the
bits of the set mask. -/
theorem modify_field (c m v f : Nat) (hf : f &&& m = f) (hw : f < 4294967296) :
    (((c &&& NOT32 m) ||| v) % 4294967296) &&& f = v &&& f := by
  apply Nat.eq_of_testBit_eq
  intro i
  have a1 := testBit_of_and_eq_self hf i
  have a2 := testBit_of_lt_word hw i
  simp only [Nat.testBit_and, Nat.testBit_or, testBit_mod_word, testBit_NOT32]
  revert a1 a2
  cases c.testBit i <;> cases m.testBit i <;> cases v.testBit i <;> cases f.testBit i <;>
    by_cases h : i < 32 <;> simp [h]

/-- The word written by `MODIFY_REG`, seen on a 32-bit field disjoint from the clear mask: the
field keeps its bits and takes those of the set mask. -/
theorem modify_frame (c m v f : Nat) (hf : f &&& m = 0) (hw : f < 4294967296) :
    (((c &&& NOT32 m) ||| v) % 4294967296) &&& f = (c ||| v) &&& f := by
  apply Nat.eq_of_testBit_eq
  intro i
  have a1 := testBit_of_and_eq_zero hf i
  have a2 := testBit_of_lt_word hw i
  simp only [Nat.testBit_and, Nat.testBit_or, testBit_mod_word, testBit_NOT32]
  revert a1 a2
  cases c.testBit i <;> cases m.testBit i <;> cases v.testBit i <;> cases f.testBit i <;>
    by_cases h : i < 32 <;> simp [h]

/-- The word written by `MODIFY_REG`, seen outside the clear mask, when the set mask is inside
the clear mask: unchanged. -/
theorem modify_outside (c m v : Nat) (hv : v &&& m = v) :
    (((c &&& NOT32 m) ||| v) % 4294967296) &&& NOT32 m = c &&& NOT32 m := by
  apply Nat.eq_of_testBit_eq
  intro i
  have a1 := testBit_of_and_eq_self hv i
  simp only [Nat.testBit_and, Nat.testBit_or, testBit_mod_word, testBit_NOT32]
  revert a1
  cases c.testBit i <;> cases m.testBit i <;> cases v.testBit i <;>
    by_cases h : i < 32 <;> simp [h]

theorem sub_or_left {a f : Nat} (g : Nat) (h : a &&& f = a) : a &&& (f ||| g) = a := by
  apply Nat.eq_of_testBit_eq
  intro i
  have a1 := testBit_of_and_eq_self h i
  simp only [Nat.testBit_and, Nat.testBit_or]
  revert a1
  cases a.testBit i <;> cases f.testBit i <;> cases g.testBit i <;> simp

theorem sub_or_right {a g : Nat} (f : Nat) (h : a &&& g = a) : a &&& (f ||| g) = a := by
  rw [Nat.lor_comm]
  exact sub_or_left f h

theorem or_sub {a b m : Nat} (ha : a &&& m = a) (hb : b &&& m = b) : (a ||| b) &&& m = a ||| b := by
  apply Nat.eq_of_testBit_eq
  intro i
  have a1 := testBit_of_and_eq_self ha i
  have a2 := testBit_of_and_eq_self hb i
  simp only [Nat.testBit_and, Nat.testBit_or]
  revert a1 a2
  cases a.testBit i <;> cases b.testBit i <;> cases m.testBit i <;> simp

theorem disj_of_sub {a f g : Nat} (ha : a &&& f = a) (hfg : f &&& g = 0) : a &&& g = 0 := by
  apply Nat.eq_of_testBit_eq
  intro i
  have a1 := testBit_of_and_eq_self ha i
  have a2 := testBit_of_and_eq_zero hfg i
  simp only [Nat.testBit_and, Nat.zero_testBit]
  revert a1 a2
  cases a.testBit i <;> cases f.testBit i <;> cases g.testBit i <;> simp

theorem disj_comm {a b : Nat} (h : a &&& b = 0) : b &&& a = 0 := by
  rw [Nat.land_comm]; exact h

theorem disj_or_left {a b c : Nat} (ha : a &&& c = 0) (hb : b &&& c = 0) :
    (a ||| b) &&& c = 0 := by
  apply Nat.eq_of_testBit_eq
  intro i
  have a1 := testBit_of_and_eq_zero ha i
  have a2 := testBit_of_and_eq_zero hb i
  simp only [Nat.testBit_and, Nat.testBit_or, Nat.zero_testBit]
  revert a1 a2
  cases a.testBit i <;> cases b.testBit i <;> cases c.testBit i <;> simp

theorem disj_or_right {a b c : Nat} (hb : a &&& b = 0) (hc : a &&& c = 0) :
    a &&& (b ||| c) = 0 :=
  disj_comm (disj_or_left (disj_comm hb) (disj_comm hc))

theorem disj_left_of_or {a b c : Nat} (h : (a ||| b) &&& c = 0) : a &&& c = 0 := by
  apply Nat.eq_of_testBit_eq
  intro i
  have a1 := congrArg (fun x => Nat.testBit x i) h
  simp only [Nat.testBit_and, Nat.testBit_or, Nat.zero_testBit] at a1 ⊢
  revert a1
  cases a.testBit i <;> cases b.testBit i <;> cases c.testBit i <;> simp

theorem disj_right_of_or {a b c : Nat} (h : (a ||| b) &&& c = 0) : b &&& c = 0 := by
  rw [Nat.lor_comm] at h
  exact disj_left_of_or h

theorem or_and_eq_left {a b f : Nat} (ha : a &&& f = a) (hb : b &&& f = 0) :
    (a ||| b) &&& f = a := by
  apply Nat.eq_of_testBit_eq
  intro i
  have a1 := testBit_of_and_eq_self ha i
  have a2 := testBit_of_and_eq_zero hb i
  simp only [Nat.testBit_and, Nat.testBit_or]
  revert a1 a2
  cases a.testBit i <;> cases b.testBit i <;> cases f.testBit i <;> simp

theorem or_and_eq_right {a b f : Nat} (ha : a &&& f = 0) (hb : b &&& f = b) :
    (a ||| b) &&& f = b := by
  rw [Nat.lor_comm]
  exact or_and_eq_left hb ha

theorem lt_word_of_or_left {a b : Nat} (h : a ||| b < 4294967296) : a < 4294967296 := by
  by_contra hc
  have h2 : (4294967296 : Nat) = 2 ^ 32 := by norm_num
  have hge : a ≥ 2 ^ 32 := by rw [← h2]; exact Nat.le_of_not_lt hc
  obtain ⟨i, hi, hbit⟩ := Nat.ge_two_pow_implies_high_bit_true hge
  have : (a ||| b).testBit i = true := by rw [Nat.testBit_or, hbit]; rfl
  have := testBit_of_lt_word h i this
  omega

theorem lt_word_of_or_right {a b : Nat} (h : a ||| b < 4294967296) : b < 4294967296 := by
  rw [Nat.lor_comm] at h
  exact lt_word_of_or_left h

/-! ## Bus lemmas on a quiet peripheral -/

theorem READ_REG_quiet (r : Reg) (m : Machine) :
    READ_REG quiet r m = (m.regs r, { regs := m.regs, log := m.log ++ [Access.rd r (m.regs r)] }) :=
  rfl

theorem LL_ADC_IsEnabled_quiet (K : Header) (m : Machine) :
    LL_ADC_IsEnabled K quiet m
      = (if m.regs Reg.CR &&& K.ADC_CR_ADEN = K.ADC_CR_ADEN then 1 else 0,
          { regs := m.regs, log := m.log ++ [Access.rd Reg.CR (m.regs Reg.CR)] }) :=
  rfl

theorem MODIFY_REG_quiet (K : Header) (r : Reg) (c s : Nat) (m : Machine) :
    MODIFY_REG K quiet r c s m
      = { regs := Function.update m.regs r (store K r (m.regs r) ((m.regs r &&& NOT32 c) ||| s)),
          log := m.log ++ [Access.rd r (m.regs r)]
            ++ [Access.wr r (((m.regs r &&& NOT32 c) ||| s) % 4294967296)] } :=
  rfl

/-! ## The concrete header satisfies the layout assumptions -/

theorem stm32mp13_InstanceLayout : InstanceLayout stm32mp13 where
  res := by decide
  lowpower := by decide
  res_autdly := by decide
  word := by decide

theorem stm32mp13_RegularLayout : RegularLayout stm32mp13 where
  trig := by decide
  discont := by decide
  cont := by decide
  dma := by decide
  ovr := by decide
  len := by decide
  fields := by decide
  ranks := by decide
  words := by decide

theorem stm32mp13_InjectedLayout : InjectedLayout stm32mp13 where
  trig := by decide
  len := by decide
  discont := by decide
  auto := by decide
  jdiscen_jauto := by decide
  trig_len := by decide
  ranks := by decide
  words := by decide
  scan_disable := by decide
  reg_discont_disable := by decide

theorem stm32mp13_CommonLayout : CommonLayout stm32mp13 where
  clock := by decide
  word := by decide

/-- C1: on a quiet peripheral, for every register state whose CR has ADEN set and every
`LL_ADC_InitTypeDef`, `LL_ADC_Init` returns ERROR, leaves every register at its value and
makes no access other than the read of CR. -/
theorem C1_LL_ADC_Init_enabled_no_effect (K : Header) (regs : ADC_TypeDef) (log : List Access)
    (s : LL_ADC_InitTypeDef) (hen : regs Reg.CR &&& K.ADC_CR_ADEN = K.ADC_CR_ADEN) :
    LL_ADC_Init K quiet { regs := regs, log := log } s
      = (ErrorStatus.ERROR, { regs := regs, log := log ++ [Access.rd Reg.CR (regs Reg.CR)] }) := by
  simp [LL_ADC_Init, LL_ADC_IsEnabled_quiet, hen]

theorem C1_LL_ADC_Init_enabled_no_effect_witness :
    LL_ADC_Init stm32mp13 quiet { regs := convertingRegs, log := [] }
        { Resolution := 0, LowPowerMode := 0 }
      = (ErrorStatus.ERROR,
          { regs := convertingRegs, log := [] ++ [Access.rd Reg.CR (convertingRegs Reg.CR)] }) :=
  C1_LL_ADC_Init_enabled_no_effect stm32mp13 convertingRegs []
    { Resolution := 0, LowPowerMode := 0 } (by decide)

/-- C5: on a quiet peripheral, for every disabled instance and every valid resolution and
low-power mode, `LL_ADC_Init` returns SUCCESS, makes a single write, to CFGR, after which the
RES field equals `Resolution` and the AUTDLY field equals `LowPowerMode`; the bits of CFGR
outside RES and AUTDLY and all other registers are unchanged. -/
theorem C5_LL_ADC_Init_disabled (K : Header) (L : InstanceLayout K) (regs : ADC_TypeDef)
    (log : List Access) (s : LL_ADC_InitTypeDef)
    (hdis : regs Reg.CR &&& K.ADC_CR_ADEN ≠ K.ADC_CR_ADEN) (hs : LL_ADC_Init_params K s) :
    (LL_ADC_Init K quiet { regs := regs, log := log } s).1 = ErrorStatus.SUCCESS
    ∧ (LL_ADC_Init K quiet { regs := regs, log := log } s).2.log
        = log ++ [Access.rd Reg.CR (regs Reg.CR), Access.rd Reg.CFGR (regs Reg.CFGR),
            Access.wr Reg.CFGR ((LL_ADC_Init K quiet { regs := regs, log := log } s).2.regs Reg.CFGR)]
    ∧ (LL_ADC_Init K quiet { regs := regs, log := log } s).2.regs Reg.CFGR &&& K.ADC_CFGR_RES
        = s.Resolution
    ∧ (LL_ADC_Init K quiet { regs := regs, log := log } s).2.regs Reg.CFGR &&& K.ADC_CFGR_AUTDLY
        = s.LowPowerMode
    ∧ (LL_ADC_Init K quiet { regs := regs, log := log } s).2.regs Reg.CFGR
          &&& NOT32 (K.ADC_CFGR_RES ||| K.ADC_CFGR_AUTDLY)
        = regs Reg.CFGR &&& NOT32 (K.ADC_CFGR_RES ||| K.ADC_CFGR_AUTDLY)
    ∧ ∀ r, r ≠ Reg.CFGR →
        (LL_ADC_Init K quiet { regs := regs, log := log } s).2.regs r = regs r := by
  have hres := L.res _ hs.1
  have hlp := L.lowpower _ hs.2
  have hwr := lt_word_of_or_left L.word
  have hwa := lt_word_of_or_right L.word
  have hE : LL_ADC_Init K quiet { regs := regs, log := log } s
      = (ErrorStatus.SUCCESS,
          { regs := Function.update regs Reg.CFGR
              (((regs Reg.CFGR &&& NOT32 (K.ADC_CFGR_RES ||| K.ADC_CFGR_AUTDLY))
                ||| (s.Resolution ||| s.LowPowerMode)) % 4294967296),
            log := log ++ [Access.rd Reg.CR (regs Reg.CR), Access.rd Reg.CFGR (regs Reg.CFGR),
              Access.wr Reg.CFGR
                (((regs Reg.CFGR &&& NOT32 (K.ADC_CFGR_RES ||| K.ADC_CFGR_AUTDLY))
                  ||| (s.Resolution ||| s.LowPowerMode)) % 4294967296)] }) := by
    simp [LL_ADC_Init, LL_ADC_IsEnabled_quiet, hdis, MODIFY_REG_quiet, store]
  rw [hE]
  refine ⟨rfl, ?_, ?_, ?_, ?_, ?_⟩
  · simp
  · simp only [Function.update_same]
    rw [modify_field _ _ _ _ (sub_or_left _ (Nat.and_self _)) hwr]
    exact or_and_eq_left hres (disj_of_sub hlp (disj_comm L.res_autdly))
  · simp only [Function.update_same]
    rw [modify_field _ _ _ _ (sub_or_right _ (Nat.and_self _)) hwa]
    exact or_and_eq_right (disj_of_sub hres L.res_autdly) hlp
  · simp only [Function.update_same]
    exact modify_outside _ _ _ (or_sub (sub_or_left _ hres) (sub_or_right _ hlp))
  · intro r hr
    simp [Function.update_noteq hr]

theorem C5_LL_ADC_Init_disabled_witness :
    zeroRegs Reg.CR &&& stm32mp13.ADC_CR_ADEN ≠ stm32mp13.ADC_CR_ADEN
    ∧ LL_ADC_Init_params stm32mp13 { Resolution := 8, LowPowerMode := 16384 }
    ∧ (LL_ADC_Init stm32mp13 quiet { regs := zeroRegs, log := [] }
        { Resolution := 8, LowPowerMode := 16384 }).1 = ErrorStatus.SUCCESS
    ∧ (LL_ADC_Init stm32mp13 quiet { regs := zeroRegs, log := [] }
        { Resolution := 8, LowPowerMode := 16384 }).2.regs Reg.CFGR &&& stm32mp13.ADC_CFGR_RES
        = 8 :=
  ⟨by decide, ⟨by decide, by decide⟩,
    (C5_LL_ADC_Init_disabled stm32mp13 stm32mp13_InstanceLayout zeroRegs []
      { Resolution := 8, LowPowerMode := 16384 } (by decide) ⟨by decide, by decide⟩).1,
    (C5_LL_ADC_Init_disabled stm32mp13 stm32mp13_InstanceLayout zeroRegs []
      { Resolution := 8, LowPowerMode := 16384 } (by decide) ⟨by decide, by decide⟩).2.2.1⟩

/-- C6: on a quiet peripheral, for every register state whose CR has ADEN set and every
input structure, `LL_ADC_REG_Init` and `LL_ADC_INJ_Init` each return ERROR, leave every
register (CFGR, SQR1 and JSQR among them) at its value and make no access other than the read
of CR. -/
theorem C6_group_Init_enabled_no_effect (K : Header) (regs : ADC_TypeDef) (log : List Access)
    (sreg : LL_ADC_REG_InitTypeDef) (sinj : LL_ADC_INJ_InitTypeDef)
    (hen : regs Reg.CR &&& K.ADC_CR_ADEN = K.ADC_CR_ADEN) :
    LL_ADC_REG_Init K quiet { regs := regs, log := log } sreg
        = (ErrorStatus.ERROR, { regs := regs, log := log ++ [Access.rd Reg.CR (regs Reg.CR)] })
    ∧ LL_ADC_INJ_Init K quiet { regs := regs, log := log } sinj
        = (ErrorStatus.ERROR, { regs := regs, log := log ++ [Access.rd Reg.CR (regs Reg.CR)] }) := by
  constructor
  · simp [LL_ADC_REG_Init, LL_ADC_IsEnabled_quiet, hen]
  · simp [LL_ADC_INJ_Init, LL_ADC_IsEnabled_quiet, hen]

theorem C6_group_Init_enabled_no_effect_witness :
    LL_ADC_REG_Init stm32mp13 quiet { regs := convertingRegs, log := [] }
        { TriggerSource := 0, SequencerLength := 1, SequencerDiscont := 65536,
          ContinuousMode := 8192, DataTransferMode := 1, Overrun := 4096 }
        = (ErrorStatus.ERROR,
            { regs := convertingRegs, log := [] ++ [Access.rd Reg.CR (convertingRegs Reg.CR)] })
    ∧ LL_ADC_INJ_Init stm32mp13 quiet { regs := convertingRegs, log := [] }
        { TriggerSource := 0, SequencerLength := 1, SequencerDiscont := 1048576,
          TrigAuto := 33554432 }
        = (ErrorStatus.ERROR,
            { regs := convertingRegs, log := [] ++ [Access.rd Reg.CR (convertingRegs Reg.CR)] }) :=
  C6_group_Init_enabled_no_effect stm32mp13 convertingRegs []
    { TriggerSource := 0, SequencerLength := 1, SequencerDiscont := 65536,
      ContinuousMode := 8192, DataTransferMode := 1, Overrun := 4096 }
    { TriggerSource := 0, SequencerLength := 1, SequencerDiscont := 1048576,
      TrigAuto := 33554432 } (by decide)

/-! ## `LL_ADC_REG_Init` on a disabled instance -/

/-- The clear mask of the write of `LL_ADC_REG_Init` to CFGR (lines 790-795). -/
theorem regMask_eq (K : Header) :
    K.ADC_CFGR_EXTSEL ||| K.ADC_CFGR_EXTEN ||| K.ADC_CFGR_DISCEN ||| K.ADC_CFGR_DISCNUM
        ||| K.ADC_CFGR_CONT ||| K.ADC_CFGR_OVRMOD
      = (K.ADC_CFGR_EXTSEL ||| K.ADC_CFGR_EXTEN)
        ||| ((K.ADC_CFGR_DISCEN ||| K.ADC_CFGR_DISCNUM)
        ||| (K.ADC_CFGR_CONT ||| K.ADC_CFGR_OVRMOD)) := by
  simp only [Nat.lor_assoc]

/-- Pairwise disjointness of the CFGR fields of the regular group, unfolded. -/
theorem RegularLayout.disj {K : Header} (L : RegularLayout K) :
    ((K.ADC_CFGR_EXTSEL ||| K.ADC_CFGR_EXTEN) &&& (K.ADC_CFGR_DISCEN ||| K.ADC_CFGR_DISCNUM) = 0
      ∧ (K.ADC_CFGR_EXTSEL ||| K.ADC_CFGR_EXTEN) &&& K.ADC_CFGR_CONT = 0
      ∧ (K.ADC_CFGR_EXTSEL ||| K.ADC_CFGR_EXTEN) &&& K.ADC_CFGR_OVRMOD = 0
      ∧ (K.ADC_CFGR_EXTSEL ||| K.ADC_CFGR_EXTEN) &&& (K.ADC_CFGR_DMAEN ||| K.ADC_CFGR_DMACFG) = 0)
    ∧ ((K.ADC_CFGR_DISCEN ||| K.ADC_CFGR_DISCNUM) &&& K.ADC_CFGR_CONT = 0
      ∧ (K.ADC_CFGR_DISCEN ||| K.ADC_CFGR_DISCNUM) &&& K.ADC_CFGR_OVRMOD = 0
      ∧ (K.ADC_CFGR_DISCEN ||| K.ADC_CFGR_DISCNUM) &&& (K.ADC_CFGR_DMAEN ||| K.ADC_CFGR_DMACFG) = 0)
    ∧ (K.ADC_CFGR_CONT &&& K.ADC_CFGR_OVRMOD = 0
      ∧ K.ADC_CFGR_CONT &&& (K.ADC_CFGR_DMAEN ||| K.ADC_CFGR_DMACFG) = 0)
    ∧ K.ADC_CFGR_OVRMOD &&& (K.ADC_CFGR_DMAEN ||| K.ADC_CFGR_DMACFG) = 0 := by
  have h := L.fields
  simp only [List.pairwise_cons, List.mem_cons, List.mem_singleton, forall_eq_or_imp, forall_eq,
    List.not_mem_nil, IsEmpty.forall_iff, implies_true, List.Pairwise.nil, and_true] at h
  obtain ⟨⟨h1, h2, h3, h4⟩, ⟨h5, h6, h7⟩, ⟨h8, h9⟩, h10⟩ := h
  exact ⟨⟨h1, h2, h3, h4⟩, ⟨h5, h6, h7⟩, ⟨h8, h9⟩, h10⟩

/-- Result of `LL_ADC_REG_Init` on a disabled instance and a quiet peripheral. -/
theorem LL_ADC_REG_Init_disabled (K : Header) (regs : ADC_TypeDef) (log : List Access)
    (s : LL_ADC_REG_InitTypeDef) (hdis : regs Reg.CR &&& K.ADC_CR_ADEN ≠ K.ADC_CR_ADEN) :
    LL_ADC_REG_Init K quiet { regs := regs, log := log } s
      = (ErrorStatus.SUCCESS,
          { regs := Function.update
              (Function.update regs Reg.CFGR
                (((regs Reg.CFGR &&& NOT32 (K.ADC_CFGR_EXTSEL ||| K.ADC_CFGR_EXTEN
                    ||| K.ADC_CFGR_DISCEN ||| K.ADC_CFGR_DISCNUM ||| K.ADC_CFGR_CONT
                    ||| K.ADC_CFGR_OVRMOD))
                  ||| (s.TriggerSource ||| regDiscontWritten K s ||| s.ContinuousMode
                    ||| s.DataTransferMode ||| s.Overrun)) % 4294967296))
              Reg.SQR1
              (((regs Reg.SQR1 &&& NOT32 K.ADC_SQR1_L) ||| s.SequencerLength) % 4294967296),
            log := log ++ [Access.rd Reg.CR (regs Reg.CR), Access.rd Reg.CFGR (regs Reg.CFGR),
              Access.wr Reg.CFGR
                (((regs Reg.CFGR &&& NOT32 (K.ADC_CFGR_EXTSEL ||| K.ADC_CFGR_EXTEN
                    ||| K.ADC_CFGR_DISCEN ||| K.ADC_CFGR_DISCNUM ||| K.ADC_CFGR_CONT
                    ||| K.ADC_CFGR_OVRMOD))
                  ||| (s.TriggerSource ||| regDiscontWritten K s ||| s.ContinuousMode
                    ||| s.DataTransferMode ||| s.Overrun)) % 4294967296),
              Access.rd Reg.SQR1 (regs Reg.SQR1),
              Access.wr Reg.SQR1
                (((regs Reg.SQR1 &&& NOT32 K.ADC_SQR1_L) ||| s.SequencerLength)
                  % 4294967296)] }) := by
  by_cases hl : s.SequencerLength = K.LL_ADC_REG_SEQ_SCAN_DISABLE
  · simp [LL_ADC_REG_Init, LL_ADC_IsEnabled_quiet, hdis, MODIFY_REG_quiet, store,
      LL_ADC_REG_SetSequencerLength, regDiscontWritten, hl]
  · simp [LL_ADC_REG_Init, LL_ADC_IsEnabled_quiet, hdis, MODIFY_REG_quiet, store,
      LL_ADC_REG_SetSequencerLength, regDiscontWritten, hl]

/-- CFGR after `LL_ADC_REG_Init` on a disabled instance and a quiet peripheral. -/
theorem LL_ADC_REG_Init_CFGR (K : Header) (regs : ADC_TypeDef) (log : List Access)
    (s : LL_ADC_REG_InitTypeDef) (hdis : regs Reg.CR &&& K.ADC_CR_ADEN ≠ K.ADC_CR_ADEN) :
    (LL_ADC_REG_Init K quiet { regs := regs, log := log } s).2.regs Reg.CFGR
      = ((regs Reg.CFGR &&& NOT32 (K.ADC_CFGR_EXTSEL ||| K.ADC_CFGR_EXTEN
            ||| K.ADC_CFGR_DISCEN ||| K.ADC_CFGR_DISCNUM ||| K.ADC_CFGR_CONT
            ||| K.ADC_CFGR_OVRMOD))
          ||| (s.TriggerSource ||| regDiscontWritten K s ||| s.ContinuousMode
            ||| s.DataTransferMode ||| s.Overrun)) % 4294967296 := by
  rw [LL_ADC_REG_Init_disabled K regs log s hdis]
  simp [Function.update_noteq]

/-- C2: on a quiet peripheral, for every disabled instance and every valid
`LL_ADC_REG_InitTypeDef` whose sequencer length is `LL_ADC_REG_SEQ_SCAN_DISABLE`, after
`LL_ADC_REG_Init` the discontinuous-mode field (DISCEN, DISCNUM) of CFGR equals
`LL_ADC_REG_SEQ_DISCONT_DISABLE`, whatever `SequencerDiscont` and the previous CFGR are. -/
theorem C2_LL_ADC_REG_Init_scan_disabled_discont (K : Header) (L : RegularLayout K)
    (regs : ADC_TypeDef) (log : List Access) (s : LL_ADC_REG_InitTypeDef)
    (hdis : regs Reg.CR &&& K.ADC_CR_ADEN ≠ K.ADC_CR_ADEN)
    (hs : LL_ADC_REG_Init_params K s)
    (hdma : IS_LL_ADC_REG_DMA_TRANSFER K s.DataTransferMode)
    (hlen : s.SequencerLength = K.LL_ADC_REG_SEQ_SCAN_DISABLE) :
    (LL_ADC_REG_Init K quiet { regs := regs, log := log } s).2.regs Reg.CFGR
        &&& (K.ADC_CFGR_DISCEN ||| K.ADC_CFGR_DISCNUM)
      = K.LL_ADC_REG_SEQ_DISCONT_DISABLE := by
  obtain ⟨⟨d1, d2, d3, d4⟩, ⟨d5, d6, d7⟩, -, -⟩ := L.disj
  obtain ⟨ht, -, -, hc, ho⟩ := hs
  have hD : K.LL_ADC_REG_SEQ_DISCONT_DISABLE &&& (K.ADC_CFGR_DISCEN ||| K.ADC_CFGR_DISCNUM)
      = K.LL_ADC_REG_SEQ_DISCONT_DISABLE := L.discont _ (by simp)
  have hw : K.ADC_CFGR_DISCEN ||| K.ADC_CFGR_DISCNUM < 4294967296 := L.words _ (by simp)
  rw [LL_ADC_REG_Init_CFGR K regs log s hdis, regMask_eq,
    modify_field _ _ _ _ (sub_or_right _ (sub_or_left _ (Nat.and_self _))) hw]
  simp only [regDiscontWritten, hlen, ne_eq, not_true_eq_false, if_false, Nat.and_distrib_right]
  rw [disj_of_sub (L.trig _ ht) d1, hD, disj_of_sub (L.cont _ hc) (disj_comm d5),
    disj_of_sub (L.dma _ hdma) (disj_comm d7), disj_of_sub (L.ovr _ ho) (disj_comm d6)]
  simp

theorem C2_LL_ADC_REG_Init_scan_disabled_discont_witness :
    (LL_ADC_REG_Init stm32mp13 quiet { regs := zeroRegs, log := [] }
        { TriggerSource := 0, SequencerLength := 0, SequencerDiscont := 458752,
          ContinuousMode := 8192, DataTransferMode := 1, Overrun := 4096 }).2.regs Reg.CFGR
        &&& (stm32mp13.ADC_CFGR_DISCEN ||| stm32mp13.ADC_CFGR_DISCNUM)
      = stm32mp13.LL_ADC_REG_SEQ_DISCONT_DISABLE :=
  C2_LL_ADC_REG_Init_scan_disabled_discont stm32mp13 stm32mp13_RegularLayout zeroRegs []
    { TriggerSource := 0, SequencerLength := 0, SequencerDiscont := 458752,
      ContinuousMode := 8192, DataTransferMode := 1, Overrun := 4096 }
    (by decide) ⟨by decide, by decide, by decide, by decide, by decide⟩ (by decide) (by decide)

/-- The DMA transfer field of CFGR after `LL_ADC_REG_Init` on a disabled instance: the clear mask
of the write (lines 790-795) has neither DMAEN nor DMACFG, so the field keeps the bits it had and
takes those of `DataTransferMode`. -/
theorem LL_ADC_REG_Init_dma_field (K : Header) (L : RegularLayout K) (regs : ADC_TypeDef)
    (log : List Access) (s : LL_ADC_REG_InitTypeDef)
    (hdis : regs Reg.CR &&& K.ADC_CR_ADEN ≠ K.ADC_CR_ADEN)
    (hs : LL_ADC_REG_Init_params K s)
    (hd : regDiscontWritten K s &&& (K.ADC_CFGR_DISCEN ||| K.ADC_CFGR_DISCNUM)
      = regDiscontWritten K s)
    (hdma : IS_LL_ADC_REG_DMA_TRANSFER K s.DataTransferMode) :
    (LL_ADC_REG_Init K quiet { regs := regs, log := log } s).2.regs Reg.CFGR
        &&& (K.ADC_CFGR_DMAEN ||| K.ADC_CFGR_DMACFG)
      = (regs Reg.CFGR &&& (K.ADC_CFGR_DMAEN ||| K.ADC_CFGR_DMACFG)) ||| s.DataTransferMode := by
  obtain ⟨⟨d1, d2, d3, d4⟩, ⟨d5, d6, d7⟩, ⟨d8, d9⟩, d10⟩ := L.disj
  obtain ⟨ht, -, -, hc, ho⟩ := hs
  have hw : K.ADC_CFGR_DMAEN ||| K.ADC_CFGR_DMACFG < 4294967296 := L.words _ (by simp)
  rw [LL_ADC_REG_Init_CFGR K regs log s hdis, regMask_eq,
    modify_frame _ _ _ _ (disj_or_right (disj_comm d4)
      (disj_or_right (disj_comm d7) (disj_or_right (disj_comm d9) (disj_comm d10)))) hw]
  simp only [Nat.and_distrib_right]
  rw [disj_of_sub (L.trig _ ht) d4, disj_of_sub hd d7, disj_of_sub (L.cont _ hc) d9,
    L.dma _ hdma, disj_of_sub (L.ovr _ ho) d10]
  simp

/-- C4: `LL_ADC_REG_Init` evaluated on a disabled instance whose CFGR holds DMA transfer
unlimited (DMAEN and DMACFG set), with `DataTransferMode = LL_ADC_REG_DMA_TRANSFER_NONE`: it
returns SUCCESS and the DMA transfer field of CFGR still holds
`LL_ADC_REG_DMA_TRANSFER_UNLIMITED`, not `DataTransferMode`. -/
theorem C4_LL_ADC_REG_Init_dma_field_not_written :
    (LL_ADC_REG_Init stm32mp13 quiet { regs := dmaUnlimitedRegs, log := [] }
        { TriggerSource := stm32mp13.LL_ADC_REG_TRIG_SOFTWARE,
          SequencerLength := stm32mp13.LL_ADC_REG_SEQ_SCAN_DISABLE,
          SequencerDiscont := stm32mp13.LL_ADC_REG_SEQ_DISCONT_DISABLE,
          ContinuousMode := stm32mp13.LL_ADC_REG_CONV_SINGLE,
          DataTransferMode := stm32mp13.LL_ADC_REG_DMA_TRANSFER_NONE,
          Overrun := stm32mp13.LL_ADC_REG_OVR_DATA_OVERWRITTEN }).1 = ErrorStatus.SUCCESS
    ∧ (LL_ADC_REG_Init stm32mp13 quiet { regs := dmaUnlimitedRegs, log := [] }
        { TriggerSource := stm32mp13.LL_ADC_REG_TRIG_SOFTWARE,
          SequencerLength := stm32mp13.LL_ADC_REG_SEQ_SCAN_DISABLE,
          SequencerDiscont := stm32mp13.LL_ADC_REG_SEQ_DISCONT_DISABLE,
          ContinuousMode := stm32mp13.LL_ADC_REG_CONV_SINGLE,
          DataTransferMode := stm32mp13.LL_ADC_REG_DMA_TRANSFER_NONE,
          Overrun := stm32mp13.LL_ADC_REG_OVR_DATA_OVERWRITTEN }).2.regs Reg.CFGR
        &&& (stm32mp13.ADC_CFGR_DMAEN ||| stm32mp13.ADC_CFGR_DMACFG)
      = stm32mp13.LL_ADC_REG_DMA_TRANSFER_UNLIMITED
    ∧ stm32mp13.LL_ADC_REG_DMA_TRANSFER_UNLIMITED ≠ stm32mp13.LL_ADC_REG_DMA_TRANSFER_NONE := by
  decide

/-! ## `LL_ADC_INJ_Init` on a disabled instance -/

/-- Result of `LL_ADC_INJ_Init` on a disabled instance and a quiet peripheral. -/
theorem LL_ADC_INJ_Init_disabled (K : Header) (regs : ADC_TypeDef) (log : List Access)
    (s : LL_ADC_INJ_InitTypeDef) (hdis : regs Reg.CR &&& K.ADC_CR_ADEN ≠ K.ADC_CR_ADEN) :
    LL_ADC_INJ_Init K quiet { regs := regs, log := log } s
      = (ErrorStatus.SUCCESS,
          { regs := Function.update
              (Function.update regs Reg.CFGR
                (((regs Reg.CFGR &&& NOT32 (K.ADC_CFGR_JDISCEN ||| K.ADC_CFGR_JAUTO))
                  ||| (injDiscontWritten K s ||| s.TrigAuto)) % 4294967296))
              Reg.JSQR
              (((regs Reg.JSQR
                    &&& NOT32 (K.ADC_JSQR_JEXTSEL ||| K.ADC_JSQR_JEXTEN ||| K.ADC_JSQR_JL))
                  ||| (s.TriggerSource ||| s.SequencerLength)) % 4294967296),
            log := log ++ [Access.rd Reg.CR (regs Reg.CR), Access.rd Reg.CFGR (regs Reg.CFGR),
              Access.wr Reg.CFGR
                (((regs Reg.CFGR &&& NOT32 (K.ADC_CFGR_JDISCEN ||| K.ADC_CFGR_JAUTO))
                  ||| (injDiscontWritten K s ||| s.TrigAuto)) % 4294967296),
              Access.rd Reg.JSQR (regs Reg.JSQR),
              Access.wr Reg.JSQR
                (((regs Reg.JSQR
                      &&& NOT32 (K.ADC_JSQR_JEXTSEL ||| K.ADC_JSQR_JEXTEN ||| K.ADC_JSQR_JL))
                    ||| (s.TriggerSource ||| s.SequencerLength)) % 4294967296)] }) := by
  by_cases hl : s.SequencerLength = K.LL_ADC_REG_SEQ_SCAN_DISABLE
  · simp [LL_ADC_INJ_Init, LL_ADC_IsEnabled_quiet, hdis, MODIFY_REG_quiet, store,
      injDiscontWritten, hl]
  · simp [LL_ADC_INJ_Init, LL_ADC_IsEnabled_quiet, hdis, MODIFY_REG_quiet, store,
      injDiscontWritten, hl]

/-- C7: on a quiet peripheral, for every disabled instance and every valid
`LL_ADC_INJ_InitTypeDef`, `LL_ADC_INJ_Init` returns SUCCESS and afterwards JAUTO of CFGR equals
`TrigAuto`, JDISCEN of CFGR equals `SequencerDiscont` when the sequencer length is not
`LL_ADC_INJ_SEQ_SCAN_DISABLE` and is cleared when it is, the JEXTSEL, JEXTEN and JL fields of JSQR
equal `TriggerSource | SequencerLength`, and the rank fields JSQ1..JSQ4 of JSQR are unchanged. -/
theorem C7_LL_ADC_INJ_Init_disabled (K : Header) (L : InjectedLayout K) (regs : ADC_TypeDef)
    (log : List Access) (s : LL_ADC_INJ_InitTypeDef)
    (hdis : regs Reg.CR &&& K.ADC_CR_ADEN ≠ K.ADC_CR_ADEN)
    (hs : LL_ADC_INJ_Init_params K s) :
    (LL_ADC_INJ_Init K quiet { regs := regs, log := log } s).1 = ErrorStatus.SUCCESS
    ∧ (LL_ADC_INJ_Init K quiet { regs := regs, log := log } s).2.regs Reg.CFGR
        &&& K.ADC_CFGR_JAUTO = s.TrigAuto
    ∧ (s.SequencerLength ≠ K.LL_ADC_INJ_SEQ_SCAN_DISABLE →
        (LL_ADC_INJ_Init K quiet { regs := regs, log := log } s).2.regs Reg.CFGR
          &&& K.ADC_CFGR_JDISCEN = s.SequencerDiscont)
    ∧ (s.SequencerLength = K.LL_ADC_INJ_SEQ_SCAN_DISABLE →
        (LL_ADC_INJ_Init K quiet { regs := regs, log := log } s).2.regs Reg.CFGR
          &&& K.ADC_CFGR_JDISCEN = 0)
    ∧ (LL_ADC_INJ_Init K quiet { regs := regs, log := log } s).2.regs Reg.JSQR
        &&& (K.ADC_JSQR_JEXTSEL ||| K.ADC_JSQR_JEXTEN ||| K.ADC_JSQR_JL)
        = s.TriggerSource ||| s.SequencerLength
    ∧ (LL_ADC_INJ_Init K quiet { regs := regs, log := log } s).2.regs Reg.JSQR
        &&& (K.ADC_JSQR_JSQ1 ||| K.ADC_JSQR_JSQ2 ||| K.ADC_JSQR_JSQ3 ||| K.ADC_JSQR_JSQ4)
        = regs Reg.JSQR
          &&& (K.ADC_JSQR_JSQ1 ||| K.ADC_JSQR_JSQ2 ||| K.ADC_JSQR_JSQ3 ||| K.ADC_JSQR_JSQ4) := by
  obtain ⟨ht, hl, hd, ha⟩ := hs
  have hauto := L.auto _ ha
  have htrig := L.trig _ ht
  have hlen := L.len _ hl
  have wD : K.ADC_CFGR_JDISCEN < 4294967296 := L.words _ (by simp)
  have wA : K.ADC_CFGR_JAUTO < 4294967296 := L.words _ (by simp)
  have wT : K.ADC_JSQR_JEXTSEL ||| K.ADC_JSQR_JEXTEN < 4294967296 := L.words _ (by simp)
  have wL : K.ADC_JSQR_JL < 4294967296 := L.words _ (by simp)
  have wQ : K.ADC_JSQR_JSQ1 ||| K.ADC_JSQR_JSQ2 ||| K.ADC_JSQR_JSQ3 ||| K.ADC_JSQR_JSQ4
      < 4294967296 := L.words _ (by simp)
  have wTL : K.ADC_JSQR_JEXTSEL ||| K.ADC_JSQR_JEXTEN ||| K.ADC_JSQR_JL < 4294967296 := by
    have h2 : (4294967296 : Nat) = 2 ^ 32 := by norm_num
    rw [h2] at wT wL ⊢
    exact Nat.or_lt_two_pow wT wL
  have hCFGR : (LL_ADC_INJ_Init K quiet { regs := regs, log := log } s).2.regs Reg.CFGR
      = ((regs Reg.CFGR &&& NOT32 (K.ADC_CFGR_JDISCEN ||| K.ADC_CFGR_JAUTO))
          ||| (injDiscontWritten K s ||| s.TrigAuto)) % 4294967296 := by
    rw [LL_ADC_INJ_Init_disabled K regs log s hdis]
    simp [Function.update_noteq]
  have hJSQR : (LL_ADC_INJ_Init K quiet { regs := regs, log := log } s).2.regs Reg.JSQR
      = ((regs Reg.JSQR
            &&& NOT32 (K.ADC_JSQR_JEXTSEL ||| K.ADC_JSQR_JEXTEN ||| K.ADC_JSQR_JL))
          ||| (s.TriggerSource ||| s.SequencerLength)) % 4294967296 := by
    rw [LL_ADC_INJ_Init_disabled K regs log s hdis]
    simp
  have hdw_auto : injDiscontWritten K s &&& K.ADC_CFGR_JAUTO = 0 := by
    unfold injDiscontWritten
    split
    · rename_i hne
      exact disj_of_sub (L.discont _ (hd (by rw [L.scan_disable]; exact hne))) L.jdiscen_jauto
    · exact disj_comm (disj_right_of_or (disj_comm L.reg_discont_disable))
  refine ⟨?_, ?_, ?_, ?_, ?_, ?_⟩
  · rw [LL_ADC_INJ_Init_disabled K regs log s hdis]
  · rw [hCFGR, modify_field _ _ _ _ (sub_or_right _ (Nat.and_self _)) wA]
    exact or_and_eq_right hdw_auto hauto
  · intro hne
    have hne2 : s.SequencerLength ≠ K.LL_ADC_REG_SEQ_SCAN_DISABLE := by
      rw [← L.scan_disable]; exact hne
    rw [hCFGR, modify_field _ _ _ _ (sub_or_left _ (Nat.and_self _)) wD]
    simp only [injDiscontWritten, hne2, ne_eq, not_false_eq_true, if_true]
    exact or_and_eq_left (L.discont _ (hd hne)) (disj_of_sub hauto (disj_comm L.jdiscen_jauto))
  · intro heq
    have heq2 : s.SequencerLength = K.LL_ADC_REG_SEQ_SCAN_DISABLE := by
      rw [← L.scan_disable]; exact heq
    rw [hCFGR, modify_field _ _ _ _ (sub_or_left _ (Nat.and_self _)) wD]
    simp only [injDiscontWritten, heq2, ne_eq, not_true_eq_false, if_false]
    have h1 : K.LL_ADC_REG_SEQ_DISCONT_DISABLE &&& K.ADC_CFGR_JDISCEN = 0 :=
      disj_comm (disj_left_of_or (disj_comm L.reg_discont_disable))
    rw [Nat.and_distrib_right, h1, disj_of_sub hauto (disj_comm L.jdiscen_jauto)]
    rfl
  · rw [hJSQR, modify_field _ _ _ _ (Nat.and_self _) wTL]
    exact or_sub (sub_or_left _ htrig) (sub_or_right _ hlen)
  · rw [hJSQR, modify_frame _ _ _ _ (disj_comm L.ranks) wQ, Nat.and_distrib_right,
      Nat.and_distrib_right, disj_of_sub (sub_or_left K.ADC_JSQR_JL htrig) L.ranks,
      disj_of_sub (sub_or_right (K.ADC_JSQR_JEXTSEL ||| K.ADC_JSQR_JEXTEN) hlen) L.ranks]
    simp

theorem C7_LL_ADC_INJ_Init_disabled_witness :
    zeroRegs Reg.CR &&& stm32mp13.ADC_CR_ADEN ≠ stm32mp13.ADC_CR_ADEN
    ∧ LL_ADC_INJ_Init_params stm32mp13
        { TriggerSource := 132, SequencerLength := 1, SequencerDiscont := 1048576, TrigAuto := 0 }
    ∧ (LL_ADC_INJ_Init stm32mp13 quiet { regs := zeroRegs, log := [] }
        { TriggerSource := 132, SequencerLength := 1, SequencerDiscont := 1048576,
          TrigAuto := 0 }).1 = ErrorStatus.SUCCESS
    ∧ (LL_ADC_INJ_Init stm32mp13 quiet { regs := zeroRegs, log := [] }
        { TriggerSource := 132, SequencerLength := 1, SequencerDiscont := 1048576,
          TrigAuto := 0 }).2.regs Reg.CFGR &&& stm32mp13.ADC_CFGR_JAUTO = 0 :=
  ⟨by decide, ⟨by decide, by decide, by decide, by decide⟩,
    (C7_LL_ADC_INJ_Init_disabled stm32mp13 stm32mp13_InjectedLayout zeroRegs []
      { TriggerSource := 132, SequencerLength := 1, SequencerDiscont := 1048576, TrigAuto := 0 }
      (by decide) ⟨by decide, by decide, by decide, by decide⟩).1,
    (C7_LL_ADC_INJ_Init_disabled stm32mp13 stm32mp13_InjectedLayout zeroRegs []
      { TriggerSource := 132, SequencerLength := 1, SequencerDiscont := 1048576, TrigAuto := 0 }
      (by decide) ⟨by decide, by decide, by decide, by decide⟩).2.1⟩

/-! ## `LL_ADC_CommonInit` -/

theorem LL_ADC_IS_ENABLED_ALL_COMMON_INSTANCE_eq_zero (K : Header) (g : CommonInstance) :
    LL_ADC_IS_ENABLED_ALL_COMMON_INSTANCE K g = 0
      ↔ ∀ p ∈ g.instances, p Reg.CR &&& K.ADC_CR_ADEN ≠ K.ADC_CR_ADEN := by
  unfold LL_ADC_IS_ENABLED_ALL_COMMON_INSTANCE
  simp only [LL_ADC_IsEnabled_quiet]
  constructor
  · intro h p hp hen
    have : (g.instances.any fun p =>
        decide ((if p Reg.CR &&& K.ADC_CR_ADEN = K.ADC_CR_ADEN then 1 else 0) = 1)) = true := by
      rw [List.any_eq_true]
      exact ⟨p, hp, by simp [hen]⟩
    simp only [this, if_true] at h
    exact Nat.one_ne_zero h
  · intro h
    have : (g.instances.any fun p =>
        decide ((if p Reg.CR &&& K.ADC_CR_ADEN = K.ADC_CR_ADEN then 1 else 0) = 1)) = false := by
      rw [List.any_eq_false]
      intro p hp
      simp [h p hp]
    simp only [this, Bool.false_eq_true, if_false]

/-- C8: `LL_ADC_CommonInit` returns ERROR and leaves the common register and the instances
unchanged if and only if at least one ADC instance of the common instance is enabled; when all
instances are disabled it returns SUCCESS, the clock fields CKMODE and PRESC of CCR hold
`CommonClock` and the ADC instances are unchanged. -/
theorem C8_LL_ADC_CommonInit (K : Header) (L : CommonLayout K) (g : CommonInstance)
    (s : LL_ADC_CommonInitTypeDef) (hs : IS_LL_ADC_COMMON_CLOCK K s.CommonClock) :
    ((∃ p ∈ g.instances, p Reg.CR &&& K.ADC_CR_ADEN = K.ADC_CR_ADEN)
      ↔ LL_ADC_CommonInit K g s = (ErrorStatus.ERROR, g))
    ∧ ((∀ p ∈ g.instances, p Reg.CR &&& K.ADC_CR_ADEN ≠ K.ADC_CR_ADEN) →
        (LL_ADC_CommonInit K g s).1 = ErrorStatus.SUCCESS
        ∧ (LL_ADC_CommonInit K g s).2.common.CCR &&& (K.ADC_CCR_CKMODE ||| K.ADC_CCR_PRESC)
            = s.CommonClock
        ∧ (LL_ADC_CommonInit K g s).2.instances = g.instances) := by
  constructor
  · constructor
    · rintro ⟨p, hp, hen⟩
      have hne : ¬ LL_ADC_IS_ENABLED_ALL_COMMON_INSTANCE K g = 0 := by
        rw [LL_ADC_IS_ENABLED_ALL_COMMON_INSTANCE_eq_zero]
        intro h
        exact h p hp hen
      simp [LL_ADC_CommonInit, hne]
    · intro h
      by_contra hno
      have hall : ∀ p ∈ g.instances, p Reg.CR &&& K.ADC_CR_ADEN ≠ K.ADC_CR_ADEN := by
        intro p hp hen
        exact hno ⟨p, hp, hen⟩
      have hz := (LL_ADC_IS_ENABLED_ALL_COMMON_INSTANCE_eq_zero K g).2 hall
      simp [LL_ADC_CommonInit, hz] at h
  · intro hall
    have hz := (LL_ADC_IS_ENABLED_ALL_COMMON_INSTANCE_eq_zero K g).2 hall
    have hE : LL_ADC_CommonInit K g s
        = (ErrorStatus.SUCCESS, LL_ADC_SetCommonClock K g s.CommonClock) := by
      simp [LL_ADC_CommonInit, hz]
    rw [hE]
    refine ⟨rfl, ?_, rfl⟩
    simp only [LL_ADC_SetCommonClock]
    rw [modify_field _ _ _ _ (Nat.and_self _) L.word]
    exact L.clock _ hs

theorem C8_LL_ADC_CommonInit_witness :
    ((∃ p ∈ [zeroRegs, convertingRegs], p Reg.CR &&& stm32mp13.ADC_CR_ADEN
        = stm32mp13.ADC_CR_ADEN)
      ↔ LL_ADC_CommonInit stm32mp13
          { common := { CCR := 0 }, instances := [zeroRegs, convertingRegs] }
          { CommonClock := 131072 }
        = (ErrorStatus.ERROR,
            { common := { CCR := 0 }, instances := [zeroRegs, convertingRegs] })) :=
  (C8_LL_ADC_CommonInit stm32mp13 stm32mp13_CommonLayout
    { common := { CCR := 0 }, instances := [zeroRegs, convertingRegs] }
    { CommonClock := 131072 } (by decide)).1

/-! ## Bus accesses and the registers they write -/

theorem writtenRegs_append (l1 l2 : List Access) :
    writtenRegs (l1 ++ l2) = writtenRegs l1 ++ writtenRegs l2 := by
  induction l1 with
  | nil => rfl
  | cons a l ih =>
    cases a with
    | rd r v => simpa [writtenRegs] using ih
    | wr r v => simpa [writtenRegs] using ih

theorem READ_REG_writtenRegs (hw : Hardware) (r : Reg) (m : Machine) :
    writtenRegs (READ_REG hw r m).2.log = writtenRegs m.log := by
  simp [READ_REG, writtenRegs_append, writtenRegs]

theorem READ_BIT_writtenRegs (hw : Hardware) (r : Reg) (b : Nat) (m : Machine) :
    writtenRegs (READ_BIT hw r b m).2.log = writtenRegs m.log := by
  simp [READ_BIT, READ_REG_writtenRegs]

theorem WRITE_REG_writtenRegs (K : Header) (hw : Hardware) (r : Reg) (v : Nat) (m : Machine) :
    writtenRegs (WRITE_REG K hw r v m).log = writtenRegs m.log ++ [r] := by
  simp [WRITE_REG, writtenRegs_append, writtenRegs]

theorem SET_BIT_writtenRegs (K : Header) (hw : Hardware) (r : Reg) (b : Nat) (m : Machine) :
    writtenRegs (SET_BIT K hw r b m).log = writtenRegs m.log ++ [r] := by
  simp [SET_BIT, WRITE_REG_writtenRegs, READ_REG_writtenRegs]

theorem CLEAR_BIT_writtenRegs (K : Header) (hw : Hardware) (r : Reg) (b : Nat) (m : Machine) :
    writtenRegs (CLEAR_BIT K hw r b m).log = writtenRegs m.log ++ [r] := by
  simp [CLEAR_BIT, WRITE_REG_writtenRegs, READ_REG_writtenRegs]

theorem MODIFY_REG_writtenRegs (K : Header) (hw : Hardware) (r : Reg) (c s : Nat)
    (m : Machine) :
    writtenRegs (MODIFY_REG K hw r c s m).log = writtenRegs m.log ++ [r] := by
  simp [WRITE_REG_writtenRegs, MODIFY_REG, READ_REG_writtenRegs]

/-- The register-reset block writes the registers of `LL_ADC_DeInit_resetRegs`, whatever the
peripheral does. -/
theorem LL_ADC_DeInit_reset_writtenRegs (K : Header) (hw : Hardware) (m : Machine) :
    writtenRegs (LL_ADC_DeInit_reset K hw m).log
      = writtenRegs m.log ++ LL_ADC_DeInit_resetRegs := by
  simp [LL_ADC_DeInit_reset, LL_ADC_DeInit_resetRegs, SET_BIT_writtenRegs,
    CLEAR_BIT_writtenRegs, MODIFY_REG_writtenRegs]

/-! ## The wait loops -/

/-- With enough fuel a wait loop returns; the counter it returns is 0 exactly when the budget
was exhausted, in which case the status is ERROR; otherwise the status is the one it was given. -/
theorem waitWhile_total (cond : Machine → Nat × Machine) :
    ∀ (fuel t : Nat) (status : ErrorStatus) (m : Machine),
      0 < t → t ≤ fuel → t < 4294967296 →
      ∃ t1 s1 m1, waitWhile cond fuel t status m = some (t1, s1, m1)
        ∧ (t1 = 0 → s1 = ErrorStatus.ERROR) ∧ (t1 ≠ 0 → s1 = status) := by
  intro fuel
  induction fuel with
  | zero => intro t status m h0 hf; omega
  | succ n ih =>
    intro t status m h0 hf hw
    unfold waitWhile
    by_cases hc : (cond m).1 = 1
    · have ht : (t + 4294967295) % 4294967296 = t - 1 := by omega
      simp only [hc, if_true, ht]
      by_cases hz : t - 1 = 0
      · simp only [hz, if_true]
        exact ⟨0, ErrorStatus.ERROR, (cond m).2, rfl, fun _ => rfl, fun h => absurd rfl h⟩
      · simp only [hz, if_false]
        exact ih (t - 1) status (cond m).2 (by omega) (by omega) (by omega)
    · simp only [hc, if_false]
      exact ⟨t, status, (cond m).2, rfl, fun h => by omega, fun _ => rfl⟩

theorem timeout_stop_eq : ADC_TIMEOUT_STOP_CONVERSION_CPU_CYCLES = 32768 := by decide

theorem timeout_disable_eq : ADC_TIMEOUT_DISABLE_CPU_CYCLES = 32768 := by decide

theorem ratio_eq : ADC_CLOCK_RATIO_VS_CPU_HIGHEST = 32768 := by decide

/-- With enough fuel the first wait loop of `LL_ADC_DeInit` returns. -/
theorem LL_ADC_DeInit_waitStop_total (K : Header) (hw : Hardware) (fuel : Nat)
    (status : ErrorStatus) (m : Machine) (hf : ADC_CLOCK_RATIO_VS_CPU_HIGHEST ≤ fuel) :
    ∃ t1 s1 m1, LL_ADC_DeInit_waitStop K hw fuel status m = some (t1, s1, m1)
      ∧ (t1 = 0 → s1 = ErrorStatus.ERROR) ∧ (t1 ≠ 0 → s1 = status) := by
  rw [ratio_eq] at hf
  unfold LL_ADC_DeInit_waitStop
  rw [timeout_stop_eq]
  exact waitWhile_total _ fuel 32768 status m (by omega) hf (by omega)

/-- With enough fuel the second wait loop of `LL_ADC_DeInit` returns. -/
theorem LL_ADC_DeInit_waitDisable_total (K : Header) (hw : Hardware) (fuel : Nat)
    (status : ErrorStatus) (m : Machine) (hf : ADC_CLOCK_RATIO_VS_CPU_HIGHEST ≤ fuel) :
    ∃ t1 s1 m1, LL_ADC_DeInit_waitDisable K hw fuel status m = some (t1, s1, m1)
      ∧ (t1 = 0 → s1 = ErrorStatus.ERROR) ∧ (t1 ≠ 0 → s1 = status) := by
  rw [ratio_eq] at hf
  unfold LL_ADC_DeInit_waitDisable
  rw [timeout_disable_eq]
  exact waitWhile_total _ fuel 32768 status m (by omega) hf (by omega)

/-- With enough fuel the disable sequence of `LL_ADC_DeInit` reaches the check of CR. -/
theorem LL_ADC_DeInit_disable_total (K : Header) (hw : Hardware) (fuel : Nat) (m : Machine)
    (hf : ADC_CLOCK_RATIO_VS_CPU_HIGHEST ≤ fuel) :
    ∃ st m1, LL_ADC_DeInit_disable K hw fuel m = some (st, m1) := by
  unfold LL_ADC_DeInit_disable
  by_cases hen : (LL_ADC_IsEnabled K hw m).1 = 1
  · obtain ⟨t1, s1, m2, h1, -, -⟩ := LL_ADC_DeInit_waitStop_total K hw fuel ErrorStatus.SUCCESS
      (LL_ADC_DeInit_stopConversions K hw (LL_ADC_IsEnabled K hw m).2) hf
    obtain ⟨t2, s2, m4, h2, -, -⟩ := LL_ADC_DeInit_waitDisable_total K hw fuel s1
      (LL_ADC_DeInit_requestDisable K hw m2) hf
    simp only [hen, if_true, h1, h2]
    exact ⟨s2, m4, rfl⟩
  · simp only [hen, if_false]
    exact ⟨ErrorStatus.SUCCESS, (LL_ADC_IsEnabled K hw m).2, rfl⟩

/-- C3: for every peripheral behaviour, `LL_ADC_DeInit` reaches the check of CR (line 462) and
returns; after the check it writes exactly the registers of its register-reset block (IER, ISR,
CR, CFGR, CFGR2, SMPRx, TRx, SQRx, JSQR, OFRx, AWDxCR, DIFSEL, CALFACT) when the value read has
none of JADSTP, ADSTP, JADSTART, ADSTART, ADDIS, ADEN set, and writes nothing and returns ERROR
when one of them is set. -/
theorem C3_LL_ADC_DeInit_reset_iff_check (K : Header) (hw : Hardware) (fuel : Nat)
    (m : Machine) (hf : ADC_CLOCK_RATIO_VS_CPU_HIGHEST ≤ fuel) :
    ∃ st m1 r, LL_ADC_DeInit_disable K hw fuel m = some (st, m1)
      ∧ LL_ADC_DeInit K hw fuel m = some r
      ∧ writtenRegs r.2.log = writtenRegs m1.log
          ++ (if (READ_BIT hw Reg.CR (LL_ADC_DeInit_checkBits K) m1).1 = 0
              then LL_ADC_DeInit_resetRegs else [])
      ∧ ((READ_BIT hw Reg.CR (LL_ADC_DeInit_checkBits K) m1).1 = 0 →
          r = (st, LL_ADC_DeInit_reset K hw
            (READ_BIT hw Reg.CR (LL_ADC_DeInit_checkBits K) m1).2))
      ∧ ((READ_BIT hw Reg.CR (LL_ADC_DeInit_checkBits K) m1).1 ≠ 0 →
          r = (ErrorStatus.ERROR, (READ_BIT hw Reg.CR (LL_ADC_DeInit_checkBits K) m1).2)) := by
  obtain ⟨st, m1, hd⟩ := LL_ADC_DeInit_disable_total K hw fuel m hf
  by_cases hc : (READ_BIT hw Reg.CR (LL_ADC_DeInit_checkBits K) m1).1 = 0
  · refine ⟨st, m1, (st, LL_ADC_DeInit_reset K hw
      (READ_BIT hw Reg.CR (LL_ADC_DeInit_checkBits K) m1).2), hd, ?_, ?_, ?_, ?_⟩
    · simp only [LL_ADC_DeInit, hd, hc, if_true]
    · simp only [hc, if_true, LL_ADC_DeInit_reset_writtenRegs, READ_BIT_writtenRegs]
    · intro _; rfl
    · intro h; exact absurd hc h
  · refine ⟨st, m1, (ErrorStatus.ERROR,
      (READ_BIT hw Reg.CR (LL_ADC_DeInit_checkBits K) m1).2), hd, ?_, ?_, ?_, ?_⟩
    · simp only [LL_ADC_DeInit, hd, hc, if_false]
    · simp only [hc, if_false, READ_BIT_writtenRegs, List.append_nil]
    · intro h; exact absurd h hc
    · intro _; rfl

theorem C3_LL_ADC_DeInit_reset_iff_check_witness :
    ∃ st m1 r, LL_ADC_DeInit_disable stm32mp13 quiet 32768 { regs := zeroRegs, log := [] }
        = some (st, m1)
      ∧ LL_ADC_DeInit stm32mp13 quiet 32768 { regs := zeroRegs, log := [] } = some r
      ∧ writtenRegs r.2.log = writtenRegs m1.log
          ++ (if (READ_BIT quiet Reg.CR (LL_ADC_DeInit_checkBits stm32mp13) m1).1 = 0
              then LL_ADC_DeInit_resetRegs else [])
      ∧ ((READ_BIT quiet Reg.CR (LL_ADC_DeInit_checkBits stm32mp13) m1).1 = 0 →
          r = (st, LL_ADC_DeInit_reset stm32mp13 quiet
            (READ_BIT quiet Reg.CR (LL_ADC_DeInit_checkBits stm32mp13) m1).2))
      ∧ ((READ_BIT quiet Reg.CR (LL_ADC_DeInit_checkBits stm32mp13) m1).1 ≠ 0 →
          r = (ErrorStatus.ERROR,
            (READ_BIT quiet Reg.CR (LL_ADC_DeInit_checkBits stm32mp13) m1).2)) :=
  C3_LL_ADC_DeInit_reset_iff_check stm32mp13 quiet 32768 { regs := zeroRegs, log := [] }
    (by decide)

/-- C9: for every peripheral behaviour, on an enabled instance both bounded waits of
`LL_ADC_DeInit` return, each is run once, and when either of them exhausts its cycle budget
(its counter `timeout_cpu_cycles` reaches 0) the function returns ERROR: a status set to ERROR
by the first wait is still ERROR after the second wait and at the return. -/
theorem C9_LL_ADC_DeInit_timeout_is_error (K : Header) (hw : Hardware) (fuel : Nat)
    (m : Machine) (hf : ADC_CLOCK_RATIO_VS_CPU_HIGHEST ≤ fuel)
    (hen : (LL_ADC_IsEnabled K hw m).1 = 1) :
    ∃ t1 s1 m2 t2 s2 m4 st m5,
      LL_ADC_DeInit_waitStop K hw fuel ErrorStatus.SUCCESS
          (LL_ADC_DeInit_stopConversions K hw (LL_ADC_IsEnabled K hw m).2) = some (t1, s1, m2)
      ∧ LL_ADC_DeInit_waitDisable K hw fuel s1 (LL_ADC_DeInit_requestDisable K hw m2)
          = some (t2, s2, m4)
      ∧ LL_ADC_DeInit_disable K hw fuel m = some (s2, m4)
      ∧ LL_ADC_DeInit K hw fuel m = some (st, m5)
      ∧ (t1 = 0 → s1 = ErrorStatus.ERROR)
      ∧ (t2 = 0 → s2 = ErrorStatus.ERROR)
      ∧ (s1 = ErrorStatus.ERROR → s2 = ErrorStatus.ERROR)
      ∧ (s2 = ErrorStatus.ERROR → st = ErrorStatus.ERROR)
      ∧ (t1 = 0 ∨ t2 = 0 → st = ErrorStatus.ERROR) := by
  obtain ⟨t1, s1, m2, h1, e1, -⟩ := LL_ADC_DeInit_waitStop_total K hw fuel ErrorStatus.SUCCESS
    (LL_ADC_DeInit_stopConversions K hw (LL_ADC_IsEnabled K hw m).2) hf
  obtain ⟨t2, s2, m4, h2, e2, k2⟩ := LL_ADC_DeInit_waitDisable_total K hw fuel s1
    (LL_ADC_DeInit_requestDisable K hw m2) hf
  have hd : LL_ADC_DeInit_disable K hw fuel m = some (s2, m4) := by
    simp only [LL_ADC_DeInit_disable, hen, if_true, h1, h2]
  have h12 : s1 = ErrorStatus.ERROR → s2 = ErrorStatus.ERROR := by
    intro hs1
    by_cases hz : t2 = 0
    · exact e2 hz
    · rw [k2 hz, hs1]
  by_cases hc : (READ_BIT hw Reg.CR (LL_ADC_DeInit_checkBits K) m4).1 = 0
  · have hr : LL_ADC_DeInit K hw fuel m = some (s2, LL_ADC_DeInit_reset K hw
        (READ_BIT hw Reg.CR (LL_ADC_DeInit_checkBits K) m4).2) := by
      simp only [LL_ADC_DeInit, hd, hc, if_true]
    refine ⟨t1, s1, m2, t2, s2, m4, s2, _, h1, h2, hd, hr, e1, e2, h12, fun h => h, ?_⟩
    rintro (h | h)
    · exact h12 (e1 h)
    · exact e2 h
  · have hr : LL_ADC_DeInit K hw fuel m = some (ErrorStatus.ERROR,
        (READ_BIT hw Reg.CR (LL_ADC_DeInit_checkBits K) m4).2) := by
      simp only [LL_ADC_DeInit, hd, hc, if_false]
    exact ⟨t1, s1, m2, t2, s2, m4, ErrorStatus.ERROR, _, h1, h2, hd, hr, e1, e2, h12,
      fun _ => rfl, fun _ => rfl⟩

theorem C9_LL_ADC_DeInit_timeout_is_error_witness :
    (LL_ADC_IsEnabled stm32mp13 quiet { regs := convertingRegs, log := [] }).1 = 1
    ∧ ∃ t1 s1 m2 t2 s2 m4 st m5,
      LL_ADC_DeInit_waitStop stm32mp13 quiet 32768 ErrorStatus.SUCCESS
          (LL_ADC_DeInit_stopConversions stm32mp13 quiet
            (LL_ADC_IsEnabled stm32mp13 quiet { regs := convertingRegs, log := [] }).2)
          = some (t1, s1, m2)
      ∧ LL_ADC_DeInit_waitDisable stm32mp13 quiet 32768 s1
          (LL_ADC_DeInit_requestDisable stm32mp13 quiet m2) = some (t2, s2, m4)
      ∧ LL_ADC_DeInit_disable stm32mp13 quiet 32768 { regs := convertingRegs, log := [] }
          = some (s2, m4)
      ∧ LL_ADC_DeInit stm32mp13 quiet 32768 { regs := convertingRegs, log := [] }
          = some (st, m5)
      ∧ (t1 = 0 → s1 = ErrorStatus.ERROR)
      ∧ (t2 = 0 → s2 = ErrorStatus.ERROR)
      ∧ (s1 = ErrorStatus.ERROR → s2 = ErrorStatus.ERROR)
      ∧ (s2 = ErrorStatus.ERROR → st = ErrorStatus.ERROR)
      ∧ (t1 = 0 ∨ t2 = 0 → st = ErrorStatus.ERROR) :=
  ⟨by decide, C9_LL_ADC_DeInit_timeout_is_error stm32mp13 quiet 32768
    { regs := convertingRegs, log := [] } (by decide) (by decide)⟩

/-! ## `LL_ADC_DeInit` on a peripheral that is slow to stop -/

theorem READ_REG_slowStop_early (K : Header) (T : Nat) (r : Reg) (m : Machine)
    (h : m.log.length < T) :
    READ_REG (slowStop K T) r m
      = (m.regs r, { regs := m.regs, log := m.log ++ [Access.rd r (m.regs r)] }) := by
  simp [READ_REG, slowStop, h]

theorem READ_REG_slowStop_late (K : Header) (T : Nat) (r : Reg) (m : Machine)
    (h : T ≤ m.log.length) :
    READ_REG (slowStop K T) r m
      = (acknowledge K m.regs r,
          { regs := acknowledge K m.regs,
            log := m.log ++ [Access.rd r (acknowledge K m.regs r)] }) := by
  simp [READ_REG, slowStop, Nat.not_lt.mpr h]

theorem WRITE_REG_slowStop_late (K : Header) (T : Nat) (r : Reg) (v : Nat) (m : Machine)
    (h : T ≤ m.log.length) :
    WRITE_REG K (slowStop K T) r v m
      = { regs := Function.update (acknowledge K m.regs) r
            (store K r (acknowledge K m.regs r) v),
          log := m.log ++ [Access.wr r (v % 4294967296)] } := by
  simp [WRITE_REG, slowStop, Nat.not_lt.mpr h]

/-- While the peripheral has not answered, a poll of the first wait loop sees the stop still
pending and changes no register. -/
theorem stopOngoing_pending (K : Header) (T : Nat) (m : Machine)
    (hT : m.log.length + 2 ≤ T)
    (hstp : m.regs Reg.CR &&& K.ADC_CR_ADSTP = K.ADC_CR_ADSTP) :
    (LL_ADC_DeInit_stopOngoing K (slowStop K T) m).1 = 1
    ∧ (LL_ADC_DeInit_stopOngoing K (slowStop K T) m).2.regs = m.regs
    ∧ (LL_ADC_DeInit_stopOngoing K (slowStop K T) m).2.log.length = m.log.length + 2
    ∧ writtenRegs (LL_ADC_DeInit_stopOngoing K (slowStop K T) m).2.log = writtenRegs m.log := by
  have h1 : m.log.length < T := by omega
  have h2 : m.log.length + 1 < T := by omega
  simp only [LL_ADC_DeInit_stopOngoing, LL_ADC_REG_IsStopConversionOngoing,
    LL_ADC_INJ_IsStopConversionOngoing, READ_BIT]
  have e1 := READ_REG_slowStop_early K T Reg.CR m h1
  have e2 := READ_REG_slowStop_early K T Reg.CR
    { regs := m.regs, log := m.log ++ [Access.rd Reg.CR (m.regs Reg.CR)] } (by simpa using h2)
  simp only [e1, e2, hstp, if_true]
  refine ⟨?_, ?_, ?_, ?_⟩
  · split <;> rfl
  · trivial
  · simp
  · simp [writtenRegs_append, writtenRegs]

/-- If the peripheral does not answer before the budget of the first wait loop is used up,
the loop times out: counter 0, status ERROR, no register changed, two reads per poll. -/
theorem waitStop_times_out (K : Header) (T : Nat) :
    ∀ (fuel t : Nat) (status : ErrorStatus) (m : Machine),
      0 < t → t ≤ fuel → t < 4294967296 → m.log.length + 2 * t ≤ T →
      m.regs Reg.CR &&& K.ADC_CR_ADSTP = K.ADC_CR_ADSTP →
      ∃ m1, waitWhile (LL_ADC_DeInit_stopOngoing K (slowStop K T)) fuel t status m
          = some (0, ErrorStatus.ERROR, m1)
        ∧ m1.regs = m.regs ∧ m1.log.length = m.log.length + 2 * t
        ∧ writtenRegs m1.log = writtenRegs m.log := by
  intro fuel
  induction fuel with
  | zero => intro t status m h0 hf; omega
  | succ n ih =>
    intro t status m h0 hf hw hT hstp
    obtain ⟨c1, c2, c3, c4⟩ := stopOngoing_pending K T m (by omega) hstp
    unfold waitWhile
    have ht : (t + 4294967295) % 4294967296 = t - 1 := by omega
    simp only [c1, if_true, ht]
    by_cases hz : t - 1 = 0
    · simp only [hz, if_true]
      refine ⟨_, rfl, c2, ?_, c4⟩
      rw [c3]; omega
    · simp only [hz, if_false]
      obtain ⟨m1, e1, e2, e3, e4⟩ := ih (t - 1) status
        (LL_ADC_DeInit_stopOngoing K (slowStop K T) m).2 (by omega) (by omega) (by omega)
        (by rw [c3]; omega) (by rw [c2]; exact hstp)
      refine ⟨m1, e1, by rw [e2, c2], ?_, by rw [e4, c4]⟩
      rw [e3, c3]; omega

/-- The run on the concrete instance up to the first wait loop: the instance is seen enabled,
the regular stop is requested (CR holds ADEN, ADSTART and ADSTP), ten bus accesses are made. -/
theorem slowStop_head :
    (LL_ADC_IsEnabled stm32mp13 (slowStop stm32mp13 65546)
        { regs := convertingRegs, log := [] }).1 = 1
    ∧ (LL_ADC_DeInit_stopConversions stm32mp13 (slowStop stm32mp13 65546)
        (LL_ADC_IsEnabled stm32mp13 (slowStop stm32mp13 65546)
          { regs := convertingRegs, log := [] }).2).regs Reg.CR = 21
    ∧ (LL_ADC_DeInit_stopConversions stm32mp13 (slowStop stm32mp13 65546)
        (LL_ADC_IsEnabled stm32mp13 (slowStop stm32mp13 65546)
          { regs := convertingRegs, log := [] }).2).log.length = 10
    ∧ writtenRegs (LL_ADC_DeInit_stopConversions stm32mp13 (slowStop stm32mp13 65546)
        (LL_ADC_IsEnabled stm32mp13 (slowStop stm32mp13 65546)
          { regs := convertingRegs, log := [] }).2).log = [Reg.CFGR, Reg.CR, Reg.JSQR] := by
  decide

theorem MODIFY_REG_slowStop_late (K : Header) (T : Nat) (r : Reg) (c s : Nat) (m : Machine)
    (hT : T ≤ m.log.length) :
    MODIFY_REG K (slowStop K T) r c s m
      = { regs := Function.update (acknowledge K (acknowledge K m.regs)) r
            (store K r (acknowledge K (acknowledge K m.regs) r)
              ((acknowledge K m.regs r &&& NOT32 c) ||| s)),
          log := m.log ++ [Access.rd r (acknowledge K m.regs r)]
            ++ [Access.wr r (((acknowledge K m.regs r &&& NOT32 c) ||| s) % 4294967296)] } := by
  unfold MODIFY_REG
  rw [READ_REG_slowStop_late K T r m hT]
  rw [WRITE_REG_slowStop_late K T r _ _ (by simp; omega)]

theorem acknowledge_CR_stm32mp13 (regs : ADC_TypeDef) :
    acknowledge stm32mp13 regs Reg.CR
      = if regs Reg.CR &&& 2 = 2 then regs Reg.CR &&& 4294967232
        else regs Reg.CR &&& 4294967235 := by
  simp [acknowledge, stm32mp13, NOT32]

theorem stm32mp13_ADDIS : stm32mp13.ADC_CR_ADDIS = 2 := rfl

theorem stm32mp13_checkBits : LL_ADC_DeInit_checkBits stm32mp13 = 63 := by decide

theorem stm32mp13_RS : ADC_CR_BITS_PROPERTY_RS stm32mp13 = 2147483711 := by decide

theorem acknowledge_other (K : Header) (regs : ADC_TypeDef) (r : Reg) (h : r ≠ Reg.CR) :
    acknowledge K regs r = regs r := by
  simp [acknowledge, Function.update_noteq h]

theorem waitWhile_exit (cond : Machine → Nat × Machine) (fuel t : Nat) (status : ErrorStatus)
    (m : Machine) (h : (cond m).1 ≠ 1) :
    waitWhile cond (fuel + 1) t status m = some (t, status, (cond m).2) := by
  unfold waitWhile
  simp only [h, if_false]

/-- The flush of the injected queue and the disable request on the concrete instance, once the
peripheral answers: the conversion is stopped, then CR holds ADEN and ADDIS. -/
theorem slowStop_requestDisable (m : Machine) (hcr : m.regs Reg.CR = 21)
    (hT : 65546 ≤ m.log.length) :
    (LL_ADC_DeInit_requestDisable stm32mp13 (slowStop stm32mp13 65546) m).regs Reg.CR = 3
    ∧ 65546 ≤ (LL_ADC_DeInit_requestDisable stm32mp13 (slowStop stm32mp13 65546) m).log.length
    ∧ writtenRegs (LL_ADC_DeInit_requestDisable stm32mp13 (slowStop stm32mp13 65546) m).log
        = writtenRegs m.log ++ [Reg.CFGR, Reg.CR] := by
  unfold LL_ADC_DeInit_requestDisable LL_ADC_Disable LL_ADC_INJ_SetQueueMode
  rw [stm32mp13_RS, stm32mp13_ADDIS]
  rw [ MODIFY_REG_slowStop_late stm32mp13 65546 Reg.CFGR _ _ m hT]
  rw [ MODIFY_REG_slowStop_late stm32mp13 65546 Reg.CR _ _ _ (by simp; omega)]
  refine ⟨?_, ?_, ?_⟩
  · simp [acknowledge_CR_stm32mp13, hcr, store, stm32mp13_RS, NOT32]
    decide
  · simp; omega
  · simp [writtenRegs_append, writtenRegs]

/-- The run on the concrete instance from the flush of the injected queue on, once the
peripheral answers: the disable is acknowledged at the first poll of the second wait loop, and
the check then reads CR without any of the six handshake bits. -/
theorem slowStop_tail (m : Machine) (status : ErrorStatus)
    (hcr : m.regs Reg.CR = 21) (hT : 65546 ≤ m.log.length) :
    ∃ m4, LL_ADC_DeInit_waitDisable stm32mp13 (slowStop stm32mp13 65546) 32768 status
        (LL_ADC_DeInit_requestDisable stm32mp13 (slowStop stm32mp13 65546) m)
        = some (32768, status, m4)
      ∧ (READ_BIT (slowStop stm32mp13 65546) Reg.CR (LL_ADC_DeInit_checkBits stm32mp13) m4).1 = 0
      ∧ writtenRegs m4.log = writtenRegs m.log ++ [Reg.CFGR, Reg.CR] := by
  obtain ⟨v1, v2, v3⟩ := slowStop_requestDisable m hcr hT
  generalize LL_ADC_DeInit_requestDisable stm32mp13 (slowStop stm32mp13 65546) m = m3 at v1 v2 v3 ⊢
  have hc : (LL_ADC_IsDisableOngoing stm32mp13 (slowStop stm32mp13 65546) m3)
      = (0, { regs := acknowledge stm32mp13 m3.regs,
              log := m3.log ++ [Access.rd Reg.CR (acknowledge stm32mp13 m3.regs Reg.CR)] }) := by
    unfold LL_ADC_IsDisableOngoing READ_BIT
    rw [READ_REG_slowStop_late stm32mp13 65546 Reg.CR m3 v2]
    simp [acknowledge_CR_stm32mp13, v1, stm32mp13_ADDIS]
    decide
  refine ⟨(LL_ADC_IsDisableOngoing stm32mp13 (slowStop stm32mp13 65546) m3).2, ?_, ?_, ?_⟩
  · unfold LL_ADC_DeInit_waitDisable
    rw [timeout_disable_eq]
    exact waitWhile_exit _ 32767 32768 status m3 (by rw [hc]; exact Nat.zero_ne_one)
  · rw [hc]
    unfold READ_BIT
    rw [READ_REG_slowStop_late stm32mp13 65546 Reg.CR _ (by simp; omega)]
    simp [acknowledge_CR_stm32mp13, v1, stm32mp13_checkBits]
    decide
  · rw [hc]
    simp [writtenRegs_append, writtenRegs, v3]

/-- On an enabled instance the disable sequence of `LL_ADC_DeInit` is the first wait followed
by the second wait. -/
theorem LL_ADC_DeInit_disable_enabled (K : Header) (hw : Hardware) (fuel : Nat) (m : Machine)
    (t1 t2 : Nat) (s1 s2 : ErrorStatus) (m2 m4 : Machine)
    (hen : (LL_ADC_IsEnabled K hw m).1 = 1)
    (h1 : LL_ADC_DeInit_waitStop K hw fuel ErrorStatus.SUCCESS
        (LL_ADC_DeInit_stopConversions K hw (LL_ADC_IsEnabled K hw m).2) = some (t1, s1, m2))
    (h2 : LL_ADC_DeInit_waitDisable K hw fuel s1 (LL_ADC_DeInit_requestDisable K hw m2)
        = some (t2, s2, m4)) :
    LL_ADC_DeInit_disable K hw fuel m = some (s2, m4) := by
  simp only [LL_ADC_DeInit_disable, hen, if_true, h1, h2]

/-- When the check of CR passes, `LL_ADC_DeInit` runs the register-reset block and returns the
status of the disable sequence. -/
theorem LL_ADC_DeInit_check_passed (K : Header) (hw : Hardware) (fuel : Nat) (m : Machine)
    (st : ErrorStatus) (m4 : Machine)
    (hd : LL_ADC_DeInit_disable K hw fuel m = some (st, m4))
    (hc : (READ_BIT hw Reg.CR (LL_ADC_DeInit_checkBits K) m4).1 = 0) :
    LL_ADC_DeInit K hw fuel m
      = some (st, LL_ADC_DeInit_reset K hw
          (READ_BIT hw Reg.CR (LL_ADC_DeInit_checkBits K) m4).2) := by
  simp only [LL_ADC_DeInit, hd, hc, if_true]

/-- C10: `LL_ADC_DeInit` evaluated on an enabled instance with a regular conversion on going
and a peripheral that completes the stop just after the budget of the first wait loop is used up
(and acknowledges the disable at once): the function returns ERROR although the check of CR
passed and the register-reset block was executed, all its registers being written. -/
theorem C10_LL_ADC_DeInit_error_with_reset_done :
    ∃ m5, LL_ADC_DeInit stm32mp13 (slowStop stm32mp13 65546) 32768
        { regs := convertingRegs, log := [] } = some (ErrorStatus.ERROR, m5)
      ∧ writtenRegs m5.log
          = [Reg.CFGR, Reg.CR, Reg.JSQR, Reg.CFGR, Reg.CR] ++ LL_ADC_DeInit_resetRegs := by
  obtain ⟨h_en, h_cr, h_len, h_wr⟩ := slowStop_head
  obtain ⟨m2, e2, r2, l2, w2⟩ := waitStop_times_out stm32mp13 65546 32768 32768
    ErrorStatus.SUCCESS
    (LL_ADC_DeInit_stopConversions stm32mp13 (slowStop stm32mp13 65546)
      (LL_ADC_IsEnabled stm32mp13 (slowStop stm32mp13 65546)
        { regs := convertingRegs, log := [] }).2)
    (by omega) (Nat.le_refl _) (by omega) (by rw [h_len]) (by rw [h_cr]; decide)
  obtain ⟨m4, e4, c4, w4⟩ := slowStop_tail m2 ErrorStatus.ERROR (by rw [r2]; exact h_cr)
    (by rw [l2, h_len])
  have e2b : LL_ADC_DeInit_waitStop stm32mp13 (slowStop stm32mp13 65546) 32768
      ErrorStatus.SUCCESS
      (LL_ADC_DeInit_stopConversions stm32mp13 (slowStop stm32mp13 65546)
        (LL_ADC_IsEnabled stm32mp13 (slowStop stm32mp13 65546)
          { regs := convertingRegs, log := [] }).2) = some (0, ErrorStatus.ERROR, m2) := by
    unfold LL_ADC_DeInit_waitStop
    rw [timeout_stop_eq]
    exact e2
  have hd := LL_ADC_DeInit_disable_enabled stm32mp13 (slowStop stm32mp13 65546) 32768
    { regs := convertingRegs, log := [] } 0 32768 ErrorStatus.ERROR ErrorStatus.ERROR m2 m4
    h_en e2b e4
  refine ⟨_, LL_ADC_DeInit_check_passed stm32mp13 (slowStop stm32mp13 65546) 32768
    { regs := convertingRegs, log := [] } ErrorStatus.ERROR m4 hd c4, ?_⟩
  rw [LL_ADC_DeInit_reset_writtenRegs, READ_BIT_writtenRegs, w4, w2, h_wr]
  simp [LL_ADC_DeInit_resetRegs]

/-! ## Termination of `LL_ADC_DeInit` -/

/-- The result of a wait loop does not depend on the fuel, once the fuel covers the budget. -/
theorem waitWhile_fuel (cond : Machine → Nat × Machine) :
    ∀ (fuel fuel2 t : Nat) (status : ErrorStatus) (m : Machine),
      0 < t → t ≤ fuel → t ≤ fuel2 → t < 4294967296 →
      waitWhile cond fuel t status m = waitWhile cond fuel2 t status m := by
  intro fuel
  induction fuel with
  | zero => intro fuel2 t status m h0 hf; omega
  | succ n ih =>
    intro fuel2 t status m h0 hf hf2 hw
    cases fuel2 with
    | zero => omega
    | succ n2 =>
      unfold waitWhile
      have ht : (t + 4294967295) % 4294967296 = t - 1 := by omega
      by_cases hc : (cond m).1 = 1
      · simp only [hc, if_true, ht]
        by_cases hz : t - 1 = 0
        · simp only [hz, if_true]
        · simp only [hz, if_false]
          exact ih n2 (t - 1) status (cond m).2 (by omega) (by omega) (by omega) (by omega)
      · simp only [hc, if_false]

/-- A wait loop started with budget `t` evaluates its condition `n` times, `1 ≤ n ≤ t`, and
ends right after an evaluation (on the machine `mp`): the counter it returns is 0 exactly when
that evaluation still found the condition holding, and then `n = t` and the status is ERROR;
otherwise the counter was decremented `n - 1` times and the status is unchanged. Each evaluation
of the condition makes `k` bus accesses. -/
theorem waitWhile_count (cond : Machine → Nat × Machine) (k : Nat)
    (hk : ∀ m, (cond m).2.log.length = m.log.length + k) :
    ∀ (fuel t : Nat) (status : ErrorStatus) (m : Machine),
      0 < t → t ≤ fuel → t < 4294967296 →
      ∃ n t1 s1 mp, waitWhile cond fuel t status m = some (t1, s1, (cond mp).2)
        ∧ 1 ≤ n ∧ n ≤ t ∧ (cond mp).2.log.length = m.log.length + k * n
        ∧ ((cond mp).1 = 1 ↔ t1 = 0)
        ∧ (t1 = 0 → n = t ∧ s1 = ErrorStatus.ERROR)
        ∧ (t1 ≠ 0 → t1 + n = t + 1 ∧ s1 = status) := by
  intro fuel
  induction fuel with
  | zero => intro t status m h0 hf; omega
  | succ f ih =>
    intro t status m h0 hf hw
    unfold waitWhile
    have ht : (t + 4294967295) % 4294967296 = t - 1 := by omega
    by_cases hc : (cond m).1 = 1
    · simp only [hc, if_true, ht]
      by_cases hz : t - 1 = 0
      · simp only [hz, if_true]
        refine ⟨1, 0, ErrorStatus.ERROR, m, rfl, Nat.le_refl 1, h0, ?_, ?_, ?_, ?_⟩
        · rw [hk, Nat.mul_one]
        · exact ⟨fun _ => rfl, fun _ => hc⟩
        · intro _; exact ⟨by omega, rfl⟩
        · intro h; exact absurd rfl h
      · simp only [hz, if_false]
        obtain ⟨n, t1, s1, mp, e, h1, h2, h3, h4, h5, h6⟩ :=
          ih (t - 1) status (cond m).2 (by omega) (by omega) (by omega)
        refine ⟨n + 1, t1, s1, mp, e, by omega, by omega, ?_, h4, ?_, ?_⟩
        · rw [h3, hk, Nat.mul_add, Nat.mul_one]; omega
        · intro h; obtain ⟨a, b⟩ := h5 h; exact ⟨by omega, b⟩
        · intro h; obtain ⟨a, b⟩ := h6 h; exact ⟨by omega, b⟩
    · simp only [hc, if_false]
      refine ⟨1, t, status, m, rfl, Nat.le_refl 1, h0, ?_, ?_, ?_, ?_⟩
      · rw [hk, Nat.mul_one]
      · exact ⟨fun h => absurd h hc, fun h => by omega⟩
      · intro h; omega
      · intro _; exact ⟨rfl, rfl⟩

theorem READ_REG_length (hw : Hardware) (r : Reg) (m : Machine) :
    (READ_REG hw r m).2.log.length = m.log.length + 1 := by
  simp [READ_REG]

theorem READ_BIT_length (hw : Hardware) (r : Reg) (b : Nat) (m : Machine) :
    (READ_BIT hw r b m).2.log.length = m.log.length + 1 := by
  simp [READ_BIT, READ_REG_length]

theorem LL_ADC_DeInit_stopOngoing_length (K : Header) (hw : Hardware) (m : Machine) :
    (LL_ADC_DeInit_stopOngoing K hw m).2.log.length = m.log.length + 2 := by
  simp [LL_ADC_DeInit_stopOngoing, LL_ADC_REG_IsStopConversionOngoing,
    LL_ADC_INJ_IsStopConversionOngoing, READ_BIT_length]

theorem LL_ADC_IsDisableOngoing_length (K : Header) (hw : Hardware) (m : Machine) :
    (LL_ADC_IsDisableOngoing K hw m).2.log.length = m.log.length + 1 := by
  simp [LL_ADC_IsDisableOngoing, READ_BIT_length]

/-- The first wait loop gives the same result for every fuel that covers its budget. -/
theorem LL_ADC_DeInit_waitStop_fuel (K : Header) (hw : Hardware) (fuel fuel2 : Nat)
    (status : ErrorStatus) (m : Machine) (h1 : ADC_CLOCK_RATIO_VS_CPU_HIGHEST ≤ fuel)
    (h2 : ADC_CLOCK_RATIO_VS_CPU_HIGHEST ≤ fuel2) :
    LL_ADC_DeInit_waitStop K hw fuel status m = LL_ADC_DeInit_waitStop K hw fuel2 status m := by
  rw [ratio_eq] at h1 h2
  unfold LL_ADC_DeInit_waitStop
  rw [timeout_stop_eq]
  exact waitWhile_fuel _ fuel fuel2 32768 status m (by omega) h1 h2 (by omega)

/-- The second wait loop gives the same result for every fuel that covers its budget. -/
theorem LL_ADC_DeInit_waitDisable_fuel (K : Header) (hw : Hardware) (fuel fuel2 : Nat)
    (status : ErrorStatus) (m : Machine) (h1 : ADC_CLOCK_RATIO_VS_CPU_HIGHEST ≤ fuel)
    (h2 : ADC_CLOCK_RATIO_VS_CPU_HIGHEST ≤ fuel2) :
    LL_ADC_DeInit_waitDisable K hw fuel status m
      = LL_ADC_DeInit_waitDisable K hw fuel2 status m := by
  rw [ratio_eq] at h1 h2
  unfold LL_ADC_DeInit_waitDisable
  rw [timeout_disable_eq]
  exact waitWhile_fuel _ fuel fuel2 32768 status m (by omega) h1 h2 (by omega)

/-- The function `LL_ADC_DeInit` gives the same result for every fuel that covers the budget of
its loops. -/
theorem LL_ADC_DeInit_fuel (K : Header) (hw : Hardware) (fuel fuel2 : Nat) (m : Machine)
    (h1 : ADC_CLOCK_RATIO_VS_CPU_HIGHEST ≤ fuel) (h2 : ADC_CLOCK_RATIO_VS_CPU_HIGHEST ≤ fuel2) :
    LL_ADC_DeInit K hw fuel m = LL_ADC_DeInit K hw fuel2 m := by
  unfold LL_ADC_DeInit LL_ADC_DeInit_disable
  simp only [LL_ADC_DeInit_waitStop_fuel K hw fuel fuel2 _ _ h1 h2,
    LL_ADC_DeInit_waitDisable_fuel K hw fuel fuel2 _ _ h1 h2]

/-- With enough fuel `LL_ADC_DeInit` returns. -/
theorem LL_ADC_DeInit_total (K : Header) (hw : Hardware) (fuel : Nat) (m : Machine)
    (hf : ADC_CLOCK_RATIO_VS_CPU_HIGHEST ≤ fuel) :
    ∃ r, LL_ADC_DeInit K hw fuel m = some r := by
  obtain ⟨st, m1, hd⟩ := LL_ADC_DeInit_disable_total K hw fuel m hf
  by_cases hc : (READ_BIT hw Reg.CR (LL_ADC_DeInit_checkBits K) m1).1 = 0
  · exact ⟨_, LL_ADC_DeInit_check_passed K hw fuel m st m1 hd hc⟩
  · refine ⟨(ErrorStatus.ERROR, (READ_BIT hw Reg.CR (LL_ADC_DeInit_checkBits K) m1).2), ?_⟩
    simp only [LL_ADC_DeInit, hd, hc, if_false]

/-- C11: for every peripheral behaviour `LL_ADC_DeInit` returns within the budget of its
loops: both budgets are 512*16*4 = 32768, a fuel of 32768 evaluations per loop is enough for the
function to return (and any larger fuel gives the same result), each wait loop evaluates its
condition `n` times with `1 ≤ n ≤ 32768` (two reads of CR per evaluation in the first loop, one
in the second), and it returns the counter 0 with status ERROR exactly when the last evaluation
still found the condition holding, which happens at evaluation number 32768. -/
theorem C11_LL_ADC_DeInit_terminates (K : Header) (hw : Hardware) (m : Machine) :
    ADC_TIMEOUT_STOP_CONVERSION_CPU_CYCLES = 512 * 16 * 4
    ∧ ADC_TIMEOUT_DISABLE_CPU_CYCLES = 512 * 16 * 4
    ∧ (∃ r, LL_ADC_DeInit K hw 32768 m = some r
        ∧ ∀ fuel, 32768 ≤ fuel → LL_ADC_DeInit K hw fuel m = some r)
    ∧ (∀ status, ∃ n t1 s1 mp,
        LL_ADC_DeInit_waitStop K hw 32768 status m
          = some (t1, s1, (LL_ADC_DeInit_stopOngoing K hw mp).2)
        ∧ 1 ≤ n ∧ n ≤ 32768
        ∧ (LL_ADC_DeInit_stopOngoing K hw mp).2.log.length = m.log.length + 2 * n
        ∧ ((LL_ADC_DeInit_stopOngoing K hw mp).1 = 1 ↔ t1 = 0)
        ∧ (t1 = 0 → n = 32768 ∧ s1 = ErrorStatus.ERROR)
        ∧ (t1 ≠ 0 → t1 + n = 32769 ∧ s1 = status))
    ∧ (∀ status, ∃ n t1 s1 mp,
        LL_ADC_DeInit_waitDisable K hw 32768 status m
          = some (t1, s1, (LL_ADC_IsDisableOngoing K hw mp).2)
        ∧ 1 ≤ n ∧ n ≤ 32768
        ∧ (LL_ADC_IsDisableOngoing K hw mp).2.log.length = m.log.length + 1 * n
        ∧ ((LL_ADC_IsDisableOngoing K hw mp).1 = 1 ↔ t1 = 0)
        ∧ (t1 = 0 → n = 32768 ∧ s1 = ErrorStatus.ERROR)
        ∧ (t1 ≠ 0 → t1 + n = 32769 ∧ s1 = status)) := by
  refine ⟨by decide, by decide, ?_, ?_, ?_⟩
  · obtain ⟨r, hr⟩ := LL_ADC_DeInit_total K hw 32768 m (by decide)
    refine ⟨r, hr, ?_⟩
    intro fuel hf
    rw [← hr]
    exact LL_ADC_DeInit_fuel K hw fuel 32768 m (by rw [ratio_eq]; exact hf) (by decide)
  · intro status
    unfold LL_ADC_DeInit_waitStop
    rw [timeout_stop_eq]
    exact waitWhile_count _ 2 (LL_ADC_DeInit_stopOngoing_length K hw) 32768 32768 status m
      (by omega) (Nat.le_refl _) (by omega)
  · intro status
    unfold LL_ADC_DeInit_waitDisable
    rw [timeout_disable_eq]
    exact waitWhile_count _ 1 (LL_ADC_IsDisableOngoing_length K hw) 32768 32768 status m
      (by omega) (Nat.le_refl _) (by omega)

/-! ## The order of the writes of `LL_ADC_DeInit` -/

theorem writes_append (l1 l2 : List Access) : writes (l1 ++ l2) = writes l1 ++ writes l2 := by
  induction l1 with
  | nil => rfl
  | cons a l ih =>
    cases a with
    | rd r v => simpa [writes] using ih
    | wr r v => simpa [writes] using ih

theorem writtenRegs_eq_writes (l : List Access) : writtenRegs l = (writes l).map Prod.fst := by
  induction l with
  | nil => rfl
  | cons a l ih =>
    cases a with
    | rd r v => simpa [writes, writtenRegs] using ih
    | wr r v => simpa [writes, writtenRegs] using ih

theorem READ_REG_writes (hw : Hardware) (r : Reg) (m : Machine) :
    writes (READ_REG hw r m).2.log = writes m.log := by
  simp [READ_REG, writes_append, writes]

theorem READ_BIT_writes (hw : Hardware) (r : Reg) (b : Nat) (m : Machine) :
    writes (READ_BIT hw r b m).2.log = writes m.log := by
  simp [READ_BIT, READ_REG_writes]

/-- A read-modify-write makes one write, of a word that holds the set mask on every 32-bit field
inside the clear mask. -/
theorem MODIFY_REG_writes (K : Header) (hw : Hardware) (r : Reg) (c s : Nat) (m : Machine) :
    ∃ v, writes (MODIFY_REG K hw r c s m).log = writes m.log ++ [(r, v)]
      ∧ ∀ f, f &&& c = f → f < 4294967296 → v &&& f = s &&& f := by
  refine ⟨(((READ_REG hw r m).1 &&& NOT32 c) ||| s) % 4294967296, ?_, ?_⟩
  · simp [WRITE_REG, MODIFY_REG, READ_REG, writes_append, writes]
  · intro f hf hw
    exact modify_field _ c s f hf hw

theorem READ_REG_extends (hw : Hardware) (r : Reg) (m : Machine) (l : List Access)
    (h : l <+: m.log) : l <+: (READ_REG hw r m).2.log := by
  simp only [READ_REG]
  exact h.trans (List.prefix_append _ _)

theorem READ_BIT_extends (hw : Hardware) (r : Reg) (b : Nat) (m : Machine) (l : List Access)
    (h : l <+: m.log) : l <+: (READ_BIT hw r b m).2.log :=
  READ_REG_extends hw r m l h

theorem WRITE_REG_extends (K : Header) (hw : Hardware) (r : Reg) (v : Nat) (m : Machine)
    (l : List Access) (h : l <+: m.log) : l <+: (WRITE_REG K hw r v m).log := by
  simp only [WRITE_REG]
  exact h.trans (List.prefix_append _ _)

theorem MODIFY_REG_extends (K : Header) (hw : Hardware) (r : Reg) (c s : Nat) (m : Machine)
    (l : List Access) (h : l <+: m.log) : l <+: (MODIFY_REG K hw r c s m).log :=
  WRITE_REG_extends K hw r _ _ l (READ_REG_extends hw r m l h)

theorem SET_BIT_extends (K : Header) (hw : Hardware) (r : Reg) (b : Nat) (m : Machine)
    (l : List Access) (h : l <+: m.log) : l <+: (SET_BIT K hw r b m).log :=
  WRITE_REG_extends K hw r _ _ l (READ_REG_extends hw r m l h)

theorem CLEAR_BIT_extends (K : Header) (hw : Hardware) (r : Reg) (b : Nat) (m : Machine)
    (l : List Access) (h : l <+: m.log) : l <+: (CLEAR_BIT K hw r b m).log :=
  WRITE_REG_extends K hw r _ _ l (READ_REG_extends hw r m l h)

theorem store_mod (K : Header) (r : Reg) (old v : Nat) :
    store K r old (v % 4294967296) = store K r old v := by
  cases r <;> simp only [store, NOT32, Nat.mod_mod]
  apply Nat.eq_of_testBit_eq
  intro i
  simp only [testBit_mod_word, Nat.testBit_or, Nat.testBit_and]
  by_cases h : i < 32 <;> simp [h]

theorem WRITE_REG_mod (K : Header) (hw : Hardware) (r : Reg) (v : Nat) (m : Machine) :
    WRITE_REG K hw r (v % 4294967296) m = WRITE_REG K hw r v m := by
  simp only [WRITE_REG, store_mod, Nat.mod_mod]

/-- The macro `CLEAR_BIT` is the read-modify-write with an empty set mask. -/
theorem CLEAR_BIT_eq_MODIFY_REG (K : Header) (hw : Hardware) (r : Reg) (b : Nat) (m : Machine) :
    CLEAR_BIT K hw r b m = MODIFY_REG K hw r b 0 m := by
  simp only [CLEAR_BIT, MODIFY_REG, Nat.or_zero]

/-- The macro `SET_BIT` is the read-modify-write with an empty clear mask. -/
theorem SET_BIT_eq_MODIFY_REG (K : Header) (hw : Hardware) (r : Reg) (b : Nat) (m : Machine) :
    SET_BIT K hw r b m = MODIFY_REG K hw r 0 b m := by
  simp only [SET_BIT, MODIFY_REG]
  rw [← WRITE_REG_mod K hw r ((READ_REG hw r m).1 ||| b),
    ← WRITE_REG_mod K hw r (((READ_REG hw r m).1 &&& NOT32 0) ||| b)]
  congr 1
  apply Nat.eq_of_testBit_eq
  intro i
  simp only [testBit_mod_word, Nat.testBit_or, Nat.testBit_and, testBit_NOT32,
    Nat.zero_testBit]
  by_cases h : i < 32 <;> simp [h]

/-- The register-reset block is the sequence of read-modify-writes of
`LL_ADC_DeInit_resetOps`. -/
theorem LL_ADC_DeInit_reset_eq (K : Header) (hw : Hardware) (m : Machine) :
    LL_ADC_DeInit_reset K hw m
      = (LL_ADC_DeInit_resetOps K).foldl
          (fun m op => MODIFY_REG K hw op.1 op.2.1 op.2.2 m) m := by
  simp only [LL_ADC_DeInit_reset, LL_ADC_DeInit_resetOps, List.foldl,
    CLEAR_BIT_eq_MODIFY_REG, SET_BIT_eq_MODIFY_REG]

theorem foldl_MODIFY_REG_extends (K : Header) (hw : Hardware) (ops : List (Reg × Nat × Nat)) :
    ∀ (m : Machine) (l : List Access), l <+: m.log →
      l <+: (ops.foldl (fun m op => MODIFY_REG K hw op.1 op.2.1 op.2.2 m) m).log := by
  induction ops with
  | nil => intro m l h; exact h
  | cons op ops ih =>
    intro m l h
    exact ih _ l (MODIFY_REG_extends K hw _ _ _ m l h)

/-- The register-reset block only appends to the access log. -/
theorem LL_ADC_DeInit_reset_extends (K : Header) (hw : Hardware) (m : Machine) :
    m.log <+: (LL_ADC_DeInit_reset K hw m).log := by
  rw [LL_ADC_DeInit_reset_eq]
  exact foldl_MODIFY_REG_extends K hw _ m m.log (List.prefix_refl _)

/-- The writes of the register-reset block: one per statement, on the registers of
`LL_ADC_DeInit_resetRegs`. -/
theorem LL_ADC_DeInit_reset_writes (K : Header) (hw : Hardware) (m : Machine) :
    ∃ rst, writes (LL_ADC_DeInit_reset K hw m).log = writes m.log ++ rst
      ∧ rst.map Prod.fst = LL_ADC_DeInit_resetRegs := by
  obtain ⟨tail, ht⟩ := LL_ADC_DeInit_reset_extends K hw m
  refine ⟨writes tail, by rw [← ht, writes_append], ?_⟩
  have h := LL_ADC_DeInit_reset_writtenRegs K hw m
  rw [← ht, writtenRegs_append] at h
  rw [← writtenRegs_eq_writes]
  exact List.append_cancel_left h

theorem rs_ADSTP (K : Header) :
    K.ADC_CR_ADSTP &&& ADC_CR_BITS_PROPERTY_RS K = K.ADC_CR_ADSTP := by
  unfold ADC_CR_BITS_PROPERTY_RS
  exact sub_or_left _ (sub_or_left _ (sub_or_left _ (sub_or_left _
    (sub_or_right _ (Nat.and_self _)))))

theorem rs_JADSTP (K : Header) :
    K.ADC_CR_JADSTP &&& ADC_CR_BITS_PROPERTY_RS K = K.ADC_CR_JADSTP := by
  unfold ADC_CR_BITS_PROPERTY_RS
  exact sub_or_left _ (sub_or_left _ (sub_or_left _ (sub_or_left _ (sub_or_left _
    (sub_or_right _ (Nat.and_self _))))))

theorem rs_JADSTART (K : Header) :
    K.ADC_CR_JADSTART &&& ADC_CR_BITS_PROPERTY_RS K = K.ADC_CR_JADSTART := by
  unfold ADC_CR_BITS_PROPERTY_RS
  exact sub_or_left _ (sub_or_left _ (sub_or_left _ (sub_or_right _ (Nat.and_self _))))

theorem rs_ADSTART (K : Header) :
    K.ADC_CR_ADSTART &&& ADC_CR_BITS_PROPERTY_RS K = K.ADC_CR_ADSTART := by
  unfold ADC_CR_BITS_PROPERTY_RS
  exact sub_or_left _ (sub_or_left _ (sub_or_right _ (Nat.and_self _)))

theorem rs_ADDIS (K : Header) :
    K.ADC_CR_ADDIS &&& ADC_CR_BITS_PROPERTY_RS K = K.ADC_CR_ADDIS := by
  unfold ADC_CR_BITS_PROPERTY_RS
  exact sub_or_left _ (sub_or_right _ (Nat.and_self _))

theorem rs_ADEN (K : Header) :
    K.ADC_CR_ADEN &&& ADC_CR_BITS_PROPERTY_RS K = K.ADC_CR_ADEN := by
  unfold ADC_CR_BITS_PROPERTY_RS
  exact sub_or_right _ (Nat.and_self _)

/-- A wait loop whose condition only reads makes no write. -/
theorem waitWhile_writes (cond : Machine → Nat × Machine)
    (hc : ∀ m, writes (cond m).2.log = writes m.log) :
    ∀ (fuel t : Nat) (status : ErrorStatus) (m : Machine) (r : Nat × ErrorStatus × Machine),
      waitWhile cond fuel t status m = some r → writes r.2.2.log = writes m.log := by
  intro fuel
  induction fuel with
  | zero => intro t status m r h; simp [waitWhile] at h
  | succ n ih =>
    intro t status m r h
    unfold waitWhile at h
    by_cases h1 : (cond m).1 = 1
    · simp only [h1, if_true] at h
      by_cases h2 : (t + 4294967295) % 4294967296 = 0
      · simp only [h2, if_true, Option.some.injEq] at h
        rw [← h]; exact hc m
      · simp only [h2, if_false] at h
        rw [ih _ _ _ _ h]; exact hc m
    · simp only [h1, if_false, Option.some.injEq] at h
      rw [← h]; exact hc m

theorem LL_ADC_DeInit_stopOngoing_writes (K : Header) (hw : Hardware) (m : Machine) :
    writes (LL_ADC_DeInit_stopOngoing K hw m).2.log = writes m.log := by
  simp [LL_ADC_DeInit_stopOngoing, LL_ADC_REG_IsStopConversionOngoing,
    LL_ADC_INJ_IsStopConversionOngoing, READ_BIT_writes]

theorem LL_ADC_IsDisableOngoing_writes (K : Header) (hw : Hardware) (m : Machine) :
    writes (LL_ADC_IsDisableOngoing K hw m).2.log = writes m.log := by
  simp [LL_ADC_IsDisableOngoing, READ_BIT_writes]

theorem LL_ADC_IsEnabled_writes (K : Header) (hw : Hardware) (m : Machine) :
    writes (LL_ADC_IsEnabled K hw m).2.log = writes m.log := by
  simp [LL_ADC_IsEnabled, READ_BIT_writes]

/-- The writes of lines 397-423 of `LL_ADC_DeInit`: the regular trigger source, at most one
regular stop request, the injected trigger source, at most one injected stop request. -/
theorem LL_ADC_DeInit_stopConversions_writes (K : Header) (L : DisableLayout K) (hw : Hardware)
    (m : Machine) :
    ∃ v1 reg v3 inj,
      writes (LL_ADC_DeInit_stopConversions K hw m).log
        = writes m.log ++ [(Reg.CFGR, v1)] ++ reg ++ [(Reg.JSQR, v3)] ++ inj
      ∧ v1 &&& (K.ADC_CFGR_EXTEN ||| K.ADC_CFGR_EXTSEL) = K.LL_ADC_REG_TRIG_SOFTWARE
      ∧ (reg = [] ∨ ∃ v2, reg = [(Reg.CR, v2)]
          ∧ v2 &&& ADC_CR_BITS_PROPERTY_RS K = K.ADC_CR_ADSTP)
      ∧ v3 &&& (K.ADC_JSQR_JEXTSEL ||| K.ADC_JSQR_JEXTEN) = K.LL_ADC_INJ_TRIG_SOFTWARE
      ∧ (inj = [] ∨ ∃ v4, inj = [(Reg.CR, v4)]
          ∧ v4 &&& ADC_CR_BITS_PROPERTY_RS K = K.ADC_CR_JADSTP) := by
  have hrs : ADC_CR_BITS_PROPERTY_RS K < 4294967296 := L.words _ (by simp)
  -- the regular group
  obtain ⟨v1, w1, p1⟩ := MODIFY_REG_writes K hw Reg.CFGR
    (K.ADC_CFGR_EXTEN ||| K.ADC_CFGR_EXTSEL) K.LL_ADC_REG_TRIG_SOFTWARE m
  have q1 : v1 &&& (K.ADC_CFGR_EXTEN ||| K.ADC_CFGR_EXTSEL) = K.LL_ADC_REG_TRIG_SOFTWARE := by
    rw [p1 _ (Nat.and_self _) (L.words _ (by simp)), L.reg_trig]
  have hreg : ∃ reg m2, (if (LL_ADC_REG_IsConversionOngoing K hw
        (LL_ADC_REG_SetTriggerSource K hw K.LL_ADC_REG_TRIG_SOFTWARE m)).1 ≠ 0 then
        if (LL_ADC_REG_IsStopConversionOngoing K hw (LL_ADC_REG_IsConversionOngoing K hw
          (LL_ADC_REG_SetTriggerSource K hw K.LL_ADC_REG_TRIG_SOFTWARE m)).2).1 = 0
        then LL_ADC_REG_StopConversion K hw (LL_ADC_REG_IsStopConversionOngoing K hw
          (LL_ADC_REG_IsConversionOngoing K hw
            (LL_ADC_REG_SetTriggerSource K hw K.LL_ADC_REG_TRIG_SOFTWARE m)).2).2
        else (LL_ADC_REG_IsStopConversionOngoing K hw (LL_ADC_REG_IsConversionOngoing K hw
          (LL_ADC_REG_SetTriggerSource K hw K.LL_ADC_REG_TRIG_SOFTWARE m)).2).2
        else (LL_ADC_REG_IsConversionOngoing K hw
          (LL_ADC_REG_SetTriggerSource K hw K.LL_ADC_REG_TRIG_SOFTWARE m)).2) = m2
      ∧ writes m2.log = writes m.log ++ [(Reg.CFGR, v1)] ++ reg
      ∧ (reg = [] ∨ ∃ v2, reg = [(Reg.CR, v2)]
          ∧ v2 &&& ADC_CR_BITS_PROPERTY_RS K = K.ADC_CR_ADSTP) := by
    have e0 : writes (LL_ADC_REG_SetTriggerSource K hw K.LL_ADC_REG_TRIG_SOFTWARE m).log
        = writes m.log ++ [(Reg.CFGR, v1)] := w1
    split
    · split
      · obtain ⟨v2, w2, p2⟩ := MODIFY_REG_writes K hw Reg.CR (ADC_CR_BITS_PROPERTY_RS K)
          K.ADC_CR_ADSTP (LL_ADC_REG_IsStopConversionOngoing K hw
            (LL_ADC_REG_IsConversionOngoing K hw
              (LL_ADC_REG_SetTriggerSource K hw K.LL_ADC_REG_TRIG_SOFTWARE m)).2).2
        refine ⟨[(Reg.CR, v2)], _, rfl, ?_, Or.inr ⟨v2, rfl, ?_⟩⟩
        · unfold LL_ADC_REG_StopConversion
          rw [w2]
          simp [LL_ADC_REG_IsStopConversionOngoing, LL_ADC_REG_IsConversionOngoing,
            READ_BIT_writes, e0]
        · rw [p2 _ (Nat.and_self _) hrs, rs_ADSTP]
      · refine ⟨[], _, rfl, ?_, Or.inl rfl⟩
        simp [LL_ADC_REG_IsStopConversionOngoing, LL_ADC_REG_IsConversionOngoing,
          READ_BIT_writes, e0]
    · refine ⟨[], _, rfl, ?_, Or.inl rfl⟩
      simp [LL_ADC_REG_IsConversionOngoing, READ_BIT_writes, e0]
  obtain ⟨reg, m2, em2, wm2, preg⟩ := hreg
  -- the injected group
  obtain ⟨v3, w3, p3⟩ := MODIFY_REG_writes K hw Reg.JSQR
    (K.ADC_JSQR_JEXTSEL ||| K.ADC_JSQR_JEXTEN) K.LL_ADC_INJ_TRIG_SOFTWARE m2
  have q3 : v3 &&& (K.ADC_JSQR_JEXTSEL ||| K.ADC_JSQR_JEXTEN) = K.LL_ADC_INJ_TRIG_SOFTWARE := by
    rw [p3 _ (Nat.and_self _) (L.words _ (by simp)), L.inj_trig]
  have e3 : writes (LL_ADC_INJ_SetTriggerSource K hw K.LL_ADC_INJ_TRIG_SOFTWARE m2).log
      = writes m.log ++ [(Reg.CFGR, v1)] ++ reg ++ [(Reg.JSQR, v3)] := by
    unfold LL_ADC_INJ_SetTriggerSource
    rw [w3, wm2]
  refine ⟨v1, reg, v3, ?_⟩
  unfold LL_ADC_DeInit_stopConversions
  simp only [em2]
  split
  · split
    · obtain ⟨v4, w4, p4⟩ := MODIFY_REG_writes K hw Reg.CR (ADC_CR_BITS_PROPERTY_RS K)
        K.ADC_CR_JADSTP (LL_ADC_INJ_IsStopConversionOngoing K hw
          (LL_ADC_INJ_IsConversionOngoing K hw
            (LL_ADC_INJ_SetTriggerSource K hw K.LL_ADC_INJ_TRIG_SOFTWARE m2)).2).2
      refine ⟨[(Reg.CR, v4)], ?_, q1, preg, q3, Or.inr ⟨v4, rfl, ?_⟩⟩
      · unfold LL_ADC_INJ_StopConversion
        rw [w4]
        simp [LL_ADC_INJ_IsStopConversionOngoing, LL_ADC_INJ_IsConversionOngoing,
          READ_BIT_writes, e3]
      · rw [p4 _ (Nat.and_self _) hrs, rs_JADSTP]
    · refine ⟨[], ?_, q1, preg, q3, Or.inl rfl⟩
      simp [LL_ADC_INJ_IsStopConversionOngoing, LL_ADC_INJ_IsConversionOngoing,
        READ_BIT_writes, e3]
  · refine ⟨[], ?_, q1, preg, q3, Or.inl rfl⟩
    simp [LL_ADC_INJ_IsConversionOngoing, READ_BIT_writes, e3]

/-- The writes of lines 439-445 of `LL_ADC_DeInit`: the queue mode with JQM set, then the
disable request. -/
theorem LL_ADC_DeInit_requestDisable_writes (K : Header) (L : DisableLayout K) (hw : Hardware)
    (m : Machine) :
    ∃ v5 v6,
      writes (LL_ADC_DeInit_requestDisable K hw m).log
        = writes m.log ++ [(Reg.CFGR, v5), (Reg.CR, v6)]
      ∧ v5 &&& (K.ADC_CFGR_JQM ||| K.ADC_CFGR_JQDIS) = K.ADC_CFGR_JQM
      ∧ v6 &&& ADC_CR_BITS_PROPERTY_RS K = K.ADC_CR_ADDIS := by
  obtain ⟨v5, w5, p5⟩ := MODIFY_REG_writes K hw Reg.CFGR
    (K.ADC_CFGR_JQM ||| K.ADC_CFGR_JQDIS) K.LL_ADC_INJ_QUEUE_2CONTEXTS_END_EMPTY m
  obtain ⟨v6, w6, p6⟩ := MODIFY_REG_writes K hw Reg.CR (ADC_CR_BITS_PROPERTY_RS K)
    K.ADC_CR_ADDIS (LL_ADC_INJ_SetQueueMode K hw K.LL_ADC_INJ_QUEUE_2CONTEXTS_END_EMPTY m)
  refine ⟨v5, v6, ?_, ?_, ?_⟩
  · unfold LL_ADC_DeInit_requestDisable LL_ADC_Disable
    rw [w6]
    unfold LL_ADC_INJ_SetQueueMode
    rw [w5, List.append_assoc]
    rfl
  · rw [p5 _ (Nat.and_self _) (L.words _ (by simp)), L.queue]
    exact sub_or_left _ (Nat.and_self _)
  · rw [p6 _ (Nat.and_self _) (L.words _ (by simp)), rs_ADDIS]

/-- C12: for every peripheral behaviour, on an enabled instance `LL_ADC_DeInit` returns and
its writes are, in order: the regular trigger source set to software start (CFGR), at most one
regular stop request (CR with ADSTP as only read-set bit), the injected trigger source set to
software start (JSQR), at most one injected stop request (CR with JADSTP as only read-set bit),
nothing during the first wait, the queue mode with JQM set (CFGR), the disable request (CR
with ADDIS as only read-set bit), nothing during the second wait, and after it either nothing
or the writes of the register-reset block. -/
theorem C12_LL_ADC_DeInit_write_order (K : Header) (L : DisableLayout K) (hw : Hardware)
    (fuel : Nat) (m : Machine) (hf : ADC_CLOCK_RATIO_VS_CPU_HIGHEST ≤ fuel)
    (hen : (LL_ADC_IsEnabled K hw m).1 = 1) :
    ∃ v1 reg v3 inj v5 v6 rst t1 s1 m2 t2 s2 m4 st m5,
      LL_ADC_DeInit_waitStop K hw fuel ErrorStatus.SUCCESS
          (LL_ADC_DeInit_stopConversions K hw (LL_ADC_IsEnabled K hw m).2) = some (t1, s1, m2)
      ∧ LL_ADC_DeInit_waitDisable K hw fuel s1 (LL_ADC_DeInit_requestDisable K hw m2)
          = some (t2, s2, m4)
      ∧ LL_ADC_DeInit K hw fuel m = some (st, m5)
      ∧ writes (LL_ADC_DeInit_stopConversions K hw (LL_ADC_IsEnabled K hw m).2).log
          = writes m.log ++ [(Reg.CFGR, v1)] ++ reg ++ [(Reg.JSQR, v3)] ++ inj
      ∧ writes m2.log
          = writes (LL_ADC_DeInit_stopConversions K hw (LL_ADC_IsEnabled K hw m).2).log
      ∧ writes (LL_ADC_DeInit_requestDisable K hw m2).log
          = writes m2.log ++ [(Reg.CFGR, v5), (Reg.CR, v6)]
      ∧ writes m4.log = writes (LL_ADC_DeInit_requestDisable K hw m2).log
      ∧ writes m5.log = writes m4.log ++ rst
      ∧ v1 &&& (K.ADC_CFGR_EXTEN ||| K.ADC_CFGR_EXTSEL) = K.LL_ADC_REG_TRIG_SOFTWARE
      ∧ (reg = [] ∨ ∃ v2, reg = [(Reg.CR, v2)]
          ∧ v2 &&& ADC_CR_BITS_PROPERTY_RS K = K.ADC_CR_ADSTP)
      ∧ v3 &&& (K.ADC_JSQR_JEXTSEL ||| K.ADC_JSQR_JEXTEN) = K.LL_ADC_INJ_TRIG_SOFTWARE
      ∧ (inj = [] ∨ ∃ v4, inj = [(Reg.CR, v4)]
          ∧ v4 &&& ADC_CR_BITS_PROPERTY_RS K = K.ADC_CR_JADSTP)
      ∧ v5 &&& (K.ADC_CFGR_JQM ||| K.ADC_CFGR_JQDIS) = K.ADC_CFGR_JQM
      ∧ v6 &&& ADC_CR_BITS_PROPERTY_RS K = K.ADC_CR_ADDIS
      ∧ (rst = [] ∨ rst.map Prod.fst = LL_ADC_DeInit_resetRegs) := by
  obtain ⟨v1, reg, v3, inj, w1, q1, preg, q3, pinj⟩ :=
    LL_ADC_DeInit_stopConversions_writes K L hw (LL_ADC_IsEnabled K hw m).2
  rw [LL_ADC_IsEnabled_writes] at w1
  obtain ⟨t1, s1, m2, h1, -, -⟩ := LL_ADC_DeInit_waitStop_total K hw fuel ErrorStatus.SUCCESS
    (LL_ADC_DeInit_stopConversions K hw (LL_ADC_IsEnabled K hw m).2) hf
  obtain ⟨t2, s2, m4, h2, -, -⟩ := LL_ADC_DeInit_waitDisable_total K hw fuel s1
    (LL_ADC_DeInit_requestDisable K hw m2) hf
  obtain ⟨v5, v6, w5, q5, q6⟩ := LL_ADC_DeInit_requestDisable_writes K L hw m2
  have e2 : writes m2.log
      = writes (LL_ADC_DeInit_stopConversions K hw (LL_ADC_IsEnabled K hw m).2).log :=
    waitWhile_writes _ (LL_ADC_DeInit_stopOngoing_writes K hw) _ _ _ _ _ h1
  have e4 : writes m4.log = writes (LL_ADC_DeInit_requestDisable K hw m2).log :=
    waitWhile_writes _ (LL_ADC_IsDisableOngoing_writes K hw) _ _ _ _ _ h2
  have hd := LL_ADC_DeInit_disable_enabled K hw fuel m t1 t2 s1 s2 m2 m4 hen h1 h2
  by_cases hc : (READ_BIT hw Reg.CR (LL_ADC_DeInit_checkBits K) m4).1 = 0
  · obtain ⟨rst, wr, pr⟩ := LL_ADC_DeInit_reset_writes K hw
      (READ_BIT hw Reg.CR (LL_ADC_DeInit_checkBits K) m4).2
    rw [READ_BIT_writes] at wr
    exact ⟨v1, reg, v3, inj, v5, v6, rst, t1, s1, m2, t2, s2, m4, s2, _, h1, h2,
      LL_ADC_DeInit_check_passed K hw fuel m s2 m4 hd hc, w1, e2, w5, e4, wr, q1, preg, q3,
      pinj, q5, q6, Or.inr pr⟩
  · have hr : LL_ADC_DeInit K hw fuel m = some (ErrorStatus.ERROR,
        (READ_BIT hw Reg.CR (LL_ADC_DeInit_checkBits K) m4).2) := by
      simp only [LL_ADC_DeInit, hd, hc, if_false]
    exact ⟨v1, reg, v3, inj, v5, v6, [], t1, s1, m2, t2, s2, m4, ErrorStatus.ERROR, _, h1, h2,
      hr, w1, e2, w5, e4, by rw [READ_BIT_writes, List.append_nil], q1, preg, q3, pinj, q5, q6,
      Or.inl rfl⟩

theorem stm32mp13_DisableLayout : DisableLayout stm32mp13 where
  reg_trig := by decide
  inj_trig := by decide
  queue := by decide
  words := by decide

theorem C12_LL_ADC_DeInit_write_order_witness :
    (LL_ADC_IsEnabled stm32mp13 quiet { regs := convertingRegs, log := [] }).1 = 1
    ∧ ∃ v1 reg v3 inj v5 v6 rst t1 s1 m2 t2 s2 m4 st m5,
      LL_ADC_DeInit_waitStop stm32mp13 quiet 32768 ErrorStatus.SUCCESS
          (LL_ADC_DeInit_stopConversions stm32mp13 quiet
            (LL_ADC_IsEnabled stm32mp13 quiet { regs := convertingRegs, log := [] }).2)
          = some (t1, s1, m2)
      ∧ LL_ADC_DeInit_waitDisable stm32mp13 quiet 32768 s1
          (LL_ADC_DeInit_requestDisable stm32mp13 quiet m2) = some (t2, s2, m4)
      ∧ LL_ADC_DeInit stm32mp13 quiet 32768 { regs := convertingRegs, log := [] }
          = some (st, m5)
      ∧ writes (LL_ADC_DeInit_stopConversions stm32mp13 quiet
            (LL_ADC_IsEnabled stm32mp13 quiet { regs := convertingRegs, log := [] }).2).log
          = writes ([] : List Access) ++ [(Reg.CFGR, v1)] ++ reg ++ [(Reg.JSQR, v3)] ++ inj
      ∧ writes m2.log
          = writes (LL_ADC_DeInit_stopConversions stm32mp13 quiet
            (LL_ADC_IsEnabled stm32mp13 quiet { regs := convertingRegs, log := [] }).2).log
      ∧ writes (LL_ADC_DeInit_requestDisable stm32mp13 quiet m2).log
          = writes m2.log ++ [(Reg.CFGR, v5), (Reg.CR, v6)]
      ∧ writes m4.log = writes (LL_ADC_DeInit_requestDisable stm32mp13 quiet m2).log
      ∧ writes m5.log = writes m4.log ++ rst
      ∧ v1 &&& (stm32mp13.ADC_CFGR_EXTEN ||| stm32mp13.ADC_CFGR_EXTSEL)
          = stm32mp13.LL_ADC_REG_TRIG_SOFTWARE
      ∧ (reg = [] ∨ ∃ v2, reg = [(Reg.CR, v2)]
          ∧ v2 &&& ADC_CR_BITS_PROPERTY_RS stm32mp13 = stm32mp13.ADC_CR_ADSTP)
      ∧ v3 &&& (stm32mp13.ADC_JSQR_JEXTSEL ||| stm32mp13.ADC_JSQR_JEXTEN)
          = stm32mp13.LL_ADC_INJ_TRIG_SOFTWARE
      ∧ (inj = [] ∨ ∃ v4, inj = [(Reg.CR, v4)]
          ∧ v4 &&& ADC_CR_BITS_PROPERTY_RS stm32mp13 = stm32mp13.ADC_CR_JADSTP)
      ∧ v5 &&& (stm32mp13.ADC_CFGR_JQM ||| stm32mp13.ADC_CFGR_JQDIS) = stm32mp13.ADC_CFGR_JQM
      ∧ v6 &&& ADC_CR_BITS_PROPERTY_RS stm32mp13 = stm32mp13.ADC_CR_ADDIS
      ∧ (rst = [] ∨ rst.map Prod.fst = LL_ADC_DeInit_resetRegs) :=
  ⟨by decide, C12_LL_ADC_DeInit_write_order stm32mp13 stm32mp13_DisableLayout quiet 32768
    { regs := convertingRegs, log := [] } (by decide) (by decide)⟩

/-! ## The accesses of the stop sequence of `LL_ADC_DeInit` -/

theorem ports_append (l1 l2 : List Access) : ports (l1 ++ l2) = ports l1 ++ ports l2 := by
  induction l1 with
  | nil => rfl
  | cons a l ih =>
    cases a with
    | rd r v => simpa [ports] using ih
    | wr r v => simpa [ports] using ih

theorem READ_REG_ports (hw : Hardware) (r : Reg) (m : Machine) :
    ports (READ_REG hw r m).2.log = ports m.log ++ [Port.rd r] := by
  simp [READ_REG, ports_append, ports]

theorem READ_BIT_ports (hw : Hardware) (r : Reg) (b : Nat) (m : Machine) :
    ports (READ_BIT hw r b m).2.log = ports m.log ++ [Port.rd r] := by
  simp [READ_BIT, READ_REG_ports]

theorem MODIFY_REG_ports (K : Header) (hw : Hardware) (r : Reg) (c s : Nat) (m : Machine) :
    ports (MODIFY_REG K hw r c s m).log = ports m.log ++ [Port.rd r, Port.wr r] := by
  simp [WRITE_REG, MODIFY_REG, READ_REG, ports_append, ports]

theorem LL_ADC_DeInit_stopOngoing_ports (K : Header) (hw : Hardware) (m : Machine) :
    ports (LL_ADC_DeInit_stopOngoing K hw m).2.log
      = ports m.log ++ [Port.rd Reg.CR, Port.rd Reg.CR] := by
  simp [LL_ADC_DeInit_stopOngoing, LL_ADC_REG_IsStopConversionOngoing,
    LL_ADC_INJ_IsStopConversionOngoing, READ_BIT_ports]

/-- The accesses of a wait loop: those of its condition, once per evaluation. -/
theorem waitWhile_ports (cond : Machine → Nat × Machine) (p : List Port)
    (hp : ∀ m, ports (cond m).2.log = ports m.log ++ p) :
    ∀ (fuel t : Nat) (status : ErrorStatus) (m : Machine) (r : Nat × ErrorStatus × Machine),
      0 < t → t < 4294967296 → waitWhile cond fuel t status m = some r →
      ∃ n, 1 ≤ n ∧ n ≤ t ∧ ports r.2.2.log = ports m.log ++ (List.replicate n p).flatten := by
  intro fuel
  induction fuel with
  | zero => intro t status m r _ _ h; simp [waitWhile] at h
  | succ f ih =>
    intro t status m r h0 hw h
    unfold waitWhile at h
    have ht : (t + 4294967295) % 4294967296 = t - 1 := by omega
    by_cases h1 : (cond m).1 = 1
    · simp only [h1, if_true, ht] at h
      by_cases h2 : t - 1 = 0
      · simp only [h2, if_true, Option.some.injEq] at h
        refine ⟨1, Nat.le_refl 1, h0, ?_⟩
        rw [← h]; simp [hp]
      · simp only [h2, if_false] at h
        obtain ⟨n, a, b, c⟩ := ih (t - 1) status (cond m).2 r (by omega) (by omega) h
        refine ⟨n + 1, by omega, by omega, ?_⟩
        rw [c, hp, List.replicate_succ, List.flatten_cons, List.append_assoc]
    · simp only [h1, if_false, Option.some.injEq] at h
      refine ⟨1, Nat.le_refl 1, h0, ?_⟩
      rw [← h]; simp [hp]

/-- The accesses of lines 397-423 of `LL_ADC_DeInit`: for each group the trigger source is
written, the conversion-ongoing bit is read, and then either nothing, or the stop bit is read,
or the stop bit is read and the stop requested. No access lies between the part of the regular
group and the write of the injected trigger source. -/
theorem LL_ADC_DeInit_stopConversions_ports (K : Header) (hw : Hardware) (m : Machine) :
    ∃ reg inj,
      ports (LL_ADC_DeInit_stopConversions K hw m).log
        = ports m.log ++ [Port.rd Reg.CFGR, Port.wr Reg.CFGR, Port.rd Reg.CR] ++ reg
            ++ [Port.rd Reg.JSQR, Port.wr Reg.JSQR, Port.rd Reg.CR] ++ inj
      ∧ reg ∈ [[], [Port.rd Reg.CR], [Port.rd Reg.CR, Port.rd Reg.CR, Port.wr Reg.CR]]
      ∧ inj ∈ [[], [Port.rd Reg.CR], [Port.rd Reg.CR, Port.rd Reg.CR, Port.wr Reg.CR]]
      ∧ ((LL_ADC_REG_IsConversionOngoing K hw
            (LL_ADC_REG_SetTriggerSource K hw K.LL_ADC_REG_TRIG_SOFTWARE m)).1 ≠ 0 →
          (LL_ADC_REG_IsStopConversionOngoing K hw (LL_ADC_REG_IsConversionOngoing K hw
            (LL_ADC_REG_SetTriggerSource K hw K.LL_ADC_REG_TRIG_SOFTWARE m)).2).1 = 0 →
          reg = [Port.rd Reg.CR, Port.rd Reg.CR, Port.wr Reg.CR]) := by
  unfold LL_ADC_DeInit_stopConversions
  by_cases a1 : (LL_ADC_REG_IsConversionOngoing K hw
      (LL_ADC_REG_SetTriggerSource K hw K.LL_ADC_REG_TRIG_SOFTWARE m)).1 ≠ 0
  · by_cases a2 : (LL_ADC_REG_IsStopConversionOngoing K hw (LL_ADC_REG_IsConversionOngoing K hw
        (LL_ADC_REG_SetTriggerSource K hw K.LL_ADC_REG_TRIG_SOFTWARE m)).2).1 = 0
    · simp only [a1, a2, if_true, ne_eq, not_false_eq_true]
      refine ⟨[Port.rd Reg.CR, Port.rd Reg.CR, Port.wr Reg.CR], ?_⟩
      split
      · split
        · refine ⟨[Port.rd Reg.CR, Port.rd Reg.CR, Port.wr Reg.CR], ?_, by simp, by simp,
            fun _ _ => rfl⟩
          simp [LL_ADC_INJ_StopConversion, LL_ADC_INJ_IsStopConversionOngoing,
            LL_ADC_INJ_IsConversionOngoing, LL_ADC_INJ_SetTriggerSource,
            LL_ADC_REG_StopConversion, LL_ADC_REG_IsStopConversionOngoing,
            LL_ADC_REG_IsConversionOngoing, LL_ADC_REG_SetTriggerSource,
            MODIFY_REG_ports, READ_BIT_ports]
        · refine ⟨[Port.rd Reg.CR], ?_, by simp, by simp, fun _ _ => rfl⟩
          simp [LL_ADC_INJ_IsStopConversionOngoing,
            LL_ADC_INJ_IsConversionOngoing, LL_ADC_INJ_SetTriggerSource,
            LL_ADC_REG_StopConversion, LL_ADC_REG_IsStopConversionOngoing,
            LL_ADC_REG_IsConversionOngoing, LL_ADC_REG_SetTriggerSource,
            MODIFY_REG_ports, READ_BIT_ports]
      · refine ⟨[], ?_, by simp, by simp, fun _ _ => rfl⟩
        simp [LL_ADC_INJ_IsConversionOngoing, LL_ADC_INJ_SetTriggerSource,
          LL_ADC_REG_StopConversion, LL_ADC_REG_IsStopConversionOngoing,
          LL_ADC_REG_IsConversionOngoing, LL_ADC_REG_SetTriggerSource,
          MODIFY_REG_ports, READ_BIT_ports]
    · simp only [a1, a2, if_true, if_false, ne_eq, not_false_eq_true]
      refine ⟨[Port.rd Reg.CR], ?_⟩
      split
      · split
        · refine ⟨[Port.rd Reg.CR, Port.rd Reg.CR, Port.wr Reg.CR], ?_, by simp, by simp,
            fun _ h => False.elim h⟩
          simp [LL_ADC_INJ_StopConversion, LL_ADC_INJ_IsStopConversionOngoing,
            LL_ADC_INJ_IsConversionOngoing, LL_ADC_INJ_SetTriggerSource,
            LL_ADC_REG_IsStopConversionOngoing,
            LL_ADC_REG_IsConversionOngoing, LL_ADC_REG_SetTriggerSource,
            MODIFY_REG_ports, READ_BIT_ports]
        · refine ⟨[Port.rd Reg.CR], ?_, by simp, by simp, fun _ h => False.elim h⟩
          simp [LL_ADC_INJ_IsStopConversionOngoing,
            LL_ADC_INJ_IsConversionOngoing, LL_ADC_INJ_SetTriggerSource,
            LL_ADC_REG_IsStopConversionOngoing,
            LL_ADC_REG_IsConversionOngoing, LL_ADC_REG_SetTriggerSource,
            MODIFY_REG_ports, READ_BIT_ports]
      · refine ⟨[], ?_, by simp, by simp, fun _ h => False.elim h⟩
        simp [LL_ADC_INJ_IsConversionOngoing, LL_ADC_INJ_SetTriggerSource,
          LL_ADC_REG_IsStopConversionOngoing,
          LL_ADC_REG_IsConversionOngoing, LL_ADC_REG_SetTriggerSource,
          MODIFY_REG_ports, READ_BIT_ports]
  · simp only [a1, if_false]
    refine ⟨[], ?_⟩
    split
    · split
      · refine ⟨[Port.rd Reg.CR, Port.rd Reg.CR, Port.wr Reg.CR], ?_, by simp, by simp,
          fun h => False.elim h⟩
        simp [LL_ADC_INJ_StopConversion, LL_ADC_INJ_IsStopConversionOngoing,
          LL_ADC_INJ_IsConversionOngoing, LL_ADC_INJ_SetTriggerSource,
          LL_ADC_REG_IsConversionOngoing, LL_ADC_REG_SetTriggerSource,
          MODIFY_REG_ports, READ_BIT_ports]
      · refine ⟨[Port.rd Reg.CR], ?_, by simp, by simp, fun h => False.elim h⟩
        simp [LL_ADC_INJ_IsStopConversionOngoing,
          LL_ADC_INJ_IsConversionOngoing, LL_ADC_INJ_SetTriggerSource,
          LL_ADC_REG_IsConversionOngoing, LL_ADC_REG_SetTriggerSource,
          MODIFY_REG_ports, READ_BIT_ports]
    · refine ⟨[], ?_, by simp, by simp, fun h => False.elim h⟩
      simp [LL_ADC_INJ_IsConversionOngoing, LL_ADC_INJ_SetTriggerSource,
        LL_ADC_REG_IsConversionOngoing, LL_ADC_REG_SetTriggerSource,
        MODIFY_REG_ports, READ_BIT_ports]

/-- The condition of the first wait loop holds exactly when the stop of the regular group or
the stop of the injected group is read as on going. -/
theorem LL_ADC_DeInit_stopOngoing_iff (K : Header) (hw : Hardware) (m : Machine) :
    (LL_ADC_DeInit_stopOngoing K hw m).1 = 1
      ↔ ((LL_ADC_REG_IsStopConversionOngoing K hw m).1 = 1
          ∨ (LL_ADC_INJ_IsStopConversionOngoing K hw
              (LL_ADC_REG_IsStopConversionOngoing K hw m).2).1 = 1) := by
  simp only [LL_ADC_DeInit_stopOngoing, LL_ADC_REG_IsStopConversionOngoing,
    LL_ADC_INJ_IsStopConversionOngoing]
  split <;> split <;> simp

theorem LL_ADC_IsEnabled_ports (K : Header) (hw : Hardware) (m : Machine) :
    ports (LL_ADC_IsEnabled K hw m).2.log = ports m.log ++ [Port.rd Reg.CR] := by
  simp [LL_ADC_IsEnabled, READ_BIT_ports]

/-- C13 (counterexample): on an enabled instance with a regular conversion on going and a
peripheral that never acknowledges, `LL_ADC_DeInit` writes the regular stop request (CR, word
16 = ADSTP) and its next two accesses are the read and the write of JSQR that force the
injected trigger source: CR is not read in between, and it still holds ADSTP (21 = ADEN,
ADSTART, ADSTP) when it is read next. There is no wait for the regular stop acknowledge before
the injected group is handled. -/
theorem C13_no_wait_before_injected_group :
    (LL_ADC_DeInit_stopConversions stm32mp13 quiet
        (LL_ADC_IsEnabled stm32mp13 quiet { regs := convertingRegs, log := [] }).2).log
      = [Access.rd Reg.CR 5, Access.rd Reg.CFGR 0, Access.wr Reg.CFGR 0, Access.rd Reg.CR 5,
          Access.rd Reg.CR 5, Access.rd Reg.CR 5, Access.wr Reg.CR 16, Access.rd Reg.JSQR 0,
          Access.wr Reg.JSQR 0, Access.rd Reg.CR 21]
    ∧ (LL_ADC_DeInit_stopConversions stm32mp13 quiet
        (LL_ADC_IsEnabled stm32mp13 quiet { regs := convertingRegs, log := [] }).2).regs Reg.CR
      = 21 := by
  decide

/-- C13 (amended): for every peripheral behaviour, on an enabled instance the accesses of
`LL_ADC_DeInit` before its first wait are: the read of CR (enabled?), the regular trigger
source (read and write of CFGR), the read of CR (regular conversion on going?), then nothing,
or a read of CR (stop on going?), or that read and the stop request (read and write of CR, when
a conversion is on going and no stop is); immediately after, the injected trigger source (read
and write of JSQR) and the same for the injected group. Only then one wait loop runs: it polls
CR twice per evaluation, at most 32768 times, and goes on while the regular stop or the
injected stop is read as on going. After it the function passes to the disable request. -/
theorem C13_LL_ADC_DeInit_single_stop_wait (K : Header) (hw : Hardware) (fuel : Nat)
    (m : Machine) (hf : ADC_CLOCK_RATIO_VS_CPU_HIGHEST ≤ fuel)
    (hen : (LL_ADC_IsEnabled K hw m).1 = 1) :
    ∃ reg inj n t1 s1 m2 t2 s2 m4,
      ports (LL_ADC_DeInit_stopConversions K hw (LL_ADC_IsEnabled K hw m).2).log
        = ports m.log ++ [Port.rd Reg.CR]
            ++ [Port.rd Reg.CFGR, Port.wr Reg.CFGR, Port.rd Reg.CR] ++ reg
            ++ [Port.rd Reg.JSQR, Port.wr Reg.JSQR, Port.rd Reg.CR] ++ inj
      ∧ reg ∈ [[], [Port.rd Reg.CR], [Port.rd Reg.CR, Port.rd Reg.CR, Port.wr Reg.CR]]
      ∧ inj ∈ [[], [Port.rd Reg.CR], [Port.rd Reg.CR, Port.rd Reg.CR, Port.wr Reg.CR]]
      ∧ ((LL_ADC_REG_IsConversionOngoing K hw (LL_ADC_REG_SetTriggerSource K hw
            K.LL_ADC_REG_TRIG_SOFTWARE (LL_ADC_IsEnabled K hw m).2)).1 ≠ 0 →
          (LL_ADC_REG_IsStopConversionOngoing K hw (LL_ADC_REG_IsConversionOngoing K hw
            (LL_ADC_REG_SetTriggerSource K hw K.LL_ADC_REG_TRIG_SOFTWARE
              (LL_ADC_IsEnabled K hw m).2)).2).1 = 0 →
          reg = [Port.rd Reg.CR, Port.rd Reg.CR, Port.wr Reg.CR])
      ∧ LL_ADC_DeInit_waitStop K hw fuel ErrorStatus.SUCCESS
          (LL_ADC_DeInit_stopConversions K hw (LL_ADC_IsEnabled K hw m).2) = some (t1, s1, m2)
      ∧ 1 ≤ n ∧ n ≤ 32768
      ∧ ports m2.log
        = ports (LL_ADC_DeInit_stopConversions K hw (LL_ADC_IsEnabled K hw m).2).log
            ++ (List.replicate n [Port.rd Reg.CR, Port.rd Reg.CR]).flatten
      ∧ (∀ mx, (LL_ADC_DeInit_stopOngoing K hw mx).1 = 1
          ↔ ((LL_ADC_REG_IsStopConversionOngoing K hw mx).1 = 1
              ∨ (LL_ADC_INJ_IsStopConversionOngoing K hw
                  (LL_ADC_REG_IsStopConversionOngoing K hw mx).2).1 = 1))
      ∧ ports (LL_ADC_DeInit_requestDisable K hw m2).log
        = ports m2.log ++ [Port.rd Reg.CFGR, Port.wr Reg.CFGR, Port.rd Reg.CR, Port.wr Reg.CR]
      ∧ LL_ADC_DeInit_waitDisable K hw fuel s1 (LL_ADC_DeInit_requestDisable K hw m2)
          = some (t2, s2, m4)
      ∧ LL_ADC_DeInit_disable K hw fuel m = some (s2, m4) := by
  obtain ⟨reg, inj, w1, preg, pinj, pstop⟩ :=
    LL_ADC_DeInit_stopConversions_ports K hw (LL_ADC_IsEnabled K hw m).2
  rw [LL_ADC_IsEnabled_ports] at w1
  obtain ⟨t1, s1, m2, h1, -, -⟩ := LL_ADC_DeInit_waitStop_total K hw fuel ErrorStatus.SUCCESS
    (LL_ADC_DeInit_stopConversions K hw (LL_ADC_IsEnabled K hw m).2) hf
  obtain ⟨t2, s2, m4, h2, -, -⟩ := LL_ADC_DeInit_waitDisable_total K hw fuel s1
    (LL_ADC_DeInit_requestDisable K hw m2) hf
  have h1b := h1
  unfold LL_ADC_DeInit_waitStop at h1b
  rw [timeout_stop_eq] at h1b
  obtain ⟨n, n1, n2, pn⟩ := waitWhile_ports _ [Port.rd Reg.CR, Port.rd Reg.CR]
    (LL_ADC_DeInit_stopOngoing_ports K hw) fuel 32768 ErrorStatus.SUCCESS _ _
    (by omega) (by omega) h1b
  refine ⟨reg, inj, n, t1, s1, m2, t2, s2, m4, w1, preg, pinj, pstop, h1, n1, n2, pn,
    LL_ADC_DeInit_stopOngoing_iff K hw, ?_, h2,
    LL_ADC_DeInit_disable_enabled K hw fuel m t1 t2 s1 s2 m2 m4 hen h1 h2⟩
  simp [LL_ADC_DeInit_requestDisable, LL_ADC_Disable, LL_ADC_INJ_SetQueueMode,
    MODIFY_REG_ports]

theorem C13_LL_ADC_DeInit_single_stop_wait_witness :
    (LL_ADC_IsEnabled stm32mp13 quiet { regs := convertingRegs, log := [] }).1 = 1
    ∧ ∃ reg inj n t1 s1 m2,
      ports (LL_ADC_DeInit_stopConversions stm32mp13 quiet
          (LL_ADC_IsEnabled stm32mp13 quiet { regs := convertingRegs, log := [] }).2).log
        = ports ([] : List Access) ++ [Port.rd Reg.CR]
            ++ [Port.rd Reg.CFGR, Port.wr Reg.CFGR, Port.rd Reg.CR] ++ reg
            ++ [Port.rd Reg.JSQR, Port.wr Reg.JSQR, Port.rd Reg.CR] ++ inj
      ∧ LL_ADC_DeInit_waitStop stm32mp13 quiet 32768 ErrorStatus.SUCCESS
          (LL_ADC_DeInit_stopConversions stm32mp13 quiet
            (LL_ADC_IsEnabled stm32mp13 quiet { regs := convertingRegs, log := [] }).2)
          = some (t1, s1, m2)
      ∧ 1 ≤ n ∧ n ≤ 32768
      ∧ ports m2.log
        = ports (LL_ADC_DeInit_stopConversions stm32mp13 quiet
            (LL_ADC_IsEnabled stm32mp13 quiet { regs := convertingRegs, log := [] }).2).log
            ++ (List.replicate n [Port.rd Reg.CR, Port.rd Reg.CR]).flatten := by
  obtain ⟨reg, inj, n, t1, s1, m2, -, -, -, a, -, -, -, b, c, d, e, -⟩ :=
    C13_LL_ADC_DeInit_single_stop_wait stm32mp13 quiet 32768
      { regs := convertingRegs, log := [] } (by decide) (by decide)
  exact ⟨by decide, reg, inj, n, t1, s1, m2, a, b, c, d, e⟩

/-! ## The registers after the register-reset block -/

theorem settled_CR (K : Header) (regs : ADC_TypeDef) :
    settled K regs Reg.CR = regs Reg.CR &&& NOT32 (ADC_CR_BITS_PROPERTY_RS K) := rfl

theorem settled_ISR (K : Header) (regs : ADC_TypeDef) : settled K regs Reg.ISR = 0 := rfl

theorem settled_other (K : Header) (regs : ADC_TypeDef) (q : Reg) (h1 : q ≠ Reg.CR)
    (h2 : q ≠ Reg.ISR) : settled K regs q = regs q := by
  cases q <;> first | rfl | exact absurd rfl h1 | exact absurd rfl h2

theorem settled_congr (K : Header) (regs regs2 : ADC_TypeDef) (q : Reg)
    (h : regs q = regs2 q) : settled K regs q = settled K regs2 q := by
  cases q <;> simp only [settled, h]

theorem store_other (K : Header) (q : Reg) (old v : Nat) (h1 : q ≠ Reg.CR) (h2 : q ≠ Reg.ISR) :
    store K q old v = v % 4294967296 := by
  cases q <;> first | rfl | exact absurd rfl h1 | exact absurd rfl h2

/-- Outside the read-set bits, the word stored in CR by a read-modify-write depends only on
the part of the word read that lies outside the read-set bits. -/
theorem store_CR_settled (rs c s x1 x o1 o2 : Nat)
    (e : x1 &&& NOT32 rs = x &&& NOT32 rs) :
    ((((x1 &&& NOT32 c) ||| s) ||| (o1 &&& rs)) % 4294967296) &&& NOT32 rs
      = ((((x &&& NOT32 c) ||| s) ||| (o2 &&& rs)) % 4294967296) &&& NOT32 rs := by
  apply Nat.eq_of_testBit_eq
  intro i
  have a := congrArg (fun y => Nat.testBit y i) e
  simp only [Nat.testBit_and, Nat.testBit_or, testBit_mod_word, testBit_NOT32] at a ⊢
  revert a
  cases x1.testBit i <;> cases x.testBit i <;> cases rs.testBit i <;> cases c.testBit i <;>
    cases s.testBit i <;> cases o1.testBit i <;> cases o2.testBit i <;>
    by_cases h : i < 32 <;> simp [h]

/-- Seen from the configuration fields, a read-modify-write on a peripheral that only moves
handshake bits and flags acts on its register as on a quiet peripheral. -/
theorem settled_MODIFY_REG (K : Header) (hw : Hardware) (H : HandshakeOnly K hw) (r : Reg)
    (c s : Nat) (m : Machine) (q : Reg) (x : Nat)
    (hx : settled K (fun _ => x) q = settled K m.regs q) :
    settled K (MODIFY_REG K hw r c s m).regs q
      = settled K
          (fun _ => if r = q then store K q x ((x &&& NOT32 c) ||| s) else x) q := by
  have h1 : settled K (hw m.log.length m.regs) = settled K m.regs := H _ _
  have h2 : settled K (hw (READ_REG hw r m).2.log.length (hw m.log.length m.regs))
      = settled K m.regs := by rw [H, H]
  simp only [WRITE_REG, MODIFY_REG]
  by_cases hrq : r = q
  · subst hrq
    simp only [if_true, Function.update_same]
    by_cases hcr : r = Reg.CR
    · subst hcr
      simp only [settled_CR, Function.update_same, store]
      have e : (READ_REG hw Reg.CR m).1 &&& NOT32 (ADC_CR_BITS_PROPERTY_RS K)
          = x &&& NOT32 (ADC_CR_BITS_PROPERTY_RS K) := by
        have := congrFun h1 Reg.CR
        simp only [settled_CR] at this hx
        rw [hx]; exact this
      exact store_CR_settled _ c s _ x _ _ e
    · by_cases hisr : r = Reg.ISR
      · subst hisr
        rfl
      · have e : (READ_REG hw r m).1 = x := by
          have := congrFun h1 r
          rw [settled_other K _ r hcr hisr, settled_other K _ r hcr hisr] at this
          rw [settled_other K _ r hcr hisr, settled_other K _ r hcr hisr] at hx
          simp only [READ_REG]
          rw [this, ← hx]
        rw [settled_other K _ r hcr hisr, settled_other K _ r hcr hisr,
          Function.update_same, e, store_other K r _ _ hcr hisr, store_other K r _ _ hcr hisr]
  · simp only [hrq, if_false]
    rw [settled_congr K _ (hw (READ_REG hw r m).2.log.length (READ_REG hw r m).2.regs) q
      (Function.update_noteq (Ne.symm hrq) _ _)]
    have : (READ_REG hw r m).2.regs = hw m.log.length m.regs := rfl
    rw [this, congrFun h2 q, ← hx]

/-- Seen from the configuration fields, the value of a register after a sequence of
read-modify-writes on a peripheral that only moves handshake bits and flags is the one computed
by `modifyAll`. -/
theorem settled_foldl_MODIFY_REG (K : Header) (hw : Hardware) (H : HandshakeOnly K hw)
    (q : Reg) (ops : List (Reg × Nat × Nat)) :
    ∀ (m : Machine) (x : Nat), settled K (fun _ => x) q = settled K m.regs q →
      settled K (ops.foldl (fun m op => MODIFY_REG K hw op.1 op.2.1 op.2.2 m) m).regs q
        = settled K (fun _ => modifyAll K q ops x) q := by
  induction ops with
  | nil => intro m x hx; exact hx.symm
  | cons op ops ih =>
    intro m x hx
    simp only [List.foldl]
    have := ih (MODIFY_REG K hw op.1 op.2.1 op.2.2 m)
      (if op.1 = q then store K q x ((x &&& NOT32 op.2.1) ||| op.2.2) else x)
      (by
        rw [settled_MODIFY_REG K hw H op.1 op.2.1 op.2.2 m q x hx])
    rw [this]
    rfl

/-- A read-modify-write with a 32-bit set mask leaves the set mask in the bits it touches. -/
theorem modify_one (x c s : Nat) (hs : s < 4294967296) :
    (((x &&& NOT32 c) ||| s) % 4294967296) &&& ((0 ||| c) ||| (0 ||| s)) = 0 ||| s := by
  apply Nat.eq_of_testBit_eq
  intro i
  have a2 := testBit_of_lt_word hs i
  simp only [Nat.testBit_and, Nat.testBit_or, testBit_mod_word, testBit_NOT32, Nat.zero_testBit]
  revert a2
  cases x.testBit i <;> cases c.testBit i <;> cases s.testBit i <;>
    by_cases h : i < 32 <;> simp [h]

/-- A clear followed by a read-modify-write with a 32-bit set mask leaves the set mask in the
bits the two touch. -/
theorem modify_two (x c1 c2 s : Nat) (hs : s < 4294967296) :
    ((((((x &&& NOT32 c1) ||| 0) % 4294967296) &&& NOT32 c2) ||| s) % 4294967296)
        &&& (((0 ||| c1) ||| c2) ||| ((0 ||| 0) ||| s))
      = (0 ||| 0) ||| s := by
  apply Nat.eq_of_testBit_eq
  intro i
  have a2 := testBit_of_lt_word hs i
  simp only [Nat.testBit_and, Nat.testBit_or, testBit_mod_word, testBit_NOT32, Nat.zero_testBit]
  revert a2
  cases x.testBit i <;> cases c1.testBit i <;> cases c2.testBit i <;> cases s.testBit i <;>
    by_cases h : i < 32 <;> simp [h]

/-- The two statements of the register-reset block on CR, seen on a register that agrees with
their result outside the read-set bits. -/
theorem modify_cr (f x a d rs : Nat) (hd : d < 4294967296) (ha : a < 4294967296)
    (hrs : (a ||| d) &&& rs = 0)
    (e : f &&& NOT32 rs
      = (((((((((x &&& NOT32 a) ||| 0) ||| (x &&& rs)) % 4294967296) &&& NOT32 0) ||| d)
          ||| (((((x &&& NOT32 a) ||| 0) ||| (x &&& rs)) % 4294967296) &&& rs)) % 4294967296)
          &&& NOT32 rs)) :
    f &&& (((0 ||| a) ||| 0) ||| ((0 ||| 0) ||| d)) = (0 ||| 0) ||| d := by
  apply Nat.eq_of_testBit_eq
  intro i
  have a1 := testBit_of_lt_word hd i
  have a2 := testBit_of_lt_word ha i
  have a3 := congrArg (fun y => Nat.testBit y i) hrs
  have a4 := congrArg (fun y => Nat.testBit y i) e
  simp only [Nat.testBit_and, Nat.testBit_or, testBit_mod_word, testBit_NOT32,
    Nat.zero_testBit] at a3 a4 ⊢
  revert a1 a2 a3 a4
  cases f.testBit i <;> cases x.testBit i <;> cases a.testBit i <;> cases d.testBit i <;>
    cases rs.testBit i <;> by_cases h : i < 32 <;> simp [h]

/-- A register that holds `s` on the bits `c ||| s` has the bits of `c` outside `s` clear. -/
theorem field_clear {v c s l : Nat} (h : v &&& (c ||| s) = s) (hl : l &&& c = l)
    (hd : l &&& s = 0) : v &&& l = 0 := by
  apply Nat.eq_of_testBit_eq
  intro i
  have a1 := congrArg (fun y => Nat.testBit y i) h
  have a2 := testBit_of_and_eq_self hl i
  have a3 := testBit_of_and_eq_zero hd i
  simp only [Nat.testBit_and, Nat.testBit_or, Nat.zero_testBit] at a1 ⊢
  revert a1 a2 a3
  cases v.testBit i <;> cases c.testBit i <;> cases s.testBit i <;> cases l.testBit i <;> simp

/-- A register that holds `s` on the bits `c ||| s` has the bits of `s` set. -/
theorem field_set {v c s : Nat} (h : v &&& (c ||| s) = s) : v &&& s = s := by
  apply Nat.eq_of_testBit_eq
  intro i
  have a1 := congrArg (fun y => Nat.testBit y i) h
  simp only [Nat.testBit_and, Nat.testBit_or] at a1 ⊢
  revert a1
  cases v.testBit i <;> cases c.testBit i <;> cases s.testBit i <;> simp

/-- A return value SUCCESS of `LL_ADC_DeInit` comes from the register-reset block. -/
theorem LL_ADC_DeInit_success (K : Header) (hw : Hardware) (fuel : Nat) (m : Machine)
    (h : (LL_ADC_DeInit K hw fuel m).map Prod.fst = some ErrorStatus.SUCCESS) :
    ∃ mc, LL_ADC_DeInit K hw fuel m
      = some (ErrorStatus.SUCCESS, LL_ADC_DeInit_reset K hw mc) := by
  unfold LL_ADC_DeInit at h ⊢
  cases hd : LL_ADC_DeInit_disable K hw fuel m with
  | none => rw [hd] at h; simp at h
  | some r =>
    obtain ⟨st, m4⟩ := r
    rw [hd] at h
    simp only at h ⊢
    by_cases hc : (READ_BIT hw Reg.CR (LL_ADC_DeInit_checkBits K) m4).1 = 0
    · simp only [hc, if_true, Option.map_some', Option.some.injEq] at h ⊢
      exact ⟨_, by rw [h]⟩
    · simp only [hc, if_false, Option.map_some', Option.some.injEq] at h
      exact absurd h (by decide)

/-- After the register-reset block on a peripheral that only moves handshake bits and flags,
every register except ISR holds the set mask of the block on the bits that the block clears or
sets. -/
theorem LL_ADC_DeInit_reset_fields (K : Header) (L : ResetLayout K) (hw : Hardware)
    (H : HandshakeOnly K hw) (mc : Machine) (r : Reg) (hr : r ≠ Reg.ISR) :
    (LL_ADC_DeInit_reset K hw mc).regs r
        &&& (LL_ADC_DeInit_clearMask K r ||| LL_ADC_DeInit_setMask K r)
      = LL_ADC_DeInit_setMask K r := by
  have key : ∀ q, settled K (LL_ADC_DeInit_reset K hw mc).regs q
      = settled K (fun _ => modifyAll K q (LL_ADC_DeInit_resetOps K) (mc.regs q)) q := by
    intro q
    rw [LL_ADC_DeInit_reset_eq]
    exact settled_foldl_MODIFY_REG K hw H q _ mc (mc.regs q) (settled_congr K _ _ q rfl)
  have z : (0 : Nat) < 4294967296 := by decide
  cases r
  case ISR => exact absurd rfl hr
  case CR =>
    have hw1 : K.ADC_CR_ADVREGEN ||| K.ADC_CR_ADCALDIF < 4294967296 := L.words _ (by simp)
    have hw2 : K.ADC_CR_DEEPPWD < 4294967296 := L.words _ (by simp)
    exact modify_cr _ (mc.regs Reg.CR) _ _ _ hw2 hw1 L.cr_rs (key Reg.CR)
  case CFGR =>
    have k : (LL_ADC_DeInit_reset K hw mc).regs Reg.CFGR
        = modifyAll K Reg.CFGR (LL_ADC_DeInit_resetOps K) (mc.regs Reg.CFGR) := key Reg.CFGR
    rw [k]
    exact modify_two _ _ _ _ (L.words _ (by simp))
  case OFR1 =>
    have k : (LL_ADC_DeInit_reset K hw mc).regs Reg.OFR1
        = modifyAll K Reg.OFR1 (LL_ADC_DeInit_resetOps K) (mc.regs Reg.OFR1) := key Reg.OFR1
    rw [k]
    exact modify_two _ _ _ _ z
  case TR1 =>
    have k : (LL_ADC_DeInit_reset K hw mc).regs Reg.TR1
        = modifyAll K Reg.TR1 (LL_ADC_DeInit_resetOps K) (mc.regs Reg.TR1) := key Reg.TR1
    rw [k]
    exact modify_one _ _ _ (L.words _ (by simp))
  case TR2 =>
    have k : (LL_ADC_DeInit_reset K hw mc).regs Reg.TR2
        = modifyAll K Reg.TR2 (LL_ADC_DeInit_resetOps K) (mc.regs Reg.TR2) := key Reg.TR2
    rw [k]
    exact modify_one _ _ _ (L.words _ (by simp))
  case TR3 =>
    have k : (LL_ADC_DeInit_reset K hw mc).regs Reg.TR3
        = modifyAll K Reg.TR3 (LL_ADC_DeInit_resetOps K) (mc.regs Reg.TR3) := key Reg.TR3
    rw [k]
    exact modify_one _ _ _ (L.words _ (by simp))
  case IER =>
    have k : (LL_ADC_DeInit_reset K hw mc).regs Reg.IER
        = modifyAll K Reg.IER (LL_ADC_DeInit_resetOps K) (mc.regs Reg.IER) := key Reg.IER
    rw [k]
    exact modify_one _ _ _ z
  case CFGR2 =>
    have k : (LL_ADC_DeInit_reset K hw mc).regs Reg.CFGR2
        = modifyAll K Reg.CFGR2 (LL_ADC_DeInit_resetOps K) (mc.regs Reg.CFGR2) := key Reg.CFGR2
    rw [k]
    exact modify_one _ _ _ z
  case SMPR1 =>
    have k : (LL_ADC_DeInit_reset K hw mc).regs Reg.SMPR1
        = modifyAll K Reg.SMPR1 (LL_ADC_DeInit_resetOps K) (mc.regs Reg.SMPR1) := key Reg.SMPR1
    rw [k]
    exact modify_one _ _ _ z
  case SMPR2 =>
    have k : (LL_ADC_DeInit_reset K hw mc).regs Reg.SMPR2
        = modifyAll K Reg.SMPR2 (LL_ADC_DeInit_resetOps K) (mc.regs Reg.SMPR2) := key Reg.SMPR2
    rw [k]
    exact modify_one _ _ _ z
  case SQR1 =>
    have k : (LL_ADC_DeInit_reset K hw mc).regs Reg.SQR1
        = modifyAll K Reg.SQR1 (LL_ADC_DeInit_resetOps K) (mc.regs Reg.SQR1) := key Reg.SQR1
    rw [k]
    exact modify_one _ _ _ z
  case SQR2 =>
    have k : (LL_ADC_DeInit_reset K hw mc).regs Reg.SQR2
        = modifyAll K Reg.SQR2 (LL_ADC_DeInit_resetOps K) (mc.regs Reg.SQR2) := key Reg.SQR2
    rw [k]
    exact modify_one _ _ _ z
  case SQR3 =>
    have k : (LL_ADC_DeInit_reset K hw mc).regs Reg.SQR3
        = modifyAll K Reg.SQR3 (LL_ADC_DeInit_resetOps K) (mc.regs Reg.SQR3) := key Reg.SQR3
    rw [k]
    exact modify_one _ _ _ z
  case SQR4 =>
    have k : (LL_ADC_DeInit_reset K hw mc).regs Reg.SQR4
        = modifyAll K Reg.SQR4 (LL_ADC_DeInit_resetOps K) (mc.regs Reg.SQR4) := key Reg.SQR4
    rw [k]
    exact modify_one _ _ _ z
  case JSQR =>
    have k : (LL_ADC_DeInit_reset K hw mc).regs Reg.JSQR
        = modifyAll K Reg.JSQR (LL_ADC_DeInit_resetOps K) (mc.regs Reg.JSQR) := key Reg.JSQR
    rw [k]
    exact modify_one _ _ _ z
  case OFR2 =>
    have k : (LL_ADC_DeInit_reset K hw mc).regs Reg.OFR2
        = modifyAll K Reg.OFR2 (LL_ADC_DeInit_resetOps K) (mc.regs Reg.OFR2) := key Reg.OFR2
    rw [k]
    exact modify_one _ _ _ z
  case OFR3 =>
    have k : (LL_ADC_DeInit_reset K hw mc).regs Reg.OFR3
        = modifyAll K Reg.OFR3 (LL_ADC_DeInit_resetOps K) (mc.regs Reg.OFR3) := key Reg.OFR3
    rw [k]
    exact modify_one _ _ _ z
  case OFR4 =>
    have k : (LL_ADC_DeInit_reset K hw mc).regs Reg.OFR4
        = modifyAll K Reg.OFR4 (LL_ADC_DeInit_resetOps K) (mc.regs Reg.OFR4) := key Reg.OFR4
    rw [k]
    exact modify_one _ _ _ z
  case AWD2CR =>
    have k : (LL_ADC_DeInit_reset K hw mc).regs Reg.AWD2CR
        = modifyAll K Reg.AWD2CR (LL_ADC_DeInit_resetOps K) (mc.regs Reg.AWD2CR) := key Reg.AWD2CR
    rw [k]
    exact modify_one _ _ _ z
  case AWD3CR =>
    have k : (LL_ADC_DeInit_reset K hw mc).regs Reg.AWD3CR
        = modifyAll K Reg.AWD3CR (LL_ADC_DeInit_resetOps K) (mc.regs Reg.AWD3CR) := key Reg.AWD3CR
    rw [k]
    exact modify_one _ _ _ z
  case DIFSEL =>
    have k : (LL_ADC_DeInit_reset K hw mc).regs Reg.DIFSEL
        = modifyAll K Reg.DIFSEL (LL_ADC_DeInit_resetOps K) (mc.regs Reg.DIFSEL) := key Reg.DIFSEL
    rw [k]
    exact modify_one _ _ _ z
  case CALFACT =>
    have k : (LL_ADC_DeInit_reset K hw mc).regs Reg.CALFACT
        = modifyAll K Reg.CALFACT (LL_ADC_DeInit_resetOps K) (mc.regs Reg.CALFACT) := key Reg.CALFACT
    rw [k]
    exact modify_one _ _ _ z

theorem and_not_sub (c x rs : Nat) (h : x &&& rs = x) :
    (c &&& NOT32 x) &&& NOT32 rs = c &&& NOT32 rs := by
  apply Nat.eq_of_testBit_eq
  intro i
  have a1 := testBit_of_and_eq_self h i
  simp only [Nat.testBit_and, testBit_NOT32]
  revert a1
  cases c.testBit i <;> cases x.testBit i <;> cases rs.testBit i <;>
    by_cases h : i < 32 <;> simp [h]

/-- The peripheral `acknowledge` only moves read-set bits of CR. -/
theorem acknowledge_settled (K : Header) (regs : ADC_TypeDef) :
    settled K (acknowledge K regs) = settled K regs := by
  funext q
  by_cases hq : q = Reg.CR
  · subst hq
    simp only [settled_CR, acknowledge, Function.update_same]
    split
    · exact and_not_sub _ _ _ (or_sub (or_sub (or_sub (or_sub (or_sub (rs_ADSTP K)
        (rs_JADSTP K)) (rs_ADSTART K)) (rs_JADSTART K)) (rs_ADDIS K)) (rs_ADEN K))
    · exact and_not_sub _ _ _ (or_sub (or_sub (or_sub (rs_ADSTP K) (rs_JADSTP K))
        (rs_ADSTART K)) (rs_JADSTART K))
  · exact settled_congr K _ _ q (Function.update_noteq hq _ _)

theorem prompt_HandshakeOnly (K : Header) : HandshakeOnly K (prompt K) :=
  fun _ regs => acknowledge_settled K regs

theorem quiet_HandshakeOnly (K : Header) : HandshakeOnly K quiet :=
  fun _ _ => rfl

theorem slowStop_HandshakeOnly (K : Header) (T : Nat) : HandshakeOnly K (slowStop K T) := by
  intro t regs
  unfold slowStop
  split
  · rfl
  · exact acknowledge_settled K regs

theorem stm32mp13_ResetLayout : ResetLayout stm32mp13 where
  cr_rs := by decide
  cr_set := by decide
  cfgr_set := by decide
  tr1 := by decide
  tr2 := by decide
  tr3 := by decide
  words := by decide

/-- The register-reset block sets no bit in the registers that it only clears. -/
theorem setMask_zero (K : Header) (r : Reg)
    (hr : r ∈ [Reg.IER, Reg.CFGR2, Reg.SMPR1, Reg.SMPR2, Reg.SQR1, Reg.SQR2, Reg.SQR3,
      Reg.SQR4, Reg.JSQR, Reg.OFR1, Reg.OFR2, Reg.OFR3, Reg.OFR4, Reg.AWD2CR, Reg.AWD3CR,
      Reg.DIFSEL, Reg.CALFACT]) :
    LL_ADC_DeInit_setMask K r = 0 := by
  simp only [List.mem_cons, List.mem_singleton, List.not_mem_nil, or_false] at hr
  rcases hr with h | h | h | h | h | h | h | h | h | h | h | h | h | h | h | h | h <;>
    subst h <;> simp [LL_ADC_DeInit_setMask, LL_ADC_DeInit_resetOps]

theorem clearMask_IER (K : Header) :
    LL_ADC_DeInit_clearMask K Reg.IER
      = K.LL_ADC_IT_ADRDY ||| K.LL_ADC_IT_EOC ||| K.LL_ADC_IT_EOS ||| K.LL_ADC_IT_OVR
        ||| K.LL_ADC_IT_EOSMP ||| K.LL_ADC_IT_JEOC ||| K.LL_ADC_IT_JEOS ||| K.LL_ADC_IT_JQOVF
        ||| K.LL_ADC_IT_AWD1 ||| K.LL_ADC_IT_AWD2 ||| K.LL_ADC_IT_AWD3 := by
  simp [LL_ADC_DeInit_clearMask, LL_ADC_DeInit_resetOps]

theorem clearMask_CR (K : Header) :
    LL_ADC_DeInit_clearMask K Reg.CR = K.ADC_CR_ADVREGEN ||| K.ADC_CR_ADCALDIF := by
  simp [LL_ADC_DeInit_clearMask, LL_ADC_DeInit_resetOps]

theorem setMask_CR (K : Header) : LL_ADC_DeInit_setMask K Reg.CR = K.ADC_CR_DEEPPWD := by
  simp [LL_ADC_DeInit_setMask, LL_ADC_DeInit_resetOps]

theorem setMask_CFGR (K : Header) : LL_ADC_DeInit_setMask K Reg.CFGR = K.ADC_CFGR_JQDIS := by
  simp [LL_ADC_DeInit_setMask, LL_ADC_DeInit_resetOps]

theorem clearMask_TR1 (K : Header) :
    LL_ADC_DeInit_clearMask K Reg.TR1
      = K.ADC_TR1_AWDFILT ||| K.ADC_TR1_HT1 ||| K.ADC_TR1_LT1 := by
  simp [LL_ADC_DeInit_clearMask, LL_ADC_DeInit_resetOps]

theorem setMask_TR1 (K : Header) : LL_ADC_DeInit_setMask K Reg.TR1 = K.ADC_TR1_HT1 := by
  simp [LL_ADC_DeInit_setMask, LL_ADC_DeInit_resetOps]

theorem clearMask_TR2 (K : Header) :
    LL_ADC_DeInit_clearMask K Reg.TR2 = K.ADC_TR2_HT2 ||| K.ADC_TR2_LT2 := by
  simp [LL_ADC_DeInit_clearMask, LL_ADC_DeInit_resetOps]

theorem setMask_TR2 (K : Header) : LL_ADC_DeInit_setMask K Reg.TR2 = K.ADC_TR2_HT2 := by
  simp [LL_ADC_DeInit_setMask, LL_ADC_DeInit_resetOps]

theorem clearMask_TR3 (K : Header) :
    LL_ADC_DeInit_clearMask K Reg.TR3 = K.ADC_TR3_HT3 ||| K.ADC_TR3_LT3 := by
  simp [LL_ADC_DeInit_clearMask, LL_ADC_DeInit_resetOps]

theorem setMask_TR3 (K : Header) : LL_ADC_DeInit_setMask K Reg.TR3 = K.ADC_TR3_HT3 := by
  simp [LL_ADC_DeInit_setMask, LL_ADC_DeInit_resetOps]

/-- C15: when `LL_ADC_DeInit` returns SUCCESS on a peripheral that moves only the read-set
bits of CR and the flags of ISR, then whatever the registers held before and whatever the
peripheral did meanwhile, every register except ISR holds, on the bits that the register-reset
block clears or sets, exactly the bits it sets. In particular the eleven interrupt enables of
IER are clear, CR has ADVREGEN and ADCALDIF clear and DEEPPWD set, CFGR has the fields of the
block clear and JQDIS set, and TR1, TR2, TR3 have the high threshold all ones and the low
threshold (and AWDFILT) zero; the fields of the block in CFGR2, SMPRx, SQRx, JSQR, OFRx, AWDxCR,
DIFSEL and CALFACT, whose set mask is empty, are zero. -/
theorem C15_LL_ADC_DeInit_success_defaults (K : Header) (L : ResetLayout K) (hw : Hardware)
    (H : HandshakeOnly K hw) (fuel : Nat) (m : Machine)
    (h : (LL_ADC_DeInit K hw fuel m).map Prod.fst = some ErrorStatus.SUCCESS) :
    ∃ m5, LL_ADC_DeInit K hw fuel m = some (ErrorStatus.SUCCESS, m5)
      ∧ (∀ r, r ≠ Reg.ISR →
          m5.regs r &&& (LL_ADC_DeInit_clearMask K r ||| LL_ADC_DeInit_setMask K r)
            = LL_ADC_DeInit_setMask K r)
      ∧ (∀ r ∈ [Reg.IER, Reg.CFGR2, Reg.SMPR1, Reg.SMPR2, Reg.SQR1, Reg.SQR2, Reg.SQR3,
            Reg.SQR4, Reg.JSQR, Reg.OFR1, Reg.OFR2, Reg.OFR3, Reg.OFR4, Reg.AWD2CR, Reg.AWD3CR,
            Reg.DIFSEL, Reg.CALFACT],
          LL_ADC_DeInit_setMask K r = 0 ∧ m5.regs r &&& LL_ADC_DeInit_clearMask K r = 0)
      ∧ m5.regs Reg.IER
          &&& (K.LL_ADC_IT_ADRDY ||| K.LL_ADC_IT_EOC ||| K.LL_ADC_IT_EOS ||| K.LL_ADC_IT_OVR
            ||| K.LL_ADC_IT_EOSMP ||| K.LL_ADC_IT_JEOC ||| K.LL_ADC_IT_JEOS
            ||| K.LL_ADC_IT_JQOVF ||| K.LL_ADC_IT_AWD1 ||| K.LL_ADC_IT_AWD2
            ||| K.LL_ADC_IT_AWD3) = 0
      ∧ m5.regs Reg.CR &&& (K.ADC_CR_ADVREGEN ||| K.ADC_CR_ADCALDIF) = 0
      ∧ m5.regs Reg.CR &&& K.ADC_CR_DEEPPWD = K.ADC_CR_DEEPPWD
      ∧ m5.regs Reg.CFGR &&& LL_ADC_DeInit_clearMask K Reg.CFGR = 0
      ∧ m5.regs Reg.CFGR &&& K.ADC_CFGR_JQDIS = K.ADC_CFGR_JQDIS
      ∧ m5.regs Reg.TR1 &&& K.ADC_TR1_HT1 = K.ADC_TR1_HT1
      ∧ m5.regs Reg.TR1 &&& (K.ADC_TR1_AWDFILT ||| K.ADC_TR1_LT1) = 0
      ∧ m5.regs Reg.TR2 &&& K.ADC_TR2_HT2 = K.ADC_TR2_HT2
      ∧ m5.regs Reg.TR2 &&& K.ADC_TR2_LT2 = 0
      ∧ m5.regs Reg.TR3 &&& K.ADC_TR3_HT3 = K.ADC_TR3_HT3
      ∧ m5.regs Reg.TR3 &&& K.ADC_TR3_LT3 = 0 := by
  obtain ⟨mc, hmc⟩ := LL_ADC_DeInit_success K hw fuel m h
  have F := LL_ADC_DeInit_reset_fields K L hw H mc
  have fcr := F Reg.CR (by decide)
  rw [clearMask_CR, setMask_CR] at fcr
  have fcfgr := F Reg.CFGR (by decide)
  rw [setMask_CFGR] at fcfgr
  have f1 := F Reg.TR1 (by decide)
  rw [clearMask_TR1, setMask_TR1] at f1
  have f2 := F Reg.TR2 (by decide)
  rw [clearMask_TR2, setMask_TR2] at f2
  have f3 := F Reg.TR3 (by decide)
  rw [clearMask_TR3, setMask_TR3] at f3
  refine ⟨_, hmc, F, ?_, ?_, field_clear fcr (Nat.and_self _) L.cr_set, field_set fcr,
    field_clear fcfgr (Nat.and_self _) L.cfgr_set, field_set fcfgr,
    field_set f1, field_clear f1 ?_ L.tr1, field_set f2, field_clear f2 ?_ L.tr2,
    field_set f3, field_clear f3 ?_ L.tr3⟩
  · intro r hr
    have e := setMask_zero K r hr
    have f := F r (by
      intro h0; rw [h0] at hr; revert hr; decide)
    rw [e] at f
    exact ⟨e, field_clear f (Nat.and_self _) (Nat.and_zero _)⟩
  · have f := F Reg.IER (by decide)
    rw [setMask_zero K Reg.IER (by simp), clearMask_IER] at f
    exact field_clear f (Nat.and_self _) (Nat.and_zero _)
  · exact or_sub (sub_or_left _ (sub_or_left _ (Nat.and_self _)))
      (sub_or_right _ (Nat.and_self _))
  · exact sub_or_right _ (Nat.and_self _)
  · exact sub_or_right _ (Nat.and_self _)

theorem C15_LL_ADC_DeInit_success_defaults_witness :
    (LL_ADC_DeInit stm32mp13 (prompt stm32mp13) 32768
        { regs := convertingRegs, log := [] }).map Prod.fst = some ErrorStatus.SUCCESS
    ∧ ∃ m5, LL_ADC_DeInit stm32mp13 (prompt stm32mp13) 32768
          { regs := convertingRegs, log := [] } = some (ErrorStatus.SUCCESS, m5)
      ∧ (∀ r, r ≠ Reg.ISR →
          m5.regs r &&& (LL_ADC_DeInit_clearMask stm32mp13 r ||| LL_ADC_DeInit_setMask stm32mp13 r)
            = LL_ADC_DeInit_setMask stm32mp13 r)
      ∧ m5.regs Reg.CR &&& stm32mp13.ADC_CR_DEEPPWD = stm32mp13.ADC_CR_DEEPPWD
      ∧ m5.regs Reg.CFGR &&& stm32mp13.ADC_CFGR_JQDIS = stm32mp13.ADC_CFGR_JQDIS
      ∧ m5.regs Reg.TR1 &&& stm32mp13.ADC_TR1_HT1 = stm32mp13.ADC_TR1_HT1 := by
  obtain ⟨m5, a, b, -, -, -, c, -, d, e, -⟩ :=
    C15_LL_ADC_DeInit_success_defaults stm32mp13 stm32mp13_ResetLayout (prompt stm32mp13)
      (prompt_HandshakeOnly stm32mp13) 32768 { regs := convertingRegs, log := [] } (by decide)
  exact ⟨by decide, m5, a, b, c, d, e⟩

/-! ## De-initialisation of the common instance -/

theorem force_release_held (h a1 a2 : Nat) :
    ((((((h ||| a1) % 4294967296 ||| a2) % 4294967296) &&& NOT32 a1) % 4294967296)
        &&& NOT32 a2) % 4294967296 &&& (a1 ||| a2) = 0 := by
  apply Nat.eq_of_testBit_eq
  intro i
  simp only [Nat.testBit_and, Nat.testBit_or, testBit_mod_word, testBit_NOT32, Nat.zero_testBit]
  cases h.testBit i <;> cases a1.testBit i <;> cases a2.testBit i <;>
    by_cases h : i < 32 <;> simp [h]

theorem force_held (h a1 a2 : Nat) :
    (((h ||| a1) % 4294967296 ||| a2) % 4294967296) &&& (a1 ||| a2)
      = (a1 ||| a2) % 4294967296 := by
  apply Nat.eq_of_testBit_eq
  intro i
  simp only [Nat.testBit_and, Nat.testBit_or, testBit_mod_word]
  cases h.testBit i <;> cases a1.testBit i <;> cases a2.testBit i <;>
    by_cases h : i < 32 <;> simp [h]

/-- C16: for every argument and every state of the reset controller, `LL_ADC_CommonDeInit`
returns SUCCESS; it makes exactly four calls, in this order: force reset of ADC1, force reset of
ADC2, release reset of ADC1, release reset of ADC2. After the two force calls both peripherals
are held in reset, and at the return neither is. -/
theorem C16_LL_ADC_CommonDeInit_success (B : BusHeader) (pADCxy_COMMON : CommonInstance)
    (rcc : ResetControl) :
    (LL_ADC_CommonDeInit B pADCxy_COMMON rcc).1 = ErrorStatus.SUCCESS
    ∧ (LL_ADC_CommonDeInit B pADCxy_COMMON rcc).2.calls
        = rcc.calls ++ [ResetCall.force B.LL_AHB2_GRP1_PERIPH_ADC1,
            ResetCall.force B.LL_AHB2_GRP1_PERIPH_ADC2,
            ResetCall.release B.LL_AHB2_GRP1_PERIPH_ADC1,
            ResetCall.release B.LL_AHB2_GRP1_PERIPH_ADC2]
    ∧ (LL_AHB2_GRP1_ForceReset B.LL_AHB2_GRP1_PERIPH_ADC2
          (LL_AHB2_GRP1_ForceReset B.LL_AHB2_GRP1_PERIPH_ADC1 rcc)).held
        &&& (B.LL_AHB2_GRP1_PERIPH_ADC1 ||| B.LL_AHB2_GRP1_PERIPH_ADC2)
        = (B.LL_AHB2_GRP1_PERIPH_ADC1 ||| B.LL_AHB2_GRP1_PERIPH_ADC2) % 4294967296
    ∧ (LL_ADC_CommonDeInit B pADCxy_COMMON rcc).2.held
        &&& (B.LL_AHB2_GRP1_PERIPH_ADC1 ||| B.LL_AHB2_GRP1_PERIPH_ADC2) = 0 := by
  refine ⟨rfl, ?_, ?_, ?_⟩
  · simp [LL_ADC_CommonDeInit, LL_AHB2_GRP1_ForceReset, LL_AHB2_GRP1_ReleaseReset]
  · exact force_held _ _ _
  · exact force_release_held _ _ _

/-! ## Default values of the regular-group structure -/

/-- C17: `LL_ADC_REG_StructInit` assigns five of the six fields that `LL_ADC_REG_Init` reads
and leaves `DataTransferMode` at the value it had before the call. Two structures that differ
in `DataTransferMode` (0 and 3, DMA transfer none and unlimited) still differ after the call,
and `LL_ADC_REG_Init` called with them on the same disabled instance leaves different values in
CFGR (0x1000 and 0x1003). -/
theorem C17_LL_ADC_REG_StructInit_keeps_DataTransferMode :
    (∀ (K : Header) (s : LL_ADC_REG_InitTypeDef),
      LL_ADC_REG_StructInit K s
        = { TriggerSource := K.LL_ADC_REG_TRIG_SOFTWARE,
            SequencerLength := K.LL_ADC_REG_SEQ_SCAN_DISABLE,
            SequencerDiscont := K.LL_ADC_REG_SEQ_DISCONT_DISABLE,
            ContinuousMode := K.LL_ADC_REG_CONV_SINGLE,
            DataTransferMode := s.DataTransferMode,
            Overrun := K.LL_ADC_REG_OVR_DATA_OVERWRITTEN })
    ∧ (LL_ADC_REG_StructInit stm32mp13
          { TriggerSource := 0, SequencerLength := 0, SequencerDiscont := 0,
            ContinuousMode := 0, DataTransferMode := 0, Overrun := 0 }).DataTransferMode = 0
    ∧ (LL_ADC_REG_StructInit stm32mp13
          { TriggerSource := 0, SequencerLength := 0, SequencerDiscont := 0,
            ContinuousMode := 0, DataTransferMode := 3, Overrun := 0 }).DataTransferMode = 3
    ∧ (LL_ADC_REG_Init stm32mp13 quiet { regs := zeroRegs, log := [] }
          (LL_ADC_REG_StructInit stm32mp13
            { TriggerSource := 0, SequencerLength := 0, SequencerDiscont := 0,
              ContinuousMode := 0, DataTransferMode := 0, Overrun := 0 })).2.regs Reg.CFGR
        = 4096
    ∧ (LL_ADC_REG_Init stm32mp13 quiet { regs := zeroRegs, log := [] }
          (LL_ADC_REG_StructInit stm32mp13
            { TriggerSource := 0, SequencerLength := 0, SequencerDiscont := 0,
              ContinuousMode := 0, DataTransferMode := 3, Overrun := 0 })).2.regs Reg.CFGR
        = 4099 := by
  refine ⟨fun K s => rfl, by decide, by decide, by decide, by decide⟩

/-! ## Twice `LL_ADC_DeInit` -/

/-- On a quiet peripheral the value of a register after a sequence of read-modify-writes is
the one computed by `modifyAll`. -/
theorem quiet_foldl_MODIFY_REG (K : Header) (q : Reg) (ops : List (Reg × Nat × Nat)) :
    ∀ (m : Machine),
      (ops.foldl (fun m op => MODIFY_REG K quiet op.1 op.2.1 op.2.2 m) m).regs q
        = modifyAll K q ops (m.regs q) := by
  induction ops with
  | nil => intro m; rfl
  | cons op ops ih =>
    intro m
    simp only [List.foldl, modifyAll]
    rw [ih]
    congr 1
    rw [ MODIFY_REG_quiet]
    by_cases h : op.1 = q
    · subst h
      simp only [if_true, Function.update_same]
    · simp only [h, if_false, Function.update_noteq (Ne.symm h)]

theorem idem_one (x c s : Nat) :
    (fun y => ((y &&& NOT32 c) ||| s) % 4294967296)
        ((fun y => ((y &&& NOT32 c) ||| s) % 4294967296) x)
      = (fun y => ((y &&& NOT32 c) ||| s) % 4294967296) x := by
  apply Nat.eq_of_testBit_eq
  intro i
  simp only [Nat.testBit_and, Nat.testBit_or, testBit_mod_word, testBit_NOT32]
  cases x.testBit i <;> cases c.testBit i <;> cases s.testBit i <;>
    by_cases h : i < 32 <;> simp [h]

theorem idem_two (x c1 c2 s : Nat) :
    (fun y => ((y &&& NOT32 c2) ||| s) % 4294967296)
        ((fun y => ((y &&& NOT32 c1) ||| 0) % 4294967296)
          ((fun y => ((y &&& NOT32 c2) ||| s) % 4294967296)
            ((fun y => ((y &&& NOT32 c1) ||| 0) % 4294967296) x)))
      = (fun y => ((y &&& NOT32 c2) ||| s) % 4294967296)
          ((fun y => ((y &&& NOT32 c1) ||| 0) % 4294967296) x) := by
  apply Nat.eq_of_testBit_eq
  intro i
  simp only [Nat.testBit_and, Nat.testBit_or, testBit_mod_word, testBit_NOT32,
    Nat.zero_testBit]
  cases x.testBit i <;> cases c1.testBit i <;> cases c2.testBit i <;> cases s.testBit i <;>
    by_cases h : i < 32 <;> simp [h]

theorem idem_isr (x s : Nat) :
    (fun y => (y &&& NOT32 ((y &&& NOT32 0) ||| s)) % 4294967296)
        ((fun y => (y &&& NOT32 ((y &&& NOT32 0) ||| s)) % 4294967296) x)
      = (fun y => (y &&& NOT32 ((y &&& NOT32 0) ||| s)) % 4294967296) x := by
  apply Nat.eq_of_testBit_eq
  intro i
  simp only [Nat.testBit_and, Nat.testBit_or, testBit_mod_word, testBit_NOT32,
    Nat.zero_testBit]
  cases x.testBit i <;> cases s.testBit i <;> by_cases h : i < 32 <;> simp [h]

theorem idem_cr (x a d rs : Nat) :
    (fun y => (((y &&& NOT32 0) ||| d) ||| (y &&& rs)) % 4294967296)
        ((fun y => (((y &&& NOT32 a) ||| 0) ||| (y &&& rs)) % 4294967296)
          ((fun y => (((y &&& NOT32 0) ||| d) ||| (y &&& rs)) % 4294967296)
            ((fun y => (((y &&& NOT32 a) ||| 0) ||| (y &&& rs)) % 4294967296) x)))
      = (fun y => (((y &&& NOT32 0) ||| d) ||| (y &&& rs)) % 4294967296)
          ((fun y => (((y &&& NOT32 a) ||| 0) ||| (y &&& rs)) % 4294967296) x) := by
  apply Nat.eq_of_testBit_eq
  intro i
  simp only [Nat.testBit_and, Nat.testBit_or, testBit_mod_word, testBit_NOT32,
    Nat.zero_testBit]
  cases x.testBit i <;> cases a.testBit i <;> cases d.testBit i <;> cases rs.testBit i <;>
    by_cases h : i < 32 <;> simp [h]

/-- The register-reset block, as a function of the value of one register, is idempotent. -/
theorem modifyAll_resetOps_idem (K : Header) (q : Reg) (x : Nat) :
    modifyAll K q (LL_ADC_DeInit_resetOps K) (modifyAll K q (LL_ADC_DeInit_resetOps K) x)
      = modifyAll K q (LL_ADC_DeInit_resetOps K) x := by
  cases q
  case ISR => exact idem_isr _ _
  case CR => exact idem_cr _ _ _ _
  case CFGR => exact idem_two _ _ _ _
  case OFR1 => exact idem_two _ _ _ _
  all_goals exact idem_one _ _ _

/-! ### The handshake bits of CR -/

theorem cb_ADEN (K : Header) : K.ADC_CR_ADEN &&& LL_ADC_DeInit_checkBits K = K.ADC_CR_ADEN := by
  unfold LL_ADC_DeInit_checkBits
  exact sub_or_right _ (Nat.and_self _)

theorem cb_ADDIS (K : Header) :
    K.ADC_CR_ADDIS &&& LL_ADC_DeInit_checkBits K = K.ADC_CR_ADDIS := by
  unfold LL_ADC_DeInit_checkBits
  exact sub_or_left _ (sub_or_right _ (Nat.and_self _))

theorem cb_ADSTART (K : Header) :
    K.ADC_CR_ADSTART &&& LL_ADC_DeInit_checkBits K = K.ADC_CR_ADSTART := by
  unfold LL_ADC_DeInit_checkBits
  exact sub_or_left _ (sub_or_left _ (sub_or_right _ (Nat.and_self _)))

theorem cb_JADSTART (K : Header) :
    K.ADC_CR_JADSTART &&& LL_ADC_DeInit_checkBits K = K.ADC_CR_JADSTART := by
  unfold LL_ADC_DeInit_checkBits
  exact sub_or_left _ (sub_or_left _ (sub_or_left _ (sub_or_right _ (Nat.and_self _))))

theorem cb_ADSTP (K : Header) :
    K.ADC_CR_ADSTP &&& LL_ADC_DeInit_checkBits K = K.ADC_CR_ADSTP := by
  unfold LL_ADC_DeInit_checkBits
  exact sub_or_left _ (sub_or_left _ (sub_or_left _ (sub_or_left _
    (sub_or_right _ (Nat.and_self _)))))

theorem cb_JADSTP (K : Header) :
    K.ADC_CR_JADSTP &&& LL_ADC_DeInit_checkBits K = K.ADC_CR_JADSTP := by
  unfold LL_ADC_DeInit_checkBits
  exact sub_or_left _ (sub_or_left _ (sub_or_left _ (sub_or_left _
    (sub_or_left _ (Nat.and_self _)))))

/-- The six bits tested by `LL_ADC_DeInit` are read-set bits. -/
theorem cb_rs (K : Header) :
    LL_ADC_DeInit_checkBits K &&& ADC_CR_BITS_PROPERTY_RS K = LL_ADC_DeInit_checkBits K := by
  unfold LL_ADC_DeInit_checkBits
  exact or_sub (or_sub (or_sub (or_sub (or_sub (rs_JADSTP K) (rs_ADSTP K)) (rs_JADSTART K))
    (rs_ADSTART K)) (rs_ADDIS K)) (rs_ADEN K)

theorem lt_word_of_sub {a b : Nat} (h : a &&& b = a) (hb : b < 4294967296) :
    a < 4294967296 := by
  rw [← h]
  exact Nat.lt_of_le_of_lt Nat.and_le_right hb

theorem and_sub_zero {c S b : Nat} (h : c &&& S = 0) (hb : b &&& S = b) : c &&& b = 0 :=
  disj_comm (disj_of_sub hb (disj_comm h))

theorem and_not_self_of_disj {c f : Nat} (h : c &&& f = 0) (hw : c < 4294967296) :
    c &&& NOT32 f = c := by
  apply Nat.eq_of_testBit_eq
  intro i
  have a1 := congrArg (fun y => Nat.testBit y i) h
  have a2 := testBit_of_lt_word hw i
  simp only [Nat.testBit_and, testBit_NOT32, Nat.zero_testBit] at a1 ⊢
  revert a1 a2
  cases c.testBit i <;> cases f.testBit i <;> by_cases h : i < 32 <;> simp [h]

/-- The word stored in CR by a request (a read-modify-write that clears the read-set bits in
the word written and sets one of them): the old word with the requested bit added. -/
theorem store_request (c rs b : Nat) (hc : c < 4294967296) (hb : b < 4294967296) :
    (((c &&& NOT32 rs) ||| b) ||| (c &&& rs)) % 4294967296 = c ||| b := by
  apply Nat.eq_of_testBit_eq
  intro i
  have a1 := testBit_of_lt_word hc i
  have a2 := testBit_of_lt_word hb i
  simp only [Nat.testBit_and, Nat.testBit_or, testBit_mod_word, testBit_NOT32]
  revert a1 a2
  cases c.testBit i <;> cases rs.testBit i <;> cases b.testBit i <;>
    by_cases h : i < 32 <;> simp [h]

/-- A register-reset statement on CR leaves the six handshake bits clear when they are clear
and the statement sets none of them. -/
theorem store_idle (c cm s rs S : Nat) (hc : c &&& S = 0) (hs : s &&& S = 0) :
    ((((c &&& NOT32 cm) ||| s) ||| (c &&& rs)) % 4294967296) &&& S = 0 := by
  apply Nat.eq_of_testBit_eq
  intro i
  have a1 := congrArg (fun y => Nat.testBit y i) hc
  have a2 := congrArg (fun y => Nat.testBit y i) hs
  simp only [Nat.testBit_and, Nat.testBit_or, testBit_mod_word, testBit_NOT32,
    Nat.zero_testBit] at a1 a2 ⊢
  revert a1 a2
  cases c.testBit i <;> cases cm.testBit i <;> cases s.testBit i <;> cases rs.testBit i <;>
    cases S.testBit i <;> by_cases h : i < 32 <;> simp [h]

theorem or_or_and_not (c en dis S : Nat) (hc : c &&& S = 0) (hw : c < 4294967296)
    (he : en &&& S = en) (hd : dis &&& S = dis) :
    ((c ||| en) ||| dis) &&& NOT32 S = c := by
  apply Nat.eq_of_testBit_eq
  intro i
  have a1 := congrArg (fun y => Nat.testBit y i) hc
  have a2 := testBit_of_lt_word hw i
  have a3 := testBit_of_and_eq_self he i
  have a4 := testBit_of_and_eq_self hd i
  simp only [Nat.testBit_and, Nat.testBit_or, testBit_NOT32, Nat.zero_testBit] at a1 ⊢
  revert a1 a2 a3 a4
  cases c.testBit i <;> cases en.testBit i <;> cases dis.testBit i <;> cases S.testBit i <;>
    by_cases h : i < 32 <;> simp [h]

/-- The mask cleared by `acknowledge` on a disable request is the mask of the six bits tested
by `LL_ADC_DeInit`. -/
theorem ack_six_eq (K : Header) :
    K.ADC_CR_ADSTP ||| K.ADC_CR_JADSTP ||| K.ADC_CR_ADSTART ||| K.ADC_CR_JADSTART
        ||| K.ADC_CR_ADDIS ||| K.ADC_CR_ADEN
      = LL_ADC_DeInit_checkBits K := by
  unfold LL_ADC_DeInit_checkBits
  apply Nat.eq_of_testBit_eq
  intro i
  simp only [Nat.testBit_or]
  cases K.ADC_CR_ADSTP.testBit i <;> cases K.ADC_CR_JADSTP.testBit i <;>
    cases K.ADC_CR_ADSTART.testBit i <;> cases K.ADC_CR_JADSTART.testBit i <;> simp

theorem ack_four_sub (K : Header) :
    (K.ADC_CR_ADSTP ||| K.ADC_CR_JADSTP ||| K.ADC_CR_ADSTART ||| K.ADC_CR_JADSTART)
        &&& LL_ADC_DeInit_checkBits K
      = K.ADC_CR_ADSTP ||| K.ADC_CR_JADSTP ||| K.ADC_CR_ADSTART ||| K.ADC_CR_JADSTART :=
  or_sub (or_sub (or_sub (cb_ADSTP K) (cb_JADSTP K)) (cb_ADSTART K)) (cb_JADSTART K)

theorem and_of_sub {c S b X : Nat} (h : c &&& S = X) (hb : b &&& S = b) :
    c &&& b = X &&& b := by
  apply Nat.eq_of_testBit_eq
  intro i
  have a1 := congrArg (fun y => Nat.testBit y i) h
  have a2 := testBit_of_and_eq_self hb i
  simp only [Nat.testBit_and] at a1 ⊢
  revert a1 a2
  cases c.testBit i <;> cases S.testBit i <;> cases b.testBit i <;> cases X.testBit i <;> simp

/-- The enable bit is disjoint from each of the five other handshake bits. -/
theorem HandshakeLayout.aden {K : Header} (LH : HandshakeLayout K) :
    K.ADC_CR_ADEN &&& K.ADC_CR_ADDIS = 0 ∧ K.ADC_CR_ADEN &&& K.ADC_CR_ADSTART = 0
    ∧ K.ADC_CR_ADEN &&& K.ADC_CR_JADSTART = 0 ∧ K.ADC_CR_ADEN &&& K.ADC_CR_ADSTP = 0
    ∧ K.ADC_CR_ADEN &&& K.ADC_CR_JADSTP = 0 := by
  have h := LH.disjoint
  simp only [List.pairwise_cons, List.mem_cons, List.mem_singleton, forall_eq_or_imp,
    forall_eq] at h
  exact ⟨h.1.1, h.1.2.1, h.1.2.2.1, h.1.2.2.2.1, h.1.2.2.2.2.1⟩

theorem HandshakeLayout.aden_four {K : Header} (LH : HandshakeLayout K) :
    K.ADC_CR_ADEN
      &&& (K.ADC_CR_ADSTP ||| K.ADC_CR_JADSTP ||| K.ADC_CR_ADSTART ||| K.ADC_CR_JADSTART)
      = 0 := by
  obtain ⟨-, h2, h3, h4, h5⟩ := LH.aden
  exact disj_or_right (disj_or_right (disj_or_right h4 h5) h2) h3

/-- The peripheral `acknowledge` leaves a disabled instance with no request pending alone. -/
theorem acknowledge_idle (K : Header) (LH : HandshakeLayout K) (regs : ADC_TypeDef)
    (h : regs Reg.CR &&& LL_ADC_DeInit_checkBits K = 0) (hw : regs Reg.CR < 4294967296) :
    acknowledge K regs = regs := by
  unfold acknowledge
  have h1 : regs Reg.CR &&& K.ADC_CR_ADDIS = 0 := and_sub_zero h (cb_ADDIS K)
  have hd : K.ADC_CR_ADDIS ≠ 0 := LH.nonzero _ (by simp)
  rw [if_neg (by rw [h1]; exact fun e => hd e.symm),
    and_not_self_of_disj (and_sub_zero h (ack_four_sub K)) hw]
  exact Function.update_eq_self _ _

/-- The peripheral `acknowledge` leaves an enabled instance with no request pending alone. -/
theorem acknowledge_enabled (K : Header) (LH : HandshakeLayout K) (regs : ADC_TypeDef)
    (h : regs Reg.CR &&& LL_ADC_DeInit_checkBits K = K.ADC_CR_ADEN)
    (hw : regs Reg.CR < 4294967296) :
    acknowledge K regs = regs := by
  unfold acknowledge
  have h1 : regs Reg.CR &&& K.ADC_CR_ADDIS = 0 := by
    rw [and_of_sub h (cb_ADDIS K)]; exact LH.aden.1
  have h2 : regs Reg.CR
      &&& (K.ADC_CR_ADSTP ||| K.ADC_CR_JADSTP ||| K.ADC_CR_ADSTART ||| K.ADC_CR_JADSTART)
      = 0 := by
    rw [and_of_sub h (ack_four_sub K)]; exact LH.aden_four
  have hd : K.ADC_CR_ADDIS ≠ 0 := LH.nonzero _ (by simp)
  rw [if_neg (by rw [h1]; exact fun e => hd e.symm), and_not_self_of_disj h2 hw]
  exact Function.update_eq_self _ _

/-- The peripheral `acknowledge` disables an enabled instance whose disable is requested. -/
theorem acknowledge_disabling (K : Header) (LH : HandshakeLayout K) (regs : ADC_TypeDef)
    (h : regs Reg.CR &&& LL_ADC_DeInit_checkBits K = K.ADC_CR_ADEN ||| K.ADC_CR_ADDIS) :
    acknowledge K regs
      = Function.update regs Reg.CR (regs Reg.CR &&& NOT32 (LL_ADC_DeInit_checkBits K)) := by
  unfold acknowledge
  have h1 : regs Reg.CR &&& K.ADC_CR_ADDIS = K.ADC_CR_ADDIS := by
    rw [and_of_sub h (cb_ADDIS K)]
    exact or_and_eq_right LH.aden.1 (Nat.and_self _)
  rw [if_pos h1, ack_six_eq]

/-! ### Bus accesses on a peripheral that only acknowledges requests -/

/-- A peripheral that only acknowledges requests leaves alone a register file with no request
to acknowledge. -/
theorem Acknowledging.steady {K : Header} {hw : Hardware} (hA : Acknowledging K hw) (t : Nat)
    (regs : ADC_TypeDef) (hs : acknowledge K regs = regs) : hw t regs = regs := by
  rcases hA t regs with h | h
  · exact h
  · rw [h, hs]

theorem READ_REG_steady (K : Header) (hw : Hardware) (hA : Acknowledging K hw) (r : Reg)
    (m : Machine) (hs : acknowledge K m.regs = m.regs) :
    READ_REG hw r m = READ_REG quiet r m := by
  simp only [READ_REG, quiet, hA.steady _ _ hs]

theorem READ_BIT_steady (K : Header) (hw : Hardware) (hA : Acknowledging K hw) (r : Reg)
    (b : Nat) (m : Machine) (hs : acknowledge K m.regs = m.regs) :
    READ_BIT hw r b m = READ_BIT quiet r b m := by
  simp only [READ_BIT, READ_REG_steady K hw hA r m hs]

theorem WRITE_REG_steady (K : Header) (hw : Hardware) (hA : Acknowledging K hw) (r : Reg)
    (v : Nat) (m : Machine) (hs : acknowledge K m.regs = m.regs) :
    WRITE_REG K hw r v m = WRITE_REG K quiet r v m := by
  simp only [WRITE_REG, quiet, hA.steady _ _ hs]

theorem MODIFY_REG_steady (K : Header) (hw : Hardware) (hA : Acknowledging K hw) (r : Reg)
    (c s : Nat) (m : Machine) (hs : acknowledge K m.regs = m.regs) :
    MODIFY_REG K hw r c s m = MODIFY_REG K quiet r c s m := by
  unfold MODIFY_REG
  rw [READ_REG_steady K hw hA r m hs]
  exact WRITE_REG_steady K hw hA r _ (READ_REG quiet r m).2 hs

/-- On a disabled instance with no request pending, a sequence of read-modify-writes that set
no handshake bit runs on a peripheral that only acknowledges requests as on a quiet one. -/
theorem steady_foldl_MODIFY_REG (K : Header) (LH : HandshakeLayout K) (hw : Hardware)
    (hA : Acknowledging K hw) (q : Reg) (ops : List (Reg × Nat × Nat)) :
    (∀ op ∈ ops, op.1 = Reg.CR → op.2.2 &&& LL_ADC_DeInit_checkBits K = 0) →
    ∀ (m : Machine), m.regs Reg.CR &&& LL_ADC_DeInit_checkBits K = 0 →
      m.regs Reg.CR < 4294967296 →
      (ops.foldl (fun m op => MODIFY_REG K hw op.1 op.2.1 op.2.2 m) m).regs q
        = modifyAll K q ops (m.regs q) := by
  induction ops with
  | nil => intro _ m _ _; rfl
  | cons op ops ih =>
    intro hops m h hw0
    have hs := acknowledge_idle K LH m.regs h hw0
    simp only [List.foldl, modifyAll]
    rw [ MODIFY_REG_steady K hw hA op.1 op.2.1 op.2.2 m hs]
    have hcr : (MODIFY_REG K quiet op.1 op.2.1 op.2.2 m).regs Reg.CR
          &&& LL_ADC_DeInit_checkBits K = 0
        ∧ (MODIFY_REG K quiet op.1 op.2.1 op.2.2 m).regs Reg.CR < 4294967296 := by
      rw [ MODIFY_REG_quiet]
      by_cases e : op.1 = Reg.CR
      · rw [e]
        simp only [Function.update_same, store]
        exact ⟨store_idle _ _ _ _ _ h (hops op (List.mem_cons_self _ _) e),
          Nat.mod_lt _ (by decide)⟩
      · simp only [Function.update_noteq (Ne.symm e)]
        exact ⟨h, hw0⟩
    rw [ih (fun o ho => hops o (List.mem_cons_of_mem _ ho)) _ hcr.1 hcr.2]
    congr 1
    rw [ MODIFY_REG_quiet]
    by_cases e : op.1 = q
    · subst e
      simp only [if_true, Function.update_same]
    · simp only [e, if_false, Function.update_noteq (Ne.symm e)]

theorem prompt_Acknowledging (K : Header) : Acknowledging K (prompt K) :=
  fun _ _ => Or.inr rfl

theorem quiet_Acknowledging (K : Header) : Acknowledging K quiet :=
  fun _ _ => Or.inl rfl

theorem slowStop_Acknowledging (K : Header) (T : Nat) : Acknowledging K (slowStop K T) := by
  intro t regs
  unfold slowStop
  by_cases h : t < T
  · exact Or.inl (by simp [h])
  · exact Or.inr (by simp [h])

theorem slowStop_AcknowledgesAt (K : Header) (T t : Nat) (h : T ≤ t) :
    AcknowledgesAt K (slowStop K T) t := by
  intro regs
  unfold slowStop
  simp [Nat.not_lt.mpr h]

theorem prompt_AcknowledgesAt (K : Header) (t : Nat) : AcknowledgesAt K (prompt K) t :=
  fun _ => rfl

/-! ### The disable sequence on an enabled instance and a peripheral that acknowledges -/

theorem MODIFY_REG_length (K : Header) (hw : Hardware) (r : Reg) (c s : Nat) (m : Machine) :
    (MODIFY_REG K hw r c s m).log.length = m.log.length + 2 := by
  simp [ MODIFY_REG, WRITE_REG, READ_REG]

theorem LL_ADC_IsFlag_steady (K : Header) (hw : Hardware) (hA : Acknowledging K hw) (b : Nat) (m : Machine)
    (hs : acknowledge K m.regs = m.regs) :
    (READ_BIT hw Reg.CR b m).1 = m.regs Reg.CR &&& b
    ∧ (READ_BIT hw Reg.CR b m).2.regs = m.regs := by
  rw [READ_BIT_steady K hw hA _ _ _ hs]
  exact ⟨rfl, rfl⟩

theorem MODIFY_REG_steady_regs (K : Header) (hw : Hardware) (hA : Acknowledging K hw) (r : Reg) (c s : Nat) (m : Machine)
    (hs : acknowledge K m.regs = m.regs) :
    (MODIFY_REG K hw r c s m).regs
      = Function.update m.regs r (store K r (m.regs r) ((m.regs r &&& NOT32 c) ||| s)) := by
  rw [ MODIFY_REG_steady K hw hA _ _ _ _ hs]
  rfl

/-- On an enabled instance with nothing pending, lines 397-423 of `LL_ADC_DeInit` write the two
trigger sources and request no stop. -/
theorem LL_ADC_DeInit_stopConversions_steady (K : Header) (hw : Hardware) (hA : Acknowledging K hw) (LH : HandshakeLayout K)
    (m : Machine) (hE : m.regs Reg.CR &&& LL_ADC_DeInit_checkBits K = K.ADC_CR_ADEN)
    (hW : m.regs Reg.CR < 4294967296) :
    (LL_ADC_DeInit_stopConversions K hw m).regs
      = Function.update
          (Function.update m.regs Reg.CFGR
            (store K Reg.CFGR (m.regs Reg.CFGR)
              ((m.regs Reg.CFGR &&& NOT32 (K.ADC_CFGR_EXTEN ||| K.ADC_CFGR_EXTSEL))
                ||| K.LL_ADC_REG_TRIG_SOFTWARE)))
          Reg.JSQR
          (store K Reg.JSQR (m.regs Reg.JSQR)
            ((m.regs Reg.JSQR &&& NOT32 (K.ADC_JSQR_JEXTSEL ||| K.ADC_JSQR_JEXTEN))
              ||| K.LL_ADC_INJ_TRIG_SOFTWARE))
    ∧ (LL_ADC_DeInit_stopConversions K hw m).log.length = m.log.length + 6 := by
  have steady : ∀ X : Machine, X.regs Reg.CR = m.regs Reg.CR →
      acknowledge K X.regs = X.regs := by
    intro X hX
    exact acknowledge_enabled K LH X.regs (by rw [hX]; exact hE) (by rw [hX]; exact hW)
  have hst : m.regs Reg.CR &&& K.ADC_CR_ADSTART ≠ K.ADC_CR_ADSTART := by
    rw [and_of_sub hE (cb_ADSTART K), LH.aden.2.1]
    exact fun e => LH.nonzero _ (by simp) e.symm
  have hjst : m.regs Reg.CR &&& K.ADC_CR_JADSTART ≠ K.ADC_CR_JADSTART := by
    rw [and_of_sub hE (cb_JADSTART K), LH.aden.2.2.1]
    exact fun e => LH.nonzero _ (by simp) e.symm
  -- the regular group
  have r1 := MODIFY_REG_steady_regs K hw hA Reg.CFGR (K.ADC_CFGR_EXTEN ||| K.ADC_CFGR_EXTSEL)
    K.LL_ADC_REG_TRIG_SOFTWARE m (steady m rfl)
  have c1 : (LL_ADC_REG_SetTriggerSource K hw K.LL_ADC_REG_TRIG_SOFTWARE m).regs Reg.CR
      = m.regs Reg.CR := by
    unfold LL_ADC_REG_SetTriggerSource
    rw [r1]; exact Function.update_noteq (by decide) _ _
  obtain ⟨v2, r2⟩ := LL_ADC_IsFlag_steady K hw hA K.ADC_CR_ADSTART _ (steady _ c1)
  have a0 : (LL_ADC_REG_IsConversionOngoing K hw
      (LL_ADC_REG_SetTriggerSource K hw K.LL_ADC_REG_TRIG_SOFTWARE m)).1 = 0 := by
    unfold LL_ADC_REG_IsConversionOngoing
    simp only [v2, c1, hst, if_false]
  have a2 : (LL_ADC_REG_IsConversionOngoing K hw
      (LL_ADC_REG_SetTriggerSource K hw K.LL_ADC_REG_TRIG_SOFTWARE m)).2.regs
      = (LL_ADC_REG_SetTriggerSource K hw K.LL_ADC_REG_TRIG_SOFTWARE m).regs := r2
  -- the injected group
  have c2 : (LL_ADC_REG_IsConversionOngoing K hw
      (LL_ADC_REG_SetTriggerSource K hw K.LL_ADC_REG_TRIG_SOFTWARE m)).2.regs Reg.CR
      = m.regs Reg.CR := by rw [a2, c1]
  have r3 := MODIFY_REG_steady_regs K hw hA Reg.JSQR (K.ADC_JSQR_JEXTSEL ||| K.ADC_JSQR_JEXTEN)
    K.LL_ADC_INJ_TRIG_SOFTWARE _ (steady _ c2)
  have c3 : (LL_ADC_INJ_SetTriggerSource K hw K.LL_ADC_INJ_TRIG_SOFTWARE
      (LL_ADC_REG_IsConversionOngoing K hw
        (LL_ADC_REG_SetTriggerSource K hw K.LL_ADC_REG_TRIG_SOFTWARE m)).2).regs Reg.CR
      = m.regs Reg.CR := by
    unfold LL_ADC_INJ_SetTriggerSource
    rw [r3, Function.update_noteq (by decide), c2]
  obtain ⟨v4, r4⟩ := LL_ADC_IsFlag_steady K hw hA K.ADC_CR_JADSTART _ (steady _ c3)
  have b0 : (LL_ADC_INJ_IsConversionOngoing K hw
      (LL_ADC_INJ_SetTriggerSource K hw K.LL_ADC_INJ_TRIG_SOFTWARE
        (LL_ADC_REG_IsConversionOngoing K hw
          (LL_ADC_REG_SetTriggerSource K hw K.LL_ADC_REG_TRIG_SOFTWARE m)).2)).1
      = 0 := by
    unfold LL_ADC_INJ_IsConversionOngoing
    simp only [v4, c3, hjst, if_false]
  have eq : LL_ADC_DeInit_stopConversions K hw m
      = (LL_ADC_INJ_IsConversionOngoing K hw
          (LL_ADC_INJ_SetTriggerSource K hw K.LL_ADC_INJ_TRIG_SOFTWARE
            (LL_ADC_REG_IsConversionOngoing K hw
              (LL_ADC_REG_SetTriggerSource K hw K.LL_ADC_REG_TRIG_SOFTWARE m)).2)).2 := by
    unfold LL_ADC_DeInit_stopConversions
    simp only [a0, b0, ne_eq, not_true_eq_false, if_false]
  rw [eq]
  constructor
  · unfold LL_ADC_INJ_IsConversionOngoing
    rw [r4]
    unfold LL_ADC_INJ_SetTriggerSource
    rw [r3, a2]
    unfold LL_ADC_REG_SetTriggerSource
    rw [r1]
    simp only [Function.update_noteq (show Reg.JSQR ≠ Reg.CFGR by decide)]
  · simp [LL_ADC_INJ_IsConversionOngoing, LL_ADC_INJ_SetTriggerSource,
      LL_ADC_REG_IsConversionOngoing, LL_ADC_REG_SetTriggerSource, READ_BIT_length,
      MODIFY_REG_length]

theorem or_and_six {c S en dis : Nat} (h : c &&& S = en) (hd : dis &&& S = dis) :
    (c ||| dis) &&& S = en ||| dis := by
  apply Nat.eq_of_testBit_eq
  intro i
  have a1 := congrArg (fun y => Nat.testBit y i) h
  have a2 := testBit_of_and_eq_self hd i
  simp only [Nat.testBit_and, Nat.testBit_or] at a1 ⊢
  revert a1 a2
  cases c.testBit i <;> cases S.testBit i <;> cases en.testBit i <;> cases dis.testBit i <;>
    simp

theorem and_not_and_sub {x S b : Nat} (hb : b &&& S = b) : (x &&& NOT32 S) &&& b = 0 := by
  apply Nat.eq_of_testBit_eq
  intro i
  have a2 := testBit_of_and_eq_self hb i
  simp only [Nat.testBit_and, testBit_NOT32, Nat.zero_testBit]
  revert a2
  cases x.testBit i <;> cases S.testBit i <;> cases b.testBit i <;>
    by_cases h : i < 32 <;> simp [h]

theorem and_not_lt_word (x S : Nat) : x &&& NOT32 S < 4294967296 := by
  apply Nat.lt_of_le_of_lt Nat.and_le_right
  unfold NOT32
  have h : (4294967296 : Nat) = 2 ^ 32 := by norm_num
  rw [h]
  exact Nat.xor_lt_two_pow (by norm_num) (by rw [← h]; exact Nat.mod_lt _ (by decide))

/-- The wait for the disable (lines 447-458) on a peripheral that only acknowledges requests and
does so at access `T`: when `T` is one of the tests that the counter allows, the loop ends with
the status unchanged and the request acknowledged. -/
theorem waitWhile_disable_acknowledged (K : Header) (hw : Hardware) (hA : Acknowledging K hw)
    (LH : HandshakeLayout K) (T : Nat) (hB : AcknowledgesAt K hw T) :
    ∀ (fuel t : Nat) (m : Machine), 0 < t → t ≤ fuel → t < 4294967296 →
      m.regs Reg.CR &&& LL_ADC_DeInit_checkBits K = K.ADC_CR_ADEN ||| K.ADC_CR_ADDIS →
      m.log.length ≤ T → T ≤ m.log.length + (t - 1) →
      ∃ t1 m1, waitWhile (LL_ADC_IsDisableOngoing K hw) fuel t ErrorStatus.SUCCESS m
          = some (t1, ErrorStatus.SUCCESS, m1)
        ∧ m1.regs = Function.update m.regs Reg.CR
            (m.regs Reg.CR &&& NOT32 (LL_ADC_DeInit_checkBits K)) := by
  intro fuel
  induction fuel with
  | zero => intro t m h0 hf; omega
  | succ n ih =>
    intro t m h0 hf hw32 hd hT0 hT
    have nDIS : (0 : Nat) ≠ K.ADC_CR_ADDIS :=
      fun e => LH.nonzero K.ADC_CR_ADDIS (by simp) e.symm
    have hack := acknowledge_disabling K LH m.regs hd
    have e1 : (LL_ADC_IsDisableOngoing K hw m).1
        = if hw m.log.length m.regs Reg.CR &&& K.ADC_CR_ADDIS = K.ADC_CR_ADDIS then 1 else 0 :=
      rfl
    have e2 : (LL_ADC_IsDisableOngoing K hw m).2.regs = hw m.log.length m.regs := rfl
    have e3 := LL_ADC_IsDisableOngoing_length K hw m
    have acked : hw m.log.length m.regs = acknowledge K m.regs →
        ∃ t1 m1, waitWhile (LL_ADC_IsDisableOngoing K hw) (n + 1) t ErrorStatus.SUCCESS m
            = some (t1, ErrorStatus.SUCCESS, m1)
          ∧ m1.regs = Function.update m.regs Reg.CR
              (m.regs Reg.CR &&& NOT32 (LL_ADC_DeInit_checkBits K)) := by
      intro hR
      have hc : (LL_ADC_IsDisableOngoing K hw m).1 ≠ 1 := by
        rw [e1, hR, hack, Function.update_same, and_not_and_sub (cb_ADDIS K), if_neg nDIS]
        decide
      refine ⟨t, _, waitWhile_exit _ n t ErrorStatus.SUCCESS m hc, ?_⟩
      rw [e2, hR, hack]
    by_cases hdue : T = m.log.length
    · exact acked (hdue ▸ hB m.regs)
    · rcases hA m.log.length m.regs with hR | hR
      · have hbit : m.regs Reg.CR &&& K.ADC_CR_ADDIS = K.ADC_CR_ADDIS := by
          rw [and_of_sub hd (cb_ADDIS K)]
          exact or_and_eq_right LH.aden.1 (Nat.and_self _)
        have hc : (LL_ADC_IsDisableOngoing K hw m).1 = 1 := by
          rw [e1, hR, if_pos hbit]
        have ht : (t + 4294967295) % 4294967296 = t - 1 := by omega
        have ht0 : t - 1 ≠ 0 := by omega
        obtain ⟨t1, m1, r1, r2⟩ := ih (t - 1) (LL_ADC_IsDisableOngoing K hw m).2 (by omega)
          (by omega) (by omega) (by rw [e2, hR]; exact hd) (by rw [e3]; omega)
          (by rw [e3]; omega)
        refine ⟨t1, m1, ?_, ?_⟩
        · unfold waitWhile
          simp only [hc, if_true, ht, ht0, if_false]
          exact r1
        · rw [r2, e2, hR]
      · exact acked hR

/-- On an enabled instance with nothing pending and a peripheral that only acknowledges
requests and does so at access `T`, one of the tests allowed by the budget of the disable wait
(the first is the 14th access of the function): lines 387-459 of `LL_ADC_DeInit` end with
status success, the disable acknowledged. -/
theorem LL_ADC_DeInit_disable_steady (K : Header) (hw : Hardware) (hA : Acknowledging K hw)
    (LH : HandshakeLayout K) (T : Nat) (hB : AcknowledgesAt K hw T) (fuel : Nat)
    (hf : ADC_CLOCK_RATIO_VS_CPU_HIGHEST ≤ fuel) (m : Machine)
    (hE : m.regs Reg.CR &&& LL_ADC_DeInit_checkBits K = K.ADC_CR_ADEN)
    (hW : m.regs Reg.CR < 4294967296)
    (hT0 : m.log.length + 13 ≤ T)
    (hT : T ≤ m.log.length + 12 + ADC_TIMEOUT_DISABLE_CPU_CYCLES) :
    (LL_ADC_IsEnabled K hw m).1 = 1
    ∧ ∃ m4, LL_ADC_DeInit_disable K hw fuel m = some (ErrorStatus.SUCCESS, m4)
      ∧ m4.regs
        = Function.update
            (Function.update
              (Function.update
                (Function.update m.regs Reg.CFGR
                  (store K Reg.CFGR (m.regs Reg.CFGR)
                    ((m.regs Reg.CFGR &&& NOT32 (K.ADC_CFGR_EXTEN ||| K.ADC_CFGR_EXTSEL))
                      ||| K.LL_ADC_REG_TRIG_SOFTWARE)))
                Reg.JSQR
                (store K Reg.JSQR (m.regs Reg.JSQR)
                  ((m.regs Reg.JSQR &&& NOT32 (K.ADC_JSQR_JEXTSEL ||| K.ADC_JSQR_JEXTEN))
                    ||| K.LL_ADC_INJ_TRIG_SOFTWARE)))
              Reg.CFGR
              (store K Reg.CFGR
                (store K Reg.CFGR (m.regs Reg.CFGR)
                  ((m.regs Reg.CFGR &&& NOT32 (K.ADC_CFGR_EXTEN ||| K.ADC_CFGR_EXTSEL))
                    ||| K.LL_ADC_REG_TRIG_SOFTWARE))
                ((store K Reg.CFGR (m.regs Reg.CFGR)
                    ((m.regs Reg.CFGR &&& NOT32 (K.ADC_CFGR_EXTEN ||| K.ADC_CFGR_EXTSEL))
                      ||| K.LL_ADC_REG_TRIG_SOFTWARE)
                  &&& NOT32 (K.ADC_CFGR_JQM ||| K.ADC_CFGR_JQDIS))
                  ||| K.LL_ADC_INJ_QUEUE_2CONTEXTS_END_EMPTY)))
            Reg.CR
            ((m.regs Reg.CR ||| K.ADC_CR_ADDIS) &&& NOT32 (LL_ADC_DeInit_checkBits K)) := by
  rw [ratio_eq] at hf
  rw [timeout_disable_eq] at hT
  obtain ⟨f, rfl⟩ : ∃ f, fuel = f + 1 := ⟨fuel - 1, by omega⟩
  have steady : ∀ X : Machine, X.regs Reg.CR = m.regs Reg.CR →
      acknowledge K X.regs = X.regs := by
    intro X hX
    exact acknowledge_enabled K LH X.regs (by rw [hX]; exact hE) (by rw [hX]; exact hW)
  have nSTP : (0 : Nat) ≠ K.ADC_CR_ADSTP := fun e => LH.nonzero K.ADC_CR_ADSTP (by simp) e.symm
  have nJSTP : (0 : Nat) ≠ K.ADC_CR_JADSTP :=
    fun e => LH.nonzero K.ADC_CR_JADSTP (by simp) e.symm
  have nDIS : (0 : Nat) ≠ K.ADC_CR_ADDIS := fun e => LH.nonzero K.ADC_CR_ADDIS (by simp) e.symm
  -- line 390
  obtain ⟨v0, r0⟩ := LL_ADC_IsFlag_steady K hw hA K.ADC_CR_ADEN m (steady m rfl)
  have hen : (LL_ADC_IsEnabled K hw m).1 = 1 := by
    unfold LL_ADC_IsEnabled
    simp only [v0, and_of_sub hE (cb_ADEN K), Nat.and_self, if_true]
  have e0 : (LL_ADC_IsEnabled K hw m).2.regs = m.regs := r0
  refine ⟨hen, ?_⟩
  -- lines 397-423
  have e0l : (LL_ADC_IsEnabled K hw m).2.log.length = m.log.length + 1 :=
    READ_BIT_length hw Reg.CR K.ADC_CR_ADEN m
  obtain ⟨s0, s0l⟩ := LL_ADC_DeInit_stopConversions_steady K hw hA LH
    (LL_ADC_IsEnabled K hw m).2 (by rw [e0]; exact hE) (by rw [e0]; exact hW)
  rw [e0] at s0
  rw [e0l] at s0l
  have sc : (LL_ADC_DeInit_stopConversions K hw
      (LL_ADC_IsEnabled K hw m).2).regs Reg.CR = m.regs Reg.CR := by
    rw [s0, Function.update_noteq (by decide), Function.update_noteq (by decide)]
  -- lines 425-437
  obtain ⟨v1, r1⟩ := LL_ADC_IsFlag_steady K hw hA K.ADC_CR_ADSTP _ (steady _ sc)
  have c1 : (LL_ADC_REG_IsStopConversionOngoing K hw
      (LL_ADC_DeInit_stopConversions K hw
        (LL_ADC_IsEnabled K hw m).2)).2.regs
      = (LL_ADC_DeInit_stopConversions K hw (LL_ADC_IsEnabled K hw m).2).regs :=
    r1
  have a1 : (LL_ADC_REG_IsStopConversionOngoing K hw
      (LL_ADC_DeInit_stopConversions K hw
        (LL_ADC_IsEnabled K hw m).2)).1 = 0 := by
    unfold LL_ADC_REG_IsStopConversionOngoing
    simp only [v1, sc, and_of_sub hE (cb_ADSTP K), LH.aden.2.2.2.1, nSTP, if_false]
  obtain ⟨v2, r2⟩ := LL_ADC_IsFlag_steady K hw hA K.ADC_CR_JADSTP
    (LL_ADC_REG_IsStopConversionOngoing K hw
      (LL_ADC_DeInit_stopConversions K hw
        (LL_ADC_IsEnabled K hw m).2)).2 (steady _ (by rw [c1, sc]))
  have a2 : (LL_ADC_INJ_IsStopConversionOngoing K hw
      (LL_ADC_REG_IsStopConversionOngoing K hw
        (LL_ADC_DeInit_stopConversions K hw
          (LL_ADC_IsEnabled K hw m).2)).2).1 = 0 := by
    unfold LL_ADC_INJ_IsStopConversionOngoing
    simp only [v2, c1, sc, and_of_sub hE (cb_JADSTP K), LH.aden.2.2.2.2, nJSTP, if_false]
  have w1 : (LL_ADC_DeInit_stopOngoing K hw
      (LL_ADC_DeInit_stopConversions K hw
        (LL_ADC_IsEnabled K hw m).2)).1 ≠ 1 := by
    unfold LL_ADC_DeInit_stopOngoing
    simp only [a1, a2]
    decide
  have w1r : (LL_ADC_DeInit_stopOngoing K hw
      (LL_ADC_DeInit_stopConversions K hw
        (LL_ADC_IsEnabled K hw m).2)).2.regs
      = (LL_ADC_DeInit_stopConversions K hw
          (LL_ADC_IsEnabled K hw m).2).regs := by
    unfold LL_ADC_DeInit_stopOngoing
    simp only
    unfold LL_ADC_INJ_IsStopConversionOngoing
    simp only
    rw [r2, c1]
  have h1 := waitWhile_exit (LL_ADC_DeInit_stopOngoing K hw) f
    ADC_TIMEOUT_STOP_CONVERSION_CPU_CYCLES ErrorStatus.SUCCESS _ w1
  -- lines 439-445
  have q1 := MODIFY_REG_steady_regs K hw hA Reg.CFGR (K.ADC_CFGR_JQM ||| K.ADC_CFGR_JQDIS)
    K.LL_ADC_INJ_QUEUE_2CONTEXTS_END_EMPTY
    (LL_ADC_DeInit_stopOngoing K hw
      (LL_ADC_DeInit_stopConversions K hw
        (LL_ADC_IsEnabled K hw m).2)).2 (steady _ (by rw [w1r, sc]))
  have q1c : (LL_ADC_INJ_SetQueueMode K hw K.LL_ADC_INJ_QUEUE_2CONTEXTS_END_EMPTY
      (LL_ADC_DeInit_stopOngoing K hw
        (LL_ADC_DeInit_stopConversions K hw
          (LL_ADC_IsEnabled K hw m).2)).2).regs Reg.CR = m.regs Reg.CR := by
    unfold LL_ADC_INJ_SetQueueMode
    rw [q1, Function.update_noteq (by decide), w1r, sc]
  have q2 := MODIFY_REG_steady_regs K hw hA Reg.CR (ADC_CR_BITS_PROPERTY_RS K) K.ADC_CR_ADDIS
    _ (steady _ q1c)
  have hdis : K.ADC_CR_ADDIS < 4294967296 := lt_word_of_sub (rs_ADDIS K) LH.word
  have q3 : (LL_ADC_DeInit_requestDisable K hw
      (LL_ADC_DeInit_stopOngoing K hw
        (LL_ADC_DeInit_stopConversions K hw
          (LL_ADC_IsEnabled K hw m).2)).2).regs
      = Function.update
          (Function.update
            (LL_ADC_DeInit_stopConversions K hw
              (LL_ADC_IsEnabled K hw m).2).regs
            Reg.CFGR
            (store K Reg.CFGR
              ((LL_ADC_DeInit_stopConversions K hw
                (LL_ADC_IsEnabled K hw m).2).regs Reg.CFGR)
              (((LL_ADC_DeInit_stopConversions K hw
                  (LL_ADC_IsEnabled K hw m).2).regs Reg.CFGR
                &&& NOT32 (K.ADC_CFGR_JQM ||| K.ADC_CFGR_JQDIS))
                ||| K.LL_ADC_INJ_QUEUE_2CONTEXTS_END_EMPTY)))
          Reg.CR (m.regs Reg.CR ||| K.ADC_CR_ADDIS) := by
    unfold LL_ADC_DeInit_requestDisable LL_ADC_Disable
    rw [q2, q1c]
    unfold LL_ADC_INJ_SetQueueMode
    rw [q1, w1r]
    simp only [store]
    rw [store_request _ _ _ hW hdis]
  -- lines 447-458
  have d0 : (LL_ADC_DeInit_requestDisable K hw
      (LL_ADC_DeInit_stopOngoing K hw
        (LL_ADC_DeInit_stopConversions K hw
          (LL_ADC_IsEnabled K hw m).2)).2).regs Reg.CR
        &&& LL_ADC_DeInit_checkBits K = K.ADC_CR_ADEN ||| K.ADC_CR_ADDIS := by
    rw [q3, Function.update_same]
    exact or_and_six hE (cb_ADDIS K)
  have dl : (LL_ADC_DeInit_requestDisable K hw
      (LL_ADC_DeInit_stopOngoing K hw
        (LL_ADC_DeInit_stopConversions K hw
          (LL_ADC_IsEnabled K hw m).2)).2).log.length = m.log.length + 13 := by
    unfold LL_ADC_DeInit_requestDisable LL_ADC_Disable LL_ADC_INJ_SetQueueMode
    rw [ MODIFY_REG_length, MODIFY_REG_length, LL_ADC_DeInit_stopOngoing_length, s0l]
  obtain ⟨t2, m4, h2, r4⟩ := waitWhile_disable_acknowledged K hw hA LH T hB (f + 1) 32768
    (LL_ADC_DeInit_requestDisable K hw
      (LL_ADC_DeInit_stopOngoing K hw
        (LL_ADC_DeInit_stopConversions K hw
          (LL_ADC_IsEnabled K hw m).2)).2)
    (by omega) (by omega) (by omega) d0 (by rw [dl]; omega) (by rw [dl]; omega)
  have h2b : LL_ADC_DeInit_waitDisable K hw (f + 1) ErrorStatus.SUCCESS
      (LL_ADC_DeInit_requestDisable K hw
        (LL_ADC_DeInit_stopOngoing K hw
          (LL_ADC_DeInit_stopConversions K hw
            (LL_ADC_IsEnabled K hw m).2)).2) = some (t2, ErrorStatus.SUCCESS, m4) := by
    unfold LL_ADC_DeInit_waitDisable
    rw [timeout_disable_eq]
    exact h2
  refine ⟨m4, LL_ADC_DeInit_disable_enabled K hw (f + 1) m _ _ _ _ _ _ hen h1 h2b, ?_⟩
  rw [r4, q3, Function.update_same, Function.update_idem, s0]
  simp only [Function.update_noteq (show Reg.CFGR ≠ Reg.JSQR by decide), Function.update_same]

/-! ### The register-reset block on a peripheral that acknowledges -/

/-- The statements of the register-reset block on CR set no handshake bit. -/
theorem LL_ADC_DeInit_resetOps_CR (K : Header) (LR : ResetLayout K) :
    ∀ op ∈ LL_ADC_DeInit_resetOps K, op.1 = Reg.CR →
      op.2.2 &&& LL_ADC_DeInit_checkBits K = 0 := by
  have hD : K.ADC_CR_DEEPPWD &&& LL_ADC_DeInit_checkBits K = 0 :=
    disj_comm (disj_of_sub (cb_rs K) (disj_comm (disj_right_of_or LR.cr_rs)))
  simp [LL_ADC_DeInit_resetOps, hD]

theorem LL_ADC_DeInit_reset_steady (K : Header) (hw : Hardware) (hA : Acknowledging K hw) (LH : HandshakeLayout K) (LR : ResetLayout K)
    (m : Machine) (h0 : m.regs Reg.CR &&& LL_ADC_DeInit_checkBits K = 0)
    (hW : m.regs Reg.CR < 4294967296) (q : Reg) :
    (LL_ADC_DeInit_reset K hw m).regs q
      = modifyAll K q (LL_ADC_DeInit_resetOps K) (m.regs q) := by
  rw [LL_ADC_DeInit_reset_eq]
  exact steady_foldl_MODIFY_REG K LH hw hA q _ (LL_ADC_DeInit_resetOps_CR K LR) m h0 hW

theorem foldl_MODIFY_REG_length (K : Header) (hw : Hardware) (ops : List (Reg × Nat × Nat)) :
    ∀ (m : Machine),
      (ops.foldl (fun m op => MODIFY_REG K hw op.1 op.2.1 op.2.2 m) m).log.length
        = m.log.length + 2 * ops.length := by
  induction ops with
  | nil => intro m; rfl
  | cons op ops ih =>
    intro m
    simp only [List.foldl, List.length_cons]
    rw [ih, MODIFY_REG_length]
    omega

/-- The register-reset block makes 52 bus accesses: a read and a write for each of its 26
statements. -/
theorem LL_ADC_DeInit_reset_length (K : Header) (hw : Hardware) (m : Machine) :
    (LL_ADC_DeInit_reset K hw m).log.length = m.log.length + 52 := by
  rw [LL_ADC_DeInit_reset_eq, foldl_MODIFY_REG_length]
  rfl

/-- Once the disable sequence has left the instance disabled with no request pending, the
check of CR passes and every register gets the value computed by `modifyAll`. -/
theorem LL_ADC_DeInit_steady_of_disable (K : Header) (hw : Hardware) (hA : Acknowledging K hw) (LH : HandshakeLayout K)
    (LR : ResetLayout K) (fuel : Nat) (m m4 : Machine) (st : ErrorStatus)
    (hd : LL_ADC_DeInit_disable K hw fuel m = some (st, m4))
    (h0 : m4.regs Reg.CR &&& LL_ADC_DeInit_checkBits K = 0)
    (hW : m4.regs Reg.CR < 4294967296) :
    ∃ m5, LL_ADC_DeInit K hw fuel m = some (st, m5)
      ∧ (∀ q, m5.regs q = modifyAll K q (LL_ADC_DeInit_resetOps K) (m4.regs q))
      ∧ m5.log.length = m4.log.length + 53 := by
  obtain ⟨v, r⟩ := LL_ADC_IsFlag_steady K hw hA (LL_ADC_DeInit_checkBits K) m4
    (acknowledge_idle K LH m4.regs h0 hW)
  rw [h0] at v
  refine ⟨_, LL_ADC_DeInit_check_passed K hw fuel m st m4 hd v, ?_, ?_⟩
  · intro q
    rw [LL_ADC_DeInit_reset_steady K hw hA LH LR _ (by rw [r]; exact h0) (by rw [r]; exact hW)
      q, r]
  · rw [LL_ADC_DeInit_reset_length, READ_BIT_length]

/-- On a disabled instance with no request pending `LL_ADC_DeInit` returns success and every
register gets the value computed by `modifyAll`. -/
theorem LL_ADC_DeInit_idle_steady (K : Header) (hw : Hardware) (hA : Acknowledging K hw) (LH : HandshakeLayout K) (LR : ResetLayout K)
    (fuel : Nat) (m : Machine) (h0 : m.regs Reg.CR &&& LL_ADC_DeInit_checkBits K = 0)
    (hW : m.regs Reg.CR < 4294967296) :
    ∃ m1, LL_ADC_DeInit K hw fuel m = some (ErrorStatus.SUCCESS, m1)
      ∧ (∀ q, m1.regs q = modifyAll K q (LL_ADC_DeInit_resetOps K) (m.regs q))
      ∧ m1.log.length = m.log.length + 54 := by
  obtain ⟨v, r⟩ := LL_ADC_IsFlag_steady K hw hA K.ADC_CR_ADEN m (acknowledge_idle K LH m.regs h0 hW)
  have nEN : (0 : Nat) ≠ K.ADC_CR_ADEN := fun e => LH.nonzero K.ADC_CR_ADEN (by simp) e.symm
  have hen : (LL_ADC_IsEnabled K hw m).1 ≠ 1 := by
    unfold LL_ADC_IsEnabled
    simp only [v, and_sub_zero h0 (cb_ADEN K), nEN, if_false]
    decide
  have r2 : (LL_ADC_IsEnabled K hw m).2.regs = m.regs := r
  have hd : LL_ADC_DeInit_disable K hw fuel m
      = some (ErrorStatus.SUCCESS, (LL_ADC_IsEnabled K hw m).2) := by
    unfold LL_ADC_DeInit_disable
    simp only [hen, if_false]
  have l2 : (LL_ADC_IsEnabled K hw m).2.log.length = m.log.length + 1 :=
    READ_BIT_length hw Reg.CR K.ADC_CR_ADEN m
  obtain ⟨m5, e5, h5, l5⟩ := LL_ADC_DeInit_steady_of_disable K hw hA LH LR fuel m _ _ hd
    (by rw [r2]; exact h0) (by rw [r2]; exact hW)
  exact ⟨m5, e5, fun q => by rw [h5 q, r2], by rw [l5, l2]⟩

/-- The register-reset block leaves the handshake bits of CR clear when they are, and CR a
32-bit word. -/
theorem modifyAll_resetOps_CR (K : Header) (LR : ResetLayout K) (x : Nat)
    (h0 : x &&& LL_ADC_DeInit_checkBits K = 0) :
    modifyAll K Reg.CR (LL_ADC_DeInit_resetOps K) x &&& LL_ADC_DeInit_checkBits K = 0
    ∧ modifyAll K Reg.CR (LL_ADC_DeInit_resetOps K) x < 4294967296 := by
  have hD : K.ADC_CR_DEEPPWD &&& LL_ADC_DeInit_checkBits K = 0 :=
    disj_comm (disj_of_sub (cb_rs K) (disj_comm (disj_right_of_or LR.cr_rs)))
  constructor
  · exact store_idle _ _ _ _ _ (store_idle _ _ _ _ _ h0 (Nat.zero_and _)) hD
  · exact Nat.mod_lt _ (by decide)

/-! ### What the disable sequence writes is overwritten by the register-reset block -/

theorem absorb_one (y C E T : Nat) (hE : E &&& C = E) (hT : T &&& E = T) :
    (fun y => ((y &&& NOT32 C) ||| 0) % 4294967296)
        ((fun y => ((y &&& NOT32 E) ||| T) % 4294967296) y)
      = (fun y => ((y &&& NOT32 C) ||| 0) % 4294967296) y := by
  apply Nat.eq_of_testBit_eq
  intro i
  have a1 := testBit_of_and_eq_self hE i
  have a2 := testBit_of_and_eq_self hT i
  simp only [Nat.testBit_and, Nat.testBit_or, testBit_mod_word, testBit_NOT32,
    Nat.zero_testBit]
  revert a1 a2
  cases y.testBit i <;> cases C.testBit i <;> cases E.testBit i <;> cases T.testBit i <;>
    by_cases h : i < 32 <;> simp [h]

theorem absorb_two (y C E T jqm jqdis : Nat) (hE : E &&& C = E) (hT : T &&& E = T)
    (hq : jqm &&& C = jqm) :
    (fun y => ((y &&& NOT32 0) ||| jqdis) % 4294967296)
        ((fun y => ((y &&& NOT32 C) ||| 0) % 4294967296)
          ((fun y => ((y &&& NOT32 (jqm ||| jqdis)) ||| jqm) % 4294967296)
            ((fun y => ((y &&& NOT32 E) ||| T) % 4294967296) y)))
      = (fun y => ((y &&& NOT32 0) ||| jqdis) % 4294967296)
          ((fun y => ((y &&& NOT32 C) ||| 0) % 4294967296) y) := by
  apply Nat.eq_of_testBit_eq
  intro i
  have a1 := testBit_of_and_eq_self hE i
  have a2 := testBit_of_and_eq_self hT i
  have a3 := testBit_of_and_eq_self hq i
  simp only [Nat.testBit_and, Nat.testBit_or, testBit_mod_word, testBit_NOT32,
    Nat.zero_testBit]
  revert a1 a2 a3
  cases y.testBit i <;> cases C.testBit i <;> cases E.testBit i <;> cases T.testBit i <;>
    cases jqm.testBit i <;> cases jqdis.testBit i <;> by_cases h : i < 32 <;> simp [h]

/-- The trigger fields of CFGR and the bit JQM are cleared by the register-reset block. -/
theorem resetOps_CFGR_fields (K : Header) :
    (K.ADC_CFGR_EXTEN ||| K.ADC_CFGR_EXTSEL)
        &&& (K.ADC_CFGR_AWD1CH ||| K.ADC_CFGR_JAUTO ||| K.ADC_CFGR_JAWD1EN
          ||| K.ADC_CFGR_AWD1EN ||| K.ADC_CFGR_AWD1SGL ||| K.ADC_CFGR_JQM
          ||| K.ADC_CFGR_JDISCEN ||| K.ADC_CFGR_DISCNUM ||| K.ADC_CFGR_DISCEN
          ||| K.ADC_CFGR_AUTDLY ||| K.ADC_CFGR_CONT ||| K.ADC_CFGR_OVRMOD
          ||| K.ADC_CFGR_EXTEN ||| K.ADC_CFGR_EXTSEL ||| K.ADC_CFGR_RES
          ||| K.ADC_CFGR_DFSDMCFG ||| K.ADC_CFGR_DMACFG ||| K.ADC_CFGR_DMAEN)
      = K.ADC_CFGR_EXTEN ||| K.ADC_CFGR_EXTSEL
    ∧ K.ADC_CFGR_JQM
        &&& (K.ADC_CFGR_AWD1CH ||| K.ADC_CFGR_JAUTO ||| K.ADC_CFGR_JAWD1EN
          ||| K.ADC_CFGR_AWD1EN ||| K.ADC_CFGR_AWD1SGL ||| K.ADC_CFGR_JQM
          ||| K.ADC_CFGR_JDISCEN ||| K.ADC_CFGR_DISCNUM ||| K.ADC_CFGR_DISCEN
          ||| K.ADC_CFGR_AUTDLY ||| K.ADC_CFGR_CONT ||| K.ADC_CFGR_OVRMOD
          ||| K.ADC_CFGR_EXTEN ||| K.ADC_CFGR_EXTSEL ||| K.ADC_CFGR_RES
          ||| K.ADC_CFGR_DFSDMCFG ||| K.ADC_CFGR_DMACFG ||| K.ADC_CFGR_DMAEN)
      = K.ADC_CFGR_JQM := by
  constructor
  · apply Nat.eq_of_testBit_eq
    intro i
    simp only [Nat.testBit_and, Nat.testBit_or]
    cases K.ADC_CFGR_EXTEN.testBit i <;> cases K.ADC_CFGR_EXTSEL.testBit i <;> simp
  · apply Nat.eq_of_testBit_eq
    intro i
    simp only [Nat.testBit_and, Nat.testBit_or]
    cases K.ADC_CFGR_JQM.testBit i <;> simp

/-- The trigger fields of JSQR are cleared by the register-reset block. -/
theorem resetOps_JSQR_fields (K : Header) :
    (K.ADC_JSQR_JEXTSEL ||| K.ADC_JSQR_JEXTEN)
        &&& (K.ADC_JSQR_JL ||| K.ADC_JSQR_JEXTSEL ||| K.ADC_JSQR_JEXTEN
          ||| K.ADC_JSQR_JSQ4 ||| K.ADC_JSQR_JSQ3 ||| K.ADC_JSQR_JSQ2 ||| K.ADC_JSQR_JSQ1)
      = K.ADC_JSQR_JEXTSEL ||| K.ADC_JSQR_JEXTEN := by
  apply Nat.eq_of_testBit_eq
  intro i
  simp only [Nat.testBit_and, Nat.testBit_or]
  cases K.ADC_JSQR_JEXTSEL.testBit i <;> cases K.ADC_JSQR_JEXTEN.testBit i <;> simp

/-- The register-reset block overwrites what the disable sequence stores in CFGR. -/
theorem modifyAll_resetOps_CFGR (K : Header) (LD : DisableLayout K) (y : Nat) :
    modifyAll K Reg.CFGR (LL_ADC_DeInit_resetOps K)
        (store K Reg.CFGR
          (store K Reg.CFGR y
            ((y &&& NOT32 (K.ADC_CFGR_EXTEN ||| K.ADC_CFGR_EXTSEL))
              ||| K.LL_ADC_REG_TRIG_SOFTWARE))
          ((store K Reg.CFGR y
              ((y &&& NOT32 (K.ADC_CFGR_EXTEN ||| K.ADC_CFGR_EXTSEL))
                ||| K.LL_ADC_REG_TRIG_SOFTWARE)
            &&& NOT32 (K.ADC_CFGR_JQM ||| K.ADC_CFGR_JQDIS))
            ||| K.LL_ADC_INJ_QUEUE_2CONTEXTS_END_EMPTY))
      = modifyAll K Reg.CFGR (LL_ADC_DeInit_resetOps K) y := by
  rw [LD.queue]
  exact absorb_two y _ _ _ _ _ (resetOps_CFGR_fields K).1 LD.reg_trig
    (resetOps_CFGR_fields K).2

/-- The register-reset block overwrites what the disable sequence stores in JSQR. -/
theorem modifyAll_resetOps_JSQR (K : Header) (LD : DisableLayout K) (y : Nat) :
    modifyAll K Reg.JSQR (LL_ADC_DeInit_resetOps K)
        (store K Reg.JSQR y
          ((y &&& NOT32 (K.ADC_JSQR_JEXTSEL ||| K.ADC_JSQR_JEXTEN))
            ||| K.LL_ADC_INJ_TRIG_SOFTWARE))
      = modifyAll K Reg.JSQR (LL_ADC_DeInit_resetOps K) y :=
  absorb_one y _ _ _ (resetOps_JSQR_fields K) LD.inj_trig

theorem stm32mp13_HandshakeLayout : HandshakeLayout stm32mp13 where
  nonzero := by decide
  disjoint := by decide
  word := by decide

/-- The registers after `LL_ADC_Enable` on a disabled instance with no request pending: the bit
ADEN is added to CR. -/
theorem LL_ADC_Enable_steady (K : Header) (hw : Hardware) (hA : Acknowledging K hw) (LH : HandshakeLayout K) (m : Machine)
    (h0 : m.regs Reg.CR &&& LL_ADC_DeInit_checkBits K = 0) (hW : m.regs Reg.CR < 4294967296) :
    (LL_ADC_Enable K hw m).regs
      = Function.update m.regs Reg.CR (m.regs Reg.CR ||| K.ADC_CR_ADEN) := by
  unfold LL_ADC_Enable
  rw [ MODIFY_REG_steady_regs K hw hA _ _ _ m (acknowledge_idle K LH m.regs h0 hW)]
  simp only [store]
  rw [store_request _ _ _ hW (lt_word_of_sub (rs_ADEN K) LH.word)]

/-- C14: the disable path of `LL_ADC_DeInit` is idempotent on the registers. On any peripheral
that does nothing but acknowledge requests, at times of its own, and that acknowledges the
disable within the budget (it answers at bus access `T`, one of the 32768 tests that the
disable wait of the last call can make; 69 accesses precede the first of them), with the wait
loops allowed their budget, and from any state whose six handshake bits of CR are clear (the
reset state is one): `LL_ADC_DeInit` returns success; `LL_ADC_DeInit` a second time returns
success and leaves every register as the first call left it; and `LL_ADC_Enable` (which does
enable the instance) followed by `LL_ADC_DeInit` returns success and ends in the registers of
the single `LL_ADC_DeInit`. -/
theorem C14_LL_ADC_DeInit_idempotent (K : Header) (LH : HandshakeLayout K)
    (LR : ResetLayout K) (LD : DisableLayout K) (hw : Hardware) (hA : Acknowledging K hw)
    (T : Nat) (hB : AcknowledgesAt K hw T) (fuel : Nat)
    (hf : ADC_CLOCK_RATIO_VS_CPU_HIGHEST ≤ fuel) (m : Machine)
    (h0 : m.regs Reg.CR &&& LL_ADC_DeInit_checkBits K = 0)
    (hW : m.regs Reg.CR < 4294967296)
    (hT0 : m.log.length + 69 ≤ T)
    (hT : T ≤ m.log.length + 68 + ADC_TIMEOUT_DISABLE_CPU_CYCLES) :
    ∃ m1 m2 m3,
      LL_ADC_DeInit K hw fuel m = some (ErrorStatus.SUCCESS, m1)
      ∧ LL_ADC_DeInit K hw fuel m1 = some (ErrorStatus.SUCCESS, m2)
      ∧ m2.regs = m1.regs
      ∧ (LL_ADC_IsEnabled K hw (LL_ADC_Enable K hw m1)).1 = 1
      ∧ LL_ADC_DeInit K hw fuel (LL_ADC_Enable K hw m1)
          = some (ErrorStatus.SUCCESS, m3)
      ∧ m3.regs = m1.regs := by
  obtain ⟨m1, e1, r1, l1⟩ := LL_ADC_DeInit_idle_steady K hw hA LH LR fuel m h0 hW
  obtain ⟨i1, w1⟩ := modifyAll_resetOps_CR K LR _ h0
  rw [← r1 Reg.CR] at i1 w1
  obtain ⟨m2, e2, r2, -⟩ := LL_ADC_DeInit_idle_steady K hw hA LH LR fuel m1 i1 w1
  have idem : ∀ q, modifyAll K q (LL_ADC_DeInit_resetOps K) (m1.regs q) = m1.regs q := by
    intro q
    rw [r1 q, modifyAll_resetOps_idem]
  have he := LL_ADC_Enable_steady K hw hA LH m1 i1 w1
  have hel : (LL_ADC_Enable K hw m1).log.length = m1.log.length + 2 := by
    unfold LL_ADC_Enable
    exact MODIFY_REG_length K hw _ _ _ m1
  have hE : (LL_ADC_Enable K hw m1).regs Reg.CR &&& LL_ADC_DeInit_checkBits K
      = K.ADC_CR_ADEN := by
    rw [he, Function.update_same]
    exact or_and_eq_right i1 (cb_ADEN K)
  have hWe : (LL_ADC_Enable K hw m1).regs Reg.CR < 4294967296 := by
    rw [he, Function.update_same]
    exact Nat.or_lt_two_pow (n := 32) w1 (lt_word_of_sub (rs_ADEN K) LH.word)
  obtain ⟨hen, m4, e4, r4⟩ := LL_ADC_DeInit_disable_steady K hw hA LH T hB fuel hf _ hE hWe
    (by rw [hel, l1]; omega) (by rw [hel, l1]; omega)
  have c4 : m4.regs Reg.CR = m1.regs Reg.CR := by
    rw [r4, Function.update_same, he, Function.update_same]
    exact or_or_and_not _ _ _ _ i1 w1 (cb_ADEN K) (cb_ADDIS K)
  obtain ⟨m3, e3, r3, -⟩ := LL_ADC_DeInit_steady_of_disable K hw hA LH LR fuel _ m4 _ e4
    (by rw [c4]; exact i1) (by rw [c4]; exact w1)
  refine ⟨m1, m2, m3, e1, e2, ?_, hen, e3, ?_⟩
  · funext q
    rw [r2 q, idem q]
  · funext q
    rw [r3 q]
    by_cases hcr : q = Reg.CR
    · subst hcr
      rw [c4, idem]
    · by_cases hcfgr : q = Reg.CFGR
      · subst hcfgr
        rw [r4, Function.update_noteq hcr, Function.update_same, he,
          Function.update_noteq hcr, modifyAll_resetOps_CFGR K LD, idem]
      · by_cases hjsqr : q = Reg.JSQR
        · subst hjsqr
          rw [r4, Function.update_noteq hcr, Function.update_noteq hcfgr,
            Function.update_same, he, Function.update_noteq hcr,
            modifyAll_resetOps_JSQR K LD, idem]
        · rw [r4, Function.update_noteq hcr, Function.update_noteq hcfgr,
            Function.update_noteq hjsqr, Function.update_noteq hcfgr, he,
            Function.update_noteq hcr, idem]

/-- C14 on the header of the STM32MP13, the register file with every register at zero and a
peripheral that leaves every request pending before bus access 100 and answers from then on:
the disable requested by the last `LL_ADC_DeInit` is written at access 68 and acknowledged at
the 32nd test of the disable wait. -/
theorem C14_LL_ADC_DeInit_idempotent_witness :
    (Acknowledging stm32mp13 (slowStop stm32mp13 100)
      ∧ AcknowledgesAt stm32mp13 (slowStop stm32mp13 100) 100
      ∧ ADC_CLOCK_RATIO_VS_CPU_HIGHEST ≤ 32768
      ∧ zeroRegs Reg.CR &&& LL_ADC_DeInit_checkBits stm32mp13 = 0
      ∧ zeroRegs Reg.CR < 4294967296
      ∧ ([] : List Access).length + 69 ≤ 100
      ∧ 100 ≤ ([] : List Access).length + 68 + ADC_TIMEOUT_DISABLE_CPU_CYCLES)
    ∧ ∃ m1 m2 m3,
      LL_ADC_DeInit stm32mp13 (slowStop stm32mp13 100) 32768 { regs := zeroRegs, log := [] }
        = some (ErrorStatus.SUCCESS, m1)
      ∧ LL_ADC_DeInit stm32mp13 (slowStop stm32mp13 100) 32768 m1
        = some (ErrorStatus.SUCCESS, m2)
      ∧ m2.regs = m1.regs
      ∧ (LL_ADC_IsEnabled stm32mp13 (slowStop stm32mp13 100)
          (LL_ADC_Enable stm32mp13 (slowStop stm32mp13 100) m1)).1 = 1
      ∧ LL_ADC_DeInit stm32mp13 (slowStop stm32mp13 100) 32768
          (LL_ADC_Enable stm32mp13 (slowStop stm32mp13 100) m1)
        = some (ErrorStatus.SUCCESS, m3)
      ∧ m3.regs = m1.regs :=
  ⟨⟨slowStop_Acknowledging stm32mp13 100,
      slowStop_AcknowledgesAt stm32mp13 100 100 (Nat.le_refl 100), by decide,
      by decide, by decide, by decide, by decide⟩,
    C14_LL_ADC_DeInit_idempotent stm32mp13 stm32mp13_HandshakeLayout stm32mp13_ResetLayout
      stm32mp13_DisableLayout (slowStop stm32mp13 100) (slowStop_Acknowledging stm32mp13 100)
      100 (slowStop_AcknowledgesAt stm32mp13 100 100 (Nat.le_refl 100)) 32768 (by decide)
      { regs := zeroRegs, log := [] } (by decide) (by decide) (by decide) (by decide)⟩

/-! ## `LL_ADC_REG_Init` with the scan enabled, and with the software trigger -/

/-- SQR1 after `LL_ADC_REG_Init` on a disabled instance and a quiet peripheral. -/
theorem LL_ADC_REG_Init_SQR1 (K : Header) (regs : ADC_TypeDef) (log : List Access)
    (s : LL_ADC_REG_InitTypeDef) (hdis : regs Reg.CR &&& K.ADC_CR_ADEN ≠ K.ADC_CR_ADEN) :
    (LL_ADC_REG_Init K quiet { regs := regs, log := log } s).2.regs Reg.SQR1
      = ((regs Reg.SQR1 &&& NOT32 K.ADC_SQR1_L) ||| s.SequencerLength) % 4294967296 := by
  rw [LL_ADC_REG_Init_disabled K regs log s hdis]
  simp

/-- The fields of CFGR written by `LL_ADC_REG_Init` on a disabled instance, for a valid
structure: trigger, discontinuous mode, continuous mode and overrun. -/
theorem LL_ADC_REG_Init_fields (K : Header) (L : RegularLayout K) (regs : ADC_TypeDef)
    (log : List Access) (s : LL_ADC_REG_InitTypeDef)
    (hdis : regs Reg.CR &&& K.ADC_CR_ADEN ≠ K.ADC_CR_ADEN)
    (hs : LL_ADC_REG_Init_params K s)
    (hdma : IS_LL_ADC_REG_DMA_TRANSFER K s.DataTransferMode) :
    (LL_ADC_REG_Init K quiet { regs := regs, log := log } s).2.regs Reg.CFGR
        &&& (K.ADC_CFGR_EXTSEL ||| K.ADC_CFGR_EXTEN) = s.TriggerSource
    ∧ (LL_ADC_REG_Init K quiet { regs := regs, log := log } s).2.regs Reg.CFGR
        &&& (K.ADC_CFGR_DISCEN ||| K.ADC_CFGR_DISCNUM) = regDiscontWritten K s
    ∧ (LL_ADC_REG_Init K quiet { regs := regs, log := log } s).2.regs Reg.CFGR
        &&& K.ADC_CFGR_CONT = s.ContinuousMode
    ∧ (LL_ADC_REG_Init K quiet { regs := regs, log := log } s).2.regs Reg.CFGR
        &&& K.ADC_CFGR_OVRMOD = s.Overrun := by
  obtain ⟨⟨d1, d2, d3, d4⟩, ⟨d5, d6, d7⟩, ⟨d8, d9⟩, d10⟩ := L.disj
  obtain ⟨ht, -, hsd, hc, ho⟩ := hs
  have hT := L.trig _ ht
  have hC := L.cont _ hc
  have hO := L.ovr _ ho
  have hM := L.dma _ hdma
  have hD : regDiscontWritten K s &&& (K.ADC_CFGR_DISCEN ||| K.ADC_CFGR_DISCNUM)
      = regDiscontWritten K s := by
    unfold regDiscontWritten
    split
    · rename_i hne
      exact L.discont _ (hsd hne)
    · exact L.discont _ (by simp)
  have wT : K.ADC_CFGR_EXTSEL ||| K.ADC_CFGR_EXTEN < 4294967296 := L.words _ (by simp)
  have wD : K.ADC_CFGR_DISCEN ||| K.ADC_CFGR_DISCNUM < 4294967296 := L.words _ (by simp)
  have wC : K.ADC_CFGR_CONT < 4294967296 := L.words _ (by simp)
  have wO : K.ADC_CFGR_OVRMOD < 4294967296 := L.words _ (by simp)
  rw [LL_ADC_REG_Init_CFGR K regs log s hdis, regMask_eq]
  refine ⟨?_, ?_, ?_, ?_⟩
  · rw [modify_field _ _ _ _ (sub_or_left _ (Nat.and_self _)) wT]
    simp only [Nat.and_distrib_right]
    rw [hT, disj_of_sub hD (disj_comm d1), disj_of_sub hC (disj_comm d2),
      disj_of_sub hM (disj_comm d4), disj_of_sub hO (disj_comm d3)]
    simp
  · rw [modify_field _ _ _ _ (sub_or_right _ (sub_or_left _ (Nat.and_self _))) wD]
    simp only [Nat.and_distrib_right]
    rw [disj_of_sub hT d1, hD, disj_of_sub hC (disj_comm d5),
      disj_of_sub hM (disj_comm d7), disj_of_sub hO (disj_comm d6)]
    simp
  · rw [modify_field _ _ _ _
      (sub_or_right _ (sub_or_right _ (sub_or_left _ (Nat.and_self _)))) wC]
    simp only [Nat.and_distrib_right]
    rw [disj_of_sub hT d2, disj_of_sub hD d5, hC,
      disj_of_sub hM (disj_comm d9), disj_of_sub hO (disj_comm d8)]
    simp
  · rw [modify_field _ _ _ _
      (sub_or_right _ (sub_or_right _ (sub_or_right _ (Nat.and_self _)))) wO]
    simp only [Nat.and_distrib_right]
    rw [disj_of_sub hT d3, disj_of_sub hD d6, disj_of_sub hC d8,
      disj_of_sub hM (disj_comm d10), hO]
    simp

/-- C24: on a quiet peripheral, for every disabled instance and every valid
`LL_ADC_REG_InitTypeDef` whose sequencer length is not `LL_ADC_REG_SEQ_SCAN_DISABLE`,
`LL_ADC_REG_Init` returns SUCCESS and afterwards the discontinuous-mode field (DISCEN, DISCNUM)
of CFGR equals `SequencerDiscont`, CONT and OVRMOD equal `ContinuousMode` and `Overrun`, the
field L of SQR1 equals `SequencerLength`, and the rank fields SQ1..SQ4 of SQR1 are unchanged. -/
theorem C24_LL_ADC_REG_Init_scan_enabled (K : Header) (L : RegularLayout K)
    (regs : ADC_TypeDef) (log : List Access) (s : LL_ADC_REG_InitTypeDef)
    (hdis : regs Reg.CR &&& K.ADC_CR_ADEN ≠ K.ADC_CR_ADEN)
    (hs : LL_ADC_REG_Init_params K s)
    (hdma : IS_LL_ADC_REG_DMA_TRANSFER K s.DataTransferMode)
    (hlen : s.SequencerLength ≠ K.LL_ADC_REG_SEQ_SCAN_DISABLE) :
    (LL_ADC_REG_Init K quiet { regs := regs, log := log } s).1 = ErrorStatus.SUCCESS
    ∧ (LL_ADC_REG_Init K quiet { regs := regs, log := log } s).2.regs Reg.CFGR
        &&& (K.ADC_CFGR_DISCEN ||| K.ADC_CFGR_DISCNUM) = s.SequencerDiscont
    ∧ (LL_ADC_REG_Init K quiet { regs := regs, log := log } s).2.regs Reg.CFGR
        &&& K.ADC_CFGR_CONT = s.ContinuousMode
    ∧ (LL_ADC_REG_Init K quiet { regs := regs, log := log } s).2.regs Reg.CFGR
        &&& K.ADC_CFGR_OVRMOD = s.Overrun
    ∧ (LL_ADC_REG_Init K quiet { regs := regs, log := log } s).2.regs Reg.SQR1
        &&& K.ADC_SQR1_L = s.SequencerLength
    ∧ (LL_ADC_REG_Init K quiet { regs := regs, log := log } s).2.regs Reg.SQR1
        &&& (K.ADC_SQR1_SQ1 ||| K.ADC_SQR1_SQ2 ||| K.ADC_SQR1_SQ3 ||| K.ADC_SQR1_SQ4)
        = regs Reg.SQR1
          &&& (K.ADC_SQR1_SQ1 ||| K.ADC_SQR1_SQ2 ||| K.ADC_SQR1_SQ3 ||| K.ADC_SQR1_SQ4) := by
  obtain ⟨-, f2, f3, f4⟩ := LL_ADC_REG_Init_fields K L regs log s hdis hs hdma
  have hL := L.len _ hs.2.1
  have wL : K.ADC_SQR1_L < 4294967296 := L.words _ (by simp)
  have wQ : K.ADC_SQR1_SQ1 ||| K.ADC_SQR1_SQ2 ||| K.ADC_SQR1_SQ3 ||| K.ADC_SQR1_SQ4
      < 4294967296 := L.words _ (by simp)
  refine ⟨?_, ?_, f3, f4, ?_, ?_⟩
  · rw [LL_ADC_REG_Init_disabled K regs log s hdis]
  · rw [f2]
    simp only [regDiscontWritten, hlen, ne_eq, not_false_eq_true, if_true]
  · rw [LL_ADC_REG_Init_SQR1 K regs log s hdis, modify_field _ _ _ _ (Nat.and_self _) wL]
    exact hL
  · rw [LL_ADC_REG_Init_SQR1 K regs log s hdis, modify_frame _ _ _ _ (disj_comm L.ranks) wQ,
      Nat.and_distrib_right, disj_of_sub hL L.ranks]
    simp

/-- C24 on the header of the STM32MP13: scan of 2 ranks, discontinuous mode of 1 rank. -/
theorem C24_LL_ADC_REG_Init_scan_enabled_witness :
    (zeroRegs Reg.CR &&& stm32mp13.ADC_CR_ADEN ≠ stm32mp13.ADC_CR_ADEN
      ∧ LL_ADC_REG_Init_params stm32mp13
          { TriggerSource := 0, SequencerLength := 1, SequencerDiscont := 65536,
            ContinuousMode := 8192, DataTransferMode := 1, Overrun := 4096 }
      ∧ IS_LL_ADC_REG_DMA_TRANSFER stm32mp13 1
      ∧ (1 : Nat) ≠ stm32mp13.LL_ADC_REG_SEQ_SCAN_DISABLE)
    ∧ (LL_ADC_REG_Init stm32mp13 quiet { regs := zeroRegs, log := [] }
        { TriggerSource := 0, SequencerLength := 1, SequencerDiscont := 65536,
          ContinuousMode := 8192, DataTransferMode := 1, Overrun := 4096 }).2.regs Reg.CFGR
        &&& (stm32mp13.ADC_CFGR_DISCEN ||| stm32mp13.ADC_CFGR_DISCNUM) = 65536 :=
  ⟨⟨by decide, ⟨by decide, by decide, by decide, by decide, by decide⟩, by decide, by decide⟩,
    (C24_LL_ADC_REG_Init_scan_enabled stm32mp13 stm32mp13_RegularLayout zeroRegs []
      { TriggerSource := 0, SequencerLength := 1, SequencerDiscont := 65536,
        ContinuousMode := 8192, DataTransferMode := 1, Overrun := 4096 }
      (by decide) ⟨by decide, by decide, by decide, by decide, by decide⟩ (by decide)
      (by decide)).2.1⟩

/-- The structure written by `LL_ADC_REG_StructInit` passes the parameter checks of
`LL_ADC_REG_Init`. -/
theorem LL_ADC_REG_StructInit_params (K : Header) (s : LL_ADC_REG_InitTypeDef) :
    LL_ADC_REG_Init_params K (LL_ADC_REG_StructInit K s) := by
  refine ⟨?_, ?_, ?_, ?_, ?_⟩
  · simp [LL_ADC_REG_StructInit]
  · simp [LL_ADC_REG_StructInit]
  · intro h
    exact absurd rfl h
  · simp [LL_ADC_REG_StructInit]
  · simp [LL_ADC_REG_StructInit]

/-- C25 (counterexample): on the header of the STM32MP13, a disabled instance with every
register at zero and a structure whose `TriggerSource` is `LL_ADC_REG_TRIG_SOFTWARE` (0), whose
`DataTransferMode` is the word 1024 (not one of `LL_ADC_REG_DMA_TRANSFER_*`) and whose other
fields are zero: the structure passes every parameter check of `LL_ADC_REG_Init` (none is made
on `DataTransferMode`), the function returns success, and the trigger edge field EXTEN of CFGR
reads 1024 (rising edge) afterwards, since `DataTransferMode` is combined into the word written
to CFGR. The same happens when the structure has first been through `LL_ADC_REG_StructInit`,
which leaves `DataTransferMode` as it was. -/
theorem C25_LL_ADC_REG_Init_software_trigger_armed :
    (zeroRegs Reg.CR &&& stm32mp13.ADC_CR_ADEN ≠ stm32mp13.ADC_CR_ADEN
      ∧ (0 : Nat) = stm32mp13.LL_ADC_REG_TRIG_SOFTWARE
      ∧ ¬ IS_LL_ADC_REG_DMA_TRANSFER stm32mp13 1024
      ∧ LL_ADC_REG_Init_params stm32mp13
          { TriggerSource := 0, SequencerLength := 0, SequencerDiscont := 0,
            ContinuousMode := 0, DataTransferMode := 1024, Overrun := 0 }
      ∧ (LL_ADC_REG_Init stm32mp13 quiet { regs := zeroRegs, log := [] }
          { TriggerSource := 0, SequencerLength := 0, SequencerDiscont := 0,
            ContinuousMode := 0, DataTransferMode := 1024, Overrun := 0 }).1
          = ErrorStatus.SUCCESS
      ∧ (LL_ADC_REG_Init stm32mp13 quiet { regs := zeroRegs, log := [] }
          { TriggerSource := 0, SequencerLength := 0, SequencerDiscont := 0,
            ContinuousMode := 0, DataTransferMode := 1024, Overrun := 0 }).2.regs Reg.CFGR
          &&& stm32mp13.ADC_CFGR_EXTEN = 1024)
    ∧ ((LL_ADC_REG_StructInit stm32mp13
          { TriggerSource := 0, SequencerLength := 0, SequencerDiscont := 0,
            ContinuousMode := 0, DataTransferMode := 1024, Overrun := 0 }).TriggerSource
          = stm32mp13.LL_ADC_REG_TRIG_SOFTWARE
      ∧ (LL_ADC_REG_Init stm32mp13 quiet { regs := zeroRegs, log := [] }
          (LL_ADC_REG_StructInit stm32mp13
            { TriggerSource := 0, SequencerLength := 0, SequencerDiscont := 0,
              ContinuousMode := 0, DataTransferMode := 1024, Overrun := 0 })).1
          = ErrorStatus.SUCCESS
      ∧ (LL_ADC_REG_Init stm32mp13 quiet { regs := zeroRegs, log := [] }
          (LL_ADC_REG_StructInit stm32mp13
            { TriggerSource := 0, SequencerLength := 0, SequencerDiscont := 0,
              ContinuousMode := 0, DataTransferMode := 1024, Overrun := 0 })).2.regs Reg.CFGR
          &&& stm32mp13.ADC_CFGR_EXTEN = 1024) :=
  ⟨⟨by decide, by decide, by decide,
      ⟨by decide, by decide, by decide, by decide, by decide⟩, by decide, by decide⟩,
    by decide, by decide, by decide⟩

/-- C25 (amended): when the enumerator `LL_ADC_REG_TRIG_SOFTWARE` is the word 0, on a quiet
peripheral, for every disabled instance, every prior value of CFGR and every valid structure
(one that passes the parameter checks of `LL_ADC_REG_Init` and whose `DataTransferMode` is one
of `LL_ADC_REG_DMA_TRANSFER_*`, the check of line 162) whose `TriggerSource` is
`LL_ADC_REG_TRIG_SOFTWARE`, `LL_ADC_REG_Init` returns success and afterwards the trigger edge
field EXTEN and the trigger source field EXTSEL of CFGR are zero; the fields are zero also for
the structure filled by `LL_ADC_REG_StructInit` from a structure whose `DataTransferMode` is
valid. -/
theorem C25_LL_ADC_REG_Init_software_trigger (K : Header) (L : RegularLayout K)
    (hsw : K.LL_ADC_REG_TRIG_SOFTWARE = 0)
    (regs : ADC_TypeDef) (log : List Access) (s : LL_ADC_REG_InitTypeDef)
    (hdis : regs Reg.CR &&& K.ADC_CR_ADEN ≠ K.ADC_CR_ADEN)
    (hs : LL_ADC_REG_Init_params K s)
    (hdma : IS_LL_ADC_REG_DMA_TRANSFER K s.DataTransferMode)
    (ht : s.TriggerSource = K.LL_ADC_REG_TRIG_SOFTWARE) :
    ((LL_ADC_REG_Init K quiet { regs := regs, log := log } s).1 = ErrorStatus.SUCCESS
      ∧ (LL_ADC_REG_Init K quiet { regs := regs, log := log } s).2.regs Reg.CFGR
          &&& K.ADC_CFGR_EXTEN = 0
      ∧ (LL_ADC_REG_Init K quiet { regs := regs, log := log } s).2.regs Reg.CFGR
          &&& K.ADC_CFGR_EXTSEL = 0)
    ∧ ((LL_ADC_REG_Init K quiet { regs := regs, log := log }
          (LL_ADC_REG_StructInit K s)).2.regs Reg.CFGR &&& K.ADC_CFGR_EXTEN = 0
      ∧ (LL_ADC_REG_Init K quiet { regs := regs, log := log }
          (LL_ADC_REG_StructInit K s)).2.regs Reg.CFGR &&& K.ADC_CFGR_EXTSEL = 0) := by
  have key : ∀ t : LL_ADC_REG_InitTypeDef, LL_ADC_REG_Init_params K t →
      IS_LL_ADC_REG_DMA_TRANSFER K t.DataTransferMode →
      t.TriggerSource = K.LL_ADC_REG_TRIG_SOFTWARE →
      (LL_ADC_REG_Init K quiet { regs := regs, log := log } t).2.regs Reg.CFGR
          &&& K.ADC_CFGR_EXTEN = 0
      ∧ (LL_ADC_REG_Init K quiet { regs := regs, log := log } t).2.regs Reg.CFGR
          &&& K.ADC_CFGR_EXTSEL = 0 := by
    intro t hp hd htr
    have f := (LL_ADC_REG_Init_fields K L regs log t hdis hp hd).1
    rw [htr, hsw] at f
    exact ⟨disj_comm (disj_right_of_or (disj_comm f)),
      disj_comm (disj_left_of_or (disj_comm f))⟩
  refine ⟨⟨?_, key s hs hdma ht⟩, key _ (LL_ADC_REG_StructInit_params K s) hdma rfl⟩
  rw [LL_ADC_REG_Init_disabled K regs log s hdis]

/-- C25 on the header of the STM32MP13 and a CFGR whose EXTSEL and EXTEN fields are all ones
(4064): the fields are zero afterwards. -/
theorem C25_LL_ADC_REG_Init_software_trigger_witness :
    (stm32mp13.LL_ADC_REG_TRIG_SOFTWARE = 0
      ∧ externalTriggerRegs Reg.CR &&& stm32mp13.ADC_CR_ADEN ≠ stm32mp13.ADC_CR_ADEN
      ∧ LL_ADC_REG_Init_params stm32mp13
          { TriggerSource := 0, SequencerLength := 1, SequencerDiscont := 65536,
            ContinuousMode := 8192, DataTransferMode := 1, Overrun := 4096 }
      ∧ IS_LL_ADC_REG_DMA_TRANSFER stm32mp13 1
      ∧ (0 : Nat) = stm32mp13.LL_ADC_REG_TRIG_SOFTWARE)
    ∧ (LL_ADC_REG_Init stm32mp13 quiet { regs := externalTriggerRegs, log := [] }
        { TriggerSource := 0, SequencerLength := 1, SequencerDiscont := 65536,
          ContinuousMode := 8192, DataTransferMode := 1, Overrun := 4096 }).2.regs Reg.CFGR
        &&& stm32mp13.ADC_CFGR_EXTEN = 0 :=
  ⟨⟨by decide, by decide, ⟨by decide, by decide, by decide, by decide, by decide⟩, by decide,
      by decide⟩,
    (C25_LL_ADC_REG_Init_software_trigger stm32mp13 stm32mp13_RegularLayout (by decide)
      externalTriggerRegs []
      { TriggerSource := 0, SequencerLength := 1, SequencerDiscont := 65536,
        ContinuousMode := 8192, DataTransferMode := 1, Overrun := 4096 }
      (by decide) ⟨by decide, by decide, by decide, by decide, by decide⟩ (by decide)
      (by decide)).1.2.1⟩

/-! ## The stop requests of `LL_ADC_DeInit` -/

theorem READ_BIT_step (hw : Hardware) (r : Reg) (b : Nat) (m : Machine) :
    ∃ c m1, READ_BIT hw r b m = (c &&& b, m1) ∧ m1.log = m.log ++ [Access.rd r c] :=
  ⟨_, _, rfl, rfl⟩

theorem MODIFY_REG_step (K : Header) (hw : Hardware) (r : Reg) (c s : Nat) (m : Machine) :
    ∃ a m1, MODIFY_REG K hw r c s m = m1
      ∧ m1.log = m.log ++ [Access.rd r a, Access.wr r (((a &&& NOT32 c) ||| s) % 4294967296)] :=
  ⟨hw m.log.length m.regs r, _, rfl, by simp [ MODIFY_REG, WRITE_REG, READ_REG]⟩

/-- One stop request, on the machines reached by its three bus accesses. -/
theorem stopGroup_log (K : Header) (start stop c1 c2 c3 : Nat) (m ma mb mc : Machine)
    (la : ma.log = m.log ++ [Access.rd Reg.CR c1])
    (lb : mb.log = ma.log ++ [Access.rd Reg.CR c2])
    (lc : mc.log = mb.log ++ [Access.rd Reg.CR c3,
      Access.wr Reg.CR (((c3 &&& NOT32 (ADC_CR_BITS_PROPERTY_RS K)) ||| stop) % 4294967296)]) :
    (if (if c1 &&& start = start then 1 else 0) ≠ 0 then
        if (if c2 &&& stop = stop then 1 else 0) = 0 then mc else mb
      else ma).log
      = m.log ++ [Access.rd Reg.CR c1] ++ LL_ADC_DeInit_stopAccesses K start stop c1 c2 c3 := by
  unfold LL_ADC_DeInit_stopAccesses
  by_cases h1 : c1 &&& start = start
  · by_cases h2 : c2 &&& stop = stop
    · simp [h1, h2, la, lb]
    · simp [h1, h2, la, lb, lc]
  · simp [h1, la]

/-- The bus accesses of lines 397-423 of `LL_ADC_DeInit`, on any peripheral, in terms of the
words read. -/
theorem LL_ADC_DeInit_stopConversions_log (K : Header) (hw : Hardware) (m : Machine) :
    ∃ x c1 c2 c3 y c4 c5 c6,
      (LL_ADC_DeInit_stopConversions K hw m).log
        = m.log
          ++ [Access.rd Reg.CFGR x,
              Access.wr Reg.CFGR
                (((x &&& NOT32 (K.ADC_CFGR_EXTEN ||| K.ADC_CFGR_EXTSEL))
                  ||| K.LL_ADC_REG_TRIG_SOFTWARE) % 4294967296),
              Access.rd Reg.CR c1]
          ++ LL_ADC_DeInit_stopAccesses K K.ADC_CR_ADSTART K.ADC_CR_ADSTP c1 c2 c3
          ++ [Access.rd Reg.JSQR y,
              Access.wr Reg.JSQR
                (((y &&& NOT32 (K.ADC_JSQR_JEXTSEL ||| K.ADC_JSQR_JEXTEN))
                  ||| K.LL_ADC_INJ_TRIG_SOFTWARE) % 4294967296),
              Access.rd Reg.CR c4]
          ++ LL_ADC_DeInit_stopAccesses K K.ADC_CR_JADSTART K.ADC_CR_JADSTP c4 c5 c6 := by
  simp only [LL_ADC_DeInit_stopConversions, LL_ADC_REG_SetTriggerSource,
    LL_ADC_REG_IsConversionOngoing, LL_ADC_REG_IsStopConversionOngoing,
    LL_ADC_REG_StopConversion, LL_ADC_INJ_SetTriggerSource, LL_ADC_INJ_IsConversionOngoing,
    LL_ADC_INJ_IsStopConversionOngoing, LL_ADC_INJ_StopConversion]
  -- the regular group
  obtain ⟨x, m1, e1, l1⟩ := MODIFY_REG_step K hw Reg.CFGR
    (K.ADC_CFGR_EXTEN ||| K.ADC_CFGR_EXTSEL) K.LL_ADC_REG_TRIG_SOFTWARE m
  simp only [e1]
  obtain ⟨c1, ma, ea, la⟩ := READ_BIT_step hw Reg.CR K.ADC_CR_ADSTART m1
  simp only [ea]
  obtain ⟨c2, mb, eb, lb⟩ := READ_BIT_step hw Reg.CR K.ADC_CR_ADSTP ma
  simp only [eb]
  obtain ⟨c3, mc, ec, lc⟩ := MODIFY_REG_step K hw Reg.CR (ADC_CR_BITS_PROPERTY_RS K)
    K.ADC_CR_ADSTP mb
  simp only [ec]
  have l2 := stopGroup_log K K.ADC_CR_ADSTART K.ADC_CR_ADSTP c1 c2 c3 m1 ma mb mc la lb lc
  generalize (if (if c1 &&& K.ADC_CR_ADSTART = K.ADC_CR_ADSTART then 1 else 0) ≠ 0 then
        if (if c2 &&& K.ADC_CR_ADSTP = K.ADC_CR_ADSTP then 1 else 0) = 0 then mc else mb
      else ma) = m2 at l2 ⊢
  -- the injected group
  obtain ⟨y, m3, e3, l3⟩ := MODIFY_REG_step K hw Reg.JSQR
    (K.ADC_JSQR_JEXTSEL ||| K.ADC_JSQR_JEXTEN) K.LL_ADC_INJ_TRIG_SOFTWARE m2
  simp only [e3]
  obtain ⟨c4, md, ed, ld⟩ := READ_BIT_step hw Reg.CR K.ADC_CR_JADSTART m3
  simp only [ed]
  obtain ⟨c5, me, ee, le⟩ := READ_BIT_step hw Reg.CR K.ADC_CR_JADSTP md
  simp only [ee]
  obtain ⟨c6, mf, ef, lf⟩ := MODIFY_REG_step K hw Reg.CR (ADC_CR_BITS_PROPERTY_RS K)
    K.ADC_CR_JADSTP me
  simp only [ef]
  have l4 := stopGroup_log K K.ADC_CR_JADSTART K.ADC_CR_JADSTP c4 c5 c6 m3 md me mf ld le lf
  refine ⟨x, c1, c2, c3, y, c4, c5, c6, ?_⟩
  rw [l4, l3, l2, l1]
  simp only [List.append_assoc, List.cons_append, List.nil_append]

/-- A stop is requested exactly when the conversion is on going and no stop is in progress. -/
theorem LL_ADC_DeInit_stopAccesses_write (K : Header) (start stop c1 c2 c3 : Nat) :
    (∃ v, Access.wr Reg.CR v ∈ LL_ADC_DeInit_stopAccesses K start stop c1 c2 c3)
      ↔ c1 &&& start = start ∧ c2 &&& stop ≠ stop := by
  unfold LL_ADC_DeInit_stopAccesses
  by_cases h1 : c1 &&& start = start
  · by_cases h2 : c2 &&& stop = stop
    · simp [h1, h2]
    · simp [h1, h2]
  · simp [h1]

theorem waitWhile_extends (cond : Machine → Nat × Machine)
    (hc : ∀ m, m.log <+: (cond m).2.log) :
    ∀ (fuel t : Nat) (status : ErrorStatus) (m : Machine) (r : Nat × ErrorStatus × Machine),
      waitWhile cond fuel t status m = some r → m.log <+: r.2.2.log := by
  intro fuel
  induction fuel with
  | zero => intro t status m r h; simp [waitWhile] at h
  | succ n ih =>
    intro t status m r h
    unfold waitWhile at h
    by_cases h1 : (cond m).1 = 1
    · simp only [h1, if_true] at h
      by_cases h2 : (t + 4294967295) % 4294967296 = 0
      · simp only [h2, if_true, Option.some.injEq] at h
        rw [← h]; exact hc m
      · simp only [h2, if_false] at h
        exact (hc m).trans (ih _ _ _ _ h)
    · simp only [h1, if_false, Option.some.injEq] at h
      rw [← h]; exact hc m

theorem LL_ADC_DeInit_stopOngoing_extends (K : Header) (hw : Hardware) (m : Machine) :
    m.log <+: (LL_ADC_DeInit_stopOngoing K hw m).2.log := by
  exact READ_BIT_extends hw Reg.CR K.ADC_CR_JADSTP _ _
    (READ_BIT_extends hw Reg.CR K.ADC_CR_ADSTP m _ (List.prefix_refl _))

theorem LL_ADC_IsDisableOngoing_extends (K : Header) (hw : Hardware) (m : Machine) :
    m.log <+: (LL_ADC_IsDisableOngoing K hw m).2.log := by
  exact READ_BIT_extends hw Reg.CR K.ADC_CR_ADDIS m _ (List.prefix_refl _)

theorem LL_ADC_DeInit_requestDisable_extends (K : Header) (hw : Hardware) (m : Machine) :
    m.log <+: (LL_ADC_DeInit_requestDisable K hw m).log := by
  unfold LL_ADC_DeInit_requestDisable LL_ADC_Disable LL_ADC_INJ_SetQueueMode
  exact MODIFY_REG_extends K hw _ _ _ _ _
    (MODIFY_REG_extends K hw _ _ _ _ _ (List.prefix_refl _))

/-- On an enabled instance the accesses of the stop block are the first accesses of the disable
sequence of `LL_ADC_DeInit`, whatever it returns. -/
theorem LL_ADC_DeInit_disable_log_extends (K : Header) (hw : Hardware) (fuel : Nat)
    (m : Machine) (st : ErrorStatus) (m4 : Machine)
    (hf : ADC_CLOCK_RATIO_VS_CPU_HIGHEST ≤ fuel)
    (hen : (LL_ADC_IsEnabled K hw m).1 = 1)
    (hd : LL_ADC_DeInit_disable K hw fuel m = some (st, m4)) :
    (LL_ADC_DeInit_stopConversions K hw (LL_ADC_IsEnabled K hw m).2).log <+: m4.log := by
  obtain ⟨t1, s1, m2, h1, -, -⟩ := LL_ADC_DeInit_waitStop_total K hw fuel ErrorStatus.SUCCESS
    (LL_ADC_DeInit_stopConversions K hw (LL_ADC_IsEnabled K hw m).2) hf
  obtain ⟨t2, s2, m5, h2, -, -⟩ := LL_ADC_DeInit_waitDisable_total K hw fuel s1
    (LL_ADC_DeInit_requestDisable K hw m2) hf
  have hd2 := LL_ADC_DeInit_disable_enabled K hw fuel m t1 t2 s1 s2 m2 m5 hen h1 h2
  rw [hd2] at hd
  have e : m5 = m4 := by
    injection hd with hd
    injection hd
  subst e
  exact (waitWhile_extends _ (LL_ADC_DeInit_stopOngoing_extends K hw) _ _ _ _ _ h1).trans
    ((LL_ADC_DeInit_requestDisable_extends K hw m2).trans
      (waitWhile_extends _ (LL_ADC_IsDisableOngoing_extends K hw) _ _ _ _ _ h2))

/-- C26: in `LL_ADC_DeInit`, on any peripheral and with enough iterations allowed to the wait
loops, let `c0` be the word read from CR by `LL_ADC_IsEnabled`. When `c0` has ADEN clear (the
instance is disabled), the disable sequence (lines 387-459) returns SUCCESS having made that read
and no other access: no trigger source, stop request, JQM or ADDIS write. When `c0` has ADEN
set, the sequence returns and its accesses start with the two trigger-source writes and the
stop requests of lines 397-423, where a stop request (a write to CR holding ADSTP, or JADSTP
for the injected group) is present exactly when the word read by the conversion-on-going test
has ADSTART (or JADSTART) set and the word read by the stop-on-going test has ADSTP (or JADSTP)
clear. -/
theorem C26_LL_ADC_DeInit_stop_requests (K : Header) (hw : Hardware) (fuel : Nat)
    (m : Machine) (hf : ADC_CLOCK_RATIO_VS_CPU_HIGHEST ≤ fuel) :
    ∃ c0, (LL_ADC_IsEnabled K hw m).2.log = m.log ++ [Access.rd Reg.CR c0]
      ∧ ((LL_ADC_IsEnabled K hw m).1 = 1 ↔ c0 &&& K.ADC_CR_ADEN = K.ADC_CR_ADEN)
      ∧ (c0 &&& K.ADC_CR_ADEN ≠ K.ADC_CR_ADEN →
          ∃ m4, LL_ADC_DeInit_disable K hw fuel m = some (ErrorStatus.SUCCESS, m4)
            ∧ m4.log = m.log ++ [Access.rd Reg.CR c0])
      ∧ (c0 &&& K.ADC_CR_ADEN = K.ADC_CR_ADEN →
          ∃ x c1 c2 c3 y c4 c5 c6 st m4,
            LL_ADC_DeInit_disable K hw fuel m = some (st, m4)
            ∧ (m.log
                ++ [Access.rd Reg.CR c0, Access.rd Reg.CFGR x,
                    Access.wr Reg.CFGR
                      (((x &&& NOT32 (K.ADC_CFGR_EXTEN ||| K.ADC_CFGR_EXTSEL))
                        ||| K.LL_ADC_REG_TRIG_SOFTWARE) % 4294967296),
                    Access.rd Reg.CR c1]
                ++ LL_ADC_DeInit_stopAccesses K K.ADC_CR_ADSTART K.ADC_CR_ADSTP c1 c2 c3
                ++ [Access.rd Reg.JSQR y,
                    Access.wr Reg.JSQR
                      (((y &&& NOT32 (K.ADC_JSQR_JEXTSEL ||| K.ADC_JSQR_JEXTEN))
                        ||| K.LL_ADC_INJ_TRIG_SOFTWARE) % 4294967296),
                    Access.rd Reg.CR c4]
                ++ LL_ADC_DeInit_stopAccesses K K.ADC_CR_JADSTART K.ADC_CR_JADSTP c4 c5 c6)
              <+: m4.log
            ∧ ((∃ v, Access.wr Reg.CR v
                  ∈ LL_ADC_DeInit_stopAccesses K K.ADC_CR_ADSTART K.ADC_CR_ADSTP c1 c2 c3)
                ↔ c1 &&& K.ADC_CR_ADSTART = K.ADC_CR_ADSTART
                  ∧ c2 &&& K.ADC_CR_ADSTP ≠ K.ADC_CR_ADSTP)
            ∧ ((∃ v, Access.wr Reg.CR v
                  ∈ LL_ADC_DeInit_stopAccesses K K.ADC_CR_JADSTART K.ADC_CR_JADSTP c4 c5 c6)
                ↔ c4 &&& K.ADC_CR_JADSTART = K.ADC_CR_JADSTART
                  ∧ c5 &&& K.ADC_CR_JADSTP ≠ K.ADC_CR_JADSTP)) := by
  obtain ⟨c0, m0, e0, l0⟩ := READ_BIT_step hw Reg.CR K.ADC_CR_ADEN m
  have v0 : (LL_ADC_IsEnabled K hw m).1 = if c0 &&& K.ADC_CR_ADEN = K.ADC_CR_ADEN then 1 else 0 := by
    unfold LL_ADC_IsEnabled
    simp only [e0]
  have r0 : (LL_ADC_IsEnabled K hw m).2 = m0 := by
    unfold LL_ADC_IsEnabled
    simp only [e0]
  refine ⟨c0, by rw [r0, l0], ?_, ?_, ?_⟩
  · rw [v0]
    by_cases h : c0 &&& K.ADC_CR_ADEN = K.ADC_CR_ADEN <;> simp [h]
  · intro hdis
    refine ⟨m0, ?_, l0⟩
    unfold LL_ADC_DeInit_disable
    simp only [v0, hdis, if_false, r0]
    rfl
  · intro hen
    have hen1 : (LL_ADC_IsEnabled K hw m).1 = 1 := by rw [v0, if_pos hen]
    obtain ⟨t1, s1, m2, h1, -, -⟩ := LL_ADC_DeInit_waitStop_total K hw fuel ErrorStatus.SUCCESS
      (LL_ADC_DeInit_stopConversions K hw (LL_ADC_IsEnabled K hw m).2) hf
    obtain ⟨t2, s2, m4, h2, -, -⟩ := LL_ADC_DeInit_waitDisable_total K hw fuel s1
      (LL_ADC_DeInit_requestDisable K hw m2) hf
    have hd := LL_ADC_DeInit_disable_enabled K hw fuel m t1 t2 s1 s2 m2 m4 hen1 h1 h2
    obtain ⟨x, c1, c2, c3, y, c4, c5, c6, hl⟩ := LL_ADC_DeInit_stopConversions_log K hw m0
    refine ⟨x, c1, c2, c3, y, c4, c5, c6, s2, m4, hd, ?_,
      LL_ADC_DeInit_stopAccesses_write K _ _ _ _ _,
      LL_ADC_DeInit_stopAccesses_write K _ _ _ _ _⟩
    have p1 : (LL_ADC_DeInit_stopConversions K hw m0).log <+: m2.log := by
      rw [r0] at h1
      exact waitWhile_extends _ (LL_ADC_DeInit_stopOngoing_extends K hw) _ _ _ _ _ h1
    have p2 : m2.log <+: m4.log :=
      (LL_ADC_DeInit_requestDisable_extends K hw m2).trans
        (waitWhile_extends _ (LL_ADC_IsDisableOngoing_extends K hw) _ _ _ _ _ h2)
    have e : m.log
        ++ [Access.rd Reg.CR c0, Access.rd Reg.CFGR x,
            Access.wr Reg.CFGR
              (((x &&& NOT32 (K.ADC_CFGR_EXTEN ||| K.ADC_CFGR_EXTSEL))
                ||| K.LL_ADC_REG_TRIG_SOFTWARE) % 4294967296),
            Access.rd Reg.CR c1]
        ++ LL_ADC_DeInit_stopAccesses K K.ADC_CR_ADSTART K.ADC_CR_ADSTP c1 c2 c3
        ++ [Access.rd Reg.JSQR y,
            Access.wr Reg.JSQR
              (((y &&& NOT32 (K.ADC_JSQR_JEXTSEL ||| K.ADC_JSQR_JEXTEN))
                ||| K.LL_ADC_INJ_TRIG_SOFTWARE) % 4294967296),
            Access.rd Reg.CR c4]
        ++ LL_ADC_DeInit_stopAccesses K K.ADC_CR_JADSTART K.ADC_CR_JADSTP c4 c5 c6
        = (LL_ADC_DeInit_stopConversions K hw m0).log := by
      rw [hl, l0]
      simp only [List.append_assoc, List.cons_append, List.nil_append]
    rw [e]
    exact p1.trans p2

/-- C26 on the header of the STM32MP13. On a disabled instance (every register at zero) the
disable sequence returns SUCCESS and its only access is the read of CR by `LL_ADC_IsEnabled`.
On an enabled instance with a regular conversion on going and no injected one (CR = 5: ADEN,
ADSTART), with a peripheral that leaves the requests pending during the first ten accesses, the
sequence returns and its accesses start with: the read of CR, the regular trigger source, the
two tests of the regular group (both read 5), the regular stop request (read of CR, write of
16 = ADSTP), the injected trigger source and the test of the injected group (reads 21, JADSTART
clear); a stop request is written for the regular group and none for the injected group. -/
theorem C26_LL_ADC_DeInit_stop_requests_witness :
    ADC_CLOCK_RATIO_VS_CPU_HIGHEST ≤ 32768
    ∧ (∃ m4, LL_ADC_DeInit_disable stm32mp13 quiet 32768 { regs := zeroRegs, log := [] }
          = some (ErrorStatus.SUCCESS, m4)
        ∧ m4.log = [Access.rd Reg.CR 0])
    ∧ (∃ c5 c6 st m4,
        LL_ADC_DeInit_disable stm32mp13 (slowStop stm32mp13 10) 32768
            { regs := convertingRegs, log := [] } = some (st, m4)
        ∧ [Access.rd Reg.CR 5, Access.rd Reg.CFGR 0, Access.wr Reg.CFGR 0, Access.rd Reg.CR 5,
            Access.rd Reg.CR 5, Access.rd Reg.CR 5, Access.wr Reg.CR 16, Access.rd Reg.JSQR 0,
            Access.wr Reg.JSQR 0, Access.rd Reg.CR 21] <+: m4.log
        ∧ (∃ v, Access.wr Reg.CR v ∈ LL_ADC_DeInit_stopAccesses stm32mp13
              stm32mp13.ADC_CR_ADSTART stm32mp13.ADC_CR_ADSTP 5 5 5)
        ∧ ¬ (∃ v, Access.wr Reg.CR v ∈ LL_ADC_DeInit_stopAccesses stm32mp13
              stm32mp13.ADC_CR_JADSTART stm32mp13.ADC_CR_JADSTP 21 c5 c6)) := by
  refine ⟨by decide, ?_, ?_⟩
  · obtain ⟨c0, l0, -, hdis, -⟩ := C26_LL_ADC_DeInit_stop_requests stm32mp13 quiet 32768
      { regs := zeroRegs, log := [] } (by decide)
    have e : (LL_ADC_IsEnabled stm32mp13 quiet { regs := zeroRegs, log := [] }).2.log
        = [Access.rd Reg.CR 0] := by decide
    rw [e] at l0
    simp only [List.nil_append, List.cons.injEq, Access.rd.injEq, true_and, and_true] at l0
    subst l0
    exact hdis (by decide)
  · obtain ⟨c0, l0, -, -, hen⟩ := C26_LL_ADC_DeInit_stop_requests stm32mp13
      (slowStop stm32mp13 10) 32768 { regs := convertingRegs, log := [] } (by decide)
    have e : (LL_ADC_IsEnabled stm32mp13 (slowStop stm32mp13 10)
        { regs := convertingRegs, log := [] }).2.log = [Access.rd Reg.CR 5] := by decide
    rw [e] at l0
    simp only [List.nil_append, List.cons.injEq, Access.rd.injEq, true_and, and_true] at l0
    subst l0
    obtain ⟨x, c1, c2, c3, y, c4, c5, c6, st, m4, hd, hp, i1, i2⟩ := hen (by decide)
    have hL := LL_ADC_DeInit_disable_log_extends stm32mp13 (slowStop stm32mp13 10) 32768
      { regs := convertingRegs, log := [] } st m4 (by decide) (by decide) hd
    have eL : (LL_ADC_DeInit_stopConversions stm32mp13 (slowStop stm32mp13 10)
          (LL_ADC_IsEnabled stm32mp13 (slowStop stm32mp13 10)
            { regs := convertingRegs, log := [] }).2).log
        = [Access.rd Reg.CR 5, Access.rd Reg.CFGR 0, Access.wr Reg.CFGR 0, Access.rd Reg.CR 5,
            Access.rd Reg.CR 5, Access.rd Reg.CR 5, Access.wr Reg.CR 16, Access.rd Reg.JSQR 0,
            Access.wr Reg.JSQR 0, Access.rd Reg.CR 21] := by decide
    rw [eL] at hL
    have pin : x = 0 ∧ c1 = 5 ∧ c2 = 5 ∧ c3 = 5 ∧ y = 0 ∧ c4 = 21 := by
      rcases List.prefix_or_prefix_of_prefix hp hL with hA | hA
      all_goals
        simp only [List.nil_append, List.cons_append, List.append_assoc, List.cons_prefix_cons,
          Access.rd.injEq, Access.wr.injEq, true_and] at hA
        obtain ⟨hx, -, hc1, hA⟩ := hA
        subst hx hc1
        rw [LL_ADC_DeInit_stopAccesses, if_pos (by decide)] at hA
        simp only [List.cons_append, List.cons_prefix_cons, Access.rd.injEq, true_and] at hA
        obtain ⟨hc2, hA⟩ := hA
        subst hc2
        rw [if_neg (by decide)] at hA
        simp only [List.nil_append, List.cons_append, List.cons_prefix_cons, Access.rd.injEq,
          Access.wr.injEq, true_and] at hA
        obtain ⟨hc3, -, hy, -, hc4, -⟩ := hA
        subst hc3 hy hc4
        exact ⟨rfl, rfl, rfl, rfl, rfl, rfl⟩
    obtain ⟨hx, hc1, hc2, hc3, hy, hc4⟩ := pin
    subst hx hc1 hc2 hc3 hy hc4
    refine ⟨c5, c6, st, m4, hd, ?_, i1.2 ⟨by decide, by decide⟩, fun h => ?_⟩
    · have e2 : LL_ADC_DeInit_stopAccesses stm32mp13 stm32mp13.ADC_CR_JADSTART
          stm32mp13.ADC_CR_JADSTP 21 c5 c6 = [] := by
        rw [LL_ADC_DeInit_stopAccesses, if_neg (by decide)]
      rw [e2] at hp
      exact hp
    · exact absurd (i2.1 h).1 (by decide)

/-! ## The three initialisation functions commute on a disabled instance -/

/-- Status and registers after `LL_ADC_Init` on a disabled instance and a quiet peripheral. -/
theorem LL_ADC_Init_regs (K : Header) (m : Machine) (s : LL_ADC_InitTypeDef)
    (hdis : m.regs Reg.CR &&& K.ADC_CR_ADEN ≠ K.ADC_CR_ADEN) :
    (LL_ADC_Init K quiet m s).1 = ErrorStatus.SUCCESS
    ∧ (LL_ADC_Init K quiet m s).2.regs
      = Function.update m.regs Reg.CFGR
          (((m.regs Reg.CFGR &&& NOT32 (K.ADC_CFGR_RES ||| K.ADC_CFGR_AUTDLY))
            ||| (s.Resolution ||| s.LowPowerMode)) % 4294967296) := by
  simp [LL_ADC_Init, LL_ADC_IsEnabled_quiet, hdis, MODIFY_REG_quiet, store]

/-- Status and registers after `LL_ADC_REG_Init` on a disabled instance and a quiet
peripheral. -/
theorem LL_ADC_REG_Init_regs (K : Header) (m : Machine) (s : LL_ADC_REG_InitTypeDef)
    (hdis : m.regs Reg.CR &&& K.ADC_CR_ADEN ≠ K.ADC_CR_ADEN) :
    (LL_ADC_REG_Init K quiet m s).1 = ErrorStatus.SUCCESS
    ∧ (LL_ADC_REG_Init K quiet m s).2.regs
      = Function.update
          (Function.update m.regs Reg.CFGR
            (((m.regs Reg.CFGR &&& NOT32 (K.ADC_CFGR_EXTSEL ||| K.ADC_CFGR_EXTEN
                ||| K.ADC_CFGR_DISCEN ||| K.ADC_CFGR_DISCNUM ||| K.ADC_CFGR_CONT
                ||| K.ADC_CFGR_OVRMOD))
              ||| (s.TriggerSource ||| regDiscontWritten K s ||| s.ContinuousMode
                ||| s.DataTransferMode ||| s.Overrun)) % 4294967296))
          Reg.SQR1
          (((m.regs Reg.SQR1 &&& NOT32 K.ADC_SQR1_L) ||| s.SequencerLength) % 4294967296) := by
  have h := LL_ADC_REG_Init_disabled K m.regs m.log s hdis
  exact ⟨congrArg Prod.fst h, congrArg (fun p => p.2.regs) h⟩

/-- Status and registers after `LL_ADC_INJ_Init` on a disabled instance and a quiet
peripheral. -/
theorem LL_ADC_INJ_Init_regs (K : Header) (m : Machine) (s : LL_ADC_INJ_InitTypeDef)
    (hdis : m.regs Reg.CR &&& K.ADC_CR_ADEN ≠ K.ADC_CR_ADEN) :
    (LL_ADC_INJ_Init K quiet m s).1 = ErrorStatus.SUCCESS
    ∧ (LL_ADC_INJ_Init K quiet m s).2.regs
      = Function.update
          (Function.update m.regs Reg.CFGR
            (((m.regs Reg.CFGR &&& NOT32 (K.ADC_CFGR_JDISCEN ||| K.ADC_CFGR_JAUTO))
              ||| (injDiscontWritten K s ||| s.TrigAuto)) % 4294967296))
          Reg.JSQR
          (((m.regs Reg.JSQR
                &&& NOT32 (K.ADC_JSQR_JEXTSEL ||| K.ADC_JSQR_JEXTEN ||| K.ADC_JSQR_JL))
              ||| (s.TriggerSource ||| s.SequencerLength)) % 4294967296) := by
  have h := LL_ADC_INJ_Init_disabled K m.regs m.log s hdis
  exact ⟨congrArg Prod.fst h, congrArg (fun p => p.2.regs) h⟩

/-- Two read-modify-writes commute when the bits set by each are outside the clear mask of the
other. -/
theorem modify_commute (x m1 v1 m2 v2 : Nat) (h12 : v1 &&& m2 = 0) (h21 : v2 &&& m1 = 0) :
    (((((x &&& NOT32 m1) ||| v1) % 4294967296) &&& NOT32 m2) ||| v2) % 4294967296
      = (((((x &&& NOT32 m2) ||| v2) % 4294967296) &&& NOT32 m1) ||| v1) % 4294967296 := by
  apply Nat.eq_of_testBit_eq
  intro i
  have a1 := congrArg (fun y => Nat.testBit y i) h12
  have a2 := congrArg (fun y => Nat.testBit y i) h21
  simp only [Nat.testBit_and, Nat.testBit_or, testBit_mod_word, testBit_NOT32,
    Nat.zero_testBit] at a1 a2 ⊢
  revert a1 a2
  cases x.testBit i <;> cases m1.testBit i <;> cases v1.testBit i <;> cases m2.testBit i <;>
    cases v2.testBit i <;> by_cases h : i < 32 <;> simp [h]

theorem regDiscontWritten_field (K : Header) (L : RegularLayout K) (s : LL_ADC_REG_InitTypeDef)
    (hs : LL_ADC_REG_Init_params K s) :
    regDiscontWritten K s &&& (K.ADC_CFGR_DISCEN ||| K.ADC_CFGR_DISCNUM)
      = regDiscontWritten K s := by
  unfold regDiscontWritten
  split
  · rename_i hne
    exact L.discont _ (hs.2.2.1 hne)
  · exact L.discont _ (by simp)

theorem injDiscontWritten_field (K : Header) (L : InjectedLayout K) (LC : CommuteLayout K)
    (s : LL_ADC_INJ_InitTypeDef) (hs : LL_ADC_INJ_Init_params K s) :
    injDiscontWritten K s &&& K.ADC_CFGR_JDISCEN = injDiscontWritten K s := by
  unfold injDiscontWritten
  split
  · rename_i hne
    exact L.discont _ (hs.2.2.1 (by rw [L.scan_disable]; exact hne))
  · rw [LC.discont_disable]
    exact Nat.zero_and _

/-- The words written to CFGR by the three initialisation functions, for valid structures, and
their clear masks: the bits set by each function are outside the clear masks of the others. -/
theorem CFGR_written_disjoint (K : Header) (LI : InstanceLayout K) (LR : RegularLayout K)
    (LJ : InjectedLayout K) (LC : CommuteLayout K)
    (a : LL_ADC_InitTypeDef) (r : LL_ADC_REG_InitTypeDef) (j : LL_ADC_INJ_InitTypeDef)
    (ha : LL_ADC_Init_params K a) (hr : LL_ADC_REG_Init_params K r)
    (hdma : IS_LL_ADC_REG_DMA_TRANSFER K r.DataTransferMode)
    (hj : LL_ADC_INJ_Init_params K j) :
    ((a.Resolution ||| a.LowPowerMode)
        &&& (K.ADC_CFGR_EXTSEL ||| K.ADC_CFGR_EXTEN ||| K.ADC_CFGR_DISCEN ||| K.ADC_CFGR_DISCNUM
          ||| K.ADC_CFGR_CONT ||| K.ADC_CFGR_OVRMOD) = 0
      ∧ (r.TriggerSource ||| regDiscontWritten K r ||| r.ContinuousMode ||| r.DataTransferMode
          ||| r.Overrun) &&& (K.ADC_CFGR_RES ||| K.ADC_CFGR_AUTDLY) = 0)
    ∧ ((a.Resolution ||| a.LowPowerMode) &&& (K.ADC_CFGR_JDISCEN ||| K.ADC_CFGR_JAUTO) = 0
      ∧ (injDiscontWritten K j ||| j.TrigAuto) &&& (K.ADC_CFGR_RES ||| K.ADC_CFGR_AUTDLY) = 0)
    ∧ ((r.TriggerSource ||| regDiscontWritten K r ||| r.ContinuousMode ||| r.DataTransferMode
          ||| r.Overrun) &&& (K.ADC_CFGR_JDISCEN ||| K.ADC_CFGR_JAUTO) = 0
      ∧ (injDiscontWritten K j ||| j.TrigAuto)
        &&& (K.ADC_CFGR_EXTSEL ||| K.ADC_CFGR_EXTEN ||| K.ADC_CFGR_DISCEN ||| K.ADC_CFGR_DISCNUM
          ||| K.ADC_CFGR_CONT ||| K.ADC_CFGR_OVRMOD) = 0) := by
  have vI : (a.Resolution ||| a.LowPowerMode) &&& (K.ADC_CFGR_RES ||| K.ADC_CFGR_AUTDLY)
      = a.Resolution ||| a.LowPowerMode :=
    or_sub (sub_or_left _ (LI.res _ ha.1)) (sub_or_right _ (LI.lowpower _ ha.2))
  have vJ : (injDiscontWritten K j ||| j.TrigAuto) &&& (K.ADC_CFGR_JDISCEN ||| K.ADC_CFGR_JAUTO)
      = injDiscontWritten K j ||| j.TrigAuto :=
    or_sub (sub_or_left _ (injDiscontWritten_field K LJ LC j hj))
      (sub_or_right _ (LJ.auto _ hj.2.2.2))
  have hT := LR.trig _ hr.1
  have hD := regDiscontWritten_field K LR r hr
  have hC := LR.cont _ hr.2.2.2.1
  have hO := LR.ovr _ hr.2.2.2.2
  have hM := LR.dma _ hdma
  have i1 := LC.inst (K.ADC_CFGR_EXTSEL ||| K.ADC_CFGR_EXTEN) (by simp)
  have i2 := LC.inst (K.ADC_CFGR_DISCEN ||| K.ADC_CFGR_DISCNUM) (by simp)
  have i3 := LC.inst K.ADC_CFGR_CONT (by simp)
  have i4 := LC.inst K.ADC_CFGR_OVRMOD (by simp)
  have i5 := LC.inst (K.ADC_CFGR_DMAEN ||| K.ADC_CFGR_DMACFG) (by simp)
  have i6 := LC.inst (K.ADC_CFGR_JDISCEN ||| K.ADC_CFGR_JAUTO) (by simp)
  have j1 := LC.inj (K.ADC_CFGR_EXTSEL ||| K.ADC_CFGR_EXTEN) (by simp)
  have j2 := LC.inj (K.ADC_CFGR_DISCEN ||| K.ADC_CFGR_DISCNUM) (by simp)
  have j3 := LC.inj K.ADC_CFGR_CONT (by simp)
  have j4 := LC.inj K.ADC_CFGR_OVRMOD (by simp)
  have j5 := LC.inj (K.ADC_CFGR_DMAEN ||| K.ADC_CFGR_DMACFG) (by simp)
  have vR : ∀ g, (K.ADC_CFGR_EXTSEL ||| K.ADC_CFGR_EXTEN) &&& g = 0 →
      (K.ADC_CFGR_DISCEN ||| K.ADC_CFGR_DISCNUM) &&& g = 0 → K.ADC_CFGR_CONT &&& g = 0 →
      K.ADC_CFGR_OVRMOD &&& g = 0 → (K.ADC_CFGR_DMAEN ||| K.ADC_CFGR_DMACFG) &&& g = 0 →
      (r.TriggerSource ||| regDiscontWritten K r ||| r.ContinuousMode ||| r.DataTransferMode
          ||| r.Overrun) &&& g = 0 := by
    intro g g1 g2 g3 g4 g5
    exact disj_or_left (disj_or_left (disj_or_left (disj_or_left (disj_of_sub hT g1)
      (disj_of_sub hD g2)) (disj_of_sub hC g3)) (disj_of_sub hM g5)) (disj_of_sub hO g4)
  have mR : ∀ g, g &&& (K.ADC_CFGR_EXTSEL ||| K.ADC_CFGR_EXTEN) = 0 →
      g &&& (K.ADC_CFGR_DISCEN ||| K.ADC_CFGR_DISCNUM) = 0 → g &&& K.ADC_CFGR_CONT = 0 →
      g &&& K.ADC_CFGR_OVRMOD = 0 →
      g &&& (K.ADC_CFGR_EXTSEL ||| K.ADC_CFGR_EXTEN ||| K.ADC_CFGR_DISCEN ||| K.ADC_CFGR_DISCNUM
          ||| K.ADC_CFGR_CONT ||| K.ADC_CFGR_OVRMOD) = 0 := by
    intro g g1 g2 g3 g4
    rw [regMask_eq]
    exact disj_or_right g1 (disj_or_right g2 (disj_or_right g3 g4))
  refine ⟨⟨?_, ?_⟩, ⟨?_, ?_⟩, ⟨?_, ?_⟩⟩
  · exact disj_of_sub vI (mR _ i1 i2 i3 i4)
  · exact vR _ (disj_comm i1) (disj_comm i2) (disj_comm i3) (disj_comm i4) (disj_comm i5)
  · exact disj_of_sub vI i6
  · exact disj_of_sub vJ (disj_comm i6)
  · exact vR _ (disj_comm j1) (disj_comm j2) (disj_comm j3) (disj_comm j4) (disj_comm j5)
  · exact disj_of_sub vJ (mR _ j1 j2 j3 j4)

theorem stm32mp13_CommuteLayout : CommuteLayout stm32mp13 where
  inst := by decide
  inj := by decide
  discont_disable := by decide

/-- C27: on a quiet peripheral, a disabled instance and valid structures, any two of
`LL_ADC_Init`, `LL_ADC_REG_Init` and `LL_ADC_INJ_Init` return SUCCESS in either order and leave
the same registers in either order; none of the three changes CR, so the instance stays
disabled. The header facts used: the layouts of the three functions, the disjointness of the
CFGR fields of the instance, of the regular group (DMA bits included) and of the injected group,
and `LL_ADC_REG_SEQ_DISCONT_DISABLE` being the word 0. -/
theorem C27_LL_ADC_Init_commute (K : Header) (LI : InstanceLayout K) (LR : RegularLayout K)
    (LJ : InjectedLayout K) (LC : CommuteLayout K) (m : Machine)
    (a : LL_ADC_InitTypeDef) (r : LL_ADC_REG_InitTypeDef) (j : LL_ADC_INJ_InitTypeDef)
    (hdis : m.regs Reg.CR &&& K.ADC_CR_ADEN ≠ K.ADC_CR_ADEN)
    (ha : LL_ADC_Init_params K a) (hr : LL_ADC_REG_Init_params K r)
    (hdma : IS_LL_ADC_REG_DMA_TRANSFER K r.DataTransferMode)
    (hj : LL_ADC_INJ_Init_params K j) :
    ((LL_ADC_REG_Init K quiet (LL_ADC_Init K quiet m a).2 r).1 = ErrorStatus.SUCCESS
      ∧ (LL_ADC_Init K quiet (LL_ADC_REG_Init K quiet m r).2 a).1 = ErrorStatus.SUCCESS
      ∧ (LL_ADC_REG_Init K quiet (LL_ADC_Init K quiet m a).2 r).2.regs
          = (LL_ADC_Init K quiet (LL_ADC_REG_Init K quiet m r).2 a).2.regs)
    ∧ ((LL_ADC_INJ_Init K quiet (LL_ADC_Init K quiet m a).2 j).1 = ErrorStatus.SUCCESS
      ∧ (LL_ADC_Init K quiet (LL_ADC_INJ_Init K quiet m j).2 a).1 = ErrorStatus.SUCCESS
      ∧ (LL_ADC_INJ_Init K quiet (LL_ADC_Init K quiet m a).2 j).2.regs
          = (LL_ADC_Init K quiet (LL_ADC_INJ_Init K quiet m j).2 a).2.regs)
    ∧ ((LL_ADC_INJ_Init K quiet (LL_ADC_REG_Init K quiet m r).2 j).1 = ErrorStatus.SUCCESS
      ∧ (LL_ADC_REG_Init K quiet (LL_ADC_INJ_Init K quiet m j).2 r).1 = ErrorStatus.SUCCESS
      ∧ (LL_ADC_INJ_Init K quiet (LL_ADC_REG_Init K quiet m r).2 j).2.regs
          = (LL_ADC_REG_Init K quiet (LL_ADC_INJ_Init K quiet m j).2 r).2.regs)
    ∧ ((LL_ADC_Init K quiet m a).2.regs Reg.CR = m.regs Reg.CR
      ∧ (LL_ADC_REG_Init K quiet m r).2.regs Reg.CR = m.regs Reg.CR
      ∧ (LL_ADC_INJ_Init K quiet m j).2.regs Reg.CR = m.regs Reg.CR) := by
  obtain ⟨⟨c1, c2⟩, ⟨c3, c4⟩, ⟨c5, c6⟩⟩ := CFGR_written_disjoint K LI LR LJ LC a r j ha hr hdma hj
  obtain ⟨-, rI⟩ := LL_ADC_Init_regs K m a hdis
  obtain ⟨-, rR⟩ := LL_ADC_REG_Init_regs K m r hdis
  obtain ⟨-, rJ⟩ := LL_ADC_INJ_Init_regs K m j hdis
  have kI : (LL_ADC_Init K quiet m a).2.regs Reg.CR = m.regs Reg.CR := by
    rw [rI, Function.update_noteq (by decide)]
  have kR : (LL_ADC_REG_Init K quiet m r).2.regs Reg.CR = m.regs Reg.CR := by
    rw [rR, Function.update_noteq (by decide), Function.update_noteq (by decide)]
  have kJ : (LL_ADC_INJ_Init K quiet m j).2.regs Reg.CR = m.regs Reg.CR := by
    rw [rJ, Function.update_noteq (by decide), Function.update_noteq (by decide)]
  have dI : (LL_ADC_Init K quiet m a).2.regs Reg.CR &&& K.ADC_CR_ADEN ≠ K.ADC_CR_ADEN := by
    rw [kI]; exact hdis
  have dR : (LL_ADC_REG_Init K quiet m r).2.regs Reg.CR &&& K.ADC_CR_ADEN ≠ K.ADC_CR_ADEN := by
    rw [kR]; exact hdis
  have dJ : (LL_ADC_INJ_Init K quiet m j).2.regs Reg.CR &&& K.ADC_CR_ADEN ≠ K.ADC_CR_ADEN := by
    rw [kJ]; exact hdis
  obtain ⟨sIR, rIR⟩ := LL_ADC_REG_Init_regs K (LL_ADC_Init K quiet m a).2 r dI
  obtain ⟨sRI, rRI⟩ := LL_ADC_Init_regs K (LL_ADC_REG_Init K quiet m r).2 a dR
  obtain ⟨sIJ, rIJ⟩ := LL_ADC_INJ_Init_regs K (LL_ADC_Init K quiet m a).2 j dI
  obtain ⟨sJI, rJI⟩ := LL_ADC_Init_regs K (LL_ADC_INJ_Init K quiet m j).2 a dJ
  obtain ⟨sRJ, rRJ⟩ := LL_ADC_INJ_Init_regs K (LL_ADC_REG_Init K quiet m r).2 j dR
  obtain ⟨sJR, rJR⟩ := LL_ADC_REG_Init_regs K (LL_ADC_INJ_Init K quiet m j).2 r dJ
  refine ⟨⟨sIR, sRI, ?_⟩, ⟨sIJ, sJI, ?_⟩, ⟨sRJ, sJR, ?_⟩, kI, kR, kJ⟩
  · rw [rIR, rRI, rI, rR]
    funext q
    by_cases h1 : q = Reg.SQR1
    · subst h1
      simp [Function.update]
    · by_cases h2 : q = Reg.CFGR
      · subst h2
        simp only [Function.update_noteq h1, Function.update_same,
          Function.update_noteq (show Reg.CFGR ≠ Reg.SQR1 by decide)]
        exact modify_commute _ _ _ _ _ c1 c2
      · simp only [Function.update_noteq h1, Function.update_noteq h2]
  · rw [rIJ, rJI, rI, rJ]
    funext q
    by_cases h1 : q = Reg.JSQR
    · subst h1
      simp [Function.update]
    · by_cases h2 : q = Reg.CFGR
      · subst h2
        simp only [Function.update_noteq h1, Function.update_same,
          Function.update_noteq (show Reg.CFGR ≠ Reg.JSQR by decide)]
        exact modify_commute _ _ _ _ _ c3 c4
      · simp only [Function.update_noteq h1, Function.update_noteq h2]
  · rw [rRJ, rJR, rR, rJ]
    funext q
    by_cases h1 : q = Reg.JSQR
    · subst h1
      simp [Function.update]
    · by_cases h2 : q = Reg.SQR1
      · subst h2
        simp [Function.update]
      · by_cases h3 : q = Reg.CFGR
        · subst h3
          simp only [Function.update_noteq h1, Function.update_noteq h2, Function.update_same,
            Function.update_noteq (show Reg.CFGR ≠ Reg.JSQR by decide),
            Function.update_noteq (show Reg.CFGR ≠ Reg.SQR1 by decide)]
          exact modify_commute _ _ _ _ _ c5 c6
        · simp only [Function.update_noteq h1, Function.update_noteq h2,
            Function.update_noteq h3]

/-- C27 on the header of the STM32MP13 and the register file with every register at zero. -/
theorem C27_LL_ADC_Init_commute_witness :
    (zeroRegs Reg.CR &&& stm32mp13.ADC_CR_ADEN ≠ stm32mp13.ADC_CR_ADEN
      ∧ LL_ADC_Init_params stm32mp13 { Resolution := 8, LowPowerMode := 16384 }
      ∧ LL_ADC_REG_Init_params stm32mp13
          { TriggerSource := 1056, SequencerLength := 1, SequencerDiscont := 65536,
            ContinuousMode := 8192, DataTransferMode := 1, Overrun := 4096 }
      ∧ IS_LL_ADC_REG_DMA_TRANSFER stm32mp13 1
      ∧ LL_ADC_INJ_Init_params stm32mp13
          { TriggerSource := 132, SequencerLength := 1, SequencerDiscont := 1048576,
            TrigAuto := 33554432 })
    ∧ (LL_ADC_INJ_Init stm32mp13 quiet
        (LL_ADC_REG_Init stm32mp13 quiet { regs := zeroRegs, log := [] }
          { TriggerSource := 1056, SequencerLength := 1, SequencerDiscont := 65536,
            ContinuousMode := 8192, DataTransferMode := 1, Overrun := 4096 }).2
        { TriggerSource := 132, SequencerLength := 1, SequencerDiscont := 1048576,
          TrigAuto := 33554432 }).2.regs
      = (LL_ADC_REG_Init stm32mp13 quiet
        (LL_ADC_INJ_Init stm32mp13 quiet { regs := zeroRegs, log := [] }
          { TriggerSource := 132, SequencerLength := 1, SequencerDiscont := 1048576,
            TrigAuto := 33554432 }).2
        { TriggerSource := 1056, SequencerLength := 1, SequencerDiscont := 65536,
          ContinuousMode := 8192, DataTransferMode := 1, Overrun := 4096 }).2.regs :=
  ⟨⟨by decide, ⟨by decide, by decide⟩,
      ⟨by decide, by decide, by decide, by decide, by decide⟩, by decide,
      ⟨by decide, by decide, by decide, by decide⟩⟩,
    (C27_LL_ADC_Init_commute stm32mp13 stm32mp13_InstanceLayout stm32mp13_RegularLayout
      stm32mp13_InjectedLayout stm32mp13_CommuteLayout { regs := zeroRegs, log := [] }
      { Resolution := 8, LowPowerMode := 16384 }
      { TriggerSource := 1056, SequencerLength := 1, SequencerDiscont := 65536,
        ContinuousMode := 8192, DataTransferMode := 1, Overrun := 4096 }
      { TriggerSource := 132, SequencerLength := 1, SequencerDiscont := 1048576,
        TrigAuto := 33554432 }
      (by decide) ⟨by decide, by decide⟩
      ⟨by decide, by decide, by decide, by decide, by decide⟩ (by decide)
      ⟨by decide, by decide, by decide, by decide⟩).2.2.1.2.2⟩

end MP13

namespace MP2

/-! ## Flags, states and the state macro of the HAL header -/

theorem ISR_write_testBit (old v i : Nat) :
    (ISR_write old v).testBit i = (decide (i < 32) && (old.testBit i && !v.testBit i)) := by
  simp only [ISR_write, MP13.testBit_mod_word, Nat.testBit_and, MP13.testBit_NOT32]
  by_cases h : i < 32 <;> simp [h]

/-- C18: with flags cleared by writing 1 and unaffected by writing 0, `__HAL_ADC_CLEAR_FLAG`
clears exactly the flags of its mask: every flag of the mask reads 0 afterwards, every other
flag of ISR keeps its value, and nothing else in the handle changes. Had the macro written
ISR | mask (a read-modify-write) instead of the mask, every flag that was set would be
cleared. -/
theorem C18_HAL_ADC_CLEAR_FLAG_exact (__HANDLE__ : ADC_HandleTypeDef) (__FLAG__ : Nat) :
    (__HAL_ADC_CLEAR_FLAG __HANDLE__ __FLAG__).Instance.ISR &&& __FLAG__ = 0
    ∧ (∀ i, i < 32 →
        (__FLAG__.testBit i = true →
          (__HAL_ADC_CLEAR_FLAG __HANDLE__ __FLAG__).Instance.ISR.testBit i = false)
        ∧ (__FLAG__.testBit i = false →
          (__HAL_ADC_CLEAR_FLAG __HANDLE__ __FLAG__).Instance.ISR.testBit i
            = __HANDLE__.Instance.ISR.testBit i))
    ∧ (__HAL_ADC_CLEAR_FLAG __HANDLE__ __FLAG__).Instance.ISR &&& MP13.NOT32 __FLAG__
        = __HANDLE__.Instance.ISR &&& MP13.NOT32 __FLAG__
    ∧ (__HAL_ADC_CLEAR_FLAG __HANDLE__ __FLAG__).Instance.IER = __HANDLE__.Instance.IER
    ∧ (__HAL_ADC_CLEAR_FLAG __HANDLE__ __FLAG__).Instance.CR = __HANDLE__.Instance.CR
    ∧ (__HAL_ADC_CLEAR_FLAG __HANDLE__ __FLAG__).State = __HANDLE__.State
    ∧ (__HAL_ADC_CLEAR_FLAG __HANDLE__ __FLAG__).ErrorCode = __HANDLE__.ErrorCode
    ∧ ISR_write __HANDLE__.Instance.ISR (__HANDLE__.Instance.ISR ||| __FLAG__) = 0 := by
  refine ⟨?_, ?_, ?_, rfl, rfl, rfl, rfl, ?_⟩
  · apply Nat.eq_of_testBit_eq
    intro i
    simp only [__HAL_ADC_CLEAR_FLAG, Nat.testBit_and, ISR_write_testBit, Nat.zero_testBit]
    cases __HANDLE__.Instance.ISR.testBit i <;> cases __FLAG__.testBit i <;> simp
  · intro i hi
    simp only [__HAL_ADC_CLEAR_FLAG, ISR_write_testBit]
    cases __HANDLE__.Instance.ISR.testBit i <;> cases __FLAG__.testBit i <;> simp [hi]
  · apply Nat.eq_of_testBit_eq
    intro i
    simp only [__HAL_ADC_CLEAR_FLAG, Nat.testBit_and, ISR_write_testBit, MP13.testBit_NOT32]
    cases __HANDLE__.Instance.ISR.testBit i <;> cases __FLAG__.testBit i <;>
      by_cases h : i < 32 <;> simp [h]
  · apply Nat.eq_of_testBit_eq
    intro i
    simp only [ISR_write_testBit, Nat.testBit_or, Nat.zero_testBit]
    cases __HANDLE__.Instance.ISR.testBit i <;> cases __FLAG__.testBit i <;> simp

/-- C19: `HAL_ADC_STATE_RESET` is zero, each of the sixteen other state constants is a power
of two below 2^32 (exactly one bit set), and any two of them have a bitwise AND of zero. -/
theorem C19_HAL_ADC_STATE_bits :
    HAL_ADC_STATE_RESET = 0
    ∧ (∀ s ∈ [HAL_ADC_STATE_READY, HAL_ADC_STATE_BUSY_INTERNAL, HAL_ADC_STATE_TIMEOUT,
          HAL_ADC_STATE_ERROR_INTERNAL, HAL_ADC_STATE_ERROR_CONFIG, HAL_ADC_STATE_ERROR_DMA,
          HAL_ADC_STATE_REG_BUSY, HAL_ADC_STATE_REG_EOC, HAL_ADC_STATE_REG_OVR,
          HAL_ADC_STATE_REG_EOSMP, HAL_ADC_STATE_INJ_BUSY, HAL_ADC_STATE_INJ_EOC,
          HAL_ADC_STATE_AWD1, HAL_ADC_STATE_AWD2, HAL_ADC_STATE_AWD3,
          HAL_ADC_STATE_MULTIMODE_SLAVE],
        ∃ k, k < 32 ∧ s = 2 ^ k)
    ∧ List.Pairwise (fun a b => a &&& b = 0)
        [HAL_ADC_STATE_READY, HAL_ADC_STATE_BUSY_INTERNAL, HAL_ADC_STATE_TIMEOUT,
          HAL_ADC_STATE_ERROR_INTERNAL, HAL_ADC_STATE_ERROR_CONFIG, HAL_ADC_STATE_ERROR_DMA,
          HAL_ADC_STATE_REG_BUSY, HAL_ADC_STATE_REG_EOC, HAL_ADC_STATE_REG_OVR,
          HAL_ADC_STATE_REG_EOSMP, HAL_ADC_STATE_INJ_BUSY, HAL_ADC_STATE_INJ_EOC,
          HAL_ADC_STATE_AWD1, HAL_ADC_STATE_AWD2, HAL_ADC_STATE_AWD3,
          HAL_ADC_STATE_MULTIMODE_SLAVE] := by
  refine ⟨rfl, ?_, by decide⟩
  decide

/-- C20: `ADC_STATE_CLR_SET(State, clr, set)` stores `(State & ~clr) | set` as a 32-bit word:
for every bit position below 32, a bit of `set` is set in the result, a bit of `clr` that is
not in `set` is clear, and a bit outside both keeps the value it has in `State`. -/
theorem C20_ADC_STATE_CLR_SET_bits (State clr set : Nat) :
    ADC_STATE_CLR_SET State clr set = ((State &&& MP13.NOT32 clr) ||| set) % 4294967296
    ∧ ADC_STATE_CLR_SET State clr set < 4294967296
    ∧ (State < 4294967296 → set < 4294967296 →
        ADC_STATE_CLR_SET State clr set = (State &&& MP13.NOT32 clr) ||| set)
    ∧ (∀ i, i < 32 →
        (set.testBit i = true → (ADC_STATE_CLR_SET State clr set).testBit i = true)
        ∧ (clr.testBit i = true → set.testBit i = false →
            (ADC_STATE_CLR_SET State clr set).testBit i = false)
        ∧ (clr.testBit i = false → set.testBit i = false →
            (ADC_STATE_CLR_SET State clr set).testBit i = State.testBit i)) := by
  refine ⟨rfl, Nat.mod_lt _ (by decide), ?_, ?_⟩
  · intro h1 h2
    apply Nat.eq_of_testBit_eq
    intro i
    have a1 := MP13.testBit_of_lt_word h1 i
    have a2 := MP13.testBit_of_lt_word h2 i
    simp only [ADC_STATE_CLR_SET, MODIFY_REG, MP13.testBit_mod_word, Nat.testBit_or,
      Nat.testBit_and, MP13.testBit_NOT32]
    revert a1 a2
    cases State.testBit i <;> cases clr.testBit i <;> cases set.testBit i <;>
      by_cases h : i < 32 <;> simp [h]
  · intro i hi
    simp only [ADC_STATE_CLR_SET, MODIFY_REG, MP13.testBit_mod_word, Nat.testBit_or,
      Nat.testBit_and, MP13.testBit_NOT32]
    cases State.testBit i <;> cases clr.testBit i <;> cases set.testBit i <;> simp [hi]

/-! ## Error codes, enable request, condition macros and interrupt macros -/

theorem SET_BIT_testBit (REG BIT i : Nat) :
    (SET_BIT REG BIT).testBit i = (decide (i < 32) && (REG.testBit i || BIT.testBit i)) := by
  simp only [SET_BIT, MP13.testBit_mod_word, Nat.testBit_or]

/-- C21: `HAL_ADC_ERROR_NONE` is zero; each of `HAL_ADC_ERROR_INTERNAL`, `HAL_ADC_ERROR_OVR`,
`HAL_ADC_ERROR_DMA` and `HAL_ADC_ERROR_INVALID_CALLBACK` is a single bit and any two of them are
disjoint; OR-ing any word into a 32-bit ErrorCode (`SET_BIT`) keeps every bit already set and
adds the bits of the word; and `ADC_CLEAR_ERRORCODE` sets ErrorCode to `HAL_ADC_ERROR_NONE` and
leaves the registers and the State of the handle unchanged. -/
theorem C21_HAL_ADC_ERROR_accumulate :
    HAL_ADC_ERROR_NONE = 0
    ∧ (∀ c ∈ [HAL_ADC_ERROR_INTERNAL, HAL_ADC_ERROR_OVR, HAL_ADC_ERROR_DMA,
          HAL_ADC_ERROR_INVALID_CALLBACK], ∃ k, k < 32 ∧ c = 2 ^ k)
    ∧ List.Pairwise (fun a b => a &&& b = 0)
        [HAL_ADC_ERROR_INTERNAL, HAL_ADC_ERROR_OVR, HAL_ADC_ERROR_DMA,
          HAL_ADC_ERROR_INVALID_CALLBACK]
    ∧ (∀ ErrorCode c : Nat, ∀ i, i < 32 →
        (ErrorCode.testBit i = true → (SET_BIT ErrorCode c).testBit i = true)
        ∧ (c.testBit i = true → (SET_BIT ErrorCode c).testBit i = true)
        ∧ (ErrorCode.testBit i = false → c.testBit i = false →
            (SET_BIT ErrorCode c).testBit i = false))
    ∧ (∀ ErrorCode c : Nat, SET_BIT ErrorCode c &&& (ErrorCode % 4294967296)
        = ErrorCode % 4294967296)
    ∧ (∀ ErrorCode : Nat, SET_BIT ErrorCode HAL_ADC_ERROR_NONE = ErrorCode % 4294967296)
    ∧ (∀ h : ADC_HandleTypeDef,
        (ADC_CLEAR_ERRORCODE h).ErrorCode = HAL_ADC_ERROR_NONE
        ∧ (ADC_CLEAR_ERRORCODE h).Instance = h.Instance
        ∧ (ADC_CLEAR_ERRORCODE h).State = h.State) := by
  refine ⟨rfl, by decide, by decide, ?_, ?_, ?_, fun h => ⟨rfl, rfl, rfl⟩⟩
  · intro e c i hi
    simp only [SET_BIT_testBit]
    cases e.testBit i <;> cases c.testBit i <;> simp [hi]
  · intro e c
    apply Nat.eq_of_testBit_eq
    intro i
    simp only [Nat.testBit_and, SET_BIT_testBit, MP13.testBit_mod_word]
    cases e.testBit i <;> cases c.testBit i <;> by_cases h : i < 32 <;> simp [h]
  · intro e
    simp [SET_BIT, HAL_ADC_ERROR_NONE]

/-- C22: `__HAL_ADC_ENABLE` stores in CR the word read with ADEN added: every bit of ADEN is
set afterwards, every other bit of CR keeps its value, and ISR (the ready flag included), IER,
the State and the ErrorCode of the handle are unchanged. -/
theorem C22_HAL_ADC_ENABLE_sets_ADEN_only (K : Header) (h : ADC_HandleTypeDef) :
    (__HAL_ADC_ENABLE K h).Instance.CR = (h.Instance.CR ||| K.ADC_CR_ADEN) % 4294967296
    ∧ (h.Instance.CR < 4294967296 → K.ADC_CR_ADEN < 4294967296 →
        (__HAL_ADC_ENABLE K h).Instance.CR = h.Instance.CR ||| K.ADC_CR_ADEN)
    ∧ (∀ i, i < 32 →
        (K.ADC_CR_ADEN.testBit i = true → (__HAL_ADC_ENABLE K h).Instance.CR.testBit i = true)
        ∧ (K.ADC_CR_ADEN.testBit i = false →
            (__HAL_ADC_ENABLE K h).Instance.CR.testBit i = h.Instance.CR.testBit i))
    ∧ (__HAL_ADC_ENABLE K h).Instance.ISR = h.Instance.ISR
    ∧ (__HAL_ADC_ENABLE K h).Instance.IER = h.Instance.IER
    ∧ (__HAL_ADC_ENABLE K h).State = h.State
    ∧ (__HAL_ADC_ENABLE K h).ErrorCode = h.ErrorCode := by
  refine ⟨rfl, ?_, ?_, rfl, rfl, rfl, rfl⟩
  · intro h1 h2
    have e : (4294967296 : Nat) = 2 ^ 32 := by norm_num
    simp only [__HAL_ADC_ENABLE]
    rw [e] at h1 h2 ⊢
    exact Nat.mod_eq_of_lt (Nat.or_lt_two_pow h1 h2)
  · intro i hi
    simp only [__HAL_ADC_ENABLE, MP13.testBit_mod_word, Nat.testBit_or]
    cases h.Instance.CR.testBit i <;> cases K.ADC_CR_ADEN.testBit i <;> simp [hi]

theorem eq_iff_testBit (a b : Nat) : a = b ↔ ∀ i, a.testBit i = b.testBit i :=
  ⟨fun h i => by rw [h], Nat.eq_of_testBit_eq⟩

theorem and_or_eq_zero (c a b : Nat) : c &&& (a ||| b) = 0 ↔ c &&& a = 0 ∧ c &&& b = 0 := by
  simp only [eq_iff_testBit, Nat.testBit_and, Nat.testBit_or, Nat.zero_testBit]
  constructor
  · intro H
    refine ⟨fun i => ?_, fun i => ?_⟩ <;>
    · have := H i
      revert this
      cases c.testBit i <;> cases a.testBit i <;> cases b.testBit i <;> simp
  · rintro ⟨H1, H2⟩ i
    have h1 := H1 i
    have h2 := H2 i
    revert h1 h2
    cases c.testBit i <;> cases a.testBit i <;> cases b.testBit i <;> simp

/-- A word masked by a field and a disjoint bit equals the bit exactly when the bit is set and
the field is clear. -/
theorem masked_eq_iff (c s e : Nat) (hd : e &&& s = 0) :
    c &&& (s ||| e) = e ↔ c &&& e = e ∧ c &&& s = 0 := by
  simp only [eq_iff_testBit, Nat.testBit_and, Nat.testBit_or, Nat.zero_testBit] at hd ⊢
  constructor
  · intro H
    refine ⟨fun i => ?_, fun i => ?_⟩ <;>
    · have h1 := H i
      have h2 := hd i
      revert h1 h2
      cases c.testBit i <;> cases s.testBit i <;> cases e.testBit i <;> simp
  · rintro ⟨H1, H2⟩ i
    have h1 := H1 i
    have h2 := H2 i
    revert h1 h2
    cases c.testBit i <;> cases s.testBit i <;> cases e.testBit i <;> simp

theorem ite_eq_SET (p : Prop) [Decidable p] :
    (if p then FlagStatus.SET else FlagStatus.RESET) = FlagStatus.SET ↔ p := by
  by_cases hp : p <;> simp [hp]

theorem ADC_ENABLING_CONDITIONS_iff (K : Header) (h : ADC_HandleTypeDef) :
    ADC_ENABLING_CONDITIONS K h = FlagStatus.SET
      ↔ ∀ b ∈ [K.ADC_CR_ADCAL, K.ADC_CR_JADSTP, K.ADC_CR_ADSTP, K.ADC_CR_JADSTART,
          K.ADC_CR_ADSTART, K.ADC_CR_ADDIS, K.ADC_CR_ADEN], h.Instance.CR &&& b = 0 := by
  unfold ADC_ENABLING_CONDITIONS HAL_IS_BIT_CLR
  rw [ite_eq_SET]
  simp only [decide_eq_true_eq, and_or_eq_zero, List.mem_cons, List.mem_singleton,
    forall_eq_or_imp, forall_eq, List.not_mem_nil, IsEmpty.forall_iff, implies_true, and_true,
    and_assoc]

theorem ADC_DISABLING_CONDITIONS_iff (K : Header) (L : EnableLayout K)
    (h : ADC_HandleTypeDef) :
    ADC_DISABLING_CONDITIONS K h = FlagStatus.SET
      ↔ h.Instance.CR &&& K.ADC_CR_ADEN = K.ADC_CR_ADEN
        ∧ h.Instance.CR &&& K.ADC_CR_ADSTART = 0 ∧ h.Instance.CR &&& K.ADC_CR_JADSTART = 0 := by
  unfold ADC_DISABLING_CONDITIONS
  have hd : K.ADC_CR_ADEN &&& (K.ADC_CR_JADSTART ||| K.ADC_CR_ADSTART) = 0 :=
    MP13.disj_or_right L.aden_jadstart L.aden_adstart
  rw [ite_eq_SET, masked_eq_iff _ _ _ hd, and_or_eq_zero]
  exact ⟨fun e => ⟨e.1, e.2.2, e.2.1⟩, fun e => ⟨e.1, e.2.2, e.2.1⟩⟩

theorem ADC_IS_ENABLE_iff (K : Header) (L : EnableLayout K) (h : ADC_HandleTypeDef) :
    ADC_IS_ENABLE K h = FlagStatus.SET
      ↔ h.Instance.CR &&& K.ADC_CR_ADEN = K.ADC_CR_ADEN
        ∧ h.Instance.CR &&& K.ADC_CR_ADDIS = 0
        ∧ h.Instance.ISR &&& ADC_FLAG_RDY K = ADC_FLAG_RDY K := by
  unfold ADC_IS_ENABLE
  rw [ite_eq_SET, Nat.lor_comm, masked_eq_iff _ _ _ L.aden_addis, and_assoc]

theorem FlagStatus.ne_SET (s : FlagStatus) : s ≠ FlagStatus.SET ↔ s = FlagStatus.RESET := by
  cases s <;> simp

theorem header0_EnableLayout : EnableLayout header0 where
  aden := by decide
  aden_addis := by decide
  aden_adstart := by decide
  aden_jadstart := by decide

/-- C28: for every value of CR and ISR, `ADC_ENABLING_CONDITIONS` is SET exactly when none of
ADCAL, JADSTP, ADSTP, JADSTART, ADSTART, ADDIS, ADEN is set; `ADC_DISABLING_CONDITIONS` is SET
exactly when ADEN is set with ADSTART and JADSTART clear; `ADC_IS_ENABLE` is SET exactly when
ADEN is set, ADDIS is clear and the ready flag is set; hence when `ADC_ENABLING_CONDITIONS` is
SET, `ADC_DISABLING_CONDITIONS` and `ADC_IS_ENABLE` are both RESET. The header facts used: ADEN
is a non-zero mask disjoint from ADDIS, ADSTART and JADSTART. -/
theorem C28_ADC_condition_macros (K : Header) (L : EnableLayout K) (h : ADC_HandleTypeDef) :
    (ADC_ENABLING_CONDITIONS K h = FlagStatus.SET
      ↔ ∀ b ∈ [K.ADC_CR_ADCAL, K.ADC_CR_JADSTP, K.ADC_CR_ADSTP, K.ADC_CR_JADSTART,
          K.ADC_CR_ADSTART, K.ADC_CR_ADDIS, K.ADC_CR_ADEN], h.Instance.CR &&& b = 0)
    ∧ (ADC_DISABLING_CONDITIONS K h = FlagStatus.SET
      ↔ h.Instance.CR &&& K.ADC_CR_ADEN = K.ADC_CR_ADEN
        ∧ h.Instance.CR &&& K.ADC_CR_ADSTART = 0 ∧ h.Instance.CR &&& K.ADC_CR_JADSTART = 0)
    ∧ (ADC_IS_ENABLE K h = FlagStatus.SET
      ↔ h.Instance.CR &&& K.ADC_CR_ADEN = K.ADC_CR_ADEN
        ∧ h.Instance.CR &&& K.ADC_CR_ADDIS = 0
        ∧ h.Instance.ISR &&& ADC_FLAG_RDY K = ADC_FLAG_RDY K)
    ∧ (ADC_ENABLING_CONDITIONS K h = FlagStatus.SET →
        ADC_DISABLING_CONDITIONS K h = FlagStatus.RESET
        ∧ ADC_IS_ENABLE K h = FlagStatus.RESET) := by
  refine ⟨ADC_ENABLING_CONDITIONS_iff K h, ADC_DISABLING_CONDITIONS_iff K L h,
    ADC_IS_ENABLE_iff K L h, ?_⟩
  intro he
  have h0 : h.Instance.CR &&& K.ADC_CR_ADEN = 0 :=
    (ADC_ENABLING_CONDITIONS_iff K h).mp he _ (by simp)
  have hne : ¬ h.Instance.CR &&& K.ADC_CR_ADEN = K.ADC_CR_ADEN := by
    rw [h0]
    exact fun e => L.aden e.symm
  constructor
  · rw [← FlagStatus.ne_SET]
    exact fun e => hne ((ADC_DISABLING_CONDITIONS_iff K L h).mp e).1
  · rw [← FlagStatus.ne_SET]
    exact fun e => hne ((ADC_IS_ENABLE_iff K L h).mp e).1

/-- C28 on the header `header0` and a handle whose CR and ISR are zero: the instance can be
enabled, cannot be disabled and is not enabled. -/
theorem C28_ADC_condition_macros_witness :
    ADC_ENABLING_CONDITIONS header0
        { Instance := { ISR := 0, IER := 0, CR := 0 }, State := 0, ErrorCode := 0 }
      = FlagStatus.SET
    ∧ ADC_DISABLING_CONDITIONS header0
        { Instance := { ISR := 0, IER := 0, CR := 0 }, State := 0, ErrorCode := 0 }
      = FlagStatus.RESET
    ∧ ADC_IS_ENABLE header0
        { Instance := { ISR := 0, IER := 0, CR := 0 }, State := 0, ErrorCode := 0 }
      = FlagStatus.RESET :=
  ⟨by decide,
    (C28_ADC_condition_macros header0 header0_EnableLayout
      { Instance := { ISR := 0, IER := 0, CR := 0 }, State := 0, ErrorCode := 0 }).2.2.2
      (by decide)⟩

theorem and_eq_self_iff (x m : Nat) :
    x &&& m = m ↔ ∀ i, m.testBit i = true → x.testBit i = true := by
  simp only [eq_iff_testBit, Nat.testBit_and]
  constructor
  · intro H i hm
    have := H i
    rw [hm] at this
    simpa using this
  · intro H i
    have := H i
    revert this
    cases x.testBit i <;> cases m.testBit i <;> simp

/-- C29: for every handle and every non-zero 32-bit interrupt mask I: after
`__HAL_ADC_ENABLE_IT(h, I)`, `__HAL_ADC_GET_IT_SOURCE(h, I)` is true; after
`__HAL_ADC_DISABLE_IT(h, I)` it is false; both leave the bits of IER outside I and every
other field of the handle unchanged; and `__HAL_ADC_GET_IT_SOURCE` and `__HAL_ADC_GET_FLAG` are
true exactly when every bit of the mask is set: with one bit of a two-bit mask set they are
false. -/
theorem C29_HAL_ADC_IT_macros (h : ADC_HandleTypeDef) (I : Nat) (hI : I ≠ 0)
    (hw : I < 4294967296) :
    __HAL_ADC_GET_IT_SOURCE (__HAL_ADC_ENABLE_IT h I) I = true
    ∧ __HAL_ADC_GET_IT_SOURCE (__HAL_ADC_DISABLE_IT h I) I = false
    ∧ (∀ i, i < 32 → I.testBit i = false →
        (__HAL_ADC_ENABLE_IT h I).Instance.IER.testBit i = h.Instance.IER.testBit i
        ∧ (__HAL_ADC_DISABLE_IT h I).Instance.IER.testBit i = h.Instance.IER.testBit i)
    ∧ (__HAL_ADC_ENABLE_IT h I).Instance.IER &&& MP13.NOT32 I
        = h.Instance.IER &&& MP13.NOT32 I
    ∧ (__HAL_ADC_DISABLE_IT h I).Instance.IER &&& MP13.NOT32 I
        = h.Instance.IER &&& MP13.NOT32 I
    ∧ ((__HAL_ADC_ENABLE_IT h I).Instance.ISR = h.Instance.ISR
        ∧ (__HAL_ADC_ENABLE_IT h I).Instance.CR = h.Instance.CR
        ∧ (__HAL_ADC_ENABLE_IT h I).State = h.State
        ∧ (__HAL_ADC_ENABLE_IT h I).ErrorCode = h.ErrorCode)
    ∧ ((__HAL_ADC_DISABLE_IT h I).Instance.ISR = h.Instance.ISR
        ∧ (__HAL_ADC_DISABLE_IT h I).Instance.CR = h.Instance.CR
        ∧ (__HAL_ADC_DISABLE_IT h I).State = h.State
        ∧ (__HAL_ADC_DISABLE_IT h I).ErrorCode = h.ErrorCode)
    ∧ (∀ J, __HAL_ADC_GET_IT_SOURCE h J = true
        ↔ ∀ i, J.testBit i = true → h.Instance.IER.testBit i = true)
    ∧ (∀ F, __HAL_ADC_GET_FLAG h F = true
        ↔ ∀ i, F.testBit i = true → h.Instance.ISR.testBit i = true)
    ∧ __HAL_ADC_GET_IT_SOURCE
        { Instance := { ISR := 0, IER := 4, CR := 0 }, State := 0, ErrorCode := 0 } 12 = false
    ∧ __HAL_ADC_GET_FLAG
        { Instance := { ISR := 4, IER := 0, CR := 0 }, State := 0, ErrorCode := 0 } 12
        = false := by
  refine ⟨?_, ?_, ?_, ?_, ?_, ⟨rfl, rfl, rfl, rfl⟩, ⟨rfl, rfl, rfl, rfl⟩, ?_, ?_, by decide,
    by decide⟩
  · simp only [__HAL_ADC_GET_IT_SOURCE, __HAL_ADC_ENABLE_IT, decide_eq_true_eq]
    apply Nat.eq_of_testBit_eq
    intro i
    have a := MP13.testBit_of_lt_word hw i
    simp only [Nat.testBit_and, MP13.testBit_mod_word, Nat.testBit_or]
    revert a
    cases h.Instance.IER.testBit i <;> cases I.testBit i <;> by_cases hi : i < 32 <;> simp [hi]
  · simp only [__HAL_ADC_GET_IT_SOURCE, __HAL_ADC_DISABLE_IT, decide_eq_false_iff_not]
    intro e
    apply hI
    apply Nat.eq_of_testBit_eq
    intro i
    have a := congrArg (fun y => Nat.testBit y i) e
    simp only [Nat.testBit_and, MP13.testBit_mod_word, MP13.testBit_NOT32] at a
    rw [Nat.zero_testBit]
    revert a
    cases h.Instance.IER.testBit i <;> cases I.testBit i <;> by_cases hi : i < 32 <;> simp [hi]
  · intro i hi hb
    simp only [__HAL_ADC_ENABLE_IT, __HAL_ADC_DISABLE_IT, MP13.testBit_mod_word,
      Nat.testBit_or, Nat.testBit_and, MP13.testBit_NOT32, hb]
    simp [hi]
  · apply Nat.eq_of_testBit_eq
    intro i
    simp only [__HAL_ADC_ENABLE_IT, Nat.testBit_and, MP13.testBit_mod_word, Nat.testBit_or,
      MP13.testBit_NOT32]
    cases h.Instance.IER.testBit i <;> cases I.testBit i <;> by_cases hi : i < 32 <;> simp [hi]
  · apply Nat.eq_of_testBit_eq
    intro i
    simp only [__HAL_ADC_DISABLE_IT, Nat.testBit_and, MP13.testBit_mod_word,
      MP13.testBit_NOT32]
    cases h.Instance.IER.testBit i <;> cases I.testBit i <;> by_cases hi : i < 32 <;> simp [hi]
  · intro J
    simp only [__HAL_ADC_GET_IT_SOURCE, decide_eq_true_eq]
    exact and_eq_self_iff _ _
  · intro F
    simp only [__HAL_ADC_GET_FLAG, decide_eq_true_eq]
    exact and_eq_self_iff _ _

/-- C29 on the mask 12 (two bits) and a handle whose IER holds 1. -/
theorem C29_HAL_ADC_IT_macros_witness :
    ((12 : Nat) ≠ 0 ∧ (12 : Nat) < 4294967296)
    ∧ __HAL_ADC_GET_IT_SOURCE
        (__HAL_ADC_ENABLE_IT
          { Instance := { ISR := 0, IER := 1, CR := 0 }, State := 0, ErrorCode := 0 } 12) 12
        = true
    ∧ __HAL_ADC_GET_IT_SOURCE
        (__HAL_ADC_DISABLE_IT
          { Instance := { ISR := 0, IER := 1, CR := 0 }, State := 0, ErrorCode := 0 } 12) 12
        = false :=
  ⟨⟨by decide, by decide⟩,
    (C29_HAL_ADC_IT_macros
      { Instance := { ISR := 0, IER := 1, CR := 0 }, State := 0, ErrorCode := 0 } 12
      (by decide) (by decide)).1,
    (C29_HAL_ADC_IT_macros
      { Instance := { ISR := 0, IER := 1, CR := 0 }, State := 0, ErrorCode := 0 } 12
      (by decide) (by decide)).2.1⟩

/-! ## The overrun event in the interrupt dispatcher -/

theorem SET_BIT_and (x b : Nat) (hb : b < 4294967296) : SET_BIT x b &&& b = b := by
  apply Nat.eq_of_testBit_eq
  intro i
  have a := MP13.testBit_of_lt_word hb i
  simp only [Nat.testBit_and, SET_BIT_testBit]
  revert a
  cases x.testBit i <;> cases b.testBit i <;> by_cases hi : i < 32 <;> simp [hi]

theorem HAL_ADC_CLEAR_FLAG_clears (h : ADC_HandleTypeDef) (F : Nat) :
    (__HAL_ADC_CLEAR_FLAG h F).Instance.ISR &&& F = 0 := by
  apply Nat.eq_of_testBit_eq
  intro i
  simp only [__HAL_ADC_CLEAR_FLAG, Nat.testBit_and, ISR_write_testBit, Nat.zero_testBit]
  cases h.Instance.ISR.testBit i <;> cases F.testBit i <;> simp

/-- C23: in the dispatcher modelled from the spec, when the overrun flag is set and its
interrupt is enabled, the State bit `HAL_ADC_STATE_REG_OVR` is set afterwards in every case; the
error code `HAL_ADC_ERROR_OVR` is added and the error callback is the one notification made when
the conversion data is managed by DMA (one shot or circular), whatever the overrun setting, and
when it is not and the overrun setting is data preserved; when the data is not managed by DMA
and the setting is not data preserved (data overwritten), the error code is unchanged and no
notification is made. In every case the overrun flag is cleared. -/
theorem C23_HAL_ADC_IRQHandler_overrun_report (K : Header) (Init : ADC_InitTypeDef)
    (hadc : ADC_HandleTypeDef)
    (hflag : hadc.Instance.ISR &&& ADC_FLAG_OVR K = ADC_FLAG_OVR K)
    (hit : hadc.Instance.IER &&& ADC_IT_OVR K = ADC_IT_OVR K) :
    (HAL_ADC_IRQHandler_overrun K Init hadc).1.State &&& HAL_ADC_STATE_REG_OVR
        = HAL_ADC_STATE_REG_OVR
    ∧ ((Init.ConversionDataManagement = ADC_CONVERSIONDATA_DMA_ONESHOT K
          ∨ Init.ConversionDataManagement = ADC_CONVERSIONDATA_DMA_CIRCULAR K) →
        (HAL_ADC_IRQHandler_overrun K Init hadc).1.ErrorCode &&& HAL_ADC_ERROR_OVR
            = HAL_ADC_ERROR_OVR
        ∧ (HAL_ADC_IRQHandler_overrun K Init hadc).2 = [Callback.HAL_ADC_ErrorCallback])
    ∧ (Init.Overrun = ADC_OVR_DATA_PRESERVED K →
        (HAL_ADC_IRQHandler_overrun K Init hadc).1.ErrorCode &&& HAL_ADC_ERROR_OVR
            = HAL_ADC_ERROR_OVR
        ∧ (HAL_ADC_IRQHandler_overrun K Init hadc).2 = [Callback.HAL_ADC_ErrorCallback])
    ∧ (Init.ConversionDataManagement ≠ ADC_CONVERSIONDATA_DMA_ONESHOT K →
        Init.ConversionDataManagement ≠ ADC_CONVERSIONDATA_DMA_CIRCULAR K →
        Init.Overrun ≠ ADC_OVR_DATA_PRESERVED K →
        (HAL_ADC_IRQHandler_overrun K Init hadc).1.ErrorCode = hadc.ErrorCode
        ∧ (HAL_ADC_IRQHandler_overrun K Init hadc).2 = [])
    ∧ (HAL_ADC_IRQHandler_overrun K Init hadc).1.Instance.ISR &&& ADC_FLAG_OVR K = 0 := by
  have hs : SET_BIT hadc.State HAL_ADC_STATE_REG_OVR &&& HAL_ADC_STATE_REG_OVR
      = HAL_ADC_STATE_REG_OVR := SET_BIT_and _ _ (by decide)
  have he : SET_BIT hadc.ErrorCode HAL_ADC_ERROR_OVR &&& HAL_ADC_ERROR_OVR
      = HAL_ADC_ERROR_OVR := SET_BIT_and _ _ (by decide)
  refine ⟨?_, ?_, ?_, ?_, ?_⟩
  · unfold HAL_ADC_IRQHandler_overrun
    simp only [hflag, hit, and_self, if_true]
    split <;> exact hs
  · intro hdma
    unfold HAL_ADC_IRQHandler_overrun
    simp only [hflag, hit, and_self, if_true]
    rw [if_pos (by rcases hdma with e | e
                   · exact Or.inl e
                   · exact Or.inr (Or.inl e))]
    exact ⟨he, rfl⟩
  · intro hp
    unfold HAL_ADC_IRQHandler_overrun
    simp only [hflag, hit, and_self, if_true]
    rw [if_pos (Or.inr (Or.inr hp))]
    exact ⟨he, rfl⟩
  · intro h1 h2 h3
    unfold HAL_ADC_IRQHandler_overrun
    simp only [hflag, hit, and_self, if_true]
    rw [if_neg (by rintro (e | e | e)
                   · exact h1 e
                   · exact h2 e
                   · exact h3 e)]
    exact ⟨rfl, rfl⟩
  · unfold HAL_ADC_IRQHandler_overrun
    simp only [hflag, hit, and_self, if_true]
    exact HAL_ADC_CLEAR_FLAG_clears _ _

/-- C23 on the header `header0`: overrun flag set and interrupt enabled, data stored in DR
only and overrun setting data overwritten: the State bit is set, no error is reported. -/
theorem C23_HAL_ADC_IRQHandler_overrun_report_witness :
    ((16 : Nat) &&& ADC_FLAG_OVR header0 = ADC_FLAG_OVR header0
      ∧ (16 : Nat) &&& ADC_IT_OVR header0 = ADC_IT_OVR header0)
    ∧ (HAL_ADC_IRQHandler_overrun header0
        { ConversionDataManagement := ADC_CONVERSIONDATA_DR,
          Overrun := ADC_OVR_DATA_OVERWRITTEN header0 }
        { Instance := { ISR := 16, IER := 16, CR := 1 }, State := 257, ErrorCode := 0 }).1.State
        &&& HAL_ADC_STATE_REG_OVR = HAL_ADC_STATE_REG_OVR
    ∧ (HAL_ADC_IRQHandler_overrun header0
        { ConversionDataManagement := ADC_CONVERSIONDATA_DR,
          Overrun := ADC_OVR_DATA_OVERWRITTEN header0 }
        { Instance := { ISR := 16, IER := 16, CR := 1 }, State := 257, ErrorCode := 0 }).1.ErrorCode
        = 0
    ∧ (HAL_ADC_IRQHandler_overrun header0
        { ConversionDataManagement := ADC_CONVERSIONDATA_DR,
          Overrun := ADC_OVR_DATA_OVERWRITTEN header0 }
        { Instance := { ISR := 16, IER := 16, CR := 1 }, State := 257, ErrorCode := 0 }).2
        = [] :=
  ⟨⟨by decide, by decide⟩,
    (C23_HAL_ADC_IRQHandler_overrun_report header0
      { ConversionDataManagement := ADC_CONVERSIONDATA_DR,
        Overrun := ADC_OVR_DATA_OVERWRITTEN header0 }
      { Instance := { ISR := 16, IER := 16, CR := 1 }, State := 257, ErrorCode := 0 }
      (by decide) (by decide)).1,
    ((C23_HAL_ADC_IRQHandler_overrun_report header0
      { ConversionDataManagement := ADC_CONVERSIONDATA_DR,
        Overrun := ADC_OVR_DATA_OVERWRITTEN header0 }
      { Instance := { ISR := 16, IER := 16, CR := 1 }, State := 257, ErrorCode := 0 }
      (by decide) (by decide)).2.2.2.1 (by decide) (by decide) (by decide)).1,
    ((C23_HAL_ADC_IRQHandler_overrun_report header0
      { ConversionDataManagement := ADC_CONVERSIONDATA_DR,
        Overrun := ADC_OVR_DATA_OVERWRITTEN header0 }
      { Instance := { ISR := 16, IER := 16, CR := 1 }, State := 257, ErrorCode := 0 }
      (by decide) (by decide)).2.2.2.1 (by decide) (by decide) (by decide)).2⟩

end MP2
